import Mathlib

/-!
# RXtoRINEX: ephemeris extraction, acquisition and printing

A shallow embedding of the navigation-data path, of the header and epoch
acquisition, and of the printing of an epoch and the naming of the file, from
`GNSSDataAcq.cpp`, `RinexData.cpp`, `Utilities.cpp` and `OSPtoRINEX.cpp`.  `unsigned int` values
are natural numbers; where the C++ arithmetic can wrap, the wrap is written out
as `% 2 ^ 32`.  Arrays indexed by small constants (`dt[45]`, `words[10]`,
`subfrmCh[12][4]`) are functions from the index, so that an element is read as
`dt 11` where the source reads `dt[11]`.  `double` and `float` measurement
values are rational numbers; the time tags, which the program compares with
`==`, are finite values, infinities or NaN (`IEEE64`); the product truncated by
`setGPSTime` is rounded as a `double` (`nearestDouble`).
The loop of `acqEpochData` is a step function iterated with
fuel; the trace of consumed messages is a record kept beside the program state.
The loop of `acqHeaderData` is iterated with fuel likewise.  What is printed is
the list of the `fprintf` calls, each with its format string and its arguments;
an index outside a vector and a thrown `std::out_of_range` are error values.
-/

namespace RXtoRINEX

/-! ## Machine words -/

/-- Bitwise complement `~x` of an `unsigned int` (32 bits). -/
def not32 (x : Nat) : Nat := (x % 2 ^ 32) ^^^ 0xFFFFFFFF

/-- Value of an `unsigned int` bit pattern when it is read as `int`
(the cast `(int) x` of `printGPSnavEpoch`). -/
def toInt32 (x : Nat) : Int :=
  if x % 2 ^ 32 < 2 ^ 31 then ((x % 2 ^ 32 : Nat) : Int) else ((x % 2 ^ 32 : Nat) : Int) - 2 ^ 32

/-! ## Parity (GNSSDataAcq.h line 39, GNSSDataAcq.cpp lines 547-569) -/

/-- The table `parityBitMask[]` of `GNSSDataAcq.h`. -/
def parityBitMask : List Nat :=
  [0xBB1F3480, 0x5D8F9A40, 0xAEC7CD00, 0x5763E680, 0x6BB1F340, 0x8B7A89C0]

/-- `GNSSDataAcq::bitsSet`: the loop `for (i=0; i<32; i++) count += (lw>>i) & 0x01`. -/
def bitsSet (lw : Nat) : Nat :=
  (List.range 32).foldl (fun count i => count + ((lw >>> i) &&& 0x01)) 0

/-- `GNSSDataAcq::checkParity`. -/
def checkParity (d : Nat) : Bool :=
  let toCheck :=
    if d &&& 0x40000000 ≠ 0 then (d &&& 0xC0000000) ||| (not32 d &&& 0x3FFFFFFF) else d
  let parity := (List.range 6).foldl
    (fun parity i => parity ||| ((bitsSet (parityBitMask.getD i 0 &&& toCheck) % 2) <<< (5 - i))) 0
  parity == (d &&& 0x3F)

/-- Specification wording of section 4.3: the candidate `t` of a word `w`. -/
def specCandidate (w : Nat) : Nat :=
  if w.testBit 30 then (w &&& 0xC0000000) ||| (not32 w &&& 0x3FFFFFFF) else w

/-- Specification wording of section 4.3: the XOR of the bits of `t` selected by `mask`. -/
def specXorSelected (mask t : Nat) : Bool :=
  (List.range 32).foldl (fun acc k => xor acc (mask.testBit k && t.testBit k)) false

/-- Specification wording of section 4.3: the six computed bits assembled MSB-first. -/
def specParityValue (t : Nat) : Nat :=
  (List.range 6).foldl
    (fun acc i => 2 * acc + (specXorSelected (parityBitMask.getD i 0) t).toNat) 0

/-! ## Sign extension (GNSSDataAcq.cpp lines 688-692) -/

/-- `GNSSDataAcq::getTwosComplement`.  The subtraction `number - (1 << nbits)` is
unsigned, hence wraps modulo `2 ^ 32`.  The source is only ever called with
`1 ≤ nbits`. -/
def getTwosComplement (number nbits : Nat) : Nat :=
  if nbits ≥ 32 then number
  else if number < (1 <<< (nbits - 1)) % 2 ^ 32 then number
  else (number + 2 ^ 32 - (1 <<< nbits) % 2 ^ 32) % 2 ^ 32

/-! ## The RINEX model (RinexData.h, RinexData.cpp) -/

/-- `struct GPSsatNav`: the satellite and its 8x4 grid `broadcastOrbit[8][4]` of raw
(unscaled) fields; `broadcastOrbit i j` is the source's `broadcastOrbit[i][j]`. -/
structure GPSsatNav where
  satellite : Int
  broadcastOrbit : Nat → Nat → Nat

/-- The part of `class RinexData` used by the navigation path.  `gpsTimeX100` stands for
the `unsigned int` that the conversion of `getGPSTime() * 100.0` yields in
`extractEphemeris` (line 670); `setGPSTime` below computes it from the time of week. -/
structure RinexData where
  gpsTimeX100 : Nat
  gpsEphmNav : List GPSsatNav

/-- `RinexData::addGPSNavData`: the loop returns `false` at the first stored record with
the same satellite, week (`bo[5][2]`) and T0c (`bo[0][0]`); otherwise the record is
pushed back. -/
def RinexData.addGPSNavData (rinex : RinexData) (sat : Int) (bo : Nat → Nat → Nat) :
    Bool × RinexData :=
  if rinex.gpsEphmNav.any (fun e =>
      decide (e.satellite = sat) && decide (bo 5 2 = e.broadcastOrbit 5 2)
        && decide (bo 0 0 = e.broadcastOrbit 0 0))
  then (false, rinex)
  else (true, { rinex with gpsEphmNav := rinex.gpsEphmNav ++ [GPSsatNav.mk sat bo] })

/-- The key on which `addGPSNavData` compares records: satellite, week, T0c. -/
def GPSsatNav.key (e : GPSsatNav) : Int × Nat × Nat :=
  (e.satellite, e.broadcastOrbit 5 2, e.broadcastOrbit 0 0)

/-- A sequence of `addGPSNavData` calls, results discarded. -/
def RinexData.addAllGPSNavData (rinex : RinexData) (subs : List (Int × (Nat → Nat → Nat))) :
    RinexData :=
  subs.foldl (fun r s => (r.addGPSNavData s.1 s.2).2) rinex

/-! ## Ephemeris extraction (GNSSDataAcq.cpp lines 602-676) -/

/-- The grid `bo[8][4]` that `extractEphemeris` fills from `dt` (source lines 630-673);
`iodcLSB`, `iode1`, `iode2` are the locals of lines 611-613. -/
def extractBroadcastOrbit (rinex : RinexData) (dt : Nat → Nat) : Nat → Nat → Nat :=
  let iodcLSB := dt 10 &&& 0xFF
  let iode1 := (dt (15+3) >>> 8) &&& 0xFF
  let iode2 := dt (30+13) &&& 0xFF
  fun i j =>
    match i, j with
    | 0, 0 => dt 11
    | 0, 1 => getTwosComplement (((dt 13 &&& 0x00FF) <<< 14) ||| ((dt 14 >>> 2) &&& 0x3FFF)) 22
    | 0, 2 => getTwosComplement (((dt 12 &&& 0x00FF) <<< 8) ||| ((dt 13 >>> 8) &&& 0x00FF)) 16
    | 0, 3 => getTwosComplement ((dt 12 >>> 8) &&& 0x00FF) 8
    | 1, 0 => iode1
    | 1, 1 => getTwosComplement (((dt (15+3) &&& 0x00FF) <<< 8) ||| ((dt (15+4) >>> 8) &&& 0x00FF)) 16
    | 1, 2 => getTwosComplement (((dt (15+4) &&& 0x00FF) <<< 8) ||| ((dt (15+5) >>> 8) &&& 0x00FF)) 16
    | 1, 3 => getTwosComplement (((dt (15+5) &&& 0x00FF) <<< 24) ||| ((dt (15+6) &&& 0xFFFF) <<< 8)
                ||| ((dt (15+7) >>> 8) &&& 0x00FF)) 32
    | 2, 0 => getTwosComplement (((dt (15+7) &&& 0x00FF) <<< 8) ||| ((dt (15+8) >>> 8) &&& 0x00FF)) 16
    | 2, 1 => ((dt (15+8) &&& 0x00FF) <<< 24) ||| ((dt (15+9) &&& 0xFFFF) <<< 8)
                ||| ((dt (15+10) >>> 8) &&& 0x00FF)
    | 2, 2 => getTwosComplement (((dt (15+10) &&& 0x00FF) <<< 8) ||| ((dt (15+11) >>> 8) &&& 0x00FF)) 16
    | 2, 3 => ((dt (15+11) &&& 0x00FF) <<< 24) ||| ((dt (15+12) &&& 0xFFFF) <<< 8)
                ||| ((dt (15+13) >>> 8) &&& 0x00FF)
    | 3, 0 => ((dt (15+13) &&& 0x00FF) <<< 8) ||| ((dt (15+14) >>> 8) &&& 0x00FF)
    | 3, 1 => getTwosComplement (dt (30+3)) 16
    | 3, 2 => getTwosComplement (((dt (30+4) &&& 0xFFFF) <<< 16) ||| (dt (30+5) &&& 0xFFFF)) 32
    | 3, 3 => getTwosComplement (dt (30+6)) 16
    | 4, 0 => getTwosComplement (((dt (30+7) &&& 0xFFFF) <<< 16) ||| (dt (30+8) &&& 0xFFFF)) 32
    | 4, 1 => getTwosComplement (dt (30+9)) 16
    | 4, 2 => getTwosComplement (((dt (30+10) &&& 0xFFFF) <<< 16) ||| (dt (30+11) &&& 0xFFFF)) 32
    | 4, 3 => getTwosComplement (((dt (30+12) &&& 0xFFFF) <<< 8) ||| ((dt (30+13) >>> 8) &&& 0x00FF)) 24
    | 5, 0 => getTwosComplement ((dt (30+14) >>> 2) &&& 0x03FFF) 14
    | 5, 1 => (dt 3 >>> 4) &&& 0x0003
    | 5, 2 => ((dt 3 >>> 6) &&& 0x03FF) + 1024
    | 5, 3 => (dt 4 >>> 7) &&& 0x0001
    | 6, 0 => dt 3 &&& 0x000F
    | 6, 1 => (dt 4 >>> 10) &&& 0x003F
    | 6, 2 => getTwosComplement ((dt 10 >>> 8) &&& 0x00FF) 8
    | 6, 3 => iodcLSB ||| (dt 4 &&& 0x0300)
    | 7, 0 =>
      let t := (((dt 1 &&& 0x00FF) <<< 9) ||| ((dt 2 >>> 7) &&& 0x01FF)) * 600
      if t = 0 then rinex.gpsTimeX100 else t
    | 7, 1 => (dt (15+14) >>> 7) &&& 0x0001
    | 7, 2 => 0
    | 7, 3 => iode2
    | _, _ => 0

/-- `GNSSDataAcq::extractEphemeris`: the two consistency checks, then the one call of
`rinex.addGPSNavData(sv, bo)`, whose result is ignored. -/
def extractEphemeris (rinex : RinexData) (dt : Nat → Nat) : Bool × RinexData :=
  let sv := dt 0 &&& 0xFF
  if ¬ (sv = (dt 15 &&& 0xFF) ∧ sv = (dt 30 &&& 0xFF)) then (false, rinex)
  else
    let iodcLSB := dt 10 &&& 0xFF
    let iode1 := (dt (15+3) >>> 8) &&& 0xFF
    let iode2 := dt (30+13) &&& 0xFF
    if ¬ (iode1 = iode2 ∧ iode1 = iodcLSB) then (false, rinex)
    else (true, (rinex.addGPSNavData (sv : Int) (extractBroadcastOrbit rinex dt)).2)

/-! ## The message cursor -/

/-- Modelled from the spec: the payload buffer and typed field cursor of the message
framer (section 4.1); `OSPMessage.h` is not among the sources.  `payload` holds the
payload bytes, `cursor` the index of the next byte to read. -/
structure OSPMessage where
  payload : List Nat
  cursor : Nat
deriving DecidableEq

/-- Modelled from the spec: `payload_len()` of section 4.1 (`OSPMessage::payloadLen`). -/
def OSPMessage.payloadLen (m : OSPMessage) : Nat := m.payload.length

/-- Modelled from the spec: `get() → u8` advances one byte; reading past the payload
fails (section 4.1, `OSPMessage::get`). -/
def OSPMessage.get (m : OSPMessage) : Option (Nat × OSPMessage) :=
  if m.cursor < m.payload.length then
    some (m.payload.getD m.cursor 0 % 256, { m with cursor := m.cursor + 1 })
  else none

/-- The unsigned 32-bit value held big-endian in the four bytes from index `pos`. -/
def bigEndian32 (payload : List Nat) (pos : Nat) : Nat :=
  ((payload.getD pos 0 % 256) <<< 24) ||| ((payload.getD (pos + 1) 0 % 256) <<< 16)
    ||| ((payload.getD (pos + 2) 0 % 256) <<< 8) ||| (payload.getD (pos + 3) 0 % 256)

/-- Modelled from the spec: `get_u32` reads four bytes big-endian; reading past the
payload fails (section 4.1, `OSPMessage::getUInt`). -/
def OSPMessage.getUInt (m : OSPMessage) : Option (Nat × OSPMessage) :=
  if m.cursor + 4 ≤ m.payload.length then
    some (bigEndian32 m.payload m.cursor, { m with cursor := m.cursor + 4 })
  else none

/-- The loop `for (i=0; i<n; i++) wd[i] = message.getUInt()`. -/
def OSPMessage.getUInts : Nat → OSPMessage → Option (List Nat × OSPMessage)
  | 0, m => some ([], m)
  | n + 1, m =>
    match m.getUInt with
    | none => none
    | some (w, m1) =>
      match OSPMessage.getUInts n m1 with
      | none => none
      | some (ws, m2) => some (w :: ws, m2)

/-! ## The subframe assembly buffer (GNSSDataAcq.h, GNSSDataAcq.cpp) -/

/-- `MAXCHANNELS` of `GNSSDataAcq.h`. -/
def MAXCHANNELS : Nat := 12

/-- `MAXSUBFR` of `GNSSDataAcq.h`. -/
def MAXSUBFR : Nat := 4

/-- `struct SubframeData`.  The `int sv` only ever holds `0` or a byte read from a
message, so it is a natural number here; `words k` is `words[k]`. -/
structure SubframeData where
  sv : Nat
  words : Nat → Nat

/-- The members of `class GNSSDataAcq` used by the MID 8 path: the current message and
`subfrmCh[MAXCHANNELS][MAXSUBFR]`, read as `subfrmCh ch j`. -/
structure GNSSDataAcq where
  message : OSPMessage
  subfrmCh : Nat → Nat → SubframeData

/-- The constructor `GNSSDataAcq::GNSSDataAcq`: it sets `sv = 0` in every slot and leaves
the `words` as they are in the (uninitialised) memory `mem` of the object. -/
def GNSSDataAcq.construct (mem : Nat → Nat → SubframeData) (message : OSPMessage) :
    GNSSDataAcq :=
  { message := message
    subfrmCh := fun i j =>
      if i < MAXCHANNELS ∧ j < MAXSUBFR then { mem i j with sv := 0 } else mem i j }

/-- `GNSSDataAcq::allEphemReceived`. -/
def GNSSDataAcq.allEphemReceived (acq : GNSSDataAcq) (ch : Nat) : Bool :=
  let allReceived := decide ((acq.subfrmCh ch 0).sv = (acq.subfrmCh ch 1).sv)
    && decide ((acq.subfrmCh ch 0).sv = (acq.subfrmCh ch 2).sv)
  let iodcLSB := ((acq.subfrmCh ch 0).words 7 >>> 16) &&& 0xFF
  let allReceived := allReceived && decide (iodcLSB = (((acq.subfrmCh ch 1).words 2 >>> 16) &&& 0xFF))
  let allReceived := allReceived && decide (iodcLSB = (((acq.subfrmCh ch 2).words 9 >>> 16) &&& 0xFF))
  allReceived

/-- The assignment `dt[k] = v`. -/
def setDt (dt : Nat → Nat) (k v : Nat) : Nat → Nat := fun n => if n = k then v else dt n

/-- The inner loop of the packing in `getMID8NavData` (lines 417-421) for subframe
index `i`: each pair of 24-bit words becomes three 16-bit items. -/
def packWords (row : Nat → SubframeData) (i : Nat) (dt : Nat → Nat) : Nat → Nat :=
  (List.range 5).foldl (fun dt j =>
    let dt := setDt dt (i*15+j*3) (((row i).words (j*2) >>> 8) &&& 0xFFFF)
    let dt := setDt dt (i*15+j*3+1)
      ((((row i).words (j*2) &&& 0xFF) <<< 8) ||| (((row i).words (j*2+1) >>> 16) &&& 0xFF))
    setDt dt (i*15+j*3+2) ((row i).words (j*2+1) &&& 0xFFFF)) dt

/-- The TLM overwrite of lines 423-424: `dt[i*15] = sv; dt[i*15+1] &= 0xFF`. -/
def overwriteTLM (sv i : Nat) (dt : Nat → Nat) : Nat → Nat :=
  let dt := setDt dt (i*15) sv
  setDt dt (i*15+1) (dt (i*15+1) &&& 0xFF)

/-- The body of the outer packing loop (lines 416-425) for subframe index `i`. -/
def packSubframe (row : Nat → SubframeData) (sv i : Nat) (dt : Nat → Nat) : Nat → Nat :=
  overwriteTLM sv i (packWords row i dt)

/-- The whole packing loop `for (i=0; i<3; i++)` of `getMID8NavData`.  The local `dt[45]`
starts uninitialised; every item is written before it is read, so it starts as zeros
here. -/
def packEphemeris (row : Nat → SubframeData) (sv : Nat) : Nat → Nat :=
  (List.range 3).foldl (fun dt i => packSubframe row sv i dt) (fun _ => 0)

/-- The array `dt` at the moment the inner loop for subframe index `i` has finished and
the TLM overwrite of that subframe has not yet been done: the outer loop body has run
for the indices below `i`, then `packWords` for `i`. -/
def packBeforeTLM (row : Nat → SubframeData) (sv i : Nat) : Nat → Nat :=
  packWords row i ((List.range i).foldl (fun dt i => packSubframe row sv i dt) (fun _ => 0))

/-- Item `k` (0..14) of the three-items-per-word-pair layout of subframe index `i`:
items `3j`, `3j+1`, `3j+2` come from the words `2j` and `2j+1`. -/
def packedItem (row : Nat → SubframeData) (i k : Nat) : Nat :=
  let j := k / 3
  if k % 3 = 0 then ((row i).words (j*2) >>> 8) &&& 0xFFFF
  else if k % 3 = 1 then
    (((row i).words (j*2) &&& 0xFF) <<< 8) ||| (((row i).words (j*2+1) >>> 16) &&& 0xFF)
  else (row i).words (j*2+1) &&& 0xFFFF

/-- Removal of the parity from one word (lines 398-400). -/
def stripParity (w : Nat) : Nat :=
  if w &&& 0x40000000 = 0 then (w >>> 6) &&& 0xFFFFFF else not32 (w >>> 6) &&& 0xFFFFFF

/-- The parity loop of lines 386-387: `parityOK = checkParity(wd[0]);
for (i=1; parityOK && i<10; i++) parityOK &= checkParity(wd[i])`. -/
def parityOfWords (wd : Nat → Nat) : Bool :=
  (List.range' 1 9).foldl (fun parityOK i => if parityOK then parityOK && checkParity (wd i) else parityOK)
    (checkParity (wd 0))

/-- The `i`-th of the ten 32-bit words of a MID 8 payload: MID, channel and satellite
bytes come first, so word `i` starts at byte `3 + 4 * i`. -/
def mid8Word (payload : List Nat) (i : Nat) : Nat := bigEndian32 payload (3 + 4 * i)

/-- What one call of `getMID8NavData` leaves behind: its return value, the object, the
model, and `extracted`, the array handed to `extractEphemeris` when it was called. -/
structure MID8Result where
  ret : Bool
  acq : GNSSDataAcq
  rinex : RinexData
  extracted : Option (Nat → Nat)

/-- The part of `getMID8NavData` after the ten words are read (lines 385-435): parity,
removal of parity, identification of the subframe, storage, completeness test, packing,
extraction and clearing.  `ch`, `sv` and `wd` are the locals of the source. -/
def GNSSDataAcq.processMID8Words (acq : GNSSDataAcq) (rinex : RinexData) (ch sv : Nat)
    (wd : Nat → Nat) : MID8Result :=
  let parityOK := parityOfWords wd
  if ¬ parityOK then ⟨false, acq, rinex, none⟩
  else
    let wd : Nat → Nat := fun i => stripParity (wd i)
    let subfrmID := (wd 1 >>> 2) &&& 0x07
    let pgID := (wd 2 >>> 16) &&& 0x3F
    if (subfrmID > 0 ∧ subfrmID < 4) ∨ (subfrmID = 4 ∧ pgID = 56) then
      let subfrmID := subfrmID - 1
      let acq := { acq with subfrmCh := fun c j =>
        if c = ch ∧ j = subfrmID then { sv := sv, words := wd } else acq.subfrmCh c j }
      if acq.allEphemReceived ch then
        let dt := packEphemeris (acq.subfrmCh ch) sv
        let rinex := (extractEphemeris rinex dt).2
        let acq := { acq with subfrmCh := fun c j =>
          if c = ch ∧ j < 3 then { acq.subfrmCh c j with sv := 0 } else acq.subfrmCh c j }
        ⟨true, acq, rinex, some dt⟩
      else ⟨true, acq, rinex, none⟩
    else ⟨true, acq, rinex, none⟩

/-- `GNSSDataAcq::getMID8NavData`: the length check, the reads of channel, satellite and
the ten words (lines 369-384), then `processMID8Words`.  The result is `none` only if a
read runs past the payload. -/
def GNSSDataAcq.getMID8NavData (acq : GNSSDataAcq) (rinex : RinexData) : Option MID8Result :=
  if acq.message.payloadLen ≠ 43 then some ⟨false, acq, rinex, none⟩
  else
    match acq.message.get with
    | none => none
    | some (ch, m1) =>
    match m1.get with
    | none => none
    | some (sv, m2) =>
    if ¬ (0 ≤ ch ∧ ch < MAXCHANNELS) then some ⟨false, { acq with message := m2 }, rinex, none⟩
    else
      match m2.getUInts 10 with
      | none => none
      | some (ws, m3) =>
        some (({ acq with message := m3 } : GNSSDataAcq).processMID8Words rinex ch sv
          (fun i => ws.getD i 0))

/-- Delivery of one payload to the MID 8 handler as `acqEpochData` does it: the message
is filled, the MID byte is read, and a MID of 8 dispatches to `getMID8NavData`.  The
third component counts the calls of `extractEphemeris`. -/
def deliverMID8 (st : GNSSDataAcq × RinexData × Nat) (payload : List Nat) :
    Option (GNSSDataAcq × RinexData × Nat) :=
  match (OSPMessage.mk payload 0).get with
  | none => none
  | some (mid, m) =>
    if mid = 8 then
      match ({ st.1 with message := m } : GNSSDataAcq).getMID8NavData st.2.1 with
      | none => none
      | some r => some (r.acq, r.rinex, st.2.2 + (if r.extracted.isSome then 1 else 0))
    else some ({ st.1 with message := m }, st.2.1, st.2.2)

/-- Delivery of a sequence of payloads, in order. -/
def deliverAllMID8 (st : GNSSDataAcq × RinexData × Nat) :
    List (List Nat) → Option (GNSSDataAcq × RinexData × Nat)
  | [] => some st
  | p :: ps =>
    match deliverMID8 st p with
    | none => none
    | some st1 => deliverAllMID8 st1 ps

/-- A row as the clearing loop of `getMID8NavData` (line 431) leaves it after a
completion: `sv` is 0 in slots 0, 1, 2 and the words, which the loop does not touch,
still carry matching IOD bytes. -/
def clearedRow (acq : GNSSDataAcq) (ch : Nat) : Prop :=
  (acq.subfrmCh ch 0).sv = 0 ∧ (acq.subfrmCh ch 1).sv = 0 ∧ (acq.subfrmCh ch 2).sv = 0 ∧
  (((acq.subfrmCh ch 0).words 7 >>> 16) &&& 0xFF)
    = (((acq.subfrmCh ch 1).words 2 >>> 16) &&& 0xFF) ∧
  (((acq.subfrmCh ch 0).words 7 >>> 16) &&& 0xFF)
    = (((acq.subfrmCh ch 2).words 9 >>> 16) &&& 0xFF)

/-! ## Floating-point values -/

/-- The measurement values of the source (`double` and `float`) are modelled by rational
numbers: every finite floating-point value is a rational, and their arithmetic is exact
(rounding is modelled where a result is truncated to an integer, see `nearestDouble`).
The time tags, which the program compares with `==`, are of the type `IEEE64` below. -/
abbrev Double := ℚ

/-- A `double` of the program that is stored and compared as it is read: a finite value,
an infinity (`negative` tells which of the two), or a NaN. -/
inductive IEEE64 where
  | finite (value : Double)
  | infinite (negative : Bool)
  | nan
deriving DecidableEq

/-- The numeral `n` as a `double`. -/
instance IEEE64.instOfNat (n : Nat) : OfNat IEEE64 n := ⟨IEEE64.finite (n : ℚ)⟩

/-- The operator `==` on two `double`s: false as soon as one of them is a NaN, also when
both are the same NaN. -/
def IEEE64.eq : IEEE64 → IEEE64 → Bool
  | IEEE64.finite a, IEEE64.finite b => decide (a = b)
  | IEEE64.infinite a, IEEE64.infinite b => decide (a = b)
  | _, _ => false

/-- The value of a `double` where the program computes with it (the time of an epoch
line, RinexData.cpp lines 496-497 and 512-513): the conversion `(int) second` made there
(`formatGPStime`, Utilities.cpp line 42) is defined for finite values only, and the model
reads an infinity or a NaN as 0 at that point. -/
def IEEE64.toDouble : IEEE64 → Double
  | IEEE64.finite v => v
  | _ => 0

/-- A time tag is read as its value where a value is computed from it. -/
instance IEEE64.instCoeDouble : Coe IEEE64 Double := ⟨IEEE64.toDouble⟩

/-- Modelled from the spec: the value of a 64-bit IEEE-754 pattern that holds a finite
number (section 4.1, `get_f64`).  A pattern with all exponent bits set (infinity, NaN) has
no rational value; it gives 0 here, and `ieee64` below tells these patterns apart. -/
def decodeF64 (bits : Nat) : Double :=
  let e := (bits >>> 52) &&& 0x7FF
  let m := bits &&& 0xFFFFFFFFFFFFF
  let mag : ℚ :=
    if e = 0x7FF then 0
    else if e = 0 then (m : ℚ) / ((2 ^ 1074 : Nat) : ℚ)
    else (((2 ^ 52 + m) * 2 ^ e : Nat) : ℚ) / ((2 ^ 1075 : Nat) : ℚ)
  if (bits >>> 63) &&& 1 = 1 then -mag else mag

/-- Modelled from the spec: the value of a 32-bit IEEE-754 pattern that holds a finite
number (section 4.1, `get_f32`).  A pattern with all exponent bits set (infinity, NaN) has
no rational value; it gives 0 here, and `isFinite32` below tells these patterns apart. -/
def decodeF32 (bits : Nat) : Double :=
  let e := (bits >>> 23) &&& 0xFF
  let m := bits &&& 0x7FFFFF
  let mag : ℚ :=
    if e = 0xFF then 0
    else if e = 0 then (m : ℚ) / ((2 ^ 149 : Nat) : ℚ)
    else (((2 ^ 23 + m) * 2 ^ e : Nat) : ℚ) / ((2 ^ 150 : Nat) : ℚ)
  if (bits >>> 31) &&& 1 = 1 then -mag else mag

/-- Modelled from the spec: the `double` that a 64-bit IEEE-754 pattern holds (section
4.1, `get_f64`): with all exponent bits set it is an infinity when the fraction bits are
zero and a NaN otherwise. -/
def ieee64 (bits : Nat) : IEEE64 :=
  if (bits >>> 52) &&& 0x7FF = 0x7FF then
    if bits &&& 0xFFFFFFFFFFFFF = 0 then IEEE64.infinite (decide ((bits >>> 63) &&& 1 = 1))
    else IEEE64.nan
  else IEEE64.finite (decodeF64 bits)

/-- The power `2 ^ k` for an integer exponent `k`. -/
def pow2 (k : Int) : ℚ := if 0 ≤ k then 2 ^ k.toNat else 1 / 2 ^ (-k).toNat

/-- The number of halvings that bring `n` below 2 (at most `fuel` of them). -/
def halvings : Nat → Nat → Nat
  | 0, _ => 0
  | fuel + 1, n => if n < 2 then 0 else halvings fuel (n / 2) + 1

/-- The binary exponent of a positive rational `q`: the `e` with
`2 ^ e ≤ q < 2 ^ (e + 1)`. -/
def binaryExponent (q : ℚ) : Int :=
  let e0 : Int := (halvings q.num.natAbs q.num.natAbs : Int) - (halvings q.den q.den : Int)
  if q < pow2 e0 then e0 - 1 else e0

/-- Rounding to the nearest integer, a tie going to the even one. -/
def roundHalfEven (q : ℚ) : Int :=
  if q - ⌊q⌋ < 1 / 2 then ⌊q⌋
  else if 1 / 2 < q - ⌊q⌋ then ⌊q⌋ + 1
  else if ⌊q⌋ % 2 = 0 then ⌊q⌋ else ⌊q⌋ + 1

/-- The `double` that an operation of the source yields for the exact result `q`: the
nearest value with a 53-bit significand, a tie going to the even significand (IEEE-754
binary64, default rounding; magnitudes of the normal range, which holds every time of
week). -/
def nearestDouble (q : ℚ) : Double :=
  if q = 0 then 0
  else (roundHalfEven (q * pow2 (52 - binaryExponent |q|)) : ℚ) * pow2 (binaryExponent |q| - 52)

/-- `LSPEED` of `RinexData.h`. -/
def LSPEED : Double := 299792458

/-- `L1CFREQ` of `RinexData.h`. -/
def L1CFREQ : Double := 1575420000

/-- `L1WLINV` of `RinexData.h`: the inverse of the L1 wave length. -/
def L1WLINV : Double := L1CFREQ / LSPEED

/-! ## More of the message cursor and the framer -/

/-- The unsigned value held big-endian in the eight bytes from index `pos`. -/
def bigEndian64 (payload : List Nat) (pos : Nat) : Nat :=
  (bigEndian32 payload pos <<< 32) ||| bigEndian32 payload (pos + 4)

/-- Modelled from the spec: `get_u16` reads two bytes big-endian (section 4.1,
`OSPMessage::getUShort`). -/
def OSPMessage.getUShort (m : OSPMessage) : Option (Nat × OSPMessage) :=
  if m.cursor + 2 ≤ m.payload.length then
    some (((m.payload.getD m.cursor 0 % 256) <<< 8) ||| (m.payload.getD (m.cursor + 1) 0 % 256),
      { m with cursor := m.cursor + 2 })
  else none

/-- Modelled from the spec: `get_i16` reads two bytes big-endian as a signed value
(section 4.1, `OSPMessage::getShort`). -/
def OSPMessage.getShort (m : OSPMessage) : Option (Int × OSPMessage) :=
  match m.getUShort with
  | none => none
  | some (v, m1) => some (if v < 2 ^ 15 then (v : Int) else (v : Int) - 2 ^ 16, m1)

/-- Modelled from the spec: `get_i32` reads four bytes big-endian as a signed value
(section 4.1, `OSPMessage::getInt`). -/
def OSPMessage.getInt (m : OSPMessage) : Option (Int × OSPMessage) :=
  match m.getUInt with
  | none => none
  | some (v, m1) => some (toInt32 v, m1)

/-- Modelled from the spec: `get_f32` is four bytes IEEE-754 big-endian (section 4.1,
`OSPMessage::getFloat`). -/
def OSPMessage.getFloat (m : OSPMessage) : Option (Double × OSPMessage) :=
  match m.getUInt with
  | none => none
  | some (v, m1) => some (decodeF32 v, m1)

/-- Modelled from the spec: `get_f64` is eight bytes IEEE-754 big-endian (section 4.1,
`OSPMessage::getDouble`). -/
def OSPMessage.getDouble (m : OSPMessage) : Option (IEEE64 × OSPMessage) :=
  if m.cursor + 8 ≤ m.payload.length then
    some (ieee64 (bigEndian64 m.payload m.cursor), { m with cursor := m.cursor + 8 })
  else none

/-- Modelled from the spec: `skip(n)` (section 4.1, `OSPMessage::skipBytes`). -/
def OSPMessage.skipBytes (m : OSPMessage) (n : Nat) : OSPMessage :=
  { m with cursor := m.cursor + n }

/-- The loop `for (i=0; i<n; i++) ... message.get()` collecting the bytes read. -/
def OSPMessage.gets : Nat → OSPMessage → Option (List Nat × OSPMessage)
  | 0, m => some ([], m)
  | n + 1, m =>
    match m.get with
    | none => none
    | some (b, m1) =>
      match OSPMessage.gets n m1 with
      | none => none
      | some (bs, m2) => some (b :: bs, m2)

/-- The loop `for (i=0; i<n; i++) dt[i] = message.getUShort()`. -/
def OSPMessage.getUShorts : Nat → OSPMessage → Option (List Nat × OSPMessage)
  | 0, m => some ([], m)
  | n + 1, m =>
    match m.getUShort with
    | none => none
    | some (w, m1) =>
      match OSPMessage.getUShorts n m1 with
      | none => none
      | some (ws, m2) => some (w :: ws, m2)

/-- The input file `FILE* ospFile`: its bytes and the read position. -/
structure OSPFile where
  bytes : List Nat
  pos : Nat
deriving DecidableEq

/-- What `message.fill(ospFile)` can do. -/
inductive FillResult where
  | filled (message : OSPMessage) (file : OSPFile)
  | endOfStream
  | shortRead
deriving DecidableEq

/-- Modelled from the spec: `fill(source)` of section 4.1 (`OSPMessage::fill`).  It reads
the two-byte big-endian payload length `L`, then exactly `L` payload bytes, and puts
the cursor at byte 0.  It returns false on a clean end of stream and fails with
`ShortRead` when the record is cut short. -/
def OSPMessage.fill (file : OSPFile) : FillResult :=
  if file.bytes.length ≤ file.pos then FillResult.endOfStream
  else if file.pos + 2 ≤ file.bytes.length then
    let len := ((file.bytes.getD file.pos 0 % 256) <<< 8) ||| (file.bytes.getD (file.pos + 1) 0 % 256)
    if file.pos + 2 + len ≤ file.bytes.length then
      FillResult.filled ⟨(file.bytes.drop (file.pos + 2)).take len, 0⟩
        { file with pos := file.pos + 2 + len }
    else FillResult.shortRead
  else FillResult.shortRead

/-! ## The observation side of the RINEX model (RinexData.h, RinexData.cpp) -/

/-- `struct SatObsData`. -/
structure SatObsData where
  sysIndex : Nat
  satellite : Int
  epochTime : IEEE64
  obsTypeIndex : Nat
  obsValue : Double
  lossOfLock : Int
  strength : Int
deriving DecidableEq

/-- `struct GNSSsystem`. -/
structure GNSSsystem where
  system : Char
  obsType : List String
  biasFactor : List Double
deriving DecidableEq

/-- `enum RINEXversion`. -/
inductive RINEXversion where
  | V210
  | V300
deriving DecidableEq

/-- The data members of `class RinexData` besides the navigation storage, which is
`nav` (the structure `RinexData` above).  `nav.gpsTimeX100` is kept equal to the
`unsigned int` conversion of the `double` product `gpsTOW * 100.0` by `setGPSTime`, the
only method that assigns `gpsTOW`. -/
structure RinexObsData where
  nav : RinexData
  version : RINEXversion
  rxNumber : String
  rxType : String
  rxVersion : String
  aproxX : Double
  aproxY : Double
  aproxZ : Double
  wvlenFactorL1 : Int
  wvlenFactorL2 : Int
  firstObsWeek : Int
  firstObsTOW : Double
  obsInterval : Double
  gpsWeek : Int
  gpsTOW : Double
  epochTimeTag : IEEE64
  clkBias : Double
  applyBias : Bool
  epochFlag : Int
  systems : List GNSSsystem
  observations : List SatObsData
  appEnd : Bool

/-- `RinexData::setPosition`. -/
def RinexObsData.setPosition (rinex : RinexObsData) (x y z : Double) : RinexObsData :=
  { rinex with aproxX := x, aproxY := y, aproxZ := z }

/-- `RinexData::setGPSTime`.  `secs` is the exact value of the argument expression; the
member `gpsTOW` of the source holds the `double` nearest to it, and
`getGPSTime() * 100.0` is the `double` nearest to the product of that value by 100,
which the assignment to an `unsigned int` in `extractEphemeris` truncates. -/
def RinexObsData.setGPSTime (rinex : RinexObsData) (weeks : Int) (secs bias : Double) :
    RinexObsData :=
  { rinex with
    gpsWeek := weeks, gpsTOW := secs, clkBias := bias
    nav := { rinex.nav with
      gpsTimeX100 := (Int.toNat ⌊nearestDouble (nearestDouble secs * 100)⌋) % 2 ^ 32 } }

/-- `RinexData::setIntervalTime`. -/
def RinexObsData.setIntervalTime (rinex : RinexObsData) (weeks : Int) (secs : Double) :
    RinexObsData :=
  { rinex with obsInterval := (secs - rinex.gpsTOW) + ((weeks - rinex.gpsWeek : Int) : ℚ) * 604800 }

/-- `RinexData::clearObs`. -/
def RinexObsData.clearObs (rinex : RinexObsData) : RinexObsData :=
  { rinex with observations := [] }

/-- The inner loop of `addMeasurement`: the first index `j` with
`obsType.compare(obsTypes[j]) == 0`. -/
def findObsTypeIndex (obsType : String) : List String → Nat → Option Nat
  | [], _ => none
  | t :: rest, j => if obsType = t then some j else findObsTypeIndex obsType rest (j + 1)

/-- The two nested loops of `addMeasurement` (lines 356-362): the first system index `i`
with `sys == systems[i].system` whose observable list holds `obsType`, and the index `j`
of `obsType` in that list. -/
def findObsType (sys : Char) (obsType : String) : List GNSSsystem → Nat → Option (Nat × Nat)
  | [], _ => none
  | s :: rest, i =>
    if sys = s.system then
      match findObsTypeIndex obsType s.obsType 0 with
      | some j => some (i, j)
      | none => findObsType sys obsType rest (i + 1)
    else findObsType sys obsType rest (i + 1)

/-- `RinexData::addMeasurement`.  The test `epochTimeTag == tTag` of line 354 is the
comparison of two `double`s, false for a NaN also right after the assignment of line
353. -/
def RinexObsData.addMeasurement (rinex : RinexObsData) (sys : Char) (sat : Int)
    (obsType : String) (value : Double) (lol strg : Int) (tTag : IEEE64) :
    Bool × RinexObsData :=
  let rinex := if rinex.observations.length = 0 then { rinex with epochTimeTag := tTag } else rinex
  let sameEpoch := rinex.epochTimeTag.eq tTag
  if sameEpoch then
    match findObsType sys obsType rinex.systems 0 with
    | some (i, j) =>
      (sameEpoch, { rinex with
        observations := rinex.observations ++ [SatObsData.mk i sat tTag j value lol strg] })
    | none => (sameEpoch, rinex)
  else (sameEpoch, rinex)

/-- The data members of `class RTKobservation` that the acquisition sets. -/
structure RTKobservation where
  elevMask : Double
  snrMask : Double
  startWeek : Int
  startTOW : Double
  endWeek : Int
  endTOW : Double
  xSol : Double
  ySol : Double
  zSol : Double
  qSol : Int
  nSol : Int
  gpsWeek : Int
  gpsTOW : Double

/-- `RTKobservation::setMasks`. -/
def RTKobservation.setMasks (rtko : RTKobservation) (elev snr : Double) : RTKobservation :=
  { rtko with elevMask := elev, snrMask := snr }

/-- `RTKobservation::setPosition`. -/
def RTKobservation.setPosition (rtko : RTKobservation) (week : Int) (tow x y z : Double)
    (qlty nSat : Int) : RTKobservation :=
  { rtko with gpsWeek := week, gpsTOW := tow, xSol := x, ySol := y, zSol := z,
              qSol := qlty, nSol := nSat }

/-! ## The acquisition object and the per-MID handlers (GNSSDataAcq.cpp) -/

/-- The whole `GNSSDataAcq` object: the members `receiver`, `minSVSfix` and `ospFile`,
and in `core` the members `message` and `subfrmCh` (the structure `GNSSDataAcq` above). -/
structure Acquisition where
  receiver : String
  minSVSfix : Int
  ospFile : OSPFile
  core : GNSSDataAcq

/-- The object with its member `message` replaced (the reads of a handler advance its
cursor; the handlers below hand back the message they leave). -/
def Acquisition.setMessage (self : Acquisition) (m : OSPMessage) : Acquisition :=
  { self with core := { self.core with message := m } }

/-- `GNSSDataAcq::getMID2PosData(RinexData&)`. -/
def Acquisition.getMID2PosData (self : Acquisition) (rinex : RinexObsData) :
    Option (Bool × OSPMessage × RinexObsData) :=
  if self.core.message.payloadLen ≠ 41 then some (false, self.core.message, rinex)
  else
    match self.core.message.getInt with
    | none => none
    | some (x, m) =>
    match m.getInt with
    | none => none
    | some (y, m) =>
    match m.getInt with
    | none => none
    | some (z, m) =>
    match (m.skipBytes 15).get with
    | none => none
    | some (nsv, m) =>
    if (nsv : Int) < self.minSVSfix then some (false, m, rinex)
    else some (true, m, rinex.setPosition (x : ℚ) (y : ℚ) (z : ℚ))

/-- `GNSSDataAcq::getMID2PosData(RTKobservation&)`. -/
def Acquisition.getMID2PosDataRTK (self : Acquisition) (rtko : RTKobservation) :
    Option (Bool × OSPMessage × RTKobservation) :=
  if self.core.message.payloadLen ≠ 41 then some (false, self.core.message, rtko)
  else
    match self.core.message.getInt with
    | none => none
    | some (x, m) =>
    match m.getInt with
    | none => none
    | some (y, m) =>
    match m.getInt with
    | none => none
    | some (z, m) =>
    match (m.skipBytes 9).getUShort with
    | none => none
    | some (week, m) =>
    match m.getInt with
    | none => none
    | some (tow, m) =>
    match m.get with
    | none => none
    | some (nsv, m) =>
    if (nsv : Int) < self.minSVSfix then some (false, m, rtko)
    else some (true, m,
      rtko.setPosition ((week : Int) + 1024) ((tow : ℚ) / 100) (x : ℚ) (y : ℚ) (z : ℚ) 5 (nsv : Int))

/-- `GNSSDataAcq::getMID7TimeData`. -/
def Acquisition.getMID7TimeData (self : Acquisition) (rinex : RinexObsData) :
    Option (Bool × OSPMessage × RinexObsData) :=
  if self.core.message.payloadLen ≠ 20 then some (false, self.core.message, rinex)
  else
    match self.core.message.getUShort with
    | none => none
    | some (week, m) =>
    match m.getUInt with
    | none => none
    | some (tow, m) =>
    match m.get with
    | none => none
    | some (sats, m) =>
    if (sats : Int) < self.minSVSfix then some (false, m, rinex)
    else
      match m.getUInt with
      | none => none
      | some (_drift, m) =>
      match m.getUInt with
      | none => none
      | some (bias, m) =>
        some (true, m,
          rinex.setGPSTime (week : Int) ((tow : ℚ) / 100) ((bias : ℚ) * (1 / 1000000000)))

/-- `GNSSDataAcq::getMID7Interval`. -/
def Acquisition.getMID7Interval (self : Acquisition) (rinex : RinexObsData) :
    Option (Bool × OSPMessage × RinexObsData) :=
  if self.core.message.payloadLen ≠ 20 then some (false, self.core.message, rinex)
  else
    match self.core.message.getUShort with
    | none => none
    | some (week, m) =>
    match m.getUInt with
    | none => none
    | some (tow, m) =>
    match m.get with
    | none => none
    | some (sats, m) =>
    if (sats : Int) < self.minSVSfix then some (false, m, rinex)
    else some (true, m, rinex.setIntervalTime (week : Int) ((tow : ℚ) / 100))

/-- `GNSSDataAcq::getMID15NavData`. -/
def Acquisition.getMID15NavData (self : Acquisition) (rinex : RinexObsData) :
    Option (Bool × OSPMessage × RinexObsData) :=
  if self.core.message.payloadLen ≠ 92 then some (false, self.core.message, rinex)
  else
    match self.core.message.get with
    | none => none
    | some (_svID, m) =>
    match m.getUShorts 45 with
    | none => none
    | some (ws, m) =>
      let dt : Nat → Nat := fun i => ws.getD i 0
      let dt := setDt dt 1 (dt 1 &&& 0xFF00)
      let dt := setDt dt 2 (dt 2 &&& 0x0003)
      let r := extractEphemeris rinex.nav dt
      some (r.1, m, { rinex with nav := r.2 })

/-- `GNSSDataAcq::getMID19Masks`. -/
def Acquisition.getMID19Masks (self : Acquisition) (rtko : RTKobservation) :
    Option (Bool × OSPMessage × RTKobservation) :=
  if self.core.message.payloadLen ≠ 65 then some (false, self.core.message, rtko)
  else
    match (self.core.message.skipBytes 19).getShort with
    | none => none
    | some (elevationMask, m) =>
    match m.get with
    | none => none
    | some (snrMask, m) =>
      some (true, m, rtko.setMasks ((elevationMask : ℚ) / 10) (snrMask : ℚ))

/-- `GNSSDataAcq::getMID8NavData` on the whole object and model: the handler of the
structure `GNSSDataAcq` above, applied to the members it uses.  It hands back the
members `message` and `subfrmCh`. -/
def Acquisition.getMID8NavData (self : Acquisition) (rinex : RinexObsData) :
    Option (Bool × GNSSDataAcq × RinexObsData) :=
  match self.core.getMID8NavData rinex.nav with
  | none => none
  | some r => some (r.ret, r.acq, { rinex with nav := r.rinex })

/-- The fields of a MID 28 message as `getMID28NavData` reads them (lines 489-507).  The
software time is kept as the `double` read; the three measurement values are rationals
(the value of the pattern read when it is finite). -/
structure MID28Fields where
  channel : Nat
  satID : Nat
  gpsSWtime : IEEE64
  pseudorange : Double
  carrierFrequency : Double
  carrierPhase : Double
  syncFlags : Nat
  cn0 : List Nat

/-- The signal strength of `getMID28NavData` (lines 504-507): the first C/N0 byte, lowered
by every later byte that is smaller. -/
def worstCN0 (cn0 : List Nat) : Nat :=
  (cn0.drop 1).foldl (fun strength carrier2noise =>
    if carrier2noise < strength then carrier2noise else strength) (cn0.headD 0)

/-- The system of the satellite of a MID 28 (lines 487, 492-493): `S` when the satellite
id is above 100, else `G`. -/
def MID28Fields.sys (f : MID28Fields) : Char := if f.satID > 100 then 'S' else 'G'

/-- The satellite number of a MID 28 (lines 491-495): ids above 100 are lowered by 100. -/
def MID28Fields.sat (f : MID28Fields) : Int :=
  if f.satID > 100 then (f.satID : Int) - 100 else (f.satID : Int)

/-- The strength index of a MID 28 (lines 508-511). -/
def MID28Fields.strengthIndex (f : MID28Fields) : Int :=
  let strengthIndex : Int := (worstCN0 f.cn0 : Int) / 6
  let strengthIndex : Int := if strengthIndex < 1 then 1 else strengthIndex
  if strengthIndex > 9 then 9 else strengthIndex

/-- The part of `getMID28NavData` after the fields are read (lines 508-536): the four
`addMeasurement` calls when bit 0 of the sync flags is set.  The result is the return
value, `sameEpoch` and the model. -/
def processMID28 (rinex : RinexObsData) (f : MID28Fields) : Bool × Bool × RinexObsData :=
  let carrierPhase := f.carrierPhase * L1WLINV
  let strength : Int := (worstCN0 f.cn0 : Int)
  if f.syncFlags &&& 0x01 ≠ 0 then
    let r := rinex.addMeasurement f.sys f.sat "S1C" (strength : ℚ) 0 0 f.gpsSWtime
    let sameEpoch := r.1
    let rinex := r.2
    let rinex :=
      (rinex.addMeasurement f.sys f.sat "C1C" f.pseudorange 0 f.strengthIndex f.gpsSWtime).2
    let rinex :=
      if f.syncFlags &&& 0x02 ≠ 0 then
        (rinex.addMeasurement f.sys f.sat "L1C" carrierPhase 0 f.strengthIndex f.gpsSWtime).2
      else rinex
    let rinex :=
      (rinex.addMeasurement f.sys f.sat "D1C" (f.carrierFrequency * L1WLINV) 0 0 f.gpsSWtime).2
    (true, sameEpoch, rinex)
  else (false, false, rinex)

/-- The fields of a 56-byte MID 28 payload at the offsets at which `getMID28NavData`
reads them: channel 1, (time tag 2..5,) satellite 6, software time 7..14, pseudorange
15..22, carrier frequency 23..26, carrier phase 27..34, (time in track 35..36,) sync
flags 37, the ten C/N0 bytes 38..47. -/
def mid28Fields (payload : List Nat) : MID28Fields :=
  { channel := payload.getD 1 0 % 256
    satID := payload.getD 6 0 % 256
    gpsSWtime := ieee64 (bigEndian64 payload 7)
    pseudorange := decodeF64 (bigEndian64 payload 15)
    carrierFrequency := decodeF32 (bigEndian32 payload 23)
    carrierPhase := decodeF64 (bigEndian64 payload 27)
    syncFlags := payload.getD 37 0 % 256
    cn0 := (List.range 10).map (fun k => payload.getD (38 + k) 0 % 256) }

/-- `GNSSDataAcq::getMID28NavData`: the length check, `sameEpoch = false`, the reads
(lines 489-507), then `processMID28`.  `sameEpoch` is the reference parameter: it is
handed in and handed back. -/
def Acquisition.getMID28NavData (self : Acquisition) (rinex : RinexObsData) (sameEpoch : Bool) :
    Option (Bool × Bool × OSPMessage × RinexObsData) :=
  if self.core.message.payloadLen ≠ 56 then some (false, sameEpoch, self.core.message, rinex)
  else
    match self.core.message.get with
    | none => none
    | some (channel, m) =>
    match m.getInt with
    | none => none
    | some (_timeTag, m) =>
    match m.get with
    | none => none
    | some (satID, m) =>
    match m.getDouble with
    | none => none
    | some (gpsSWtime, m) =>
    match m.getDouble with
    | none => none
    | some (pseudorange, m) =>
    match m.getFloat with
    | none => none
    | some (carrierFrequency, m) =>
    match m.getDouble with
    | none => none
    | some (carrierPhase, m) =>
    match m.getUShort with
    | none => none
    | some (_timeInTrack, m) =>
    match m.get with
    | none => none
    | some (syncFlags, m) =>
    match m.gets 10 with
    | none => none
    | some (cn0, m) =>
      let r := processMID28 rinex
        ⟨channel, satID, gpsSWtime, pseudorange.toDouble, carrierFrequency,
          carrierPhase.toDouble, syncFlags, cn0⟩
      some (r.1, r.2.1, m, r.2.2)

/-! ## Epoch acquisition (GNSSDataAcq.cpp lines 166-203) and its driver -/

/-- One message consumed by `acqEpochData`: its MID, the file position at which its
record starts, and the return value of its handler (false when the message is ignored).
A record of what happened, not a datum of the program. -/
structure AcqEvent where
  mid : Nat
  start : Nat
  accepted : Bool
deriving DecidableEq

/-- What a call of `acqEpochData` leaves behind: its return value, the object (with the
file position), the model, and the messages it consumed, in order. -/
structure EpochResult where
  ret : Bool
  self : Acquisition
  rinex : RinexObsData
  trace : List AcqEvent

/-- The variables of the loop of `acqEpochData`: the object, the model, the locals
`sameEpoch` and `dataAvailable`, and the messages consumed so far. -/
structure EpochLoopState where
  self : Acquisition
  rinex : RinexObsData
  sameEpoch : Bool
  dataAvailable : Bool
  trace : List AcqEvent

/-- Ways in which the acquisition stops without a result. -/
inductive AcqError where
  | shortRead
  | truncated
  | outOfFuel
deriving DecidableEq

/-- Outcome of one iteration of the loop of `acqEpochData`. -/
inductive EpochStep where
  | done (r : EpochResult)
  | next (st : EpochLoopState)
  | failed (e : AcqError)

/-- One iteration of `while (message.fill(ospFile)) { ... }` in `acqEpochData`, the loop
condition included.  `msgPos` is the file position saved by `fgetpos` before each
`fill` (before the loop and at the end of every iteration), that is the position at
which the message about to be read starts. -/
def acqEpochStep (useMID15 useMID8 : Bool) (st : EpochLoopState) : EpochStep :=
  let msgPos := st.self.ospFile.pos
  match OSPMessage.fill st.self.ospFile with
  | FillResult.endOfStream => EpochStep.done ⟨st.dataAvailable, st.self, st.rinex, st.trace⟩
  | FillResult.shortRead => EpochStep.failed AcqError.shortRead
  | FillResult.filled message file =>
    match message.get with
    | none => EpochStep.failed AcqError.truncated
    | some (mid, message) =>
      let self : Acquisition :=
        { st.self with ospFile := file, core := { st.self.core with message := message } }
      if mid = 7 then
        match self.getMID7TimeData st.rinex with
        | none => EpochStep.failed AcqError.truncated
        | some (ok, message, rinex) =>
          if ok && st.dataAvailable then
            EpochStep.done ⟨true, self.setMessage message, rinex,
              st.trace ++ [⟨mid, msgPos, ok⟩]⟩
          else
            EpochStep.next { st with self := self.setMessage message, rinex := rinex,
                                     trace := st.trace ++ [⟨mid, msgPos, ok⟩] }
      else if mid = 8 then
        if useMID8 then
          match self.getMID8NavData st.rinex with
          | none => EpochStep.failed AcqError.truncated
          | some (ok, core, rinex) =>
            EpochStep.next { st with self := { self with core := core }, rinex := rinex,
                                     trace := st.trace ++ [⟨mid, msgPos, ok⟩] }
        else EpochStep.next { st with self := self, trace := st.trace ++ [⟨mid, msgPos, false⟩] }
      else if mid = 15 then
        if useMID15 then
          match self.getMID15NavData st.rinex with
          | none => EpochStep.failed AcqError.truncated
          | some (ok, message, rinex) =>
            EpochStep.next { st with self := self.setMessage message, rinex := rinex,
                                     trace := st.trace ++ [⟨mid, msgPos, ok⟩] }
        else EpochStep.next { st with self := self, trace := st.trace ++ [⟨mid, msgPos, false⟩] }
      else if mid = 28 then
        match self.getMID28NavData st.rinex st.sameEpoch with
        | none => EpochStep.failed AcqError.truncated
        | some (ok, sameEpoch, message, rinex) =>
          if ok then
            if sameEpoch then
              EpochStep.next { self := self.setMessage message, rinex := rinex,
                               sameEpoch := sameEpoch, dataAvailable := true,
                               trace := st.trace ++ [⟨mid, msgPos, ok⟩] }
            else
              EpochStep.done ⟨st.dataAvailable,
                { self.setMessage message with ospFile := { file with pos := msgPos } },
                rinex.clearObs, st.trace ++ [⟨mid, msgPos, ok⟩]⟩
          else
            EpochStep.next { self := self.setMessage message, rinex := rinex,
                             sameEpoch := sameEpoch, dataAvailable := st.dataAvailable,
                             trace := st.trace ++ [⟨mid, msgPos, ok⟩] }
      else EpochStep.next { st with self := self, trace := st.trace ++ [⟨mid, msgPos, false⟩] }

/-- The loop of `acqEpochData`, at most `fuel` iterations. -/
def acqEpochLoop (useMID15 useMID8 : Bool) : Nat → EpochLoopState → Except AcqError EpochResult
  | 0, _ => Except.error AcqError.outOfFuel
  | fuel + 1, st =>
    match acqEpochStep useMID15 useMID8 st with
    | EpochStep.done r => Except.ok r
    | EpochStep.failed e => Except.error e
    | EpochStep.next st1 => acqEpochLoop useMID15 useMID8 fuel st1

/-- The state in which the loop of `acqEpochData` starts: `dataAvailable = false`; the
local `sameEpoch` is not initialised by the source and is assigned by
`getMID28NavData` before it is read, it starts as false here. -/
def epochStart (self : Acquisition) (rinex : RinexObsData) : EpochLoopState :=
  { self := self, rinex := rinex, sameEpoch := false, dataAvailable := false, trace := [] }

/-- `GNSSDataAcq::acqEpochData(RinexData&, bool, bool)`.  Every iteration that goes on
consumes at least two bytes of the file, so one iteration per remaining byte and one
more is enough fuel. -/
def Acquisition.acqEpochData (self : Acquisition) (rinex : RinexObsData)
    (useMID15 useMID8 : Bool) : Except AcqError EpochResult :=
  acqEpochLoop useMID15 useMID8 (self.ospFile.bytes.length - self.ospFile.pos + 1)
    (epochStart self rinex)

/-- The loop `while (gnssAcq.acqEpochData(...)) { rinex.printObsEpoch(outFile);
epochCount++; }` of `generateRINEX` (lines 196-199), at most `fuel` epochs; the result is
`epochCount`.  `printObsEpoch` is the effect of printing on the model.  An acquisition
that fails ends the loop. -/
def epochLoop (printObsEpoch : RinexObsData → RinexObsData) (useEphem useG50bps : Bool) :
    Nat → Acquisition → RinexObsData → Nat → Nat
  | 0, _, _, epochCount => epochCount
  | fuel + 1, self, rinex, epochCount =>
    match self.acqEpochData rinex useEphem useG50bps with
    | Except.ok r =>
      if r.ret then
        epochLoop printObsEpoch useEphem useG50bps fuel r.self (printObsEpoch r.rinex)
          (epochCount + 1)
      else epochCount
    | Except.error _ => epochCount

/-- Steps 6 of `generateRINEX`: `epochCount = 0`, `rewind(inFile)` and the epoch loop. -/
def generateRINEXEpochs (printObsEpoch : RinexObsData → RinexObsData)
    (useEphem useG50bps : Bool) (fuel : Nat) (self : Acquisition) (rinex : RinexObsData) : Nat :=
  epochLoop printObsEpoch useEphem useG50bps fuel
    { self with ospFile := { self.ospFile with pos := 0 } } rinex 0

/-- The last statement of `main` in `OSPtoRINEX.cpp`: `return n>0? 0:3`. -/
def exitCode (n : Nat) : Nat := if n > 0 then 0 else 3

/-- The payloads of the records of a stream from position `pos` on, as `fill` frames
them, up to the first record that is cut short (at most `fuel` records). -/
def streamPayloads (bytes : List Nat) : Nat → Nat → List (List Nat)
  | 0, _ => []
  | fuel + 1, pos =>
    match OSPMessage.fill ⟨bytes, pos⟩ with
    | FillResult.filled message file => message.payload :: streamPayloads bytes fuel file.pos
    | _ => []

/-- A payload that `getMID28NavData` accepts: MID 28, length 56, bit 0 of the sync
flags (byte 37) set. -/
def isAcceptedMID28 (payload : List Nat) : Bool :=
  decide (payload.getD 0 0 % 256 = 28) && decide (payload.length = 56)
    && decide ((payload.getD 37 0 % 256) &&& 0x01 ≠ 0)

/-! ## Sorting of the observations (RinexData.cpp lines 22-31 and 481) -/

/-- `obsCompare` of `RinexData.cpp`. -/
def obsCompare (i j : SatObsData) : Bool :=
  if i.sysIndex > j.sysIndex then false
  else if i.sysIndex < j.sysIndex then true
  else if i.satellite > j.satellite then false
  else if i.satellite < j.satellite then true
  else if i.obsTypeIndex > j.obsTypeIndex then false
  else true

/-- The library routine `std::sort(first, last, comp)`, modelled as a comparison sort
(insertion sort) driven by the comparator.  The library specifies its result for a
comparator that is a strict weak ordering: a permutation in which no later element goes
before an earlier one.  For `obsCompare` this requirement can be met exactly on the lists
whose keys are pairwise distinct, and there the result is this one whatever the
algorithm; on a list with a repeated key the library promises nothing, and the model
gives the stable order. -/
def stdSort {α : Type} (comp : α → α → Bool) (l : List α) : List α :=
  l.insertionSort (fun a b => comp a b = true)

/-- The first statement of `printObsEpoch` on a non-empty list (line 481):
`sort(observations.begin(), observations.end(), obsCompare)`. -/
def RinexObsData.sortObservations (rinex : RinexObsData) : RinexObsData :=
  { rinex with observations := stdSort obsCompare rinex.observations }

/-- The sort key of an observation: system index, satellite, observation-type index. -/
def obsKey (o : SatObsData) : Nat × Int × Nat := (o.sysIndex, o.satellite, o.obsTypeIndex)

/-- Lexicographic "not greater" on sort keys. -/
def obsKeyLe (a b : SatObsData) : Prop :=
  a.sysIndex < b.sysIndex ∨ (a.sysIndex = b.sysIndex ∧
    (a.satellite < b.satellite ∨ (a.satellite = b.satellite ∧ a.obsTypeIndex ≤ b.obsTypeIndex)))

/-! ## Sequences of calls and of loop iterations -/

/-- A call of one of the two methods that change the observation list of the model. -/
inductive ObsCall where
  | addMeasurement (sys : Char) (sat : Int) (obsType : String) (value : Double)
      (lol strg : Int) (tTag : IEEE64)
  | clearObs

/-- The model after a call (the return value of `addMeasurement` is dropped). -/
def RinexObsData.call (rinex : RinexObsData) : ObsCall → RinexObsData
  | ObsCall.addMeasurement sys sat obsType value lol strg tTag =>
    (rinex.addMeasurement sys sat obsType value lol strg tTag).2
  | ObsCall.clearObs => rinex.clearObs

/-- The model after a sequence of calls. -/
def RinexObsData.calls (rinex : RinexObsData) (cs : List ObsCall) : RinexObsData :=
  cs.foldl RinexObsData.call rinex

/-- The loop of `acqEpochData` started in state `s` is in state `t` at the top of some
later (or the same) iteration. -/
inductive LoopReaches (useMID15 useMID8 : Bool) : EpochLoopState → EpochLoopState → Prop where
  | here (s : EpochLoopState) : LoopReaches useMID15 useMID8 s s
  | step (s t u : EpochLoopState) :
      acqEpochStep useMID15 useMID8 s = EpochStep.next t →
      LoopReaches useMID15 useMID8 t u → LoopReaches useMID15 useMID8 s u

/-- An accepted MID 28 among the messages consumed. -/
def hasAccepted28 (trace : List AcqEvent) : Prop :=
  ∃ e ∈ trace, e.mid = 28 ∧ e.accepted = true

/-- The loop state after at most `n` further iterations that go on (it stays where the
loop ends). -/
def stateAfter (useMID15 useMID8 : Bool) : Nat → EpochLoopState → EpochLoopState
  | 0, s => s
  | n + 1, s =>
    match acqEpochStep useMID15 useMID8 s with
    | EpochStep.next t => stateAfter useMID15 useMID8 n t
    | _ => s

/-! ## Strings of the library (`std::string`) -/

/-- The search of `std::string::find`, from position `i` on: the first position at which
`pat` starts, `none` when there is none. -/
def strFindFrom (pat : List Char) : List Char → Nat → Option Nat
  | [], i => if pat.isPrefixOf [] then some i else none
  | c :: t, i => if pat.isPrefixOf (c :: t) then some i else strFindFrom pat t (i + 1)

/-- The library routine `std::string::find(pat)`: the position of the first occurrence of
`pat`; `none` stands for `string::npos`. -/
def strFind (pat s : String) : Option Nat := strFindFrom pat.toList s.toList 0

/-- The library routine `std::string::substr(pos)`: the characters from `pos` on.  It
throws `std::out_of_range` (here `none`) when `pos` is greater than the size; `npos`
is greater than every size. -/
def strSubstr (s : String) (pos : Option Nat) : Option String :=
  match pos with
  | none => none
  | some k => if k > s.length then none else some (String.mk (s.toList.drop k))

/-! ## Printing of an observation epoch (RinexData.cpp lines 95-108 and 476-558) -/

/-- `L2CFREQ` of `RinexData.h`. -/
def L2CFREQ : Double := 1227600000

/-- `L5CFREQ` of `RinexData.h`. -/
def L5CFREQ : Double := 1176450000

/-- `L6CFREQ` of `RinexData.h`. -/
def L6CFREQ : Double := 1278750000

/-- `L7CFREQ` of `RinexData.h`. -/
def L7CFREQ : Double := 1207140000

/-- `L8CFREQ` of `RinexData.h`. -/
def L8CFREQ : Double := 1191795000

/-- `MAXOBSVAL` of `RinexData.h`: 9999999999.999. -/
def MAXOBSVAL : Double := 9999999999999 / 1000

/-- `MINOBSVAL` of `RinexData.h`: -999999999.999. -/
def MINOBSVAL : Double := -999999999999 / 1000

/-- The bias factor that the constructor `GNSSsystem::GNSSsystem` gives to an observable
(lines 99-107): the chain of tests `obsType[i].find(...) == 0`. -/
def biasFactorFor (obsType : String) : Double :=
  if strFind "C" obsType = some 0 then LSPEED
  else if strFind "L1" obsType = some 0 then L1CFREQ
  else if strFind "L2" obsType = some 0 then L2CFREQ
  else if strFind "L5" obsType = some 0 then L5CFREQ
  else if strFind "L6" obsType = some 0 then L6CFREQ
  else if strFind "L7" obsType = some 0 then L7CFREQ
  else if strFind "L8" obsType = some 0 then L8CFREQ
  else 0

/-- The constructor `GNSSsystem::GNSSsystem(sys, obsT)`. -/
def GNSSsystem.construct (sys : Char) (obsT : List String) : GNSSsystem :=
  { system := sys, obsType := obsT, biasFactor := obsT.map biasFactorFor }

/-- An argument of a `fprintf` call.  `gpsTime fmt week second` is the text that
`formatGPStime` leaves in the buffer for the format `fmt`, the week and the whole
seconds `(int) second`. -/
inductive PrintArg where
  | int (v : Int)
  | dbl (v : Double)
  | chr (c : Char)
  | str (s : String)
  | gpsTime (fmt : String) (week : Int) (second : Int)
deriving DecidableEq

/-- One `fprintf(out, format, args...)` call.  The output of the formatter is recorded as
the sequence of these calls. -/
structure PrintCall where
  format : String
  args : List PrintArg
deriving DecidableEq

/-- Ways in which the printing stops without a result: a vector indexed outside its
bounds, or a loop that does not end within the iterations allowed. -/
inductive PrintError where
  | badIndex
  | outOfFuel
deriving DecidableEq

/-- The conversion `(int) x` of a `double`: truncation towards zero. -/
def truncToInt (x : Double) : Int := if 0 ≤ x then ⌊x⌋ else ⌈x⌉

/-- `getGPSseconds` of `Utilities.cpp`. -/
def getGPSseconds (tow : Double) : Double := tow - ((⌊tow / 60⌋ : Int) : ℚ) * 60

/-- The argument that a call of `formatGPStime(buffer, size, fmt, week, second)` followed
by a `%s` of the buffer contributes. -/
def formatGPStime (fmt : String) (week : Int) (second : Double) : PrintArg :=
  PrintArg.gpsTime fmt week (truncToInt second)

/-- One step of the bias loop of `printObsEpoch` (line 485):
`obsValue -= clkBias * systems[sysIndex].biasFactor[obsTypeIndex]`. -/
def biasedObservation (rinex : RinexObsData) (o : SatObsData) : Except PrintError SatObsData :=
  match rinex.systems[o.sysIndex]? with
  | none => Except.error PrintError.badIndex
  | some s =>
    match s.biasFactor[o.obsTypeIndex]? with
    | none => Except.error PrintError.badIndex
    | some factor => Except.ok { o with obsValue := o.obsValue - rinex.clkBias * factor }

/-- The bias loop of `printObsEpoch` (lines 483-486) over the observations. -/
def applyClockBias (rinex : RinexObsData) : List SatObsData → Except PrintError (List SatObsData)
  | [] => Except.ok []
  | o :: rest =>
    match biasedObservation rinex o with
    | Except.error e => Except.error e
    | Except.ok o1 =>
      match applyClockBias rinex rest with
      | Except.error e => Except.error e
      | Except.ok rest1 => Except.ok (o1 :: rest1)

/-- The test of lines 489-490 and 501: two observations of different satellites. -/
def otherSatellite (a b : SatObsData) : Bool :=
  decide (a.sysIndex ≠ b.sysIndex) || decide (a.satellite ≠ b.satellite)

/-- The counting loop of `printObsEpoch` (lines 488-491). -/
def countNewSatellites : List SatObsData → Nat
  | a :: b :: rest => (if otherSatellite a b then 1 else 0) + countNewSatellites (b :: rest)
  | _ => 0

/-- `nSatsEpoch` of `printObsEpoch`: one, plus one for every observation whose satellite
differs from that of the observation before it. -/
def nSatsEpoch (observations : List SatObsData) : Nat := 1 + countNewSatellites observations

/-- The call `fprintf(out, "%1c%02d", systems[o.sysIndex].system, o.satellite)`. -/
def satIdCall (rinex : RinexObsData) (o : SatObsData) : Except PrintError PrintCall :=
  match rinex.systems[o.sysIndex]? with
  | none => Except.error PrintError.badIndex
  | some s => Except.ok ⟨"%1c%02d", [PrintArg.chr s.system, PrintArg.int o.satellite]⟩

/-- The loop of lines 500-502: the identifier of every observation whose satellite
differs from that of the observation before it. -/
def newSatelliteIds (rinex : RinexObsData) : List SatObsData → Except PrintError (List PrintCall)
  | a :: b :: rest =>
    if otherSatellite a b then
      match satIdCall rinex b with
      | Except.error e => Except.error e
      | Except.ok c =>
        match newSatelliteIds rinex (b :: rest) with
        | Except.error e => Except.error e
        | Except.ok cs => Except.ok (c :: cs)
    else newSatelliteIds rinex (b :: rest)
  | _ => Except.ok []

/-- The calls that print a stored observation in `printSatObsValues` (lines 542-549): the
value (0.0 when out of the range of the format), the loss of lock and the strength. -/
def valueCalls (o : SatObsData) : List PrintCall :=
  [⟨"%14.3f", [PrintArg.dbl
      (if o.obsValue > MAXOBSVAL ∨ o.obsValue < MINOBSVAL then 0 else o.obsValue)]⟩,
   (if o.lossOfLock = 0 then ⟨" ", []⟩ else ⟨"%1d", [PrintArg.int o.lossOfLock]⟩),
   (if o.strength = 0 then ⟨" ", []⟩ else ⟨"%1d", [PrintArg.int o.strength]⟩)]

/-- The call that prints an empty slot in `printSatObsValues` (line 552). -/
def emptySlotCall : PrintCall := ⟨"%14.3f  ", [PrintArg.dbl 0]⟩

/-- The `while` loop of `printSatObsValues` (lines 538-555), at most `fuel` iterations:
the observations left and the calls made. -/
def satValuesLoop (sysToPrint : Nat) (satToPrint : Int) :
    Nat → Nat → List SatObsData → Except PrintError (List SatObsData × List PrintCall)
  | 0, _, _ => Except.error PrintError.outOfFuel
  | fuel + 1, obsToPrint, observations =>
    match observations with
    | [] => Except.ok ([], [])
    | o :: rest =>
      if o.sysIndex = sysToPrint ∧ o.satellite = satToPrint then
        if o.obsTypeIndex = obsToPrint then
          match satValuesLoop sysToPrint satToPrint fuel (obsToPrint + 1) rest with
          | Except.error e => Except.error e
          | Except.ok (left, calls) => Except.ok (left, valueCalls o ++ calls)
        else
          match satValuesLoop sysToPrint satToPrint fuel (obsToPrint + 1) (o :: rest) with
          | Except.error e => Except.error e
          | Except.ok (left, calls) => Except.ok (left, emptySlotCall :: calls)
      else Except.ok (o :: rest, [])

/-- `RinexData::printSatObsValues`: the return value, the observations left and the calls
made. -/
def printSatObsValues (fuel : Nat) (observations : List SatObsData) :
    Except PrintError (Bool × List SatObsData × List PrintCall) :=
  match observations with
  | [] => Except.ok (false, [], [])
  | o :: rest =>
    match satValuesLoop o.sysIndex o.satellite fuel 0 (o :: rest) with
    | Except.error e => Except.error e
    | Except.ok (left, calls) =>
      Except.ok (decide (left.length > 0), left, calls ++ [⟨"\n", []⟩])

/-- The loop `while (printSatObsValues(out));` of the V210 branch (line 507), at most
`fuel` calls. -/
def printAllSatLines : Nat → List SatObsData → Except PrintError (List SatObsData × List PrintCall)
  | 0, _ => Except.error PrintError.outOfFuel
  | fuel + 1, observations =>
    match printSatObsValues (fuel + 1) observations with
    | Except.error e => Except.error e
    | Except.ok (more, left, calls) =>
      if more then
        match printAllSatLines fuel left with
        | Except.error e => Except.error e
        | Except.ok (left1, calls1) => Except.ok (left1, calls ++ calls1)
      else Except.ok (left, calls)

/-- The loop `do { fprintf(... observations[0] ...); } while (printSatObsValues(out));` of
the V300 branch (lines 515-517), at most `fuel` rounds. -/
def printAllSatLinesV300 (rinex : RinexObsData) :
    Nat → List SatObsData → Except PrintError (List SatObsData × List PrintCall)
  | 0, _ => Except.error PrintError.outOfFuel
  | fuel + 1, observations =>
    match observations with
    | [] => Except.error PrintError.badIndex
    | o :: rest =>
      match satIdCall rinex o with
      | Except.error e => Except.error e
      | Except.ok idCall =>
        match printSatObsValues (fuel + 1) (o :: rest) with
        | Except.error e => Except.error e
        | Except.ok (more, left, calls) =>
          if more then
            match printAllSatLinesV300 rinex fuel left with
            | Except.error e => Except.error e
            | Except.ok (left1, calls1) => Except.ok (left1, idCall :: calls ++ calls1)
          else Except.ok (left, idCall :: calls)

/-- The observations as `printObsEpoch` prints them (lines 481-486): sorted, and with the
clock bias applied when `applyBias` is set. -/
def preparedObservations (rinex : RinexObsData) : Except PrintError (List SatObsData) :=
  if rinex.applyBias then applyClockBias rinex (stdSort obsCompare rinex.observations)
  else Except.ok (stdSort obsCompare rinex.observations)

/-- The first line of a V210 epoch record (lines 495-505): the calls up to and including
the clock bias with its end of line.  The epoch time-tag enters the time printed as its
value (`IEEE64.toDouble`). -/
def epochLineV210 (rinex : RinexObsData) (observations : List SatObsData) :
    Except PrintError (List PrintCall) :=
  match observations with
  | [] => Except.error PrintError.badIndex
  | o :: rest =>
    match satIdCall rinex o with
    | Except.error e => Except.error e
    | Except.ok firstId =>
      match newSatelliteIds rinex (o :: rest) with
      | Except.error e => Except.error e
      | Except.ok ids =>
        Except.ok
          ([⟨"%s%11.7f",
              [formatGPStime " %y %m %d %H %M" rinex.gpsWeek
                (rinex.epochTimeTag - (if rinex.applyBias then rinex.clkBias else 0)),
               PrintArg.dbl (getGPSseconds
                (rinex.epochTimeTag - (if rinex.applyBias then rinex.clkBias else 0)))]⟩,
            ⟨"  %1d%3d", [PrintArg.int rinex.epochFlag,
              PrintArg.int (nSatsEpoch (o :: rest))]⟩,
            firstId]
          ++ ids
          ++ (List.range (12 - nSatsEpoch (o :: rest))).map (fun _ => ⟨"%3c", [PrintArg.chr ' ']⟩)
          ++ [⟨"%12.9f\n", [PrintArg.dbl rinex.clkBias]⟩])

/-- The first line of a V300 epoch record (lines 510-513).  The epoch time-tag enters the
time printed as its value (`IEEE64.toDouble`). -/
def epochLineV300 (rinex : RinexObsData) (observations : List SatObsData) : List PrintCall :=
  [⟨"%s%11.7f",
      [formatGPStime "> %Y %m %d %H %M" rinex.gpsWeek (rinex.epochTimeTag - rinex.clkBias),
       PrintArg.dbl (getGPSseconds (rinex.epochTimeTag - rinex.clkBias))]⟩,
   ⟨"  %1d%3d%5c%15.12f%3c\n",
      [PrintArg.int rinex.epochFlag, PrintArg.int (nSatsEpoch observations), PrintArg.chr ' ',
       PrintArg.dbl rinex.clkBias, PrintArg.chr ' ']⟩]

/-- `RinexData::printObsEpoch`: the model it leaves and the calls it makes.  `fuel` bounds
the number of satellite lines and the iterations inside each of them. -/
def RinexObsData.printObsEpoch (rinex : RinexObsData) (fuel : Nat) :
    Except PrintError (RinexObsData × List PrintCall) :=
  if rinex.observations.length = 0 then Except.ok (rinex, [])
  else
    match preparedObservations rinex with
    | Except.error e => Except.error e
    | Except.ok observations =>
      match rinex.version with
      | RINEXversion.V210 =>
        match epochLineV210 rinex observations with
        | Except.error e => Except.error e
        | Except.ok line =>
          match printAllSatLines fuel observations with
          | Except.error e => Except.error e
          | Except.ok (left, calls) =>
            Except.ok ({ rinex with observations := left }, line ++ calls)
      | RINEXversion.V300 =>
        match printAllSatLinesV300 rinex fuel observations with
        | Except.error e => Except.error e
        | Except.ok (left, calls) =>
          Except.ok ({ rinex with observations := left },
            epochLineV300 rinex observations ++ calls)

/-- The calls of an epoch other than the one that prints the clock bias of a V210 epoch
line. -/
def withoutBiasField (calls : List PrintCall) : List PrintCall :=
  calls.filter (fun call => decide (call.format ≠ "%12.9f\n"))

/-- The number of observation fields among the calls: stored values and empty slots. -/
def fieldCount (calls : List PrintCall) : Nat :=
  calls.countP (fun call => decide (call.format = "%14.3f") || decide (call.format = "%14.3f  "))

/-- The number of satellite identifiers among the calls. -/
def idCount (calls : List PrintCall) : Nat :=
  calls.countP (fun call => decide (call.format = "%1c%02d"))

/-- The number of calls that end a line. -/
def lineEndCount (calls : List PrintCall) : Nat :=
  calls.countP (fun call => decide (call.format = "%12.9f\n") || decide (call.format = "\n")
    || decide (call.format = "  %1d%3d%5c%15.12f%3c\n"))

/-- The calls that print the slots `k`, `k+1`, ... of a satellite line for observations of
increasing type index: an empty slot for every index skipped, the stored observation at
its index, and nothing after the last one. -/
def slotCalls : Nat → List SatObsData → List PrintCall
  | _, [] => []
  | k, o :: rest =>
    List.replicate (o.obsTypeIndex - k) emptySlotCall ++ valueCalls o
      ++ slotCalls (o.obsTypeIndex + 1) rest

/-- What the slot of type index `i` of a satellite line shows, in the words of the
format: the stored observation of that type when the satellite has one, else the empty
slot. -/
def slotOfType (line : List SatObsData) (i : Nat) : List PrintCall :=
  match line.find? (fun o => decide (o.obsTypeIndex = i)) with
  | some o => valueCalls o
  | none => [emptySlotCall]

/-- The observations of a satellite line have type indexes that increase strictly and
start at `k` or above. -/
def typesIncreaseFrom : Nat → List SatObsData → Prop
  | _, [] => True
  | k, o :: rest => k ≤ o.obsTypeIndex ∧ typesIncreaseFrom (o.obsTypeIndex + 1) rest

/-- The slot after the last one that a satellite line started at slot `k` prints: one more
than the type index of its last observation. -/
def slotEnd : Nat → List SatObsData → Nat
  | k, [] => k
  | _, o :: rest => slotEnd (o.obsTypeIndex + 1) rest

/-- The observations that follow those of a satellite in the list belong to another
satellite (or there is none). -/
def startsOtherSatellite (sysToPrint : Nat) (satToPrint : Int) : List SatObsData → Prop
  | [] => True
  | o :: _ => ¬ (o.sysIndex = sysToPrint ∧ o.satellite = satToPrint)

/-! ## The receiver identification (GNSSDataAcq.cpp lines 287-313, RinexData.cpp lines 265-271) -/

/-- `RinexData::setReceiver`. -/
def RinexObsData.setReceiver (rinex : RinexObsData) (number type version : String)
    (wlfL1 wlfL2 : Int) : RinexObsData :=
  { rinex with
    rxNumber := number, rxType := type, rxVersion := version
    wvlenFactorL1 := wlfL1, wvlenFactorL2 := wlfL2 }

/-- Ways in which a handler of the header pass stops without returning: a read past
the payload, or the `std::out_of_range` that `substr` throws. -/
inductive HandlerError where
  | truncated
  | outOfRange
deriving DecidableEq

/-- The loops `while (len-- > 0) { c = (char) (message.get() & 0xFF); s += c; }` of
`getMID6RxData` (lines 302-310): the characters read. -/
def OSPMessage.getChars : Nat → OSPMessage → Option (List Char × OSPMessage)
  | 0, m => some ([], m)
  | n + 1, m =>
    match m.get with
    | none => none
    | some (b, m1) =>
      match OSPMessage.getChars n m1 with
      | none => none
      | some (cs, m2) => some (Char.ofNat (b &&& 0xFF) :: cs, m2)

/-- `GNSSDataAcq::getMID6RxData`. -/
def Acquisition.getMID6RxData (self : Acquisition) (rinex : RinexObsData) :
    Except HandlerError (Bool × OSPMessage × RinexObsData) :=
  match self.core.message.get with
  | none => Except.error HandlerError.truncated
  | some (SWversionLen, m) =>
  match m.get with
  | none => Except.error HandlerError.truncated
  | some (SWcustomerLen, m) =>
  if m.payloadLen ≠ 1 + 2 + SWversionLen + SWcustomerLen then Except.ok (false, m, rinex)
  else
    match m.getChars SWversionLen with
    | none => Except.error HandlerError.truncated
    | some (SWversion, m) =>
    match m.getChars SWcustomerLen with
    | none => Except.error HandlerError.truncated
    | some (_SWcustomer, m) =>
    match strSubstr (String.mk SWversion) (strFind "GSD4" (String.mk SWversion)) with
    | none => Except.error HandlerError.outOfRange
    | some fromGSD4 =>
      Except.ok (true, m, rinex.setReceiver (String.mk SWversion) self.receiver fromGSD4 1 0)

/-- The version string that `getMID6RxData` reads from a payload: `SWversionLen` (byte 1)
characters from byte 3 on. -/
def mid6Version (payload : List Nat) : String :=
  String.mk ((List.range (payload.getD 1 0 % 256)).map
    (fun k => Char.ofNat ((payload.getD (3 + k) 0 % 256) &&& 0xFF)))

/-- The length test of `getMID6RxData` on a payload:
`payloadLen() == 1 + 2 + SWversionLen + SWcustomerLen`. -/
abbrev mid6LengthsMatch (payload : List Nat) : Prop :=
  payload.length = 1 + 2 + payload.getD 1 0 % 256 + payload.getD 2 0 % 256

/-! ## The RINEX file name (RinexData.cpp lines 60-87 and 299-301) -/

/-- The members of `struct tm` that `getRINEXfileName` reads after `mktime`. -/
structure Tm where
  tm_year : Int
  tm_yday : Int
  tm_hour : Int
  tm_min : Int
deriving DecidableEq

/-- The number of days of a year of the Gregorian calendar. -/
def daysInYear (year : Int) : Int :=
  if year % 4 = 0 ∧ (year % 100 ≠ 0 ∨ year % 400 = 0) then 366 else 365

/-- The year and the day of the year (from 0) of the day `day` of the year `year`, where
`day` may lie outside that year: whole years are carried, at most `fuel` of them. -/
def yearOfDay : Nat → Int → Int → Int × Int
  | 0, year, day => (year, day)
  | fuel + 1, year, day =>
    if day < 0 then yearOfDay fuel (year - 1) (day + daysInYear (year - 1))
    else if day ≥ daysInYear year then yearOfDay fuel (year + 1) (day - daysInYear year)
    else (year, day)

/-- The library routine `mktime` as `getRINEXfileName` calls it (lines 69-75), in a time
zone without daylight saving time: the calendar fields of the instant `tm_year = 80,
tm_mon = 0, tm_mday = 6 + week * 7, tm_hour = 0, tm_min = 0, tm_sec = sec` brought into
their ranges.  Day 0 of the count is the first of January 1980. -/
def mktimeGPS (week sec : Int) : Tm :=
  let total := (6 + week * 7 - 1) * 86400 + sec
  let day := total / 86400
  let secOfDay := total % 86400
  let yd := yearOfDay (day.natAbs + 1) 1980 day
  { tm_year := yd.1 - 1900, tm_yday := yd.2, tm_hour := secOfDay / 3600,
    tm_min := secOfDay % 3600 / 60 }

/-- The conversion `%0<width>d` of `sprintf`. -/
def zeroPadded (width : Nat) (n : Int) : String :=
  if n < 0 then
    "-" ++ String.mk (List.replicate (width - 1 - (toString n.natAbs).length) '0')
      ++ toString n.natAbs
  else String.mk (List.replicate (width - (toString n.natAbs).length) '0') ++ toString n.natAbs

/-- The conversion `%<width>s` of `sprintf`. -/
def leftPadded (width : Nat) (s : String) : String :=
  String.mk (List.replicate (width - s.length) ' ') ++ s

/-- `RinexData::getRINEXfileName`: the text that
`sprintf(buffer, "%4s%03d%1c%02d.%02d%c", ...)` writes. -/
def getRINEXfileName (designator : String) (week sec : Int) (ftype : Char) : String :=
  let timeinfo := mktimeGPS week sec
  let designator := designator ++ "----"
  let designator := String.mk (designator.toList.take 4)
  leftPadded 4 designator
    ++ zeroPadded 3 (timeinfo.tm_yday + 1)
    ++ String.singleton (Char.ofNat ((97 + timeinfo.tm_hour) % 256).toNat)
    ++ zeroPadded 2 timeinfo.tm_min
    ++ "."
    ++ zeroPadded 2 (Int.tmod timeinfo.tm_year 100)
    ++ String.singleton ftype

/-- `RinexData::getObsFileName(prefix)`. -/
def RinexObsData.getObsFileName (rinex : RinexObsData) (designator : String) : String :=
  getRINEXfileName designator rinex.gpsWeek (truncToInt rinex.gpsTOW) 'O'

/-! ## Header acquisition (GNSSDataAcq.cpp lines 47-88, RinexData.cpp lines 322-325) -/

/-- `RinexData::setFistObsTime`. -/
def RinexObsData.setFistObsTime (rinex : RinexObsData) : RinexObsData :=
  { rinex with firstObsWeek := rinex.gpsWeek, firstObsTOW := rinex.gpsTOW }

/-- The model and the local flags of `acqHeaderData`. -/
structure HeaderVars where
  rinex : RinexObsData
  rxIdSet : Bool
  apxSet : Bool
  frsEphSet : Bool
  intrvBegin : Bool
  intrvSet : Bool

/-- Ways in which the header acquisition stops without a result. -/
inductive HeaderError where
  | shortRead
  | truncated
  | outOfRange
  | outOfFuel
deriving DecidableEq

/-- What a call of `acqHeaderData` leaves behind: its return value, the object, the model
with the flags, and the payloads of the messages that the loop body has handled, in
order. -/
structure HeaderResult where
  ret : Bool
  self : Acquisition
  vars : HeaderVars
  handled : List (List Nat)

/-- The body of the loop of `acqHeaderData` (lines 56-74): `mid = message.get()` and the
`switch`.  It gives the message as the handler leaves it, and the model and flags. -/
def Acquisition.acqHeaderBody (self : Acquisition) (v : HeaderVars) :
    Except HeaderError (OSPMessage × HeaderVars) :=
  match self.core.message.get with
  | none => Except.error HeaderError.truncated
  | some (mid, message) =>
    let self := self.setMessage message
    if mid = 2 then
      if v.apxSet = false then
        match self.getMID2PosData v.rinex with
        | none => Except.error HeaderError.truncated
        | some (ok, message, rinex) => Except.ok (message, { v with rinex := rinex, apxSet := ok })
      else Except.ok (message, v)
    else if mid = 6 then
      if v.rxIdSet = false then
        match self.getMID6RxData v.rinex with
        | Except.error HandlerError.truncated => Except.error HeaderError.truncated
        | Except.error HandlerError.outOfRange => Except.error HeaderError.outOfRange
        | Except.ok (ok, message, rinex) =>
          Except.ok (message, { v with rinex := rinex, rxIdSet := ok })
      else Except.ok (message, v)
    else if mid = 7 then
      if v.frsEphSet = false then
        match self.getMID7TimeData v.rinex with
        | none => Except.error HeaderError.truncated
        | some (ok, message, rinex) =>
          Except.ok (message,
            { v with rinex := rinex.setFistObsTime, intrvBegin := ok, frsEphSet := ok })
      else if v.intrvBegin = false then
        match self.getMID7TimeData v.rinex with
        | none => Except.error HeaderError.truncated
        | some (ok, message, rinex) =>
          Except.ok (message, { v with rinex := rinex, intrvBegin := ok })
      else if v.intrvSet = false then
        match self.getMID7Interval v.rinex with
        | none => Except.error HeaderError.truncated
        | some (ok, message, rinex) =>
          Except.ok (message, { v with rinex := rinex, intrvBegin := ok, intrvSet := ok })
      else Except.ok (message, v)
    else Except.ok (message, v)

/-- The loop of `acqHeaderData` (lines 54-76) and its return statement (line 87), at most
`fuel` iterations.  The condition calls `message.fill(ospFile)` first, so the message
read when all the flags are set is consumed and not handled. -/
def acqHeaderLoop :
    Nat → Acquisition → HeaderVars → List (List Nat) → Except HeaderError HeaderResult
  | 0, _, _, _ => Except.error HeaderError.outOfFuel
  | fuel + 1, self, v, handled =>
    match OSPMessage.fill self.ospFile with
    | FillResult.endOfStream =>
      Except.ok ⟨v.apxSet && v.frsEphSet && v.rxIdSet && v.intrvSet, self, v, handled⟩
    | FillResult.shortRead => Except.error HeaderError.shortRead
    | FillResult.filled message file =>
      let self : Acquisition :=
        { self with ospFile := file, core := { self.core with message := message } }
      if v.apxSet && v.rxIdSet && v.frsEphSet && v.intrvSet then
        Except.ok ⟨v.apxSet && v.frsEphSet && v.rxIdSet && v.intrvSet, self, v, handled⟩
      else
        match self.acqHeaderBody v with
        | Except.error e => Except.error e
        | Except.ok (left, v1) =>
          acqHeaderLoop fuel (self.setMessage left) v1 (handled ++ [message.payload])

/-- `GNSSDataAcq::acqHeaderData(RinexData&)`: the five flags start as false.  Every
iteration that goes on consumes at least two bytes of the file, so one iteration per
remaining byte and one more is enough fuel. -/
def Acquisition.acqHeaderData (self : Acquisition) (rinex : RinexObsData) :
    Except HeaderError HeaderResult :=
  acqHeaderLoop (self.ospFile.bytes.length - self.ospFile.pos + 1) self
    ⟨rinex, false, false, false, false, false⟩ []

/-- What a MID 7 payload gives when it is usable (length 20 and at least `minSVSfix`
satellites in byte 7): its week (bytes 1-2) and its time of week in seconds (bytes 3-6,
divided by 100). -/
def mid7Record (minSVSfix : Int) (payload : List Nat) : Option (Int × Double) :=
  if payload.length = 20 ∧ minSVSfix ≤ ((payload.getD 7 0 % 256 : Nat) : Int) then
    some (((((payload.getD 1 0 % 256) <<< 8) ||| (payload.getD 2 0 % 256) : Nat) : Int),
      (bigEndian32 payload 3 : ℚ) / 100)
  else none

/-- The MID 7 records among the payloads, in order: `some (week, tow)` for a usable one,
`none` for one that is not. -/
def mid7Records (minSVSfix : Int) (payloads : List (List Nat)) : List (Option (Int × Double)) :=
  (payloads.filter (fun p => decide (p.getD 0 0 % 256 = 7))).map (mid7Record minSVSfix)

/-- The first two usable records that follow one another in a list of records. -/
def firstPair {α : Type} : List (Option α) → Option (α × α)
  | [] => none
  | x :: rest =>
    match x, rest.head? with
    | some a, some (some b) => some (a, b)
    | _, _ => firstPair rest

/-- The interval between two records: `(tow_b - tow_a) + (wk_b - wk_a) * 604800`. -/
def intervalBetween (a b : Int × Double) : Double :=
  (b.2 - a.2) + ((b.1 - a.1 : Int) : ℚ) * 604800

/-- What a MID 2 payload gives when it is accepted (length 41 and at least `minSVSfix`
satellites in byte 28): the position X, Y, Z (bytes 1-12). -/
def mid2Position (minSVSfix : Int) (payload : List Nat) : Option (Double × Double × Double) :=
  if payload.length = 41 ∧ minSVSfix ≤ ((payload.getD 28 0 % 256 : Nat) : Int) then
    some ((toInt32 (bigEndian32 payload 1) : ℚ), (toInt32 (bigEndian32 payload 5) : ℚ),
      (toInt32 (bigEndian32 payload 9) : ℚ))
  else none

/-- The effect of one iteration of the loop of `acqHeaderData` that handles the payload
`p` and goes on: the model and the flags after it, case by case. -/
inductive HeaderEffect (receiver : String) (minSVSfix : Int) (v : HeaderVars) (p : List Nat) :
    HeaderVars → Prop where
  | other (h2 : p.getD 0 0 % 256 ≠ 2) (h6 : p.getD 0 0 % 256 ≠ 6) (h7 : p.getD 0 0 % 256 ≠ 7) :
      HeaderEffect receiver minSVSfix v p v
  | mid2Skip (h2 : p.getD 0 0 % 256 = 2)
      (h : v.apxSet = true ∨ mid2Position minSVSfix p = none) :
      HeaderEffect receiver minSVSfix v p v
  | mid2Set (q : Double × Double × Double) (h2 : p.getD 0 0 % 256 = 2) (h : v.apxSet = false)
      (hq : mid2Position minSVSfix p = some q) :
      HeaderEffect receiver minSVSfix v p
        { v with rinex := v.rinex.setPosition q.1 q.2.1 q.2.2, apxSet := true }
  | mid6Skip (h6 : p.getD 0 0 % 256 = 6) (h : v.rxIdSet = true ∨ ¬ mid6LengthsMatch p) :
      HeaderEffect receiver minSVSfix v p v
  | mid6Set (k : Nat) (h6 : p.getD 0 0 % 256 = 6) (h : v.rxIdSet = false)
      (hl : mid6LengthsMatch p) (hk : strFind "GSD4" (mid6Version p) = some k) :
      HeaderEffect receiver minSVSfix v p
        { v with
          rinex := v.rinex.setReceiver (mid6Version p) receiver
            (String.mk ((mid6Version p).toList.drop k)) 1 0
          rxIdSet := true }
  | mid7FirstNot (h7 : p.getD 0 0 % 256 = 7) (h : v.frsEphSet = false)
      (hr : mid7Record minSVSfix p = none) :
      HeaderEffect receiver minSVSfix v p
        { v with rinex := v.rinex.setFistObsTime, intrvBegin := false }
  | mid7First (a : Int × Double) (bias : Double) (h7 : p.getD 0 0 % 256 = 7)
      (h : v.frsEphSet = false) (hr : mid7Record minSVSfix p = some a) :
      HeaderEffect receiver minSVSfix v p
        { v with
          rinex := (v.rinex.setGPSTime a.1 a.2 bias).setFistObsTime
          intrvBegin := true
          frsEphSet := true }
  | mid7BeginNot (h7 : p.getD 0 0 % 256 = 7) (h : v.frsEphSet = true)
      (hb : v.intrvBegin = false) (hr : mid7Record minSVSfix p = none) :
      HeaderEffect receiver minSVSfix v p v
  | mid7Begin (a : Int × Double) (bias : Double) (h7 : p.getD 0 0 % 256 = 7)
      (h : v.frsEphSet = true) (hb : v.intrvBegin = false)
      (hr : mid7Record minSVSfix p = some a) :
      HeaderEffect receiver minSVSfix v p
        { v with rinex := v.rinex.setGPSTime a.1 a.2 bias, intrvBegin := true }
  | mid7IntervalNot (h7 : p.getD 0 0 % 256 = 7) (h : v.frsEphSet = true)
      (hb : v.intrvBegin = true) (hs : v.intrvSet = false)
      (hr : mid7Record minSVSfix p = none) :
      HeaderEffect receiver minSVSfix v p { v with intrvBegin := false }
  | mid7Interval (a : Int × Double) (h7 : p.getD 0 0 % 256 = 7) (h : v.frsEphSet = true)
      (hb : v.intrvBegin = true) (hs : v.intrvSet = false)
      (hr : mid7Record minSVSfix p = some a) :
      HeaderEffect receiver minSVSfix v p
        { v with rinex := v.rinex.setIntervalTime a.1 a.2, intrvSet := true }
  | mid7Done (h7 : p.getD 0 0 % 256 = 7) (h : v.frsEphSet = true) (hb : v.intrvBegin = true)
      (hs : v.intrvSet = true) :
      HeaderEffect receiver minSVSfix v p v

/-- The position that the header pass can take from a payload: that of an accepted
MID 2. -/
def mid2Of (minSVSfix : Int) (payload : List Nat) : Option (Double × Double × Double) :=
  if payload.getD 0 0 % 256 = 2 then mid2Position minSVSfix payload else none

/-- The positions of the accepted MID 2 messages among the payloads, in order. -/
def mid2Positions (minSVSfix : Int) (payloads : List (List Nat)) :
    List (Double × Double × Double) :=
  payloads.filterMap (mid2Of minSVSfix)

/-- The MID 6 payloads, consistent in their lengths, among the payloads, in order. -/
def mid6Accepted (payloads : List (List Nat)) : List (List Nat) :=
  payloads.filter (fun p => decide (p.getD 0 0 % 256 = 6) && decide (mid6LengthsMatch p))

/-- The usable MID 7 records among the payloads, in order. -/
def mid7Usable (minSVSfix : Int) (payloads : List (List Nat)) : List (Int × Double) :=
  (mid7Records minSVSfix payloads).filterMap id

/-- What the flags and the model of `acqHeaderData` say about the payloads handled so
far: the invariant of its loop. -/
structure HeaderInv (receiver : String) (minSVSfix : Int) (v : HeaderVars)
    (handled : List (List Nat)) : Prop where
  apx_set : v.apxSet = true → ∃ q, (mid2Positions minSVSfix handled).head? = some q ∧
    v.rinex.aproxX = q.1 ∧ v.rinex.aproxY = q.2.1 ∧ v.rinex.aproxZ = q.2.2
  apx_not : v.apxSet = false → mid2Positions minSVSfix handled = []
  rx_set : v.rxIdSet = true → ∃ q k, (mid6Accepted handled).head? = some q ∧
    strFind "GSD4" (mid6Version q) = some k ∧ v.rinex.rxNumber = mid6Version q ∧
    v.rinex.rxType = receiver ∧
    v.rinex.rxVersion = String.mk ((mid6Version q).toList.drop k)
  rx_not : v.rxIdSet = false → mid6Accepted handled = []
  frs_set : v.frsEphSet = true → ∃ a, (mid7Usable minSVSfix handled).head? = some a ∧
    v.rinex.firstObsWeek = a.1 ∧ v.rinex.firstObsTOW = a.2
  frs_not : v.frsEphSet = false → mid7Usable minSVSfix handled = []
  int_set : v.intrvSet = true → v.frsEphSet = true ∧ v.intrvBegin = true ∧
    ∃ a b, firstPair (mid7Records minSVSfix handled) = some (a, b) ∧
      v.rinex.obsInterval = intervalBetween a b
  int_not : v.intrvSet = false → firstPair (mid7Records minSVSfix handled) = none ∧
    (v.intrvBegin = true →
      (mid7Records minSVSfix handled).getLast? = some (some (v.rinex.gpsWeek, v.rinex.gpsTOW))) ∧
    (v.intrvBegin = false → ∀ a, (mid7Records minSVSfix handled).getLast? ≠ some (some a))

/-! ## The accuracy table of the navigation file (RinexData.cpp lines 188-205 and 653-654) -/

/-- The table `URA[16]` as the constructor `RinexData::RinexData` fills it; `2.8`, `5.7`
and `11.3` are the decimal fractions of the source text. -/
def URA : List Double :=
  [2, 28 / 10, 4, 57 / 10, 8, 113 / 10, 2 ^ 4, 2 ^ 5, 2 ^ 6, 2 ^ 7, 2 ^ 8, 2 ^ 9, 2 ^ 10,
   2 ^ 11, 2 ^ 12, 6144]

/-- The lookup `URA[gpsEphmNav[i].broadcastOrbit[6][0]]` of `printGPSnavEpoch` for the
record `e`; `none` stands for an index outside the array. -/
def uraValue (e : GPSsatNav) : Option Double := URA[e.broadcastOrbit 6 0]?

/-! ## The comparator of the navigation records (RinexData.cpp lines 40-50 and 312) -/

/-- The comparator `navCompare` (RinexData.cpp lines 40-50) that `getGPSnavFileName` hands
to `sort` (line 312): week `broadcastOrbit[5][2]`, then T0c `broadcastOrbit[0][0]`, then
satellite. -/
def navCompare (i j : GPSsatNav) : Bool :=
  if i.broadcastOrbit 5 2 > j.broadcastOrbit 5 2 then false
  else if i.broadcastOrbit 5 2 < j.broadcastOrbit 5 2 then true
  else if i.broadcastOrbit 0 0 > j.broadcastOrbit 0 0 then false
  else if i.broadcastOrbit 0 0 < j.broadcastOrbit 0 0 then true
  else if i.satellite > j.satellite then false
  else true

/-- The sort key of a navigation record: week, T0c, satellite. -/
def navKey (e : GPSsatNav) : Nat × Nat × Int :=
  (e.broadcastOrbit 5 2, e.broadcastOrbit 0 0, e.satellite)

/-! ## The records of a stream -/

/-- The number of whole records that `fill` frames in the stream `bytes` from position
`pos` on (a stream of `n` bytes holds fewer than `n + 1` records). -/
def messagesFrom (bytes : List Nat) (pos : Nat) : Nat :=
  (streamPayloads bytes (bytes.length + 1) pos).length

/-! ## The items of a MID 15 (GNSSDataAcq.cpp lines 447-454) -/

/-- The 16-bit item `i` (0..44) of a MID 15 payload as `getUShort` reads it: the two bytes
at the offsets `2 + 2 i` and `3 + 2 i`, after the MID byte and the satellite byte. -/
def mid15Word (payload : List Nat) (i : Nat) : Nat :=
  ((payload.getD (2 + 2 * i) 0 % 256) <<< 8) ||| (payload.getD (2 + 2 * i + 1) 0 % 256)

/-- The array `dt[45]` that `getMID15NavData` hands to `extractEphemeris` for a 92-byte
payload: the 45 items of the message, with `dt[1] &= 0xFF00` and `dt[2] &= 0x0003`. -/
def mid15Items (payload : List Nat) : Nat → Nat := fun i =>
  if i = 2 then mid15Word payload 2 &&& 0x0003
  else if i = 1 then mid15Word payload 1 &&& 0xFF00
  else if i < 45 then mid15Word payload i
  else 0

/-! ## The satellites of an epoch line -/

/-- The satellite of an observation: system index and satellite number. -/
def satPair (o : SatObsData) : Nat × Int := (o.sysIndex, o.satellite)

/-- The observations after `a` that start a satellite: every one whose system or
satellite differs from those of the observation before it (`a` for the first). -/
def satelliteStartsAfter (a : SatObsData) : List SatObsData → List SatObsData
  | [] => []
  | b :: rest =>
    if otherSatellite a b then b :: satelliteStartsAfter b rest else satelliteStartsAfter b rest

/-- The observations that start a satellite in a list: the first observation, and every
one whose system or satellite differs from those of the observation before it. -/
def satelliteStarts : List SatObsData → List SatObsData
  | [] => []
  | o :: rest => o :: satelliteStartsAfter o rest

/-- The order of satellites: by system index, then by satellite number. -/
def satPairLt (p q : Nat × Int) : Prop := p.1 < q.1 ∨ (p.1 = q.1 ∧ p.2 < q.2)

/-! ## The conversion as a whole (OSPtoRINEX.cpp lines 142-213) -/

/-- The function `generateRINEX` of `OSPtoRINEX.cpp` (lines 149-213) from its step 3 on: the
header pass `acqHeaderData` (whose return value only decides a log line), the creation of
the observation file (`obsFileCreated` says whether `fopen` succeeds; `return 0` when
not), the epoch loop after `rewind`, and the navigation file when `navi` is set
(`return 0` when it cannot be created).  The result is the value returned; it is
`Except.error` when the header pass does not return: neither `generateRINEX` nor `main`
catches an exception, so the run ends there. -/
def generateRINEX (printObsEpoch : RinexObsData → RinexObsData)
    (useEphem useG50bps navi obsFileCreated navFileCreated : Bool) (fuel : Nat)
    (self : Acquisition) (rinex : RinexObsData) : Except HeaderError Nat :=
  match self.acqHeaderData rinex with
  | Except.error e => Except.error e
  | Except.ok h =>
    if obsFileCreated then
      if navi && !navFileCreated then Except.ok 0
      else Except.ok (generateRINEXEpochs printObsEpoch useEphem useG50bps fuel h.self h.vars.rinex)
    else Except.ok 0

/-- The end of `main` (lines 142-145): `int n = generateRINEX(inFile, &log); ...
return n>0? 0:3;`, the exit status of the tool when `generateRINEX` returns. -/
def mainStatus (printObsEpoch : RinexObsData → RinexObsData)
    (useEphem useG50bps navi obsFileCreated navFileCreated : Bool) (fuel : Nat)
    (self : Acquisition) (rinex : RinexObsData) : Except HeaderError Nat :=
  match generateRINEX printObsEpoch useEphem useG50bps navi obsFileCreated navFileCreated fuel
      self rinex with
  | Except.error e => Except.error e
  | Except.ok n => Except.ok (exitCode n)

/-! ## Example data -/

/-- A 45-item array with satellite 9 in items 0, 15, 30 and the IOD byte `0x5A` in
items 10, 18 (high byte) and 43. -/
def exampleDt : Nat → Nat := fun k =>
  [9, 0, 0, 0x1900, 0x0100, 0, 0, 0, 0, 0, 0x005A, 0x1234, 0, 0, 0,
   9, 0, 0, 0x5A00, 0, 0, 0, 0, 0, 0, 0, 0, 0, 0, 0,
   9, 0, 0, 0, 0, 0, 0, 0, 0, 0, 0, 0, 0, 0x005A, 0].getD k 0

/-- A row of the assembly buffer holding 24-bit words. -/
def exampleRow : Nat → SubframeData := fun i =>
  { sv := 9, words := fun k => 0xABCDE0 + 16 * i + k }

/-- MID 8 payload, channel 0, satellite 9, subframe 1, IODC LSB `0x5A`, all parities valid. -/
def sf1Payload : List Nat :=
  [8, 0, 9, 0, 0, 0, 0, 0, 0, 1, 11, 6, 64, 0, 62, 0, 0, 0, 0, 0, 0, 0, 0, 0, 0, 0, 0, 0, 0,
   0, 0, 22, 128, 0, 29, 0, 0, 0, 0, 0, 0, 0, 0]

/-- MID 8 payload, channel 0, satellite 9, subframe 2, IODE `0x5A`, all parities valid. -/
def sf2Payload : List Nat :=
  [8, 0, 9, 0, 0, 0, 0, 0, 0, 2, 22, 22, 128, 0, 29, 0, 0, 0, 0, 0, 0, 0, 0, 0, 0, 0, 0, 0,
   0, 0, 0, 0, 0, 0, 0, 0, 0, 0, 0, 0, 0, 0, 0]

/-- MID 8 payload, channel 0, satellite 9, subframe 3, IODE `0x5A`, all parities valid. -/
def sf3Payload : List Nat :=
  [8, 0, 9, 0, 0, 0, 0, 0, 0, 3, 29, 0, 0, 0, 0, 0, 0, 0, 0, 0, 0, 0, 0, 0, 0, 0, 0, 0, 0,
   0, 0, 0, 0, 0, 0, 0, 0, 0, 0, 22, 128, 0, 29]

/-- MID 8 payload, channel 0, satellite 9, subframe 4 with page id 56 (page 18), all
parities valid. -/
def sf4Page18Payload : List Nat :=
  [8, 0, 9, 0, 0, 0, 0, 0, 0, 4, 44, 14, 0, 0, 8, 0, 0, 0, 0, 0, 0, 0, 0, 0, 0, 0, 0, 0, 0,
   0, 0, 0, 0, 0, 0, 0, 0, 0, 0, 0, 0, 0, 0]

/-- MID 8 payload, channel 0, satellite 17, subframe 4 with page id 56 (page 18), all
parities valid: the channel now tracks another satellite. -/
def sf4Page18OtherSat : List Nat :=
  [8, 0, 17, 0, 0, 0, 0, 0, 0, 4, 44, 14, 0, 0, 8, 0, 0, 0, 0, 0, 0, 0, 0, 0, 0, 0, 0, 0, 0,
   0, 0, 0, 0, 0, 0, 0, 0, 0, 0, 0, 0, 0, 0]

/-- The payload `sf1Payload` with the parity of its first word damaged. -/
def badParityPayload : List Nat :=
  [8, 0, 9, 0, 0, 0, 4, 0, 0, 1, 11, 6, 64, 0, 62, 0, 0, 0, 0, 0, 0, 0, 0, 0, 0, 0, 0, 0, 0,
   0, 0, 22, 128, 0, 29, 0, 0, 0, 0, 0, 0, 0, 0]

/-- Object memory that happens to be all zeros before the constructor runs. -/
def zeroedMemory : Nat → Nat → SubframeData := fun _ _ => { sv := 0, words := fun _ => 0 }

/-- A freshly constructed acquisition object, an empty model, and no extractor call yet. -/
def freshState : GNSSDataAcq × RinexData × Nat :=
  (GNSSDataAcq.construct zeroedMemory ⟨[], 0⟩, ⟨0, []⟩, 0)

/-- The systems the conversion tool configures by default (`OSPtoRINEX.cpp` lines
160-162): GPS and SBAS, each with the observables C1C, L1C, D1C, S1C. -/
def exampleSystems : List GNSSsystem :=
  [⟨'G', ["C1C", "L1C", "D1C", "S1C"], [LSPEED, L1CFREQ, 0, 0]⟩,
   ⟨'S', ["C1C", "L1C", "D1C", "S1C"], [LSPEED, L1CFREQ, 0, 0]⟩]

/-- A model with the default systems, GPS week 1850, clock bias 1/4 s and no observation. -/
def exampleModel : RinexObsData :=
  { nav := ⟨0, []⟩, version := RINEXversion.V210, rxNumber := "", rxType := "", rxVersion := ""
    aproxX := 0, aproxY := 0, aproxZ := 0, wvlenFactorL1 := 1, wvlenFactorL2 := 0
    firstObsWeek := 1850, firstObsTOW := 0, obsInterval := 0
    gpsWeek := 1850, gpsTOW := 0, epochTimeTag := 0, clkBias := 1 / 4
    applyBias := true, epochFlag := 0, systems := exampleSystems, observations := []
    appEnd := false }

/-- An RTK model, all zero. -/
def exampleRTK : RTKobservation :=
  ⟨0, 0, 0, 0, 0, 0, 0, 0, 0, 0, 0, 0, 0⟩

/-- A 41-byte MID 2 payload with `sats` satellites in the fix (byte 28). -/
def mid2Payload (sats : Nat) : List Nat :=
  [2, 0, 0x4A, 0x1B, 0x60, 0xFF, 0xF9, 0x2C, 0x10, 0, 0x3D, 0x09, 0x00,
   0, 0, 0, 0, 0, 0, 4, 0, 0, 0x07, 0x3A, 0, 0x01, 0x86, 0xA0, sats,
   0, 0, 0, 0, 0, 0, 0, 0, 0, 0, 0, 0]

/-- A 20-byte MID 7 payload: week 1850, TOW 1000.00 s, `sats` satellites (byte 7), drift
and a clock bias of 1000 ns. -/
def mid7Payload (sats : Nat) : List Nat :=
  [7, 0x07, 0x3A, 0, 0x01, 0x86, 0xA0, sats, 0, 0x01, 0x2C, 0x00, 0, 0, 0x03, 0xE8,
   0, 0x01, 0x86, 0xA0]

/-- A 56-byte MID 28 payload: channel 3, satellite 7, software time with leading bytes
`t0 t1` (`0x3F 0xF0` is 1.0, `0x40 0x00` is 2.0), sync flags `sync`, C/N0 bytes with
minimum 31. -/
def mid28Payload (t0 t1 sync : Nat) : List Nat :=
  [28, 3, 0, 0, 0, 0, 7,
   t0, t1, 0, 0, 0, 0, 0, 0,
   0x41, 0x74, 0, 0, 0, 0, 0, 0,
   0x44, 0x7A, 0, 0,
   0x40, 0x59, 0, 0, 0, 0, 0, 0,
   0, 10, sync,
   40, 41, 39, 31, 40, 42, 38, 40, 41, 40,
   0, 0, 0, 0, 0, 0, 0, 0]

/-- The record of a payload in the binary file: the two length bytes, then the payload. -/
def record (payload : List Nat) : List Nat :=
  [payload.length / 256 % 256, payload.length % 256] ++ payload

/-- An acquisition object (minimum 4 satellites) that has just read the MID byte of the
message `payload`. -/
def exampleAcq (payload : List Nat) : Acquisition :=
  ⟨"SiRFIV", 4, ⟨[], 0⟩, ⟨⟨payload, 1⟩, zeroedMemory⟩⟩

/-- An acquisition object (minimum 4 satellites) at the start of the file `bytes`. -/
def exampleFileAcq (bytes : List Nat) : Acquisition :=
  ⟨"SiRFIV", 4, ⟨bytes, 0⟩, ⟨⟨[], 0⟩, zeroedMemory⟩⟩

/-- A file of one accepted MID 28 (software time 1.0) and nothing else. -/
def fileOneMID28 : List Nat := record (mid28Payload 0x3F 0xF0 0x03)

/-- A file of two accepted MID 28 with different software times (1.0 and 2.0) and no
MID 7 between them. -/
def fileTwoEpochs : List Nat :=
  record (mid28Payload 0x3F 0xF0 0x03) ++ record (mid28Payload 0x40 0x00 0x03)

/-- A file of one accepted MID 28 followed by a MID 7 with 6 satellites. -/
def fileEpochClosed : List Nat :=
  record (mid28Payload 0x3F 0xF0 0x03) ++ record (mid7Payload 6)

/-- A file of two MID 7 with 6 satellites and no MID 28. -/
def fileNoMID28 : List Nat := record (mid7Payload 6) ++ record (mid7Payload 6)

/-- An epoch of three observations at receiver time 100: C1C of satellite 9, and S1C and
C1C of satellite 7; clock bias 1/4 s to be applied. -/
def exampleEpoch : RinexObsData :=
  { exampleModel with
    epochTimeTag := 100
    observations := [⟨0, 9, 100, 0, 21000000, 0, 5⟩, ⟨0, 7, 100, 3, 31, 0, 0⟩,
      ⟨0, 7, 100, 0, 20000000, 0, 5⟩] }

/-- The bias factors of the default observables, by type index. -/
def exampleFactor (o : SatObsData) : Double := [LSPEED, L1CFREQ, 0, 0].getD o.obsTypeIndex 0

/-- The epoch `exampleEpoch` for the V300 format, without application of the clock bias,
which is `clkBias`. -/
def exampleEpochV300 (clkBias : Double) : RinexObsData :=
  { exampleEpoch with version := RINEXversion.V300, applyBias := false, clkBias := clkBias }

/-- An epoch with one C1C observation of each of the satellites 1 to 13. -/
def thirteenSatellites : RinexObsData :=
  { exampleModel with
    epochTimeTag := 100
    observations := (List.range 13).map
      (fun k => (⟨0, (k : Int) + 1, 100, 0, 20000000, 0, 5⟩ : SatObsData)) }

/-- A MID 6 payload with the version `xxGSD4e` (7 characters) and no customer string. -/
def mid6PayloadGSD4 : List Nat := [6, 7, 0, 120, 120, 71, 83, 68, 52, 101]

/-- A MID 6 payload, consistent in its lengths, with the version `ABC`. -/
def mid6PayloadOther : List Nat := [6, 3, 0, 65, 66, 67]

/-- The example model at GPS week 2000, time of week 0. -/
def exampleWeek2000 : RinexObsData := { exampleModel with gpsWeek := 2000, gpsTOW := 0 }

/-- A 20-byte MID 7 payload: week 1850, time of week `tow100` hundredths of a second
(below 2^16), `sats` satellites, clock bias 1000 ns. -/
def mid7PayloadAt (tow100 sats : Nat) : List Nat :=
  [7, 0x07, 0x3A, 0, 0, tow100 / 256 % 256, tow100 % 256, sats, 0, 0x01, 0x2C, 0x00,
   0, 0, 0x03, 0xE8, 0, 0x01, 0x86, 0xA0]

/-- A MID 6 payload with the version `GSD4xxx` and no customer string. -/
def mid6PayloadVersion : List Nat := [6, 7, 0, 71, 83, 68, 52, 120, 120, 120]

/-- A file with one accepted MID 2, one MID 6 with the version `GSD4xxx`, and two usable
MID 7 records five seconds apart (times of week 10 s and 15 s). -/
def fileHeader : List Nat :=
  record (mid2Payload 6) ++ record mid6PayloadVersion ++ record (mid7PayloadAt 1000 6)
    ++ record (mid7PayloadAt 1500 6)

/-- The file `fileHeader` behind a MID 6 record, consistent in its lengths, whose version
`ABC` does not contain `GSD4`. -/
def fileHeaderOtherMID6 : List Nat := record mid6PayloadOther ++ fileHeader

/-- A file with three usable MID 7 records at the times of week 10 s, 15 s and 25 s. -/
def fileThreeMID7 : List Nat :=
  record (mid7PayloadAt 1000 6) ++ record (mid7PayloadAt 1500 6) ++ record (mid7PayloadAt 2500 6)

/-- A file with a usable MID 7 (10 s), a MID 7 with too few satellites (12 s), and two
usable ones (20 s and 27 s). -/
def fileInterruptedMID7 : List Nat :=
  record (mid7PayloadAt 1000 6) ++ record (mid7PayloadAt 1200 2) ++ record (mid7PayloadAt 2000 6)
    ++ record (mid7PayloadAt 2700 6)

/-- A file of two accepted MID 28 of the same satellite (7) with the same software time
(1.0): the second repeats the four observables of the first. -/
def fileRepeatedMID28 : List Nat :=
  record (mid28Payload 0x3F 0xF0 0x03) ++ record (mid28Payload 0x3F 0xF0 0x03)

/-- A file of six accepted MID 28 of the same satellite and software time. -/
def fileSixMID28 : List Nat :=
  record (mid28Payload 0x3F 0xF0 0x03) ++ record (mid28Payload 0x3F 0xF0 0x03)
    ++ record (mid28Payload 0x3F 0xF0 0x03) ++ record (mid28Payload 0x3F 0xF0 0x03)
    ++ record (mid28Payload 0x3F 0xF0 0x03) ++ record (mid28Payload 0x3F 0xF0 0x03)

/-- A 92-byte MID 15 payload of satellite 5 whose 45 items are all zero (the satellite
and IOD bytes of its three subframes agree, so the extractor accepts it). -/
def mid15Zeros : List Nat := 15 :: 5 :: List.replicate 90 0

/-- A file without MID 28: a MID 6 whose version `ABC` holds no `GSD4`, then a MID 7 with 6
satellites. -/
def fileOtherMID6NoMID28 : List Nat := record mid6PayloadOther ++ record (mid7Payload 6)

/-! ## Helper lemmas on bits -/

theorem range6_eq : List.range 6 = [0, 1, 2, 3, 4, 5] := by decide

theorem shr_and_one (x i : Nat) : (x >>> i) &&& 0x01 = (x.testBit i).toNat := by
  rw [Nat.toNat_testBit, Nat.and_one_is_mod, Nat.shiftRight_eq_div_pow]

theorem count_xor_fold (f : Nat → Bool) (l : List Nat) (c : Nat) (b : Bool)
    (h : c % 2 = b.toNat) :
    (l.foldl (fun count i => count + (f i).toNat) c) % 2
      = (l.foldl (fun acc k => xor acc (f k)) b).toNat := by
  induction l generalizing c b with
  | nil => simpa using h
  | cons a l ih =>
    simp only [List.foldl_cons]
    apply ih
    cases b <;> cases hf : f a <;> simp_all <;> omega

theorem bitsSet_and_mod_two (mask t : Nat) :
    bitsSet (mask &&& t) % 2 = (specXorSelected mask t).toNat := by
  unfold bitsSet specXorSelected
  have h := count_xor_fold (fun i => (mask &&& t).testBit i) (List.range 32) 0 false (by simp)
  simp only [Nat.testBit_and] at h
  rw [← h]
  congr 1
  apply List.foldl_ext
  intro c i _
  rw [shr_and_one, Nat.testBit_and]

theorem assemble_six (b0 b1 b2 b3 b4 b5 : Bool) :
    ((((((0 ||| (b0.toNat <<< 5)) ||| (b1.toNat <<< 4)) ||| (b2.toNat <<< 3))
        ||| (b3.toNat <<< 2)) ||| (b4.toNat <<< 1)) ||| (b5.toNat <<< 0))
      = 2 * (2 * (2 * (2 * (2 * (2 * 0 + b0.toNat) + b1.toNat) + b2.toNat) + b3.toNat)
          + b4.toNat) + b5.toNat := by
  cases b0 <;> cases b1 <;> cases b2 <;> cases b3 <;> cases b4 <;> cases b5 <;> rfl

theorem candidate_eq (w : Nat) :
    (if w &&& 0x40000000 ≠ 0 then (w &&& 0xC0000000) ||| (not32 w &&& 0x3FFFFFFF) else w)
      = specCandidate w := by
  unfold specCandidate
  have h : (w &&& 0x40000000 ≠ 0) ↔ w.testBit 30 = true := by
    constructor
    · intro hne
      by_contra hb
      apply hne
      apply Nat.eq_of_testBit_eq
      intro i
      have e : (0x40000000 : Nat) = 2 ^ 30 := by norm_num
      rw [Nat.testBit_and, e, Nat.testBit_two_pow]
      by_cases hi : 30 = i
      · subst hi; simp at hb; simp [hb]
      · simp [hi]
    · intro hb hz
      have e : (0x40000000 : Nat) = 2 ^ 30 := by norm_num
      have := congrArg (fun x => Nat.testBit x 30) hz
      simp only [Nat.testBit_and, e, Nat.testBit_two_pow_self, hb] at this
      simp at this
  by_cases hb : w.testBit 30 = true
  · rw [if_pos (h.mpr hb), if_pos hb]
  · rw [if_neg (fun hne => hb (h.mp hne)), if_neg hb]

theorem parity_fold_eq (t : Nat) :
    (List.range 6).foldl
      (fun parity i => parity ||| ((bitsSet (parityBitMask.getD i 0 &&& t) % 2) <<< (5 - i))) 0
      = specParityValue t := by
  unfold specParityValue
  rw [range6_eq]
  simp only [List.foldl_cons, List.foldl_nil, bitsSet_and_mod_two]
  exact assemble_six _ _ _ _ _ _

theorem six_bits_lt (b0 b1 b2 b3 b4 b5 : Bool) :
    2 * (2 * (2 * (2 * (2 * (2 * 0 + b0.toNat) + b1.toNat) + b2.toNat) + b3.toNat)
          + b4.toNat) + b5.toNat < 64 := by
  cases b0 <;> cases b1 <;> cases b2 <;> cases b3 <;> cases b4 <;> cases b5 <;> decide

theorem six_bits_testBit (b0 b1 b2 b3 b4 b5 : Bool) :
    let v := 2 * (2 * (2 * (2 * (2 * (2 * 0 + b0.toNat) + b1.toNat) + b2.toNat) + b3.toNat)
          + b4.toNat) + b5.toNat
    v.testBit 5 = b0 ∧ v.testBit 4 = b1 ∧ v.testBit 3 = b2 ∧ v.testBit 2 = b3 ∧
      v.testBit 1 = b4 ∧ v.testBit 0 = b5 := by
  cases b0 <;> cases b1 <;> cases b2 <;> cases b3 <;> cases b4 <;> cases b5 <;> decide

theorem specParityValue_bits (t : Nat) :
    specParityValue t < 64 ∧
    ∀ i : Fin 6, (specParityValue t).testBit (5 - i.val)
      = specXorSelected (parityBitMask.getD i.val 0) t := by
  unfold specParityValue
  rw [range6_eq]
  simp only [List.foldl_cons, List.foldl_nil]
  refine ⟨six_bits_lt _ _ _ _ _ _, ?_⟩
  have h := six_bits_testBit (specXorSelected (parityBitMask.getD 0 0) t)
    (specXorSelected (parityBitMask.getD 1 0) t) (specXorSelected (parityBitMask.getD 2 0) t)
    (specXorSelected (parityBitMask.getD 3 0) t) (specXorSelected (parityBitMask.getD 4 0) t)
    (specXorSelected (parityBitMask.getD 5 0) t)
  obtain ⟨h0, h1, h2, h3, h4, h5⟩ := h
  intro i
  fin_cases i
  · exact h0
  · exact h1
  · exact h2
  · exact h3
  · exact h4
  · exact h5

/-! ## Helper lemmas on the model -/

theorem addGPSNavData_fst_false_iff (rinex : RinexData) (sat : Int) (bo : Nat → Nat → Nat) :
    (rinex.addGPSNavData sat bo).1 = false ↔
      ∃ e ∈ rinex.gpsEphmNav, e.satellite = sat ∧ e.broadcastOrbit 5 2 = bo 5 2
        ∧ e.broadcastOrbit 0 0 = bo 0 0 := by
  unfold RinexData.addGPSNavData
  split
  · rename_i h
    simp only [List.any_eq_true, Bool.and_eq_true, decide_eq_true_eq] at h
    obtain ⟨e, he, ⟨h1, h2⟩, h3⟩ := h
    simp only [true_iff]
    exact ⟨e, he, h1, h2.symm, h3.symm⟩
  · rename_i h
    simp only [List.any_eq_true, Bool.and_eq_true, decide_eq_true_eq, not_exists, not_and] at h
    simp only [Bool.true_eq_false, false_iff, not_exists, not_and]
    intro e he h1 h2 h3
    exact h e he ⟨h1, h2.symm⟩ h3.symm

theorem addGPSNavData_snd (rinex : RinexData) (sat : Int) (bo : Nat → Nat → Nat) :
    (rinex.addGPSNavData sat bo).2 =
      if (rinex.addGPSNavData sat bo).1 = true
      then { rinex with gpsEphmNav := rinex.gpsEphmNav ++ [GPSsatNav.mk sat bo] }
      else rinex := by
  unfold RinexData.addGPSNavData
  split <;> simp

theorem addGPSNavData_keys_nodup (rinex : RinexData) (sat : Int) (bo : Nat → Nat → Nat)
    (h : (rinex.gpsEphmNav.map GPSsatNav.key).Nodup) :
    ((rinex.addGPSNavData sat bo).2.gpsEphmNav.map GPSsatNav.key).Nodup := by
  rw [addGPSNavData_snd]
  by_cases hb : (rinex.addGPSNavData sat bo).1 = true
  · rw [if_pos hb]
    have hn : ¬ (rinex.addGPSNavData sat bo).1 = false := by simp [hb]
    rw [addGPSNavData_fst_false_iff] at hn
    simp only [List.map_append, List.map_cons, List.map_nil]
    rw [List.nodup_append]
    refine ⟨h, List.nodup_singleton _, ?_⟩
    intro k hk hk2
    rw [List.mem_singleton] at hk2
    rw [List.mem_map] at hk
    obtain ⟨e, he, hek⟩ := hk
    apply hn
    refine ⟨e, he, ?_⟩
    rw [hk2] at hek
    simp only [GPSsatNav.key, Prod.mk.injEq] at hek
    exact hek
  · rw [if_neg hb]
    exact h

theorem addAllGPSNavData_keys_nodup (subs : List (Int × (Nat → Nat → Nat))) (rinex : RinexData)
    (h : (rinex.gpsEphmNav.map GPSsatNav.key).Nodup) :
    ((rinex.addAllGPSNavData subs).gpsEphmNav.map GPSsatNav.key).Nodup := by
  induction subs generalizing rinex with
  | nil => exact h
  | cons s subs ih =>
    unfold RinexData.addAllGPSNavData
    simp only [List.foldl_cons]
    exact ih _ (addGPSNavData_keys_nodup rinex s.1 s.2 h)

theorem addGPSNavData_twice (rinex : RinexData) (sat : Int) (bo : Nat → Nat → Nat) :
    (rinex.addGPSNavData sat bo).2.addGPSNavData sat bo
      = (false, (rinex.addGPSNavData sat bo).2) := by
  have h1 : ((rinex.addGPSNavData sat bo).2.addGPSNavData sat bo).1 = false := by
    rw [addGPSNavData_fst_false_iff, addGPSNavData_snd]
    by_cases hb : (rinex.addGPSNavData sat bo).1 = true
    · rw [if_pos hb]
      exact ⟨GPSsatNav.mk sat bo, by simp, rfl, rfl, rfl⟩
    · rw [if_neg hb]
      have hf : (rinex.addGPSNavData sat bo).1 = false := by simpa using hb
      exact (addGPSNavData_fst_false_iff rinex sat bo).mp hf
  have h2 := addGPSNavData_snd (rinex.addGPSNavData sat bo).2 sat bo
  rw [h1] at h2
  simp only [Bool.false_eq_true, if_false] at h2
  exact Prod.ext h1 h2

theorem extractEphemeris_unfold (rinex : RinexData) (dt : Nat → Nat) :
    extractEphemeris rinex dt =
      if ¬ ((dt 0 &&& 0xFF) = (dt 15 &&& 0xFF) ∧ (dt 0 &&& 0xFF) = (dt 30 &&& 0xFF))
      then (false, rinex)
      else if ¬ (((dt 18 >>> 8) &&& 0xFF) = (dt 43 &&& 0xFF)
                ∧ ((dt 18 >>> 8) &&& 0xFF) = (dt 10 &&& 0xFF))
      then (false, rinex)
      else (true, (rinex.addGPSNavData ((dt 0 &&& 0xFF : Nat) : Int)
              (extractBroadcastOrbit rinex dt)).2) := rfl

theorem bo_1_0 (rinex : RinexData) (dt : Nat → Nat) :
    extractBroadcastOrbit rinex dt 1 0 = (dt 18 >>> 8) &&& 0xFF := rfl

theorem bo_7_3 (rinex : RinexData) (dt : Nat → Nat) :
    extractBroadcastOrbit rinex dt 7 3 = dt 43 &&& 0xFF := rfl

theorem bo_6_3 (rinex : RinexData) (dt : Nat → Nat) :
    extractBroadcastOrbit rinex dt 6 3 = (dt 10 &&& 0xFF) ||| (dt 4 &&& 0x0300) := rfl

theorem bo_5_2 (rinex : RinexData) (dt : Nat → Nat) :
    extractBroadcastOrbit rinex dt 5 2 = ((dt 3 >>> 6) &&& 0x03FF) + 1024 := rfl

theorem extractEphemeris_accepted (rinex : RinexData) (dt : Nat → Nat)
    (h : (extractEphemeris rinex dt).1 = true) :
    ((dt 0 &&& 0xFF) = (dt 15 &&& 0xFF) ∧ (dt 0 &&& 0xFF) = (dt 30 &&& 0xFF)) ∧
    (((dt 18 >>> 8) &&& 0xFF) = (dt 43 &&& 0xFF) ∧ ((dt 18 >>> 8) &&& 0xFF) = (dt 10 &&& 0xFF)) := by
  rw [extractEphemeris_unfold] at h
  by_cases h1 : (dt 0 &&& 0xFF) = (dt 15 &&& 0xFF) ∧ (dt 0 &&& 0xFF) = (dt 30 &&& 0xFF)
  · by_cases h2 : ((dt 18 >>> 8) &&& 0xFF) = (dt 43 &&& 0xFF)
        ∧ ((dt 18 >>> 8) &&& 0xFF) = (dt 10 &&& 0xFF)
    · exact ⟨h1, h2⟩
    · rw [if_neg (not_not_intro h1), if_pos h2] at h
      exact absurd h Bool.false_ne_true
  · rw [if_pos h1] at h
    exact absurd h Bool.false_ne_true

theorem extractEphemeris_new_record (rinex : RinexData) (dt : Nat → Nat) (e : GPSsatNav)
    (he : e ∈ (extractEphemeris rinex dt).2.gpsEphmNav) :
    e ∈ rinex.gpsEphmNav ∨ e.broadcastOrbit = extractBroadcastOrbit rinex dt := by
  rw [extractEphemeris_unfold] at he
  split at he
  · exact Or.inl he
  · split at he
    · exact Or.inl he
    · rw [addGPSNavData_snd] at he
      split at he
      · simp only [List.mem_append, List.mem_singleton] at he
        rcases he with he | he
        · exact Or.inl he
        · right
          rw [he]
      · exact Or.inl he

/-! ## Helper lemmas on the MID 8 handler -/

theorem get_some (m : OSPMessage) (h : m.cursor < m.payload.length) :
    m.get = some (m.payload.getD m.cursor 0 % 256, { m with cursor := m.cursor + 1 }) := by
  unfold OSPMessage.get
  rw [if_pos h]

theorem getUInts_some (n : Nat) (m : OSPMessage) (h : m.cursor + 4 * n ≤ m.payload.length) :
    m.getUInts n = some ((List.range n).map (fun k => bigEndian32 m.payload (m.cursor + 4 * k)),
      { m with cursor := m.cursor + 4 * n }) := by
  induction n generalizing m with
  | zero => simp [OSPMessage.getUInts]
  | succ n ih =>
    have h1 : m.cursor + 4 ≤ m.payload.length := by omega
    have h2 : ({ m with cursor := m.cursor + 4 } : OSPMessage).cursor + 4 * n
        ≤ ({ m with cursor := m.cursor + 4 } : OSPMessage).payload.length := by
      show m.cursor + 4 + 4 * n ≤ m.payload.length
      omega
    unfold OSPMessage.getUInts
    simp only [OSPMessage.getUInt, if_pos h1, ih _ h2]
    rw [List.range_succ_eq_map]
    simp only [List.map_cons, List.map_map, Nat.mul_zero, Nat.add_zero, Option.some.injEq,
      Prod.mk.injEq, List.cons.injEq, true_and]
    refine ⟨?_, ?_⟩
    · apply List.map_congr_left
      intro k _
      simp only [Function.comp]
      congr 1
      omega
    · congr 1
      omega

theorem parity_fold (p : Nat → Bool) (l : List Nat) (b : Bool) :
    l.foldl (fun parityOK i => if parityOK then parityOK && p i else parityOK) b
      = (b && l.all p) := by
  induction l generalizing b with
  | nil => simp
  | cons a l ih =>
    simp only [List.foldl_cons, List.all_cons, ih]
    cases b <;> simp

theorem parityOfWords_eq (wd : Nat → Nat) :
    parityOfWords wd = (List.range 10).all (fun i => checkParity (wd i)) := by
  unfold parityOfWords
  rw [parity_fold]
  have e1 : List.range' 1 9 = [1, 2, 3, 4, 5, 6, 7, 8, 9] := by decide
  have e2 : List.range 10 = [0, 1, 2, 3, 4, 5, 6, 7, 8, 9] := by decide
  rw [e1, e2]
  simp only [List.all_cons]

theorem parityOfWords_false (wd : Nat → Nat) (i : Nat) (hi : i < 10)
    (h : checkParity (wd i) = false) : parityOfWords wd = false := by
  rw [parityOfWords_eq]
  rw [List.all_eq_false]
  exact ⟨i, List.mem_range.mpr hi, by simp [h]⟩

theorem mid8_words_getD (payload : List Nat) (i : Nat) (hi : i < 10) :
    ((List.range 10).map (fun k => bigEndian32 payload (3 + 4 * k))).getD i 0
      = mid8Word payload i := by
  have e2 : List.range 10 = [0, 1, 2, 3, 4, 5, 6, 7, 8, 9] := by decide
  rw [e2]
  unfold mid8Word
  interval_cases i <;> rfl

/-- On a 43-byte payload whose MID byte has been read, `getMID8NavData` reads the
channel at offset 1, the satellite at offset 2 and the ten words, leaving the cursor at
the end of the payload. -/
theorem getMID8NavData_read (acq : GNSSDataAcq) (rinex : RinexData)
    (hlen : acq.message.payload.length = 43) (hcur : acq.message.cursor = 1) :
    acq.getMID8NavData rinex =
      if acq.message.payload.getD 1 0 % 256 < MAXCHANNELS then
        some (({ acq with message := { acq.message with cursor := 43 } } :
            GNSSDataAcq).processMID8Words rinex
          (acq.message.payload.getD 1 0 % 256) (acq.message.payload.getD 2 0 % 256)
          (fun i => ((List.range 10).map
            (fun k => bigEndian32 acq.message.payload (3 + 4 * k))).getD i 0))
      else
        some ⟨false, { acq with message := { acq.message with cursor := 3 } }, rinex, none⟩ := by
  obtain ⟨⟨payload, cursor⟩, buf⟩ := acq
  simp only at hlen hcur
  subst hcur
  unfold GNSSDataAcq.getMID8NavData
  have hl : ¬ (OSPMessage.payloadLen ⟨payload, 1⟩ ≠ 43) := by
    simp [OSPMessage.payloadLen, hlen]
  rw [if_neg hl]
  rw [get_some ⟨payload, 1⟩ (by simp [hlen])]
  simp only
  rw [get_some ⟨payload, 1 + 1⟩ (by simp [hlen])]
  simp only
  rw [getUInts_some 10 ⟨payload, 1 + 1 + 1⟩ (by simp [hlen])]
  by_cases hch : payload.getD 1 0 % 256 < MAXCHANNELS
  · rw [if_pos hch, if_neg (not_not_intro ⟨Nat.zero_le _, hch⟩)]
  · rw [if_neg hch, if_pos (fun h => hch h.2)]

/-! ## Helper lemmas on the packing -/

theorem and_ff (x : Nat) : x &&& 0xFF = x % 256 := Nat.and_pow_two_sub_one_eq_mod x 8

theorem and_ffff (x : Nat) : x &&& 0xFFFF = x % 65536 := Nat.and_pow_two_sub_one_eq_mod x 16

theorem pack_pair_value (a b : Nat) (ha : a < 2 ^ 24) (hb : b < 2 ^ 24) :
    ((a >>> 8) &&& 0xFFFF) < 2 ^ 16 ∧
    ((((a &&& 0xFF) <<< 8) ||| ((b >>> 16) &&& 0xFF))) < 2 ^ 16 ∧
    (b &&& 0xFFFF) < 2 ^ 16 ∧
    ((a >>> 8) &&& 0xFFFF) * 2 ^ 32 + (((a &&& 0xFF) <<< 8) ||| ((b >>> 16) &&& 0xFF)) * 2 ^ 16
      + (b &&& 0xFFFF) = a * 2 ^ 24 + b := by
  have e : ((a &&& 0xFF) <<< 8) ||| ((b >>> 16) &&& 0xFF)
      = 2 ^ 8 * (a % 256) + (b / 65536) % 256 := by
    rw [and_ff, and_ff, Nat.shiftLeft_eq, Nat.shiftRight_eq_div_pow, Nat.mul_comm]
    exact (Nat.mul_add_lt_is_or (Nat.mod_lt _ (by decide)) _).symm
  rw [e, and_ffff, and_ffff, Nat.shiftRight_eq_div_pow]
  simp only [Nat.reducePow] at ha hb ⊢
  omega

theorem packBeforeTLM_item (row : Nat → SubframeData) (sv i k : Nat) (hi : i < 3)
    (hk : k < 15) : packBeforeTLM row sv i (15 * i + k) = packedItem row i k := by
  interval_cases i <;> interval_cases k <;> rfl

theorem packEphemeris_item (row : Nat → SubframeData) (sv i k : Nat) (hi : i < 3)
    (hk : k < 15) :
    packEphemeris row sv (15 * i + k) =
      if k = 0 then sv else if k = 1 then packedItem row i 1 &&& 0xFF
      else packedItem row i k := by
  interval_cases i <;> interval_cases k <;> rfl

theorem packedItem_triple (row : Nat → SubframeData) (i j : Nat) (hj : j < 5) :
    packedItem row i (3 * j) = (((row i).words (2 * j) >>> 8) &&& 0xFFFF) ∧
    packedItem row i (3 * j + 1) =
      ((((row i).words (2 * j) &&& 0xFF) <<< 8) ||| (((row i).words (2 * j + 1) >>> 16) &&& 0xFF)) ∧
    packedItem row i (3 * j + 2) = ((row i).words (2 * j + 1) &&& 0xFFFF) := by
  interval_cases j <;> exact ⟨rfl, rfl, rfl⟩

theorem processMID8Words_extracted (acq : GNSSDataAcq) (rinex : RinexData) (ch sv : Nat)
    (wd dt : Nat → Nat)
    (h : (acq.processMID8Words rinex ch sv wd).extracted = some dt) :
    ∃ row : Nat → SubframeData, dt = packEphemeris row sv ∧
      ∀ j, j < 3 →
        (row j).words = ((acq.processMID8Words rinex ch sv wd).acq.subfrmCh ch j).words := by
  unfold GNSSDataAcq.processMID8Words at h ⊢
  simp only at h ⊢
  split_ifs at h ⊢ with h1 h2 h3
  · simp only [Option.some.injEq] at h
    refine ⟨_, h.symm, ?_⟩
    intro j hj
    simp only [true_and, hj, if_true]

/-- Whenever `processMID8Words` calls the extractor, it leaves the row cleared in the
sense of `clearedRow`. -/
theorem processMID8Words_leaves_cleared (acq : GNSSDataAcq) (rinex : RinexData)
    (ch sv : Nat) (wd : Nat → Nat)
    (h : (acq.processMID8Words rinex ch sv wd).extracted.isSome = true) :
    clearedRow (acq.processMID8Words rinex ch sv wd).acq ch := by
  unfold GNSSDataAcq.processMID8Words at h ⊢
  simp only at h ⊢
  split_ifs at h ⊢ with h1 h2 h3
  · unfold GNSSDataAcq.allEphemReceived at h3
    simp only [Bool.and_eq_true, decide_eq_true_eq, true_and] at h3
    obtain ⟨⟨⟨_, _⟩, i1⟩, i2⟩ := h3
    unfold clearedRow
    simp only [true_and, Nat.ofNat_pos, Nat.one_lt_ofNat, Nat.lt_add_one, if_true,
      Nat.reduceLT]
    exact ⟨i1, i2⟩
  all_goals simp at h

/-- On a cleared row every parity-valid page 18 of subframe 4 makes `processMID8Words`
call the extractor, whatever satellite it comes from. -/
theorem processMID8Words_page18_on_cleared (acq : GNSSDataAcq) (rinex : RinexData)
    (ch sv : Nat) (wd : Nat → Nat) (hc : clearedRow acq ch)
    (hp : parityOfWords wd = true)
    (hid : (stripParity (wd 1) >>> 2) &&& 0x07 = 4)
    (hpg : (stripParity (wd 2) >>> 16) &&& 0x3F = 56) :
    (acq.processMID8Words rinex ch sv wd).extracted.isSome = true := by
  obtain ⟨s0, s1, s2, i1, i2⟩ := hc
  have hall : GNSSDataAcq.allEphemReceived
      { acq with subfrmCh := fun c j =>
          if c = ch ∧ j = 4 - 1 then { sv := sv, words := fun i => stripParity (wd i) }
          else acq.subfrmCh c j } ch = true := by
    unfold GNSSDataAcq.allEphemReceived
    simp only [Nat.reduceSub, true_and, OfNat.zero_ne_ofNat, OfNat.one_ne_ofNat,
      Nat.reduceEqDiff, if_false, Bool.and_eq_true, decide_eq_true_eq]
    exact ⟨⟨⟨s0.trans s1.symm, s0.trans s2.symm⟩, i1⟩, i2⟩
  unfold GNSSDataAcq.processMID8Words
  simp only [hp, hid, hpg, not_true_eq_false, if_false, and_self, or_true, if_true, hall,
    Option.isSome_some]

/-! ## Claims -/

/-- C1: `checkParity w` holds exactly when the 6-bit value assembled MSB-first from
the XORs of the bits of the candidate `t` selected by the six ICD masks equals
`w & 0x3F`; bit `5 - i` of that value is the XOR selected by `parityBitMask[i]`. -/
theorem checkParity_iff_spec (w : Nat) :
    (checkParity w = true ↔ specParityValue (specCandidate w) = w &&& 0x3F) ∧
    specParityValue (specCandidate w) < 64 ∧
    (∀ i : Fin 6, (specParityValue (specCandidate w)).testBit (5 - i.val)
      = specXorSelected (parityBitMask.getD i.val 0) (specCandidate w)) ∧
    parityBitMask = [0xBB1F3480, 0x5D8F9A40, 0xAEC7CD00, 0x5763E680, 0x6BB1F340, 0x8B7A89C0] := by
  refine ⟨?_, (specParityValue_bits _).1, (specParityValue_bits _).2, rfl⟩
  unfold checkParity
  simp only [candidate_eq, parity_fold_eq, beq_iff_eq]

/-- C2: for every signed field width `n` of the extractor and every `n`-bit pattern
`v`, `getTwosComplement v n` read as a signed 32-bit integer is `v` when
`v < 2^(n-1)` and `v - 2^n` otherwise; in particular `0`, `2^(n-1)-1`, `2^(n-1)`
and `2^n-1` map to `0`, `2^(n-1)-1`, `-2^(n-1)` and `-1`. -/
theorem getTwosComplement_signed (n v : Nat) (hn : n ∈ [8, 14, 16, 22, 24, 32])
    (hv : v < 2 ^ n) :
    toInt32 (getTwosComplement v n)
        = (if v < 2 ^ (n - 1) then (v : Int) else (v : Int) - 2 ^ n) ∧
    toInt32 (getTwosComplement 0 n) = 0 ∧
    toInt32 (getTwosComplement (2 ^ (n - 1) - 1) n) = 2 ^ (n - 1) - 1 ∧
    toInt32 (getTwosComplement (2 ^ (n - 1)) n) = -(2 ^ (n - 1)) ∧
    toInt32 (getTwosComplement (2 ^ n - 1) n) = -1 := by
  simp only [List.mem_cons, List.mem_singleton, List.not_mem_nil, or_false] at hn
  rcases hn with rfl | rfl | rfl | rfl | rfl | rfl
  all_goals
    unfold toInt32 getTwosComplement
    simp only [Nat.shiftLeft_eq, Nat.reducePow, Nat.reduceSub, Nat.reduceMul, Nat.reduceMod,
      Nat.reduceAdd, ge_iff_le, Nat.reduceLeDiff, Nat.reduceLTLE, if_false, if_true, le_refl,
      Nat.cast_ofNat, Nat.cast_zero] at hv ⊢
    refine ⟨?_, ?_, ?_, ?_, ?_⟩ <;> first | omega | (split_ifs <;> omega)

/-- Witness for C2 at width 14 and the pattern `0x2000`. -/
theorem getTwosComplement_signed_witness :
    toInt32 (getTwosComplement 0x2000 14)
        = (if 0x2000 < 2 ^ (14 - 1) then ((0x2000 : Nat) : Int) else ((0x2000 : Nat) : Int) - 2 ^ 14) ∧
    toInt32 (getTwosComplement 0 14) = 0 ∧
    toInt32 (getTwosComplement (2 ^ (14 - 1) - 1) 14) = 2 ^ (14 - 1) - 1 ∧
    toInt32 (getTwosComplement (2 ^ (14 - 1)) 14) = -(2 ^ (14 - 1)) ∧
    toInt32 (getTwosComplement (2 ^ 14 - 1) 14) = -1 :=
  getTwosComplement_signed 14 0x2000 (by decide) (by decide)

/-- C3: `extractEphemeris` returns false and leaves the model as it is when the low
bytes of `dt[0]`, `dt[15]`, `dt[30]` are not all equal or the three IOD bytes are not all
equal; in every other case it returns true and the model is the result of the single
submission of the record for satellite `dt[0] & 0xFF` to `addGPSNavData`. -/
theorem extractEphemeris_checks (rinex : RinexData) (dt : Nat → Nat) :
    extractEphemeris rinex dt =
      if ((dt 0 &&& 0xFF) = (dt 15 &&& 0xFF) ∧ (dt 15 &&& 0xFF) = (dt 30 &&& 0xFF)) ∧
          ((dt 10 &&& 0xFF) = ((dt 18 >>> 8) &&& 0xFF) ∧ ((dt 18 >>> 8) &&& 0xFF) = (dt 43 &&& 0xFF))
      then (true, (rinex.addGPSNavData ((dt 0 &&& 0xFF : Nat) : Int)
              (extractBroadcastOrbit rinex dt)).2)
      else (false, rinex) := by
  rw [extractEphemeris_unfold]
  by_cases h1 : (dt 0 &&& 0xFF) = (dt 15 &&& 0xFF) ∧ (dt 0 &&& 0xFF) = (dt 30 &&& 0xFF)
  · by_cases h2 : ((dt 18 >>> 8) &&& 0xFF) = (dt 43 &&& 0xFF)
        ∧ ((dt 18 >>> 8) &&& 0xFF) = (dt 10 &&& 0xFF)
    · have c : ((dt 0 &&& 0xFF) = (dt 15 &&& 0xFF) ∧ (dt 15 &&& 0xFF) = (dt 30 &&& 0xFF)) ∧
          ((dt 10 &&& 0xFF) = ((dt 18 >>> 8) &&& 0xFF)
            ∧ ((dt 18 >>> 8) &&& 0xFF) = (dt 43 &&& 0xFF)) :=
        ⟨⟨h1.1, h1.1.symm.trans h1.2⟩, h2.2.symm, h2.1⟩
      rw [if_pos c, if_neg (not_not_intro h1), if_neg (not_not_intro h2)]
    · have c : ¬ (((dt 0 &&& 0xFF) = (dt 15 &&& 0xFF) ∧ (dt 15 &&& 0xFF) = (dt 30 &&& 0xFF)) ∧
          ((dt 10 &&& 0xFF) = ((dt 18 >>> 8) &&& 0xFF)
            ∧ ((dt 18 >>> 8) &&& 0xFF) = (dt 43 &&& 0xFF))) :=
        fun c => h2 ⟨c.2.2, c.2.1.symm⟩
      rw [if_neg c, if_neg (not_not_intro h1), if_pos h2]
  · have c : ¬ (((dt 0 &&& 0xFF) = (dt 15 &&& 0xFF) ∧ (dt 15 &&& 0xFF) = (dt 30 &&& 0xFF)) ∧
        ((dt 10 &&& 0xFF) = ((dt 18 >>> 8) &&& 0xFF)
          ∧ ((dt 18 >>> 8) &&& 0xFF) = (dt 43 &&& 0xFF))) :=
      fun c => h1 ⟨c.1.1, c.1.1.trans c.1.2⟩
    rw [if_neg c, if_pos h1]

/-- C4: `addGPSNavData` returns false, leaving the list unchanged, iff a stored record
has the same satellite, week and T0c; otherwise it appends exactly one record and returns
true.  Starting from an empty list no sequence of submissions stores two records with the
same (satellite, week, T0c), and a tuple submitted twice is refused the second time. -/
theorem addGPSNavData_dedup (rinex : RinexData) (sat : Int) (bo : Nat → Nat → Nat)
    (t : Nat) (subs : List (Int × (Nat → Nat → Nat))) :
    ((rinex.addGPSNavData sat bo).1 = false ↔
      ∃ e ∈ rinex.gpsEphmNav, e.satellite = sat ∧ e.broadcastOrbit 5 2 = bo 5 2
        ∧ e.broadcastOrbit 0 0 = bo 0 0) ∧
    ((rinex.addGPSNavData sat bo).2 =
      if (rinex.addGPSNavData sat bo).1 = true
      then { rinex with gpsEphmNav := rinex.gpsEphmNav ++ [GPSsatNav.mk sat bo] }
      else rinex) ∧
    (((RinexData.mk t []).addAllGPSNavData subs).gpsEphmNav.map GPSsatNav.key).Nodup ∧
    ((rinex.addGPSNavData sat bo).2.addGPSNavData sat bo
      = (false, (rinex.addGPSNavData sat bo).2)) :=
  ⟨addGPSNavData_fst_false_iff rinex sat bo, addGPSNavData_snd rinex sat bo,
    addAllGPSNavData_keys_nodup subs _ (by simp), addGPSNavData_twice rinex sat bo⟩

/-- C6: `allEphemReceived ch` is true exactly when slots 1, 2, 3 (indices 0, 1, 2) of
channel `ch` hold the same satellite id and the 8 LSB of IODC in slot 1 equal the IODE
byte of slot 2 and the IODE byte of slot 3. -/
theorem allEphemReceived_iff (acq : GNSSDataAcq) (ch : Nat) :
    acq.allEphemReceived ch = true ↔
      ((acq.subfrmCh ch 0).sv = (acq.subfrmCh ch 1).sv ∧
        (acq.subfrmCh ch 1).sv = (acq.subfrmCh ch 2).sv) ∧
      (((acq.subfrmCh ch 0).words 7 >>> 16) &&& 0xFF)
        = (((acq.subfrmCh ch 1).words 2 >>> 16) &&& 0xFF) ∧
      (((acq.subfrmCh ch 0).words 7 >>> 16) &&& 0xFF)
        = (((acq.subfrmCh ch 2).words 9 >>> 16) &&& 0xFF) := by
  unfold GNSSDataAcq.allEphemReceived
  simp only [Bool.and_eq_true, decide_eq_true_eq]
  constructor
  · rintro ⟨⟨⟨h1, h2⟩, h3⟩, h4⟩
    exact ⟨⟨h1, h1.symm.trans h2⟩, h3, h4⟩
  · rintro ⟨⟨h1, h2⟩, h3, h4⟩
    exact ⟨⟨⟨h1, h1.trans h2⟩, h3⟩, h4⟩

/-- C9: in every record that `extractEphemeris` hands to the model the IODE of
subframe 2 (`bo[1][0]`), the IODE of subframe 3 (`bo[7][3]`) and the 8 LSB of the IODC
(`bo[6][3] & 0xFF`) coincide, and the IODC `bo[6][3]` is below 1024; the same holds of
every record the call adds to the model's list. -/
theorem extractEphemeris_iod_equal (rinex : RinexData) (dt : Nat → Nat)
    (h : (extractEphemeris rinex dt).1 = true) :
    (extractBroadcastOrbit rinex dt 1 0 = extractBroadcastOrbit rinex dt 7 3 ∧
      extractBroadcastOrbit rinex dt 1 0 = (extractBroadcastOrbit rinex dt 6 3 &&& 0xFF) ∧
      extractBroadcastOrbit rinex dt 6 3 < 1024) ∧
    ∀ e ∈ (extractEphemeris rinex dt).2.gpsEphmNav, e ∈ rinex.gpsEphmNav ∨
      (e.broadcastOrbit 1 0 = e.broadcastOrbit 7 3 ∧
        e.broadcastOrbit 1 0 = (e.broadcastOrbit 6 3 &&& 0xFF) ∧
        e.broadcastOrbit 6 3 < 1024) := by
  obtain ⟨_, h2, h3⟩ := extractEphemeris_accepted rinex dt h
  have key : extractBroadcastOrbit rinex dt 1 0 = extractBroadcastOrbit rinex dt 7 3 ∧
      extractBroadcastOrbit rinex dt 1 0 = (extractBroadcastOrbit rinex dt 6 3 &&& 0xFF) ∧
      extractBroadcastOrbit rinex dt 6 3 < 1024 := by
    rw [bo_1_0, bo_7_3, bo_6_3]
    refine ⟨h2, ?_, ?_⟩
    · rw [Nat.and_distrib_right, Nat.and_assoc, Nat.and_assoc, h3]
      have e1 : (0xFF : Nat) &&& 0xFF = 0xFF := by decide
      have e2 : (0x0300 : Nat) &&& 0xFF = 0 := by decide
      rw [e1, e2, Nat.and_zero, Nat.or_zero]
    · have a : dt 10 &&& 0xFF < 2 ^ 10 :=
        Nat.and_lt_two_pow _ (by decide : (0xFF : Nat) < 2 ^ 10)
      have b : dt 4 &&& 0x0300 < 2 ^ 10 :=
        Nat.and_lt_two_pow _ (by decide : (0x0300 : Nat) < 2 ^ 10)
      exact Nat.or_lt_two_pow a b
  refine ⟨key, ?_⟩
  intro e he
  rcases extractEphemeris_new_record rinex dt e he with he | he
  · exact Or.inl he
  · right
    rw [he]
    exact key

/-- Witness for C9 at `exampleDt`. -/
theorem extractEphemeris_iod_equal_witness :
    (extractBroadcastOrbit ⟨0, []⟩ exampleDt 1 0 = extractBroadcastOrbit ⟨0, []⟩ exampleDt 7 3 ∧
      extractBroadcastOrbit ⟨0, []⟩ exampleDt 1 0
        = (extractBroadcastOrbit ⟨0, []⟩ exampleDt 6 3 &&& 0xFF) ∧
      extractBroadcastOrbit ⟨0, []⟩ exampleDt 6 3 < 1024) ∧
    ∀ e ∈ (extractEphemeris ⟨0, []⟩ exampleDt).2.gpsEphmNav,
      e ∈ (RinexData.mk 0 []).gpsEphmNav ∨
      (e.broadcastOrbit 1 0 = e.broadcastOrbit 7 3 ∧
        e.broadcastOrbit 1 0 = (e.broadcastOrbit 6 3 &&& 0xFF) ∧
        e.broadcastOrbit 6 3 < 1024) :=
  extractEphemeris_iod_equal ⟨0, []⟩ exampleDt (by decide)

/-- C10: for every input accepted by `extractEphemeris` the week number of the record
(`bo[5][2]`) is `((dt[3] >> 6) & 0x3FF) + 1024`, hence lies in 1024..2047; the same
holds of every record the call adds to the model's list. -/
theorem extractEphemeris_week (rinex : RinexData) (dt : Nat → Nat)
    (h : (extractEphemeris rinex dt).1 = true) :
    (extractBroadcastOrbit rinex dt 5 2 = ((dt 3 >>> 6) &&& 0x3FF) + 1024 ∧
      1024 ≤ extractBroadcastOrbit rinex dt 5 2 ∧ extractBroadcastOrbit rinex dt 5 2 ≤ 2047) ∧
    ∀ e ∈ (extractEphemeris rinex dt).2.gpsEphmNav, e ∈ rinex.gpsEphmNav ∨
      (e.broadcastOrbit 5 2 = ((dt 3 >>> 6) &&& 0x3FF) + 1024 ∧
        1024 ≤ e.broadcastOrbit 5 2 ∧ e.broadcastOrbit 5 2 ≤ 2047) := by
  have _accepted := extractEphemeris_accepted rinex dt h
  have key : extractBroadcastOrbit rinex dt 5 2 = ((dt 3 >>> 6) &&& 0x3FF) + 1024 ∧
      1024 ≤ extractBroadcastOrbit rinex dt 5 2 ∧ extractBroadcastOrbit rinex dt 5 2 ≤ 2047 := by
    rw [bo_5_2]
    have a : (dt 3 >>> 6) &&& 0x3FF < 2 ^ 10 :=
      Nat.and_lt_two_pow _ (by decide : (0x3FF : Nat) < 2 ^ 10)
    refine ⟨rfl, ?_, ?_⟩ <;> omega
  refine ⟨key, ?_⟩
  intro e he
  rcases extractEphemeris_new_record rinex dt e he with he | he
  · exact Or.inl he
  · right
    rw [he]
    exact key

/-- Witness for C10 at `exampleDt`. -/
theorem extractEphemeris_week_witness :
    (extractBroadcastOrbit ⟨0, []⟩ exampleDt 5 2 = ((exampleDt 3 >>> 6) &&& 0x3FF) + 1024 ∧
      1024 ≤ extractBroadcastOrbit ⟨0, []⟩ exampleDt 5 2 ∧
      extractBroadcastOrbit ⟨0, []⟩ exampleDt 5 2 ≤ 2047) ∧
    ∀ e ∈ (extractEphemeris ⟨0, []⟩ exampleDt).2.gpsEphmNav,
      e ∈ (RinexData.mk 0 []).gpsEphmNav ∨
      (e.broadcastOrbit 5 2 = ((exampleDt 3 >>> 6) &&& 0x3FF) + 1024 ∧
        1024 ≤ e.broadcastOrbit 5 2 ∧ e.broadcastOrbit 5 2 ≤ 2047) :=
  extractEphemeris_week ⟨0, []⟩ exampleDt (by decide)

/-- C5: on a MID 8 payload of length 43 with channel in 0..11 in which at least one of
the ten words fails `checkParity`, `getMID8NavData` returns false, leaves the whole
subframe assembly buffer unchanged and adds no ephemeris record (the model is unchanged
and the extractor is not called). -/
theorem getMID8NavData_bad_parity (acq : GNSSDataAcq) (rinex : RinexData) (i : Nat)
    (hlen : acq.message.payload.length = 43) (hcur : acq.message.cursor = 1)
    (hch : acq.message.payload.getD 1 0 % 256 < 12)
    (hi : i < 10) (hbad : checkParity (mid8Word acq.message.payload i) = false) :
    ∃ r, acq.getMID8NavData rinex = some r ∧ r.ret = false ∧
      r.acq.subfrmCh = acq.subfrmCh ∧ r.rinex = rinex ∧ r.extracted = none := by
  have hch2 : acq.message.payload.getD 1 0 % 256 < MAXCHANNELS := hch
  rw [getMID8NavData_read acq rinex hlen hcur, if_pos hch2]
  refine ⟨_, rfl, ?_⟩
  have hp : parityOfWords (fun i => ((List.range 10).map
      (fun k => bigEndian32 acq.message.payload (3 + 4 * k))).getD i 0) = false := by
    apply parityOfWords_false _ i hi
    show checkParity (((List.range 10).map
      (fun k => bigEndian32 acq.message.payload (3 + 4 * k))).getD i 0) = false
    rw [mid8_words_getD _ i hi]
    exact hbad
  unfold GNSSDataAcq.processMID8Words
  simp only [hp, Bool.false_eq_true, not_false_eq_true, if_true, and_self]

/-- Witness for C5: `badParityPayload` delivered to a freshly constructed object. -/
theorem getMID8NavData_bad_parity_witness :
    ∃ r, (GNSSDataAcq.construct zeroedMemory ⟨badParityPayload, 1⟩).getMID8NavData ⟨0, []⟩
        = some r ∧ r.ret = false ∧
      r.acq.subfrmCh = (GNSSDataAcq.construct zeroedMemory ⟨badParityPayload, 1⟩).subfrmCh ∧
      r.rinex = ⟨0, []⟩ ∧ r.extracted = none :=
  getMID8NavData_bad_parity (GNSSDataAcq.construct zeroedMemory ⟨badParityPayload, 1⟩)
    ⟨0, []⟩ 0 (by decide) (by decide) (by decide) (by decide) (by decide)

/-- C7, evaluated at the failing input.  On a freshly constructed object the payloads
of subframes 1, 2, 3 of satellite 9 on channel 0 complete the row: the extractor is
called once and the row is cleared.  One further MID 8 on that channel, carrying
page 18 of subframe 4, calls the extractor a second time although none of subframes 1,
2, 3 has been stored again; when that page comes from satellite 17, the words left over
from satellite 9 are stored as a record of satellite 17.  And when the object memory is
all zeros, that page alone makes a freshly constructed buffer count as complete. -/
theorem mid8_extracts_again_after_clear :
    (deliverAllMID8 freshState [sf1Payload, sf2Payload]).map (fun s => s.2.2) = some 0 ∧
    (deliverAllMID8 freshState [sf1Payload, sf2Payload, sf3Payload]).map (fun s => s.2.2)
      = some 1 ∧
    (deliverAllMID8 freshState [sf1Payload, sf2Payload, sf3Payload]).map
        (fun s => ((s.1.subfrmCh 0 0).sv, (s.1.subfrmCh 0 1).sv, (s.1.subfrmCh 0 2).sv))
      = some (0, 0, 0) ∧
    (deliverAllMID8 freshState [sf1Payload, sf2Payload, sf3Payload, sf4Page18Payload]).map
        (fun s => s.2.2) = some 2 ∧
    (deliverAllMID8 freshState [sf1Payload, sf2Payload, sf3Payload, sf4Page18OtherSat]).map
        (fun s => (s.2.2, s.2.1.gpsEphmNav.map GPSsatNav.key))
      = some (2, [(9, 1124, 0), (17, 1124, 0)]) ∧
    (deliverAllMID8 freshState [sf4Page18Payload]).map
        (fun s => (s.2.2, s.2.1.gpsEphmNav.map GPSsatNav.key)) = some (1, [(9, 1024, 0)]) :=
  ⟨by decide!, by decide!, by decide!, by decide!, by decide!, by decide!⟩

/-- C8: in the packing of `getMID8NavData`, for every subframe index `i` in 0..2 and
every pair `j` in 0..4 of stored 24-bit words, the three packed items are below `2^16`
and, before the TLM overwrite, `dt[15i+3j] * 2^32 + dt[15i+3j+1] * 2^16 + dt[15i+3j+2]`
equals `words[2j] * 2^24 + words[2j+1]`; afterwards `dt[15i]` is the satellite id, the
high byte of `dt[15i+1]` is zero (its low byte is kept) and the other items are as
before the overwrite. -/
theorem packEphemeris_layout (row : Nat → SubframeData) (sv i j : Nat) (hi : i < 3) (hj : j < 5)
    (ha : (row i).words (2 * j) < 2 ^ 24) (hb : (row i).words (2 * j + 1) < 2 ^ 24) :
    (packBeforeTLM row sv i (15 * i + 3 * j) < 2 ^ 16 ∧
      packBeforeTLM row sv i (15 * i + 3 * j + 1) < 2 ^ 16 ∧
      packBeforeTLM row sv i (15 * i + 3 * j + 2) < 2 ^ 16) ∧
    packBeforeTLM row sv i (15 * i + 3 * j) * 2 ^ 32
        + packBeforeTLM row sv i (15 * i + 3 * j + 1) * 2 ^ 16
        + packBeforeTLM row sv i (15 * i + 3 * j + 2)
      = (row i).words (2 * j) * 2 ^ 24 + (row i).words (2 * j + 1) ∧
    packEphemeris row sv (15 * i) = sv ∧
    packEphemeris row sv (15 * i + 1) = (packBeforeTLM row sv i (15 * i + 1) &&& 0xFF) ∧
    packEphemeris row sv (15 * i + 1) >>> 8 = 0 ∧
    (∀ k : Fin 15, 2 ≤ k.val →
      packEphemeris row sv (15 * i + k.val) = packBeforeTLM row sv i (15 * i + k.val)) ∧
    (∀ (acq : GNSSDataAcq) (rinex : RinexData) (ch : Nat) (wd dt : Nat → Nat),
      (acq.processMID8Words rinex ch sv wd).extracted = some dt →
      ∃ stored : Nat → SubframeData, dt = packEphemeris stored sv ∧
        ∀ s, s < 3 → (stored s).words
          = ((acq.processMID8Words rinex ch sv wd).acq.subfrmCh ch s).words) := by
  obtain ⟨t0, t1, t2⟩ := packedItem_triple row i j hj
  obtain ⟨b0, b1, b2, hv⟩ := pack_pair_value _ _ ha hb
  have p0 : packBeforeTLM row sv i (15 * i + 3 * j) = packedItem row i (3 * j) :=
    packBeforeTLM_item row sv i (3 * j) hi (by omega)
  have p1 : packBeforeTLM row sv i (15 * i + 3 * j + 1) = packedItem row i (3 * j + 1) := by
    rw [Nat.add_assoc]
    exact packBeforeTLM_item row sv i (3 * j + 1) hi (by omega)
  have p2 : packBeforeTLM row sv i (15 * i + 3 * j + 2) = packedItem row i (3 * j + 2) := by
    rw [Nat.add_assoc]
    exact packBeforeTLM_item row sv i (3 * j + 2) hi (by omega)
  have f1 : packEphemeris row sv (15 * i + 1) = (packBeforeTLM row sv i (15 * i + 1) &&& 0xFF) := by
    rw [packEphemeris_item row sv i 1 hi (by decide), packBeforeTLM_item row sv i 1 hi (by decide)]
    rfl
  refine ⟨⟨?_, ?_, ?_⟩, ?_, ?_, f1, ?_, ?_,
    fun acq rinex ch wd dt h => processMID8Words_extracted acq rinex ch sv wd dt h⟩
  · rw [p0, t0]; exact b0
  · rw [p1, t1]; exact b1
  · rw [p2, t2]; exact b2
  · rw [p0, p1, p2, t0, t1, t2]; exact hv
  · have h := packEphemeris_item row sv i 0 hi (by decide)
    rw [Nat.add_zero] at h
    rw [h]
    rfl
  · rw [f1, and_ff, Nat.shiftRight_eq_div_pow]
    exact Nat.div_eq_of_lt (Nat.mod_lt _ (by decide))
  · intro k hk
    rw [packEphemeris_item row sv i k.val hi k.isLt, packBeforeTLM_item row sv i k.val hi k.isLt]
    have h0 : k.val ≠ 0 := by omega
    have h1 : k.val ≠ 1 := by omega
    rw [if_neg h0, if_neg h1]

/-- Witness for C8: subframe index 1, word pair 2 of `exampleRow`, satellite 9. -/
theorem packEphemeris_layout_witness :
    (packBeforeTLM exampleRow 9 1 (15 * 1 + 3 * 2) < 2 ^ 16 ∧
      packBeforeTLM exampleRow 9 1 (15 * 1 + 3 * 2 + 1) < 2 ^ 16 ∧
      packBeforeTLM exampleRow 9 1 (15 * 1 + 3 * 2 + 2) < 2 ^ 16) ∧
    packBeforeTLM exampleRow 9 1 (15 * 1 + 3 * 2) * 2 ^ 32
        + packBeforeTLM exampleRow 9 1 (15 * 1 + 3 * 2 + 1) * 2 ^ 16
        + packBeforeTLM exampleRow 9 1 (15 * 1 + 3 * 2 + 2)
      = (exampleRow 1).words (2 * 2) * 2 ^ 24 + (exampleRow 1).words (2 * 2 + 1) ∧
    packEphemeris exampleRow 9 (15 * 1) = 9 ∧
    packEphemeris exampleRow 9 (15 * 1 + 1) = (packBeforeTLM exampleRow 9 1 (15 * 1 + 1) &&& 0xFF) ∧
    packEphemeris exampleRow 9 (15 * 1 + 1) >>> 8 = 0 ∧
    (∀ k : Fin 15, 2 ≤ k.val →
      packEphemeris exampleRow 9 (15 * 1 + k.val) = packBeforeTLM exampleRow 9 1 (15 * 1 + k.val)) ∧
    (∀ (acq : GNSSDataAcq) (rinex : RinexData) (ch : Nat) (wd dt : Nat → Nat),
      (acq.processMID8Words rinex ch 9 wd).extracted = some dt →
      ∃ stored : Nat → SubframeData, dt = packEphemeris stored 9 ∧
        ∀ s, s < 3 → (stored s).words
          = ((acq.processMID8Words rinex ch 9 wd).acq.subfrmCh ch s).words) :=
  packEphemeris_layout exampleRow 9 1 2 (by decide) (by decide) (by decide) (by decide)

/-! ## Helper lemmas on the message cursor -/

theorem get_mk (payload : List Nat) (c : Nat) (h : c < payload.length) :
    (OSPMessage.mk payload c).get = some (payload.getD c 0 % 256, ⟨payload, c + 1⟩) := by
  unfold OSPMessage.get
  rw [if_pos h]

theorem getUInt_mk (payload : List Nat) (c : Nat) (h : c + 4 ≤ payload.length) :
    (OSPMessage.mk payload c).getUInt = some (bigEndian32 payload c, ⟨payload, c + 4⟩) := by
  unfold OSPMessage.getUInt
  rw [if_pos h]

theorem getInt_mk (payload : List Nat) (c : Nat) (h : c + 4 ≤ payload.length) :
    (OSPMessage.mk payload c).getInt = some (toInt32 (bigEndian32 payload c), ⟨payload, c + 4⟩) := by
  unfold OSPMessage.getInt
  rw [getUInt_mk payload c h]

theorem getFloat_mk (payload : List Nat) (c : Nat) (h : c + 4 ≤ payload.length) :
    (OSPMessage.mk payload c).getFloat
      = some (decodeF32 (bigEndian32 payload c), ⟨payload, c + 4⟩) := by
  unfold OSPMessage.getFloat
  rw [getUInt_mk payload c h]

theorem getDouble_mk (payload : List Nat) (c : Nat) (h : c + 8 ≤ payload.length) :
    (OSPMessage.mk payload c).getDouble
      = some (ieee64 (bigEndian64 payload c), ⟨payload, c + 8⟩) := by
  unfold OSPMessage.getDouble
  rw [if_pos h]

theorem ieee64_toDouble (bits : Nat) : (ieee64 bits).toDouble = decodeF64 bits := by
  unfold ieee64 decodeF64
  by_cases he : (bits >>> 52) &&& 0x7FF = 0x7FF
  · by_cases hm : bits &&& 0xFFFFFFFFFFFFF = 0
    · simp [he, hm, IEEE64.toDouble]
    · simp [he, hm, IEEE64.toDouble]
  · simp only [he, if_false, IEEE64.toDouble]

theorem ieee64_nan_iff (bits : Nat) :
    ieee64 bits = IEEE64.nan ↔
      ((bits >>> 52) &&& 0x7FF = 0x7FF ∧ bits &&& 0xFFFFFFFFFFFFF ≠ 0) := by
  unfold ieee64
  by_cases he : (bits >>> 52) &&& 0x7FF = 0x7FF
  · by_cases hm : bits &&& 0xFFFFFFFFFFFFF = 0
    · simp [he, hm]
    · simp [he, hm]
  · simp [he]

theorem IEEE64.eq_true_iff (a b : IEEE64) : a.eq b = true ↔ (a = b ∧ a ≠ IEEE64.nan) := by
  cases a <;> cases b <;> simp [IEEE64.eq]

theorem IEEE64.eq_self (a : IEEE64) (h : a ≠ IEEE64.nan) : a.eq a = true :=
  (IEEE64.eq_true_iff a a).2 ⟨rfl, h⟩

theorem IEEE64.eq_nan_left (b : IEEE64) : IEEE64.nan.eq b = false := by
  cases b <;> rfl

theorem getUShort_mk (payload : List Nat) (c : Nat) (h : c + 2 ≤ payload.length) :
    (OSPMessage.mk payload c).getUShort
      = some (((payload.getD c 0 % 256) <<< 8) ||| (payload.getD (c + 1) 0 % 256),
          ⟨payload, c + 2⟩) := by
  unfold OSPMessage.getUShort
  rw [if_pos h]

theorem gets_mk (n : Nat) (payload : List Nat) (c : Nat) (h : c + n ≤ payload.length) :
    (OSPMessage.mk payload c).gets n
      = some ((List.range n).map (fun k => payload.getD (c + k) 0 % 256), ⟨payload, c + n⟩) := by
  induction n generalizing c with
  | zero => simp [OSPMessage.gets]
  | succ n ih =>
    unfold OSPMessage.gets
    rw [get_mk payload c (by omega)]
    simp only
    rw [ih (c + 1) (by omega), List.range_succ_eq_map]
    simp only [List.map_cons, List.map_map, Nat.add_zero, Option.some.injEq, Prod.mk.injEq,
      List.cons.injEq, true_and, OSPMessage.mk.injEq]
    refine ⟨?_, by omega⟩
    apply List.map_congr_left
    intro k _
    simp only [Function.comp]
    congr 2
    omega

/-! ## Helper lemmas on the handlers -/

theorem getMID2PosData_read (self : Acquisition) (rinex : RinexObsData)
    (hlen : self.core.message.payload.length = 41) (hcur : self.core.message.cursor = 1) :
    self.getMID2PosData rinex =
      if ((self.core.message.payload.getD 28 0 % 256 : Nat) : Int) < self.minSVSfix then
        some (false, ⟨self.core.message.payload, 29⟩, rinex)
      else
        some (true, ⟨self.core.message.payload, 29⟩,
          rinex.setPosition (toInt32 (bigEndian32 self.core.message.payload 1) : ℚ)
            (toInt32 (bigEndian32 self.core.message.payload 5) : ℚ)
            (toInt32 (bigEndian32 self.core.message.payload 9) : ℚ)) := by
  obtain ⟨rcv, minsv, file, ⟨⟨payload, cursor⟩, buf⟩⟩ := self
  simp only at hlen hcur
  subst hcur
  unfold Acquisition.getMID2PosData
  have hl : ¬ (OSPMessage.payloadLen ⟨payload, 1⟩ ≠ 41) := by
    simp [OSPMessage.payloadLen, hlen]
  simp only [if_neg hl, getInt_mk payload 1 (by omega), getInt_mk payload (1 + 4) (by omega),
    getInt_mk payload (1 + 4 + 4) (by omega), OSPMessage.skipBytes,
    get_mk payload (1 + 4 + 4 + 4 + 15) (by omega)]

theorem getMID2PosDataRTK_read (self : Acquisition) (rtko : RTKobservation)
    (hlen : self.core.message.payload.length = 41) (hcur : self.core.message.cursor = 1) :
    self.getMID2PosDataRTK rtko =
      if ((self.core.message.payload.getD 28 0 % 256 : Nat) : Int) < self.minSVSfix then
        some (false, ⟨self.core.message.payload, 29⟩, rtko)
      else
        some (true, ⟨self.core.message.payload, 29⟩,
          rtko.setPosition
            ((((self.core.message.payload.getD 22 0 % 256) <<< 8)
              ||| (self.core.message.payload.getD 23 0 % 256) : Nat) + 1024)
            ((toInt32 (bigEndian32 self.core.message.payload 24) : ℚ) / 100)
            (toInt32 (bigEndian32 self.core.message.payload 1) : ℚ)
            (toInt32 (bigEndian32 self.core.message.payload 5) : ℚ)
            (toInt32 (bigEndian32 self.core.message.payload 9) : ℚ) 5
            ((self.core.message.payload.getD 28 0 % 256 : Nat) : Int)) := by
  obtain ⟨rcv, minsv, file, ⟨⟨payload, cursor⟩, buf⟩⟩ := self
  simp only at hlen hcur
  subst hcur
  unfold Acquisition.getMID2PosDataRTK
  have hl : ¬ (OSPMessage.payloadLen ⟨payload, 1⟩ ≠ 41) := by
    simp [OSPMessage.payloadLen, hlen]
  simp only [if_neg hl, getInt_mk payload 1 (by omega), getInt_mk payload (1 + 4) (by omega),
    getInt_mk payload (1 + 4 + 4) (by omega), OSPMessage.skipBytes,
    getUShort_mk payload (1 + 4 + 4 + 4 + 9) (by omega),
    getInt_mk payload (1 + 4 + 4 + 4 + 9 + 2) (by omega),
    get_mk payload (1 + 4 + 4 + 4 + 9 + 2 + 4) (by omega)]

theorem getMID7TimeData_read (self : Acquisition) (rinex : RinexObsData)
    (hlen : self.core.message.payload.length = 20) (hcur : self.core.message.cursor = 1) :
    self.getMID7TimeData rinex =
      if ((self.core.message.payload.getD 7 0 % 256 : Nat) : Int) < self.minSVSfix then
        some (false, ⟨self.core.message.payload, 8⟩, rinex)
      else
        some (true, ⟨self.core.message.payload, 16⟩,
          rinex.setGPSTime
            ((((self.core.message.payload.getD 1 0 % 256) <<< 8)
              ||| (self.core.message.payload.getD 2 0 % 256) : Nat) : Int)
            ((bigEndian32 self.core.message.payload 3 : ℚ) / 100)
            ((bigEndian32 self.core.message.payload 12 : ℚ) * (1 / 1000000000))) := by
  obtain ⟨rcv, minsv, file, ⟨⟨payload, cursor⟩, buf⟩⟩ := self
  simp only at hlen hcur
  subst hcur
  unfold Acquisition.getMID7TimeData
  have hl : ¬ (OSPMessage.payloadLen ⟨payload, 1⟩ ≠ 20) := by
    simp [OSPMessage.payloadLen, hlen]
  simp only [if_neg hl, getUShort_mk payload 1 (by omega), getUInt_mk payload (1 + 2) (by omega),
    get_mk payload (1 + 2 + 4) (by omega), getUInt_mk payload (1 + 2 + 4 + 1) (by omega),
    getUInt_mk payload (1 + 2 + 4 + 1 + 4) (by omega)]

theorem getMID7Interval_read (self : Acquisition) (rinex : RinexObsData)
    (hlen : self.core.message.payload.length = 20) (hcur : self.core.message.cursor = 1) :
    self.getMID7Interval rinex =
      if ((self.core.message.payload.getD 7 0 % 256 : Nat) : Int) < self.minSVSfix then
        some (false, ⟨self.core.message.payload, 8⟩, rinex)
      else
        some (true, ⟨self.core.message.payload, 8⟩,
          rinex.setIntervalTime
            ((((self.core.message.payload.getD 1 0 % 256) <<< 8)
              ||| (self.core.message.payload.getD 2 0 % 256) : Nat) : Int)
            ((bigEndian32 self.core.message.payload 3 : ℚ) / 100)) := by
  obtain ⟨rcv, minsv, file, ⟨⟨payload, cursor⟩, buf⟩⟩ := self
  simp only at hlen hcur
  subst hcur
  unfold Acquisition.getMID7Interval
  have hl : ¬ (OSPMessage.payloadLen ⟨payload, 1⟩ ≠ 20) := by
    simp [OSPMessage.payloadLen, hlen]
  simp only [if_neg hl, getUShort_mk payload 1 (by omega), getUInt_mk payload (1 + 2) (by omega),
    get_mk payload (1 + 2 + 4) (by omega)]

theorem getMID28NavData_read (self : Acquisition) (rinex : RinexObsData) (sameEpoch : Bool)
    (hlen : self.core.message.payload.length = 56) (hcur : self.core.message.cursor = 1) :
    self.getMID28NavData rinex sameEpoch =
      some ((processMID28 rinex (mid28Fields self.core.message.payload)).1,
        (processMID28 rinex (mid28Fields self.core.message.payload)).2.1,
        ⟨self.core.message.payload, 48⟩,
        (processMID28 rinex (mid28Fields self.core.message.payload)).2.2) := by
  obtain ⟨rcv, minsv, file, ⟨⟨payload, cursor⟩, buf⟩⟩ := self
  simp only at hlen hcur
  subst hcur
  unfold Acquisition.getMID28NavData
  have hl : ¬ (OSPMessage.payloadLen ⟨payload, 1⟩ ≠ 56) := by
    simp [OSPMessage.payloadLen, hlen]
  simp only [if_neg hl, get_mk payload 1 (by omega), getInt_mk payload (1 + 1) (by omega),
    get_mk payload (1 + 1 + 4) (by omega), getDouble_mk payload (1 + 1 + 4 + 1) (by omega),
    getDouble_mk payload (1 + 1 + 4 + 1 + 8) (by omega),
    getFloat_mk payload (1 + 1 + 4 + 1 + 8 + 8) (by omega),
    getDouble_mk payload (1 + 1 + 4 + 1 + 8 + 8 + 4) (by omega),
    getUShort_mk payload (1 + 1 + 4 + 1 + 8 + 8 + 4 + 8) (by omega),
    get_mk payload (1 + 1 + 4 + 1 + 8 + 8 + 4 + 8 + 2) (by omega),
    gets_mk 10 payload (1 + 1 + 4 + 1 + 8 + 8 + 4 + 8 + 2 + 1) (by omega), ieee64_toDouble]
  rfl

theorem addMeasurement_stored (rinex : RinexObsData) (sys : Char) (sat : Int) (obsType : String)
    (value : Double) (lol strg : Int) (tTag : IEEE64) (i j : Nat)
    (hnan : tTag ≠ IEEE64.nan)
    (htag : rinex.observations = [] ∨ rinex.epochTimeTag = tTag)
    (hf : findObsType sys obsType rinex.systems 0 = some (i, j)) :
    rinex.addMeasurement sys sat obsType value lol strg tTag =
      (true, { rinex with
        epochTimeTag := tTag
        observations := rinex.observations ++ [SatObsData.mk i sat tTag j value lol strg] }) := by
  unfold RinexObsData.addMeasurement
  by_cases hobs : rinex.observations.length = 0
  · simp only [hobs, if_true, IEEE64.eq_self tTag hnan, hf]
  · have ht : rinex.epochTimeTag = tTag := by
      rcases htag with h | h
      · rw [h] at hobs
        exact absurd rfl hobs
      · exact h
    simp only [hobs, if_false, ht, IEEE64.eq_self tTag hnan, if_true, hf]

theorem worstCN0_fold (l : List Nat) (a : Nat) :
    (l.foldl (fun strength carrier2noise =>
        if carrier2noise < strength then carrier2noise else strength) a ∈ a :: l) ∧
    ∀ x ∈ a :: l, l.foldl (fun strength carrier2noise =>
        if carrier2noise < strength then carrier2noise else strength) a ≤ x := by
  induction l generalizing a with
  | nil => simp
  | cons b l ih =>
    simp only [List.foldl_cons]
    obtain ⟨h1, h2⟩ := ih (if b < a then b else a)
    refine ⟨?_, ?_⟩
    · simp only [List.mem_cons] at h1 ⊢
      rcases h1 with h | h
      · rw [h]
        split_ifs
        · exact Or.inr (Or.inl rfl)
        · exact Or.inl rfl
      · exact Or.inr (Or.inr h)
    · intro x hx
      simp only [List.mem_cons] at hx
      have hm := h2 (if b < a then b else a) (List.mem_cons_self _ _)
      have ha : (if b < a then b else a) ≤ a := by split_ifs <;> omega
      have hb : (if b < a then b else a) ≤ b := by split_ifs <;> omega
      rcases hx with hx | hx | hx
      · rw [hx]
        exact le_trans hm ha
      · rw [hx]
        exact le_trans hm hb
      · exact h2 x (List.mem_cons_of_mem _ hx)

theorem worstCN0_min (cn0 : List Nat) (hne : cn0 ≠ []) :
    worstCN0 cn0 ∈ cn0 ∧ ∀ x ∈ cn0, worstCN0 cn0 ≤ x := by
  cases cn0 with
  | nil => exact absurd rfl hne
  | cons a l => exact worstCN0_fold l a

/-! ## Claims on the per-MID handlers -/

/-- C11: for MID 2 (41, RINEX and RTK handlers), MID 7 (20, both handlers), MID 8 (43),
MID 15 (92), MID 19 (65) and MID 28 (56): when the payload length differs from the
expected constant the handler returns false, leaves the message cursor where it is (no
field after the MID byte is read) and leaves the model and the subframe assembly
buffer unchanged. -/
theorem handlers_reject_wrong_length (self : Acquisition) (rinex : RinexObsData)
    (rtko : RTKobservation) (sameEpoch : Bool) :
    (self.core.message.payloadLen ≠ 41 →
      self.getMID2PosData rinex = some (false, self.core.message, rinex)) ∧
    (self.core.message.payloadLen ≠ 41 →
      self.getMID2PosDataRTK rtko = some (false, self.core.message, rtko)) ∧
    (self.core.message.payloadLen ≠ 20 →
      self.getMID7TimeData rinex = some (false, self.core.message, rinex)) ∧
    (self.core.message.payloadLen ≠ 20 →
      self.getMID7Interval rinex = some (false, self.core.message, rinex)) ∧
    (self.core.message.payloadLen ≠ 43 →
      self.getMID8NavData rinex = some (false, self.core, rinex)) ∧
    (self.core.message.payloadLen ≠ 92 →
      self.getMID15NavData rinex = some (false, self.core.message, rinex)) ∧
    (self.core.message.payloadLen ≠ 65 →
      self.getMID19Masks rtko = some (false, self.core.message, rtko)) ∧
    (self.core.message.payloadLen ≠ 56 →
      self.getMID28NavData rinex sameEpoch
        = some (false, sameEpoch, self.core.message, rinex)) := by
  refine ⟨?_, ?_, ?_, ?_, ?_, ?_, ?_, ?_⟩
  · intro h
    unfold Acquisition.getMID2PosData
    rw [if_pos h]
  · intro h
    unfold Acquisition.getMID2PosDataRTK
    rw [if_pos h]
  · intro h
    unfold Acquisition.getMID7TimeData
    rw [if_pos h]
  · intro h
    unfold Acquisition.getMID7Interval
    rw [if_pos h]
  · intro h
    unfold Acquisition.getMID8NavData GNSSDataAcq.getMID8NavData
    rw [if_pos h]
  · intro h
    unfold Acquisition.getMID15NavData
    rw [if_pos h]
  · intro h
    unfold Acquisition.getMID19Masks
    rw [if_pos h]
  · intro h
    unfold Acquisition.getMID28NavData
    rw [if_pos h]

/-- C12: on a 41-byte MID 2 payload both `getMID2PosData` variants return true iff the
satellites-in-fix byte at payload offset 28 is at least `minSVSfix`; on a 20-byte MID 7
payload `getMID7TimeData` and `getMID7Interval` return true iff the satellites byte at
offset 7 is at least `minSVSfix`.  Whenever one of them returns false the model
(position or solution, GPS week, TOW, clock bias, observation interval) is unchanged. -/
theorem handlers_minimum_satellites (self : Acquisition) (rinex : RinexObsData)
    (rtko : RTKobservation) (hcur : self.core.message.cursor = 1) :
    (self.core.message.payload.length = 41 →
      (∃ m r, self.getMID2PosData rinex
          = some (decide (self.minSVSfix ≤ ((self.core.message.payload.getD 28 0 % 256 : Nat) : Int)),
              m, r) ∧
        (¬ self.minSVSfix ≤ ((self.core.message.payload.getD 28 0 % 256 : Nat) : Int) → r = rinex)) ∧
      (∃ m r, self.getMID2PosDataRTK rtko
          = some (decide (self.minSVSfix ≤ ((self.core.message.payload.getD 28 0 % 256 : Nat) : Int)),
              m, r) ∧
        (¬ self.minSVSfix ≤ ((self.core.message.payload.getD 28 0 % 256 : Nat) : Int) → r = rtko))) ∧
    (self.core.message.payload.length = 20 →
      (∃ m r, self.getMID7TimeData rinex
          = some (decide (self.minSVSfix ≤ ((self.core.message.payload.getD 7 0 % 256 : Nat) : Int)),
              m, r) ∧
        (¬ self.minSVSfix ≤ ((self.core.message.payload.getD 7 0 % 256 : Nat) : Int) → r = rinex)) ∧
      (∃ m r, self.getMID7Interval rinex
          = some (decide (self.minSVSfix ≤ ((self.core.message.payload.getD 7 0 % 256 : Nat) : Int)),
              m, r) ∧
        (¬ self.minSVSfix ≤ ((self.core.message.payload.getD 7 0 % 256 : Nat) : Int) → r = rinex))) := by
  refine ⟨fun hlen => ⟨?_, ?_⟩, fun hlen => ⟨?_, ?_⟩⟩
  · rw [getMID2PosData_read self rinex hlen hcur]
    by_cases h : ((self.core.message.payload.getD 28 0 % 256 : Nat) : Int) < self.minSVSfix
    · rw [if_pos h, decide_eq_false (not_le.mpr h)]
      exact ⟨_, _, rfl, fun _ => rfl⟩
    · rw [if_neg h, decide_eq_true (not_lt.mp h)]
      exact ⟨_, _, rfl, fun hn => absurd (not_lt.mp h) hn⟩
  · rw [getMID2PosDataRTK_read self rtko hlen hcur]
    by_cases h : ((self.core.message.payload.getD 28 0 % 256 : Nat) : Int) < self.minSVSfix
    · rw [if_pos h, decide_eq_false (not_le.mpr h)]
      exact ⟨_, _, rfl, fun _ => rfl⟩
    · rw [if_neg h, decide_eq_true (not_lt.mp h)]
      exact ⟨_, _, rfl, fun hn => absurd (not_lt.mp h) hn⟩
  · rw [getMID7TimeData_read self rinex hlen hcur]
    by_cases h : ((self.core.message.payload.getD 7 0 % 256 : Nat) : Int) < self.minSVSfix
    · rw [if_pos h, decide_eq_false (not_le.mpr h)]
      exact ⟨_, _, rfl, fun _ => rfl⟩
    · rw [if_neg h, decide_eq_true (not_lt.mp h)]
      exact ⟨_, _, rfl, fun hn => absurd (not_lt.mp h) hn⟩
  · rw [getMID7Interval_read self rinex hlen hcur]
    by_cases h : ((self.core.message.payload.getD 7 0 % 256 : Nat) : Int) < self.minSVSfix
    · rw [if_pos h, decide_eq_false (not_le.mpr h)]
      exact ⟨_, _, rfl, fun _ => rfl⟩
    · rw [if_neg h, decide_eq_true (not_lt.mp h)]
      exact ⟨_, _, rfl, fun hn => absurd (not_lt.mp h) hn⟩

/-- C14: on a 56-byte MID 28 payload whose sync-flag bit 0 is clear, `getMID28NavData`
returns false and leaves the model unchanged: no observation is added and the epoch
time-tag stays. -/
theorem getMID28NavData_not_synced (self : Acquisition) (rinex : RinexObsData) (sameEpoch : Bool)
    (hlen : self.core.message.payload.length = 56) (hcur : self.core.message.cursor = 1)
    (hsync : (self.core.message.payload.getD 37 0 % 256) &&& 0x01 = 0) :
    self.getMID28NavData rinex sameEpoch
      = some (false, false, ⟨self.core.message.payload, 48⟩, rinex) := by
  rw [getMID28NavData_read self rinex sameEpoch hlen hcur]
  have h : (mid28Fields self.core.message.payload).syncFlags &&& 0x01 = 0 := hsync
  unfold processMID28
  simp only [h, ne_eq, not_true_eq_false, if_false]

/-- C12 at concrete messages, minimum 4 satellites: a MID 7 with 6 satellites is
accepted and a MID 2 with 3 satellites is refused, the model unchanged. -/
theorem handlers_minimum_satellites_witness :
    ((exampleAcq (mid7Payload 6)).core.message.cursor = 1 ∧
      (exampleAcq (mid7Payload 6)).core.message.payload.length = 20 ∧
      ∃ m r, (exampleAcq (mid7Payload 6)).getMID7TimeData exampleModel
          = some (decide ((exampleAcq (mid7Payload 6)).minSVSfix
                ≤ (((exampleAcq (mid7Payload 6)).core.message.payload.getD 7 0 % 256 : Nat) : Int)),
              m, r) ∧
        (¬ (exampleAcq (mid7Payload 6)).minSVSfix
            ≤ (((exampleAcq (mid7Payload 6)).core.message.payload.getD 7 0 % 256 : Nat) : Int) →
          r = exampleModel)) ∧
    ((exampleAcq (mid2Payload 3)).core.message.cursor = 1 ∧
      (exampleAcq (mid2Payload 3)).core.message.payload.length = 41 ∧
      ∃ m r, (exampleAcq (mid2Payload 3)).getMID2PosData exampleModel
          = some (decide ((exampleAcq (mid2Payload 3)).minSVSfix
                ≤ (((exampleAcq (mid2Payload 3)).core.message.payload.getD 28 0 % 256 : Nat) : Int)),
              m, r) ∧
        (¬ (exampleAcq (mid2Payload 3)).minSVSfix
            ≤ (((exampleAcq (mid2Payload 3)).core.message.payload.getD 28 0 % 256 : Nat) : Int) →
          r = exampleModel)) :=
  ⟨⟨rfl, by decide,
    ((handlers_minimum_satellites (exampleAcq (mid7Payload 6)) exampleModel exampleRTK rfl).2
      (by decide)).1⟩,
   ⟨rfl, by decide,
    ((handlers_minimum_satellites (exampleAcq (mid2Payload 3)) exampleModel exampleRTK rfl).1
      (by decide)).1⟩⟩

/-- C14 at a concrete message: sync flags `0x02`, bit 0 clear. -/
theorem getMID28NavData_not_synced_witness :
    (exampleAcq (mid28Payload 0x3F 0xF0 0x02)).getMID28NavData exampleModel true
      = some (false, false, ⟨mid28Payload 0x3F 0xF0 0x02, 48⟩, exampleModel) :=
  getMID28NavData_not_synced (exampleAcq (mid28Payload 0x3F 0xF0 0x02)) exampleModel true
    (by decide) rfl (by decide)

theorem IEEE64.eq_self_iff (a : IEEE64) : a.eq a = true ↔ a ≠ IEEE64.nan := by
  rw [IEEE64.eq_true_iff]
  exact ⟨fun h => h.2, fun h => ⟨rfl, h⟩⟩

theorem IEEE64.eq_self_decide (a : IEEE64) : a.eq a = decide (a ≠ IEEE64.nan) := by
  cases a <;> simp [IEEE64.eq]

theorem fill_filled (f : OSPFile) (m : OSPMessage) (file : OSPFile)
    (h : OSPMessage.fill f = FillResult.filled m file) :
    m.cursor = 0 ∧ file.bytes = f.bytes ∧ file.pos = f.pos + 2 + m.payload.length ∧
      file.pos ≤ f.bytes.length ∧ f.pos < f.bytes.length := by
  unfold OSPMessage.fill at h
  by_cases h1 : f.bytes.length ≤ f.pos
  · rw [if_pos h1] at h
    cases h
  · rw [if_neg h1] at h
    by_cases h2 : f.pos + 2 ≤ f.bytes.length
    · rw [if_pos h2] at h
      simp only at h
      by_cases h3 : f.pos + 2
          + ((f.bytes.getD f.pos 0 % 256) <<< 8 ||| f.bytes.getD (f.pos + 1) 0 % 256)
          ≤ f.bytes.length
      · rw [if_pos h3] at h
        simp only [FillResult.filled.injEq] at h
        obtain ⟨hm, hfile⟩ := h
        subst hm hfile
        refine ⟨rfl, rfl, ?_, ?_, ?_⟩
        · simp only [List.length_take, List.length_drop]
          omega
        · exact h3
        · omega
      · rw [if_neg h3] at h
        cases h
    · rw [if_neg h2] at h
      cases h

theorem get_eq_some (m : OSPMessage) (b : Nat) (m1 : OSPMessage) (h : m.get = some (b, m1)) :
    b = m.payload.getD m.cursor 0 % 256 ∧ m1 = ⟨m.payload, m.cursor + 1⟩ ∧
      m.cursor < m.payload.length := by
  unfold OSPMessage.get at h
  split_ifs at h with h1
  simp only [Option.some.injEq, Prod.mk.injEq] at h
  exact ⟨h.1.symm, h.2.symm, h1⟩

theorem getMID7TimeData_eq (self : Acquisition) (rinex : RinexObsData)
    (hcur : self.core.message.cursor = 1) :
    self.getMID7TimeData rinex =
      if self.core.message.payload.length = 20 then
        if ((self.core.message.payload.getD 7 0 % 256 : Nat) : Int) < self.minSVSfix then
          some (false, ⟨self.core.message.payload, 8⟩, rinex)
        else
          some (true, ⟨self.core.message.payload, 16⟩,
            rinex.setGPSTime
              ((((self.core.message.payload.getD 1 0 % 256) <<< 8)
                ||| (self.core.message.payload.getD 2 0 % 256) : Nat) : Int)
              ((bigEndian32 self.core.message.payload 3 : ℚ) / 100)
              ((bigEndian32 self.core.message.payload 12 : ℚ) * (1 / 1000000000)))
      else some (false, self.core.message, rinex) := by
  by_cases hlen : self.core.message.payload.length = 20
  · rw [if_pos hlen]
    exact getMID7TimeData_read self rinex hlen hcur
  · rw [if_neg hlen]
    unfold Acquisition.getMID7TimeData
    have hl : self.core.message.payloadLen ≠ 20 := hlen
    rw [if_pos hl]

theorem getMID28NavData_eq (self : Acquisition) (rinex : RinexObsData) (sameEpoch : Bool)
    (hcur : self.core.message.cursor = 1) :
    self.getMID28NavData rinex sameEpoch =
      if self.core.message.payload.length = 56 then
        some ((processMID28 rinex (mid28Fields self.core.message.payload)).1,
          (processMID28 rinex (mid28Fields self.core.message.payload)).2.1,
          ⟨self.core.message.payload, 48⟩,
          (processMID28 rinex (mid28Fields self.core.message.payload)).2.2)
      else some (false, sameEpoch, self.core.message, rinex) := by
  by_cases hlen : self.core.message.payload.length = 56
  · rw [if_pos hlen]
    exact getMID28NavData_read self rinex sameEpoch hlen hcur
  · rw [if_neg hlen]
    unfold Acquisition.getMID28NavData
    have hl : self.core.message.payloadLen ≠ 56 := hlen
    rw [if_pos hl]

theorem getMID8NavData_keeps_obs (self : Acquisition) (rinex : RinexObsData) (ok : Bool)
    (core : GNSSDataAcq) (r : RinexObsData) (h : self.getMID8NavData rinex = some (ok, core, r)) :
    r.observations = rinex.observations ∧ r.epochTimeTag = rinex.epochTimeTag := by
  unfold Acquisition.getMID8NavData at h
  split at h
  · cases h
  · simp only [Option.some.injEq, Prod.mk.injEq] at h
    obtain ⟨_, _, hr⟩ := h
    subst hr
    exact ⟨rfl, rfl⟩

theorem getMID15NavData_keeps_obs (self : Acquisition) (rinex : RinexObsData) (ok : Bool)
    (m : OSPMessage) (r : RinexObsData) (h : self.getMID15NavData rinex = some (ok, m, r)) :
    r.observations = rinex.observations ∧ r.epochTimeTag = rinex.epochTimeTag := by
  unfold Acquisition.getMID15NavData at h
  split_ifs at h with hlen
  · simp only [Option.some.injEq, Prod.mk.injEq] at h
    obtain ⟨_, _, hr⟩ := h
    subst hr
    exact ⟨rfl, rfl⟩
  · split at h
    · cases h
    · split at h
      · cases h
      · simp only [Option.some.injEq, Prod.mk.injEq] at h
        obtain ⟨_, _, hr⟩ := h
        subst hr
        exact ⟨rfl, rfl⟩

theorem processMID28_not_synced (rinex : RinexObsData) (f : MID28Fields)
    (h : f.syncFlags &&& 0x01 = 0) : processMID28 rinex f = (false, false, rinex) := by
  unfold processMID28
  simp only [h, ne_eq, not_true_eq_false, if_false]

theorem processMID28_fst (rinex : RinexObsData) (f : MID28Fields) :
    (processMID28 rinex f).1 = decide (f.syncFlags &&& 0x01 ≠ 0) := by
  unfold processMID28
  by_cases h : f.syncFlags &&& 0x01 ≠ 0
  · simp only [if_pos h, decide_eq_true h]
  · simp only [if_neg h, decide_eq_false h]

theorem isAcceptedMID28_iff (p : List Nat) :
    isAcceptedMID28 p = true ↔
      p.getD 0 0 % 256 = 28 ∧ p.length = 56 ∧ (p.getD 37 0 % 256) &&& 0x01 ≠ 0 := by
  unfold isAcceptedMID28
  simp only [Bool.and_eq_true, decide_eq_true_eq, and_assoc]

/-! ## One iteration of the epoch loop, by MID -/

theorem acqEpochStep_mid7 (useMID15 useMID8 : Bool) (s : EpochLoopState) (p : List Nat)
    (file : OSPFile) (hfill : OSPMessage.fill s.self.ospFile = FillResult.filled ⟨p, 0⟩ file)
    (hmid : p.getD 0 0 % 256 = 7) :
    acqEpochStep useMID15 useMID8 s =
      if p.length = 20 ∧ s.self.minSVSfix ≤ ((p.getD 7 0 % 256 : Nat) : Int) then
        if s.dataAvailable = true then
          EpochStep.done ⟨true, ({ s.self with ospFile := file }).setMessage ⟨p, 16⟩,
            s.rinex.setGPSTime ((((p.getD 1 0 % 256) <<< 8) ||| (p.getD 2 0 % 256) : Nat) : Int)
              ((bigEndian32 p 3 : ℚ) / 100) ((bigEndian32 p 12 : ℚ) * (1 / 1000000000)),
            s.trace ++ [⟨7, s.self.ospFile.pos, true⟩]⟩
        else
          EpochStep.next { s with
            self := ({ s.self with ospFile := file }).setMessage ⟨p, 16⟩
            rinex := s.rinex.setGPSTime
              ((((p.getD 1 0 % 256) <<< 8) ||| (p.getD 2 0 % 256) : Nat) : Int)
              ((bigEndian32 p 3 : ℚ) / 100) ((bigEndian32 p 12 : ℚ) * (1 / 1000000000))
            trace := s.trace ++ [⟨7, s.self.ospFile.pos, true⟩] }
      else
        EpochStep.next { s with
          self := ({ s.self with ospFile := file }).setMessage
            (if p.length = 20 then ⟨p, 8⟩ else ⟨p, 1⟩)
          trace := s.trace ++ [⟨7, s.self.ospFile.pos, false⟩] } := by
  have hpos : 0 < p.length := by
    rcases p with _ | ⟨a, l⟩
    · simp at hmid
    · simp
  unfold acqEpochStep
  simp only [hfill, get_mk p 0 hpos, hmid, if_true]
  rw [getMID7TimeData_eq _ _ rfl]
  simp only
  by_cases hlen : p.length = 20
  · by_cases hs : ((p.getD 7 0 % 256 : Nat) : Int) < s.self.minSVSfix
    · have hs2 : ¬ s.self.minSVSfix ≤ ((p.getD 7 0 % 256 : Nat) : Int) := not_le.mpr hs
      simp only [hlen, if_true, hs, hs2, and_false, if_false, Bool.false_and,
        Bool.false_eq_true]
      rfl
    · have hs2 : s.self.minSVSfix ≤ ((p.getD 7 0 % 256 : Nat) : Int) := not_lt.mp hs
      simp only [hlen, if_true, hs, hs2, and_true, if_false, Bool.true_and]
      by_cases hd : s.dataAvailable = true
      · simp only [hd, if_true]
        rfl
      · simp only [hd, if_false]
        rfl
  · simp only [hlen, if_false, false_and, Bool.false_and, Bool.false_eq_true]
    rfl

theorem acqEpochStep_mid28 (useMID15 useMID8 : Bool) (s : EpochLoopState) (p : List Nat)
    (file : OSPFile) (hfill : OSPMessage.fill s.self.ospFile = FillResult.filled ⟨p, 0⟩ file)
    (hmid : p.getD 0 0 % 256 = 28) :
    acqEpochStep useMID15 useMID8 s =
      if p.length = 56 ∧ (p.getD 37 0 % 256) &&& 0x01 ≠ 0 then
        if (processMID28 s.rinex (mid28Fields p)).2.1 = true then
          EpochStep.next
            { self := ({ s.self with ospFile := file }).setMessage ⟨p, 48⟩
              rinex := (processMID28 s.rinex (mid28Fields p)).2.2
              sameEpoch := true
              dataAvailable := true
              trace := s.trace ++ [⟨28, s.self.ospFile.pos, true⟩] }
        else
          EpochStep.done ⟨s.dataAvailable,
            { ({ s.self with ospFile := file }).setMessage ⟨p, 48⟩ with
              ospFile := { file with pos := s.self.ospFile.pos } },
            (processMID28 s.rinex (mid28Fields p)).2.2.clearObs,
            s.trace ++ [⟨28, s.self.ospFile.pos, true⟩]⟩
      else
        EpochStep.next
          { self := ({ s.self with ospFile := file }).setMessage
              (if p.length = 56 then ⟨p, 48⟩ else ⟨p, 1⟩)
            rinex := s.rinex
            sameEpoch := if p.length = 56 then false else s.sameEpoch
            dataAvailable := s.dataAvailable
            trace := s.trace ++ [⟨28, s.self.ospFile.pos, false⟩] } := by
  have hpos : 0 < p.length := by
    rcases p with _ | ⟨a, l⟩
    · simp at hmid
    · simp
  unfold acqEpochStep
  simp only [hfill, get_mk p 0 hpos, hmid, if_true, Nat.reduceEqDiff, if_false]
  rw [getMID28NavData_eq _ _ _ rfl]
  simp only
  by_cases hlen : p.length = 56
  · by_cases hs : (p.getD 37 0 % 256) &&& 0x01 ≠ 0
    · have hf : (mid28Fields p).syncFlags &&& 0x01 ≠ 0 := hs
      have h1 : (processMID28 s.rinex (mid28Fields p)).1 = true := by
        rw [processMID28_fst, decide_eq_true hf]
      simp only [hlen, if_true, hs, and_true, h1, not_false_eq_true, ne_eq]
      by_cases h2 : (processMID28 s.rinex (mid28Fields p)).2.1 = true
      · simp only [h2, if_true]
        rfl
      · simp only [h2, if_false]
        rfl
    · have hf : (mid28Fields p).syncFlags &&& 0x01 = 0 := not_not.mp hs
      simp only [hlen, if_true, hs, and_false, if_false, processMID28_not_synced _ _ hf,
        Bool.false_eq_true]
      rfl
  · simp only [hlen, if_false, false_and, Bool.false_eq_true]
    rfl

theorem acqEpochStep_other (useMID15 useMID8 : Bool) (s : EpochLoopState) (p : List Nat)
    (file : OSPFile) (hfill : OSPMessage.fill s.self.ospFile = FillResult.filled ⟨p, 0⟩ file)
    (h7 : p.getD 0 0 % 256 ≠ 7) (h28 : p.getD 0 0 % 256 ≠ 28) :
    (∀ r, acqEpochStep useMID15 useMID8 s ≠ EpochStep.done r) ∧
    (∀ e, acqEpochStep useMID15 useMID8 s = EpochStep.failed e → e = AcqError.truncated) ∧
    ∀ t, acqEpochStep useMID15 useMID8 s = EpochStep.next t →
      t.self.ospFile = file ∧ t.self.minSVSfix = s.self.minSVSfix ∧
      t.rinex.observations = s.rinex.observations ∧
      t.rinex.epochTimeTag = s.rinex.epochTimeTag ∧
      t.dataAvailable = s.dataAvailable ∧
      ∃ ok, t.trace = s.trace ++ [⟨p.getD 0 0 % 256, s.self.ospFile.pos, ok⟩] := by
  by_cases hpos : 0 < p.length
  · unfold acqEpochStep
    simp only [hfill, get_mk p 0 hpos, h7, h28, if_false]
    by_cases h8 : p.getD 0 0 % 256 = 8
    · simp only [h8, if_true]
      by_cases hu : useMID8 = true
      · simp only [hu, if_true]
        cases hh : Acquisition.getMID8NavData
            { s.self with ospFile := file, core := { s.self.core with message := ⟨p, 0 + 1⟩ } }
            s.rinex with
        | none =>
          simp only
          exact ⟨fun r h => (by cases h), fun e h => (by cases h; rfl), fun t h => (by cases h)⟩
        | some x =>
          obtain ⟨ok, core, r1⟩ := x
          have hk := getMID8NavData_keeps_obs _ _ _ _ _ hh
          simp only
          refine ⟨fun r h => (by cases h), fun e h => (by cases h), fun t h => ?_⟩
          simp only [EpochStep.next.injEq] at h
          subst h
          exact ⟨rfl, rfl, hk.1, hk.2, rfl, ok, rfl⟩
      · simp only [hu, if_false, Bool.false_eq_true]
        refine ⟨fun r h => (by cases h), fun e h => (by cases h), fun t h => ?_⟩
        simp only [EpochStep.next.injEq] at h
        subst h
        exact ⟨rfl, rfl, rfl, rfl, rfl, false, rfl⟩
    · simp only [h8, if_false]
      by_cases h15 : p.getD 0 0 % 256 = 15
      · simp only [h15, if_true]
        by_cases hu : useMID15 = true
        · simp only [hu, if_true]
          cases hh : Acquisition.getMID15NavData
              { s.self with ospFile := file, core := { s.self.core with message := ⟨p, 0 + 1⟩ } }
              s.rinex with
          | none =>
            simp only
            exact ⟨fun r h => (by cases h), fun e h => (by cases h; rfl), fun t h => (by cases h)⟩
          | some x =>
            obtain ⟨ok, m1, r1⟩ := x
            have hk := getMID15NavData_keeps_obs _ _ _ _ _ hh
            simp only
            refine ⟨fun r h => (by cases h), fun e h => (by cases h), fun t h => ?_⟩
            simp only [EpochStep.next.injEq] at h
            subst h
            exact ⟨rfl, rfl, hk.1, hk.2, rfl, ok, rfl⟩
        · simp only [hu, if_false, Bool.false_eq_true]
          refine ⟨fun r h => (by cases h), fun e h => (by cases h), fun t h => ?_⟩
          simp only [EpochStep.next.injEq] at h
          subst h
          exact ⟨rfl, rfl, rfl, rfl, rfl, false, rfl⟩
      · simp only [h15, if_false]
        refine ⟨fun r h => (by cases h), fun e h => (by cases h), fun t h => ?_⟩
        simp only [EpochStep.next.injEq] at h
        subst h
        exact ⟨rfl, rfl, rfl, rfl, rfl, false, rfl⟩
  · have hg : (OSPMessage.mk p 0).get = none := by
      unfold OSPMessage.get
      rw [if_neg hpos]
    unfold acqEpochStep
    simp only [hfill, hg]
    exact ⟨fun r h => (by cases h), fun e h => (by cases h; rfl), fun t h => (by cases h)⟩

/-! ## What an iteration of the epoch loop can do -/

theorem fill_message (f : OSPFile) (m : OSPMessage) (file : OSPFile)
    (h : OSPMessage.fill f = FillResult.filled m file) :
    OSPMessage.fill f = FillResult.filled ⟨m.payload, 0⟩ file := by
  have hc := (fill_filled f m file h).1
  obtain ⟨p, c⟩ := m
  simp only at hc
  subst hc
  exact h

theorem acqEpochStep_next_shape (useMID15 useMID8 : Bool) (s t : EpochLoopState)
    (h : acqEpochStep useMID15 useMID8 s = EpochStep.next t) :
    ∃ p file e, OSPMessage.fill s.self.ospFile = FillResult.filled ⟨p, 0⟩ file ∧
      t.self.ospFile = file ∧ t.self.minSVSfix = s.self.minSVSfix ∧
      t.trace = s.trace ++ [e] ∧ e.start = s.self.ospFile.pos ∧ e.mid = p.getD 0 0 % 256 ∧
      ((t.rinex.observations = s.rinex.observations ∧
          t.rinex.epochTimeTag = s.rinex.epochTimeTag ∧
          t.dataAvailable = s.dataAvailable ∧ ¬ (e.mid = 28 ∧ e.accepted = true)) ∨
        (e.mid = 28 ∧ e.accepted = true ∧ isAcceptedMID28 p = true ∧ t.dataAvailable = true ∧
          t.rinex = (processMID28 s.rinex (mid28Fields p)).2.2)) := by
  rcases hfill : OSPMessage.fill s.self.ospFile with ⟨m, file⟩ | _ | _
  · have hf := fill_message _ _ _ hfill
    have hm : FillResult.filled m file = FillResult.filled ⟨m.payload, 0⟩ file :=
      hfill.symm.trans hf
    by_cases h7 : m.payload.getD 0 0 % 256 = 7
    · rw [acqEpochStep_mid7 useMID15 useMID8 s m.payload file hf h7] at h
      by_cases ha : m.payload.length = 20 ∧
          s.self.minSVSfix ≤ ((m.payload.getD 7 0 % 256 : Nat) : Int)
      · rw [if_pos ha] at h
        by_cases hd : s.dataAvailable = true
        · rw [if_pos hd] at h
          cases h
        · rw [if_neg hd] at h
          simp only [EpochStep.next.injEq] at h
          subst h
          refine ⟨m.payload, file, ⟨7, s.self.ospFile.pos, true⟩, hm, rfl, rfl, rfl, rfl,
            h7.symm, Or.inl ⟨rfl, rfl, rfl, ?_⟩⟩
          simp
      · rw [if_neg ha] at h
        simp only [EpochStep.next.injEq] at h
        subst h
        refine ⟨m.payload, file, ⟨7, s.self.ospFile.pos, false⟩, hm, rfl, rfl, rfl, rfl,
          h7.symm, Or.inl ⟨rfl, rfl, rfl, ?_⟩⟩
        simp
    · by_cases h28 : m.payload.getD 0 0 % 256 = 28
      · rw [acqEpochStep_mid28 useMID15 useMID8 s m.payload file hf h28] at h
        by_cases ha : m.payload.length = 56 ∧ (m.payload.getD 37 0 % 256) &&& 0x01 ≠ 0
        · rw [if_pos ha] at h
          by_cases hd : (processMID28 s.rinex (mid28Fields m.payload)).2.1 = true
          · rw [if_pos hd] at h
            simp only [EpochStep.next.injEq] at h
            subst h
            refine ⟨m.payload, file, ⟨28, s.self.ospFile.pos, true⟩, hm, rfl, rfl, rfl, rfl,
              h28.symm, Or.inr ⟨rfl, rfl, ?_, rfl, rfl⟩⟩
            exact (isAcceptedMID28_iff _).mpr ⟨h28, ha.1, ha.2⟩
          · rw [if_neg hd] at h
            cases h
        · rw [if_neg ha] at h
          simp only [EpochStep.next.injEq] at h
          subst h
          refine ⟨m.payload, file, ⟨28, s.self.ospFile.pos, false⟩, hm, rfl, rfl, rfl, rfl,
            h28.symm, Or.inl ⟨rfl, rfl, rfl, ?_⟩⟩
          simp
      · obtain ⟨hfile, hmin, hobs, htag, hda, ok, htr⟩ :=
          (acqEpochStep_other useMID15 useMID8 s m.payload file hf h7 h28).2.2 t h
        refine ⟨m.payload, file, ⟨m.payload.getD 0 0 % 256, s.self.ospFile.pos, ok⟩, hm, hfile,
          hmin, htr, rfl, rfl, Or.inl ⟨hobs, htag, hda, ?_⟩⟩
        intro hc
        exact h28 hc.1
  · unfold acqEpochStep at h
    simp only [hfill] at h
    cases h
  · unfold acqEpochStep at h
    simp only [hfill] at h
    cases h

theorem acqEpochStep_done_shape (useMID15 useMID8 : Bool) (s : EpochLoopState) (r : EpochResult)
    (h : acqEpochStep useMID15 useMID8 s = EpochStep.done r) :
    (OSPMessage.fill s.self.ospFile = FillResult.endOfStream ∧
      r = ⟨s.dataAvailable, s.self, s.rinex, s.trace⟩) ∨
    ∃ p file, OSPMessage.fill s.self.ospFile = FillResult.filled ⟨p, 0⟩ file ∧
      ((p.getD 0 0 % 256 = 7 ∧ s.dataAvailable = true ∧ r.ret = true ∧
          r.rinex.observations = s.rinex.observations ∧
          r.trace = s.trace ++ [⟨7, s.self.ospFile.pos, true⟩]) ∨
        (isAcceptedMID28 p = true ∧ r.ret = s.dataAvailable ∧ r.rinex.observations = [] ∧
          r.trace = s.trace ++ [⟨28, s.self.ospFile.pos, true⟩] ∧
          r.self.ospFile = ⟨file.bytes, s.self.ospFile.pos⟩)) := by
  rcases hfill : OSPMessage.fill s.self.ospFile with ⟨m, file⟩ | _ | _
  · have hf := fill_message _ _ _ hfill
    have hm : FillResult.filled m file = FillResult.filled ⟨m.payload, 0⟩ file :=
      hfill.symm.trans hf
    refine Or.inr ⟨m.payload, file, hm, ?_⟩
    by_cases h7 : m.payload.getD 0 0 % 256 = 7
    · rw [acqEpochStep_mid7 useMID15 useMID8 s m.payload file hf h7] at h
      by_cases ha : m.payload.length = 20 ∧
          s.self.minSVSfix ≤ ((m.payload.getD 7 0 % 256 : Nat) : Int)
      · rw [if_pos ha] at h
        by_cases hd : s.dataAvailable = true
        · rw [if_pos hd] at h
          simp only [EpochStep.done.injEq] at h
          subst h
          exact Or.inl ⟨h7, hd, rfl, rfl, rfl⟩
        · rw [if_neg hd] at h
          cases h
      · rw [if_neg ha] at h
        cases h
    · by_cases h28 : m.payload.getD 0 0 % 256 = 28
      · rw [acqEpochStep_mid28 useMID15 useMID8 s m.payload file hf h28] at h
        by_cases ha : m.payload.length = 56 ∧ (m.payload.getD 37 0 % 256) &&& 0x01 ≠ 0
        · rw [if_pos ha] at h
          by_cases hd : (processMID28 s.rinex (mid28Fields m.payload)).2.1 = true
          · rw [if_pos hd] at h
            cases h
          · rw [if_neg hd] at h
            simp only [EpochStep.done.injEq] at h
            subst h
            exact Or.inr ⟨(isAcceptedMID28_iff _).mpr ⟨h28, ha.1, ha.2⟩, rfl, rfl, rfl, rfl⟩
        · rw [if_neg ha] at h
          cases h
      · exact absurd h ((acqEpochStep_other useMID15 useMID8 s m.payload file hf h7 h28).1 r)
  · unfold acqEpochStep at h
    simp only [hfill, EpochStep.done.injEq] at h
    exact Or.inl ⟨rfl, h.symm⟩
  · unfold acqEpochStep at h
    simp only [hfill] at h
    cases h

theorem acqEpochStep_failed (useMID15 useMID8 : Bool) (s : EpochLoopState) (e : AcqError)
    (h : acqEpochStep useMID15 useMID8 s = EpochStep.failed e) : e ≠ AcqError.outOfFuel := by
  rcases hfill : OSPMessage.fill s.self.ospFile with ⟨m, file⟩ | _ | _
  · have hf := fill_message _ _ _ hfill
    by_cases h7 : m.payload.getD 0 0 % 256 = 7
    · rw [acqEpochStep_mid7 useMID15 useMID8 s m.payload file hf h7] at h
      split_ifs at h
    · by_cases h28 : m.payload.getD 0 0 % 256 = 28
      · rw [acqEpochStep_mid28 useMID15 useMID8 s m.payload file hf h28] at h
        split_ifs at h
      · rw [(acqEpochStep_other useMID15 useMID8 s m.payload file hf h7 h28).2.1 e h]
        intro hc
        cases hc
  · unfold acqEpochStep at h
    simp only [hfill] at h
    cases h
  · unfold acqEpochStep at h
    simp only [hfill, EpochStep.failed.injEq] at h
    subst h
    intro hc
    cases hc

/-! ## The loop as a whole -/

theorem loopReaches_inv (useMID15 useMID8 : Bool) (P : EpochLoopState → Prop)
    (hstep : ∀ s t, P s → acqEpochStep useMID15 useMID8 s = EpochStep.next t → P t)
    (s t : EpochLoopState) (h : LoopReaches useMID15 useMID8 s t) (hs : P s) : P t := by
  induction h with
  | here s => exact hs
  | step s t u hst _ ih => exact ih (hstep s t hs hst)

theorem loop_ok_reaches (useMID15 useMID8 : Bool) (fuel : Nat) (s : EpochLoopState)
    (r : EpochResult) (h : acqEpochLoop useMID15 useMID8 fuel s = Except.ok r) :
    ∃ t, LoopReaches useMID15 useMID8 s t ∧ acqEpochStep useMID15 useMID8 t = EpochStep.done r := by
  induction fuel generalizing s with
  | zero =>
    unfold acqEpochLoop at h
    cases h
  | succ n ih =>
    unfold acqEpochLoop at h
    cases hst : acqEpochStep useMID15 useMID8 s with
    | done r1 =>
      simp only [hst, Except.ok.injEq] at h
      subst h
      exact ⟨s, LoopReaches.here s, hst⟩
    | failed e =>
      simp only [hst] at h
      cases h
    | next t =>
      simp only [hst] at h
      obtain ⟨u, hu, hd⟩ := ih t h
      exact ⟨u, LoopReaches.step s t u hst hu, hd⟩

theorem next_consumes (useMID15 useMID8 : Bool) (s t : EpochLoopState)
    (h : acqEpochStep useMID15 useMID8 s = EpochStep.next t) :
    t.self.ospFile.bytes = s.self.ospFile.bytes ∧
      s.self.ospFile.pos + 2 ≤ t.self.ospFile.pos ∧
      t.self.ospFile.pos ≤ s.self.ospFile.bytes.length := by
  obtain ⟨p, file, e, hfill, hfile, _⟩ := acqEpochStep_next_shape useMID15 useMID8 s t h
  obtain ⟨_, hb, hp, hle, _⟩ := fill_filled _ _ _ hfill
  rw [hfile]
  refine ⟨hb, ?_, hle⟩
  omega

theorem loop_of_reaches (useMID15 useMID8 : Bool) (s t : EpochLoopState) (r : EpochResult)
    (h : LoopReaches useMID15 useMID8 s t)
    (hd : acqEpochStep useMID15 useMID8 t = EpochStep.done r) :
    ∀ fuel, s.self.ospFile.bytes.length - s.self.ospFile.pos < fuel →
      acqEpochLoop useMID15 useMID8 fuel s = Except.ok r := by
  induction h with
  | here s =>
    intro fuel hfuel
    cases fuel with
    | zero => omega
    | succ n =>
      unfold acqEpochLoop
      simp only [hd]
  | step s t u hst _ ih =>
    intro fuel hfuel
    cases fuel with
    | zero => omega
    | succ n =>
      unfold acqEpochLoop
      simp only [hst]
      obtain ⟨hb, hp, hle⟩ := next_consumes useMID15 useMID8 s t hst
      apply ih hd
      rw [hb]
      omega

theorem loop_has_fuel (useMID15 useMID8 : Bool) (fuel : Nat) (s : EpochLoopState)
    (hfuel : s.self.ospFile.bytes.length - s.self.ospFile.pos < fuel) :
    acqEpochLoop useMID15 useMID8 fuel s ≠ Except.error AcqError.outOfFuel := by
  induction fuel generalizing s with
  | zero => omega
  | succ n ih =>
    unfold acqEpochLoop
    cases hst : acqEpochStep useMID15 useMID8 s with
    | done r1 =>
      simp only
      intro h
      cases h
    | failed e =>
      simp only
      intro h
      simp only [Except.error.injEq] at h
      exact acqEpochStep_failed useMID15 useMID8 s e hst h
    | next t =>
      simp only
      obtain ⟨hb, hp, hle⟩ := next_consumes useMID15 useMID8 s t hst
      apply ih
      rw [hb]
      omega

/-! ## Invariants of the epoch loop -/

theorem reaches_stateAfter (useMID15 useMID8 : Bool) (n : Nat) (s : EpochLoopState) :
    LoopReaches useMID15 useMID8 s (stateAfter useMID15 useMID8 n s) := by
  induction n generalizing s with
  | zero => exact LoopReaches.here s
  | succ n ih =>
    unfold stateAfter
    cases hst : acqEpochStep useMID15 useMID8 s with
    | done r => exact LoopReaches.here s
    | failed e => exact LoopReaches.here s
    | next t => exact LoopReaches.step s t _ hst (ih t)

theorem hasAccepted28_append (trace : List AcqEvent) (e : AcqEvent) :
    hasAccepted28 (trace ++ [e]) ↔ hasAccepted28 trace ∨ (e.mid = 28 ∧ e.accepted = true) := by
  unfold hasAccepted28
  constructor
  · rintro ⟨x, hx, h⟩
    rw [List.mem_append, List.mem_singleton] at hx
    rcases hx with hx | hx
    · exact Or.inl ⟨x, hx, h⟩
    · subst hx
      exact Or.inr h
  · rintro (⟨x, hx, h⟩ | h)
    · exact ⟨x, List.mem_append_left _ hx, h⟩
    · exact ⟨e, List.mem_append_right _ (List.mem_singleton_self e), h⟩

theorem reaches_dataAvailable (useMID15 useMID8 : Bool) (self : Acquisition)
    (rinex : RinexObsData) (s : EpochLoopState)
    (h : LoopReaches useMID15 useMID8 (epochStart self rinex) s) :
    s.dataAvailable = true ↔ hasAccepted28 s.trace := by
  refine loopReaches_inv useMID15 useMID8
    (fun s => s.dataAvailable = true ↔ hasAccepted28 s.trace) ?_ _ s h ?_
  · intro a b ha hab
    obtain ⟨p, file, e, _, _, _, htr, _, _, hcase⟩ :=
      acqEpochStep_next_shape useMID15 useMID8 a b hab
    simp only at ha ⊢
    rw [htr, hasAccepted28_append]
    rcases hcase with ⟨_, _, hda, hne⟩ | ⟨hm, hacc, _, hda, _⟩
    · rw [hda, ha]
      exact ⟨Or.inl, fun hc => hc.elim id (fun hc => absurd hc hne)⟩
    · exact ⟨fun _ => Or.inr ⟨hm, hacc⟩, fun _ => hda⟩
  · simp only [epochStart, hasAccepted28, List.not_mem_nil, false_and, exists_false,
      Bool.false_eq_true]

theorem reaches_file (useMID15 useMID8 : Bool) (s t : EpochLoopState)
    (h : LoopReaches useMID15 useMID8 s t) :
    t.self.ospFile.bytes = s.self.ospFile.bytes ∧ t.self.minSVSfix = s.self.minSVSfix := by
  refine loopReaches_inv useMID15 useMID8
    (fun t => t.self.ospFile.bytes = s.self.ospFile.bytes ∧
      t.self.minSVSfix = s.self.minSVSfix) ?_ _ t h ⟨rfl, rfl⟩
  intro a b ha hab
  obtain ⟨p, file, e, _, _, hmin, _⟩ := acqEpochStep_next_shape useMID15 useMID8 a b hab
  obtain ⟨hb, _, _⟩ := next_consumes useMID15 useMID8 a b hab
  simp only at ha ⊢
  rw [hb, hmin]
  exact ha

theorem acqEpochData_of_reaches (useMID15 useMID8 : Bool) (self : Acquisition)
    (rinex : RinexObsData) (s : EpochLoopState) (r : EpochResult)
    (h : LoopReaches useMID15 useMID8 (epochStart self rinex) s)
    (hd : acqEpochStep useMID15 useMID8 s = EpochStep.done r) :
    self.acqEpochData rinex useMID15 useMID8 = Except.ok r := by
  unfold Acquisition.acqEpochData
  apply loop_of_reaches useMID15 useMID8 _ s r h hd
  simp only [epochStart]
  omega

theorem processMID28_stored (rinex : RinexObsData) (f : MID28Fields)
    (iS jS iC jC iL jL iD jD : Nat) (hs : f.syncFlags &&& 0x01 ≠ 0)
    (hnan : f.gpsSWtime ≠ IEEE64.nan)
    (htag : rinex.observations = [] ∨ rinex.epochTimeTag = f.gpsSWtime)
    (hS : findObsType f.sys "S1C" rinex.systems 0 = some (iS, jS))
    (hC : findObsType f.sys "C1C" rinex.systems 0 = some (iC, jC))
    (hL : findObsType f.sys "L1C" rinex.systems 0 = some (iL, jL))
    (hD : findObsType f.sys "D1C" rinex.systems 0 = some (iD, jD)) :
    processMID28 rinex f = (true, true,
      { rinex with
        epochTimeTag := f.gpsSWtime
        observations := rinex.observations ++
          ([SatObsData.mk iS f.sat f.gpsSWtime jS ((worstCN0 f.cn0 : Nat) : ℚ) 0 0,
            SatObsData.mk iC f.sat f.gpsSWtime jC f.pseudorange 0 f.strengthIndex]
          ++ (if f.syncFlags &&& 0x02 ≠ 0 then
                [SatObsData.mk iL f.sat f.gpsSWtime jL (f.carrierPhase * (L1CFREQ / LSPEED)) 0
                  f.strengthIndex]
              else [])
          ++ [SatObsData.mk iD f.sat f.gpsSWtime jD (f.carrierFrequency * (L1CFREQ / LSPEED))
                0 0]) }) := by
  have h1 := addMeasurement_stored rinex f.sys f.sat "S1C" ((worstCN0 f.cn0 : Nat) : ℚ) 0 0
    f.gpsSWtime iS jS hnan htag hS
  have h2 := addMeasurement_stored
    { rinex with
      epochTimeTag := f.gpsSWtime
      observations := rinex.observations
        ++ [SatObsData.mk iS f.sat f.gpsSWtime jS ((worstCN0 f.cn0 : Nat) : ℚ) 0 0] }
    f.sys f.sat "C1C" f.pseudorange 0 f.strengthIndex f.gpsSWtime iC jC hnan (Or.inr rfl) hC
  by_cases hb : f.syncFlags &&& 0x02 ≠ 0
  · have h3 := addMeasurement_stored
      { rinex with
        epochTimeTag := f.gpsSWtime
        observations := rinex.observations
          ++ [SatObsData.mk iS f.sat f.gpsSWtime jS ((worstCN0 f.cn0 : Nat) : ℚ) 0 0]
          ++ [SatObsData.mk iC f.sat f.gpsSWtime jC f.pseudorange 0 f.strengthIndex] }
      f.sys f.sat "L1C" (f.carrierPhase * L1WLINV) 0 f.strengthIndex f.gpsSWtime iL jL
      hnan (Or.inr rfl) hL
    have h4 := addMeasurement_stored
      { rinex with
        epochTimeTag := f.gpsSWtime
        observations := rinex.observations
          ++ [SatObsData.mk iS f.sat f.gpsSWtime jS ((worstCN0 f.cn0 : Nat) : ℚ) 0 0]
          ++ [SatObsData.mk iC f.sat f.gpsSWtime jC f.pseudorange 0 f.strengthIndex]
          ++ [SatObsData.mk iL f.sat f.gpsSWtime jL (f.carrierPhase * L1WLINV) 0 f.strengthIndex] }
      f.sys f.sat "D1C" (f.carrierFrequency * L1WLINV) 0 0 f.gpsSWtime iD jD hnan (Or.inr rfl) hD
    unfold processMID28
    simp only [if_pos hs, if_pos hb, Int.cast_natCast]
    rw [h1]
    simp only
    rw [h2]
    simp only
    rw [h3]
    simp only
    rw [h4]
    simp only [List.append_assoc, List.singleton_append, L1WLINV, List.cons_append,
      List.nil_append]
  · have h4 := addMeasurement_stored
      { rinex with
        epochTimeTag := f.gpsSWtime
        observations := rinex.observations
          ++ [SatObsData.mk iS f.sat f.gpsSWtime jS ((worstCN0 f.cn0 : Nat) : ℚ) 0 0]
          ++ [SatObsData.mk iC f.sat f.gpsSWtime jC f.pseudorange 0 f.strengthIndex] }
      f.sys f.sat "D1C" (f.carrierFrequency * L1WLINV) 0 0 f.gpsSWtime iD jD hnan (Or.inr rfl) hD
    unfold processMID28
    simp only [if_pos hs, if_neg hb, Int.cast_natCast]
    rw [h1]
    simp only
    rw [h2]
    simp only
    rw [h4]
    simp only [List.append_assoc, List.singleton_append, L1WLINV, List.cons_append,
      List.nil_append]

/-! ## Claims on the epoch loop -/

/-- C17: at the top of an iteration of `acqEpochData` whose next message is a MID 7, the
call ends there iff the MID 7 is accepted (length 20 and satellites byte 7 at least
`minSVSfix`) and a MID 28 has been accepted earlier in the call; it then returns true
with the accumulated observations left in the model and the GPS time set.  When the
MID 7 is accepted and no MID 28 has been accepted, the loop goes on with the next
message and the model differs only in GPS week, TOW and clock bias (`nav.gpsTimeX100`
is the model's copy of the TOW in hundredths, as the `double` product of
`extractEphemeris` gives it); a MID 7 that is not accepted leaves the
model as it is and the loop goes on. -/
theorem mid7_ends_epoch (useMID15 useMID8 : Bool) (self0 : Acquisition) (rinex0 : RinexObsData)
    (s : EpochLoopState) (p : List Nat) (file : OSPFile)
    (hreach : LoopReaches useMID15 useMID8 (epochStart self0 rinex0) s)
    (hfill : OSPMessage.fill s.self.ospFile = FillResult.filled ⟨p, 0⟩ file)
    (hmid : p.getD 0 0 % 256 = 7) :
    ((∃ r, acqEpochStep useMID15 useMID8 s = EpochStep.done r) ↔
      ((p.length = 20 ∧ self0.minSVSfix ≤ ((p.getD 7 0 % 256 : Nat) : Int)) ∧
        hasAccepted28 s.trace)) ∧
    (∀ r, acqEpochStep useMID15 useMID8 s = EpochStep.done r →
      self0.acqEpochData rinex0 useMID15 useMID8 = Except.ok r ∧ r.ret = true ∧
      r.rinex.observations = s.rinex.observations ∧
      r.rinex.epochTimeTag = s.rinex.epochTimeTag ∧
      r.rinex = s.rinex.setGPSTime
        ((((p.getD 1 0 % 256) <<< 8) ||| (p.getD 2 0 % 256) : Nat) : Int)
        ((bigEndian32 p 3 : ℚ) / 100) ((bigEndian32 p 12 : ℚ) * (1 / 1000000000)) ∧
      r.trace = s.trace ++ [⟨7, s.self.ospFile.pos, true⟩]) ∧
    (p.length = 20 → self0.minSVSfix ≤ ((p.getD 7 0 % 256 : Nat) : Int) →
      ¬ hasAccepted28 s.trace →
      ∃ t, acqEpochStep useMID15 useMID8 s = EpochStep.next t ∧
        t.rinex = { s.rinex with
          gpsWeek := ((((p.getD 1 0 % 256) <<< 8) ||| (p.getD 2 0 % 256) : Nat) : Int)
          gpsTOW := (bigEndian32 p 3 : ℚ) / 100
          clkBias := (bigEndian32 p 12 : ℚ) * (1 / 1000000000)
          nav := { s.rinex.nav with
            gpsTimeX100 := (Int.toNat
              ⌊nearestDouble (nearestDouble ((bigEndian32 p 3 : ℚ) / 100) * 100)⌋) % 2 ^ 32 } } ∧
        t.dataAvailable = false ∧ t.self.ospFile = file ∧
        t.trace = s.trace ++ [⟨7, s.self.ospFile.pos, true⟩]) ∧
    (¬ (p.length = 20 ∧ self0.minSVSfix ≤ ((p.getD 7 0 % 256 : Nat) : Int)) →
      ∃ t, acqEpochStep useMID15 useMID8 s = EpochStep.next t ∧ t.rinex = s.rinex ∧
        t.dataAvailable = s.dataAvailable ∧ t.self.ospFile = file ∧
        t.trace = s.trace ++ [⟨7, s.self.ospFile.pos, false⟩]) := by
  have hmin : s.self.minSVSfix = self0.minSVSfix :=
    (reaches_file useMID15 useMID8 _ s hreach).2
  have hda := reaches_dataAvailable useMID15 useMID8 self0 rinex0 s hreach
  have hstep := acqEpochStep_mid7 useMID15 useMID8 s p file hfill hmid
  rw [hmin] at hstep
  by_cases ha : p.length = 20 ∧ self0.minSVSfix ≤ ((p.getD 7 0 % 256 : Nat) : Int)
  · rw [if_pos ha] at hstep
    by_cases hd : s.dataAvailable = true
    · rw [if_pos hd] at hstep
      refine ⟨⟨fun _ => ⟨ha, hda.mp hd⟩, fun _ => ⟨_, hstep⟩⟩, ?_, ?_, ?_⟩
      · intro r hr
        rw [hstep] at hr
        simp only [EpochStep.done.injEq] at hr
        subst hr
        exact ⟨acqEpochData_of_reaches useMID15 useMID8 self0 rinex0 s _ hreach hstep, rfl, rfl,
          rfl, rfl, rfl⟩
      · intro _ _ hn
        exact absurd (hda.mp hd) hn
      · intro hn
        exact absurd ha hn
    · rw [if_neg hd] at hstep
      refine ⟨⟨?_, fun hc => absurd (hda.mpr hc.2) hd⟩, ?_, ?_, ?_⟩
      · rintro ⟨r, hr⟩
        rw [hstep] at hr
        cases hr
      · intro r hr
        rw [hstep] at hr
        cases hr
      · intro _ _ _
        refine ⟨_, hstep, rfl, ?_, rfl, rfl⟩
        simpa using hd
      · intro hn
        exact absurd ha hn
  · rw [if_neg ha] at hstep
    refine ⟨⟨?_, fun hc => absurd hc.1 ha⟩, ?_, ?_, ?_⟩
    · rintro ⟨r, hr⟩
      rw [hstep] at hr
      cases hr
    · intro r hr
      rw [hstep] at hr
      cases hr
    · intro h1 h2 _
      exact absurd ⟨h1, h2⟩ ha
    · intro _
      exact ⟨_, hstep, rfl, rfl, rfl, rfl⟩

/-- C17 on the file `fileEpochClosed`: after the accepted MID 28 the MID 7 with 6
satellites ends the call, which returns true with the four observations in the model. -/
theorem mid7_ends_epoch_witness :
    ∃ r, (exampleFileAcq fileEpochClosed).acqEpochData exampleModel false false = Except.ok r ∧
      r.ret = true ∧
      r.rinex.observations
        = (stateAfter false false 1
            (epochStart (exampleFileAcq fileEpochClosed) exampleModel)).rinex.observations :=
  match (mid7_ends_epoch false false (exampleFileAcq fileEpochClosed) exampleModel
      (stateAfter false false 1 (epochStart (exampleFileAcq fileEpochClosed) exampleModel))
      (mid7Payload 6) ⟨fileEpochClosed, 80⟩ (reaches_stateAfter false false 1 _)
      (by decide!) (by decide)) with
  | ⟨h1, h2, _⟩ =>
    match h1.mpr ⟨⟨by decide, by decide⟩, ⟨⟨28, 0, true⟩, by decide!, rfl, rfl⟩⟩ with
    | ⟨r, hr⟩ => ⟨r, (h2 r hr).1, (h2 r hr).2.1, (h2 r hr).2.2.1⟩

theorem acqEpochStep_eof (useMID15 useMID8 : Bool) (s : EpochLoopState)
    (hfill : OSPMessage.fill s.self.ospFile = FillResult.endOfStream) :
    acqEpochStep useMID15 useMID8 s
      = EpochStep.done ⟨s.dataAvailable, s.self, s.rinex, s.trace⟩ := by
  unfold acqEpochStep
  simp only [hfill]

theorem streamPayloads_succ (bytes : List Nat) (n pos : Nat) (m : OSPMessage) (file : OSPFile)
    (h : OSPMessage.fill ⟨bytes, pos⟩ = FillResult.filled m file) :
    streamPayloads bytes (n + 1) pos = m.payload :: streamPayloads bytes n file.pos := by
  rw [streamPayloads]
  simp only [h]

theorem no_accepted_invariant (useMID15 useMID8 : Bool) (bytes : List Nat)
    (hno : ∀ p ∈ streamPayloads bytes (bytes.length + 1) 0, isAcceptedMID28 p = false)
    (s t : EpochLoopState) (h : LoopReaches useMID15 useMID8 s t)
    (hs : s.self.ospFile = ⟨bytes, 0⟩ ∧ s.dataAvailable = false) :
    t.self.ospFile.bytes = bytes ∧ t.dataAvailable = false ∧
      ∃ n, bytes.length - t.self.ospFile.pos < n ∧
        ∀ q ∈ streamPayloads bytes n t.self.ospFile.pos, isAcceptedMID28 q = false := by
  refine loopReaches_inv useMID15 useMID8
    (fun t => t.self.ospFile.bytes = bytes ∧ t.dataAvailable = false ∧
      ∃ n, bytes.length - t.self.ospFile.pos < n ∧
        ∀ q ∈ streamPayloads bytes n t.self.ospFile.pos, isAcceptedMID28 q = false) ?_ s t h ?_
  · intro a b ha hab
    obtain ⟨hbytes, hda, n, hn, hq⟩ := ha
    obtain ⟨p, file, e, hfill, hfile, _, _, _, _, hcase⟩ :=
      acqEpochStep_next_shape useMID15 useMID8 a b hab
    obtain ⟨hb, hp, hle⟩ := next_consumes useMID15 useMID8 a b hab
    have hfill2 : OSPMessage.fill ⟨bytes, a.self.ospFile.pos⟩ = FillResult.filled ⟨p, 0⟩ file := by
      rw [← hbytes]
      exact hfill
    cases n with
    | zero => omega
    | succ k =>
      rw [streamPayloads_succ bytes k _ _ _ hfill2] at hq
      refine ⟨by rw [hb, hbytes], ?_, k, ?_, ?_⟩
      · rcases hcase with ⟨_, _, hd, _⟩ | ⟨_, _, hacc, _, _⟩
        · rw [hd, hda]
        · have := hq p (List.mem_cons_self _ _)
          rw [hacc] at this
          cases this
      · rw [hbytes] at hle
        omega
      · intro q hqm
        rw [hfile] at hqm
        exact hq q (List.mem_cons_of_mem _ hqm)
  · obtain ⟨hfile, hda⟩ := hs
    rw [hfile]
    exact ⟨rfl, hda, bytes.length + 1, by simp, hno⟩

/-- C18, evaluated at the failing input.  On a file that holds one accepted MID 28 and
then ends, `acqEpochData` (called with an empty observation list) returns true with the
four observations of that MID 28 in the model although no MID 7 has been consumed: the
only message consumed is the MID 28, and GPS week, TOW and clock bias are those the
model had before.  The driver counts one epoch.  On the sibling path (a second MID 28
with another software time instead of the end of the file) the observations are
discarded before the return.  In general, whenever the file ends at the top of an
iteration after a MID 28 has been accepted in the call, the call returns true with the
model as it is. -/
theorem unclosed_epoch_at_end_of_file :
    (((exampleFileAcq fileOneMID28).acqEpochData exampleModel false false).toOption.map
        (fun r => (r.ret, r.rinex.observations.length, r.trace, r.rinex.gpsWeek,
          r.rinex.gpsTOW, r.rinex.clkBias)))
      = some (true, 4, [⟨28, 0, true⟩], 1850, 0, 1 / 4) ∧
    generateRINEXEpochs RinexObsData.clearObs false false 5 (exampleFileAcq fileOneMID28)
        exampleModel = 1 ∧
    (((exampleFileAcq fileTwoEpochs).acqEpochData exampleModel false false).toOption.map
        (fun r => (r.ret, r.rinex.observations.length, r.trace)))
      = some (true, 0, [⟨28, 0, true⟩, ⟨28, 58, true⟩]) ∧
    (∀ (useMID15 useMID8 : Bool) (self0 : Acquisition) (rinex0 : RinexObsData)
        (s : EpochLoopState),
      LoopReaches useMID15 useMID8 (epochStart self0 rinex0) s →
      hasAccepted28 s.trace →
      OSPMessage.fill s.self.ospFile = FillResult.endOfStream →
      self0.acqEpochData rinex0 useMID15 useMID8
        = Except.ok ⟨true, s.self, s.rinex, s.trace⟩) := by
  refine ⟨by decide!, by decide!, by decide!, ?_⟩
  intro useMID15 useMID8 self0 rinex0 s hreach hacc hfill
  have hda := (reaches_dataAvailable useMID15 useMID8 self0 rinex0 s hreach).mpr hacc
  have hstep := acqEpochStep_eof useMID15 useMID8 s hfill
  rw [hda] at hstep
  exact acqEpochData_of_reaches useMID15 useMID8 self0 rinex0 s _ hreach hstep



/-! ## Claims on the sorting of the observations -/

theorem obsCompare_iff (a b : SatObsData) : obsCompare a b = true ↔ obsKeyLe a b := by
  unfold obsCompare obsKeyLe
  split_ifs <;> simp only [Bool.false_eq_true, false_iff, true_iff] <;> omega

theorem obsKeyLe_total (a b : SatObsData) : obsKeyLe a b ∨ obsKeyLe b a := by
  unfold obsKeyLe
  omega

theorem obsKeyLe_trans (a b c : SatObsData) (hab : obsKeyLe a b) (hbc : obsKeyLe b c) :
    obsKeyLe a c := by
  unfold obsKeyLe at *
  omega

theorem obsKeyLe_antisymm (a b : SatObsData) (hab : obsKeyLe a b) (hba : obsKeyLe b a) :
    obsKey a = obsKey b := by
  unfold obsKeyLe at *
  unfold obsKey
  simp only [Prod.mk.injEq]
  omega

theorem stdSort_perm (l : List SatObsData) : (stdSort obsCompare l).Perm l :=
  List.perm_insertionSort _ l

theorem stdSort_sorted (l : List SatObsData) : List.Sorted obsKeyLe (stdSort obsCompare l) := by
  haveI : IsTotal SatObsData (fun a b => obsCompare a b = true) :=
    ⟨fun a b => by
      simp only [obsCompare_iff]
      exact obsKeyLe_total a b⟩
  haveI : IsTrans SatObsData (fun a b => obsCompare a b = true) :=
    ⟨fun a b c hab hbc => by
      simp only [obsCompare_iff] at *
      exact obsKeyLe_trans a b c hab hbc⟩
  have h := List.sorted_insertionSort (fun a b => obsCompare a b = true) l
  exact List.Pairwise.imp (fun {a b} hab => (obsCompare_iff a b).mp hab) h

theorem stdSort_unique (l1 l2 : List SatObsData) (hp : l1.Perm l2)
    (hnd : (l1.map obsKey).Nodup) : stdSort obsCompare l1 = stdSort obsCompare l2 := by
  haveI : IsAntisymm SatObsData
      (fun a b => obsKeyLe a b ∧ (obsKey a = obsKey b → a = b)) :=
    ⟨fun a b hab hba => hab.2 (obsKeyLe_antisymm a b hab.1 hba.1)⟩
  have hperm : (stdSort obsCompare l1).Perm (stdSort obsCompare l2) :=
    (stdSort_perm l1).trans (hp.trans (stdSort_perm l2).symm)
  have hnd1 : ((stdSort obsCompare l1).map obsKey).Nodup :=
    ((stdSort_perm l1).map obsKey).nodup_iff.mpr hnd
  have hnd2 : ((stdSort obsCompare l2).map obsKey).Nodup :=
    (hperm.map obsKey).nodup_iff.mp hnd1
  have hstrong : ∀ l : List SatObsData, (l.map obsKey).Nodup → List.Sorted obsKeyLe l →
      List.Sorted (fun a b => obsKeyLe a b ∧ (obsKey a = obsKey b → a = b)) l := by
    intro l hn hs
    have hn2 : List.Pairwise (fun a b => obsKey a ≠ obsKey b) l := List.pairwise_map.mp hn
    exact List.Pairwise.imp₂ (fun a b hle hne => ⟨hle, fun he => absurd he hne⟩) hs hn2
  exact List.eq_of_perm_of_sorted hperm (hstrong _ hnd1 (stdSort_sorted l1))
    (hstrong _ hnd2 (stdSort_sorted l2))

theorem applyClockBias_other_list (rinex : RinexObsData) (l xs : List SatObsData) :
    applyClockBias { rinex with observations := l } xs = applyClockBias rinex xs := by
  induction xs with
  | nil => rfl
  | cons x rest ih =>
    rw [applyClockBias, applyClockBias, ih]
    rfl

theorem newSatelliteIds_other_list (rinex : RinexObsData) (l xs : List SatObsData) :
    newSatelliteIds { rinex with observations := l } xs = newSatelliteIds rinex xs := by
  induction xs with
  | nil => rfl
  | cons a rest ih =>
    cases rest with
    | nil => rfl
    | cons b rest2 =>
      rw [newSatelliteIds, newSatelliteIds, ih]
      rfl

theorem epochLineV210_other_list (rinex : RinexObsData) (l xs : List SatObsData) :
    epochLineV210 { rinex with observations := l } xs = epochLineV210 rinex xs := by
  cases xs with
  | nil => rfl
  | cons o rest =>
    unfold epochLineV210
    simp only [newSatelliteIds_other_list]
    rfl

theorem printAllSatLinesV300_other_list (rinex : RinexObsData) (l : List SatObsData)
    (fuel : Nat) : ∀ xs : List SatObsData,
      printAllSatLinesV300 { rinex with observations := l } fuel xs
        = printAllSatLinesV300 rinex fuel xs := by
  induction fuel with
  | zero =>
    intro xs
    rfl
  | succ n ih =>
    intro xs
    cases xs with
    | nil => rfl
    | cons o rest =>
      rw [printAllSatLinesV300, printAllSatLinesV300]
      simp only [ih]
      rfl

theorem epochLineV300_other_list (rinex : RinexObsData) (l xs : List SatObsData) :
    epochLineV300 { rinex with observations := l } xs = epochLineV300 rinex xs := rfl

theorem printObsEpoch_of_sorted (rinex : RinexObsData) (l l2 : List SatObsData) (fuel : Nat)
    (hlen : l.length = l2.length) (hs : stdSort obsCompare l = stdSort obsCompare l2) :
    ({ rinex with observations := l } : RinexObsData).printObsEpoch fuel
      = ({ rinex with observations := l2 } : RinexObsData).printObsEpoch fuel := by
  by_cases h0 : l.length = 0
  · have h1 : l = [] := List.length_eq_zero.mp h0
    have h2 : l2 = [] := List.length_eq_zero.mp (hlen ▸ h0)
    rw [h1, h2]
  · have h02 : ¬ l2.length = 0 := hlen ▸ h0
    unfold RinexObsData.printObsEpoch preparedObservations
    simp only [h0, h02, if_false, hs, applyClockBias_other_list, epochLineV210_other_list,
      printAllSatLinesV300_other_list, epochLineV300_other_list]

theorem sorted_result_unique (l s : List SatObsData) (hp : s.Perm l)
    (hnd : (l.map obsKey).Nodup) (hs : List.Sorted obsKeyLe s) : s = stdSort obsCompare l := by
  haveI : IsAntisymm SatObsData
      (fun a b => obsKeyLe a b ∧ (obsKey a = obsKey b → a = b)) :=
    ⟨fun a b hab hba => hab.2 (obsKeyLe_antisymm a b hab.1 hba.1)⟩
  have hperm : s.Perm (stdSort obsCompare l) := hp.trans (stdSort_perm l).symm
  have hnd1 : (s.map obsKey).Nodup := (hp.map obsKey).nodup_iff.mpr hnd
  have hnd2 : ((stdSort obsCompare l).map obsKey).Nodup :=
    (hperm.map obsKey).nodup_iff.mp hnd1
  have hstrong : ∀ l : List SatObsData, (l.map obsKey).Nodup → List.Sorted obsKeyLe l →
      List.Sorted (fun a b => obsKeyLe a b ∧ (obsKey a = obsKey b → a = b)) l := by
    intro l hn hs
    have hn2 : List.Pairwise (fun a b => obsKey a ≠ obsKey b) l := List.pairwise_map.mp hn
    exact List.Pairwise.imp₂ (fun a b hle hne => ⟨hle, fun he => absurd he hne⟩) hs hn2
  exact List.eq_of_perm_of_sorted hperm (hstrong _ hnd1 hs) (hstrong _ hnd2 (stdSort_sorted l))

theorem sort_postcondition_keys (s : List SatObsData)
    (h : List.Pairwise (fun a b => obsCompare b a = false) s) :
    List.Sorted obsKeyLe s ∧ (s.map obsKey).Nodup := by
  have h1 : List.Pairwise (fun a b => obsKeyLe a b ∧ obsKey a ≠ obsKey b) s := by
    refine List.Pairwise.imp ?_ h
    intro a b hab
    have hn : ¬ obsKeyLe b a := by
      rw [← obsCompare_iff, hab]
      exact Bool.false_ne_true
    refine ⟨(obsKeyLe_total a b).resolve_right hn, ?_⟩
    intro he
    apply hn
    unfold obsKey at he
    simp only [Prod.mk.injEq] at he
    unfold obsKeyLe
    omega
  exact ⟨List.Pairwise.imp (fun hab => hab.1) h1,
    List.pairwise_map.mpr (List.Pairwise.imp (fun hab => hab.2) h1)⟩

/-- C20: the claim holds of the code only for lists without a repeated key.  `sort` is
specified for a comparator that is a strict weak ordering; its result is then a
permutation `s` of the list with `comp(s[j], s[i])` false for all `i < j`.  For
`obsCompare` such a permutation exists exactly when the keys (system index, satellite,
observation-type index) of the list are pairwise distinct: it is then the list that the
model's sort gives, a permutation with strictly increasing keys, the same for every
order of arrival, and `printObsEpoch` prints the same epoch and leaves the same model
for two lists that are permutations of each other.  When a key is repeated (as in the
epochs that `fileRepeatedMID28` and `fileSixMID28` leave, of 8 and of 24 observations),
`obsCompare` is true both ways on the two observations of that key and no order of the
list meets the requirement, so the library call is outside its specification. -/
theorem printObsEpoch_sorts (l : List SatObsData) :
    ((l.map obsKey).Nodup →
      (stdSort obsCompare l).Perm l ∧
      List.Pairwise (fun a b => obsCompare b a = false) (stdSort obsCompare l) ∧
      (∀ (i : Nat) (h : i + 1 < (stdSort obsCompare l).length),
        obsKeyLe ((stdSort obsCompare l).get ⟨i, Nat.lt_of_succ_lt h⟩)
          ((stdSort obsCompare l).get ⟨i + 1, h⟩)) ∧
      (∀ s : List SatObsData, s.Perm l →
        List.Pairwise (fun a b => obsCompare b a = false) s → s = stdSort obsCompare l) ∧
      (∀ l2 : List SatObsData, l.Perm l2 →
        stdSort obsCompare l = stdSort obsCompare l2 ∧
        ∀ (rinex : RinexObsData) (fuel : Nat),
          ({ rinex with observations := l } : RinexObsData).printObsEpoch fuel
            = ({ rinex with observations := l2 } : RinexObsData).printObsEpoch fuel)) ∧
    (∀ a b : SatObsData, obsKeyLe a b ↔
      toLex (a.sysIndex, toLex (a.satellite, a.obsTypeIndex))
        ≤ toLex (b.sysIndex, toLex (b.satellite, b.obsTypeIndex))) ∧
    (¬ (l.map obsKey).Nodup →
      (∀ s : List SatObsData, s.Perm l →
        ¬ List.Pairwise (fun a b => obsCompare b a = false) s) ∧
      ∃ a b : SatObsData, [a, b].Sublist l ∧ obsCompare a b = true ∧ obsCompare b a = true) ∧
    ((exampleFileAcq fileRepeatedMID28).acqEpochData exampleModel false false).toOption.map
        (fun r => (r.ret, r.rinex.observations.length,
          decide ((r.rinex.observations.map obsKey).Nodup)))
      = some (true, 8, false) ∧
    ((exampleFileAcq fileSixMID28).acqEpochData exampleModel false false).toOption.map
        (fun r => (r.ret, r.rinex.observations.length,
          decide ((r.rinex.observations.map obsKey).Nodup)))
      = some (true, 24, false) := by
  refine ⟨?_, ?_, ?_, by decide!, by decide!⟩
  · intro hnd
    have hnd1 : ((stdSort obsCompare l).map obsKey).Nodup :=
      ((stdSort_perm l).map obsKey).nodup_iff.mpr hnd
    have hpost : List.Pairwise (fun a b => obsCompare b a = false) (stdSort obsCompare l) := by
      have hn2 : List.Pairwise (fun a b => obsKey a ≠ obsKey b) (stdSort obsCompare l) :=
        List.pairwise_map.mp hnd1
      refine List.Pairwise.imp₂ ?_ (stdSort_sorted l) hn2
      intro a b hle hne
      cases hc : obsCompare b a with
      | false => rfl
      | true => exact absurd (obsKeyLe_antisymm a b hle ((obsCompare_iff b a).mp hc)) hne
    refine ⟨stdSort_perm l, hpost, ?_, ?_, ?_⟩
    · intro i h
      exact (List.pairwise_iff_get.mp (stdSort_sorted l)) ⟨i, Nat.lt_of_succ_lt h⟩ ⟨i + 1, h⟩
        (by simp [Fin.lt_def])
    · intro s hp hs
      exact sorted_result_unique l s hp hnd (sort_postcondition_keys s hs).1
    · intro l2 hp
      have he := stdSort_unique l l2 hp hnd
      exact ⟨he, fun rinex fuel => printObsEpoch_of_sorted rinex l l2 fuel hp.length_eq he⟩
  · intro a b
    unfold obsKeyLe
    simp only [Prod.Lex.le_iff]
  · intro hnd
    refine ⟨?_, ?_⟩
    · intro s hp hs
      exact hnd ((hp.map obsKey).nodup_iff.mp (sort_postcondition_keys s hs).2)
    · have hpw : ¬ List.Pairwise (fun a b => obsKey a ≠ obsKey b) l := fun h =>
        hnd (List.pairwise_map.mpr h)
      rw [List.pairwise_iff_forall_sublist] at hpw
      simp only [not_forall, ne_eq, not_not] at hpw
      obtain ⟨a, b, hsub, he⟩ := hpw
      refine ⟨a, b, hsub, ?_, ?_⟩
      · rw [obsCompare_iff]
        unfold obsKey at he
        simp only [Prod.mk.injEq] at he
        unfold obsKeyLe
        omega
      · rw [obsCompare_iff]
        unfold obsKey at he
        simp only [Prod.mk.injEq] at he
        unfold obsKeyLe
        omega

/-- C20 on two orders of the same three observations (satellites 9 and 7 of system 0):
the same sorted list. -/
theorem printObsEpoch_sorts_witness :
    stdSort obsCompare
        [⟨0, 9, 1, 0, 21000000, 0, 5⟩, ⟨0, 7, 1, 3, 31, 0, 0⟩, ⟨0, 7, 1, 0, 20000000, 0, 5⟩]
      = stdSort obsCompare
        [⟨0, 7, 1, 3, 31, 0, 0⟩, ⟨0, 7, 1, 0, 20000000, 0, 5⟩, ⟨0, 9, 1, 0, 21000000, 0, 5⟩] :=
  ((printObsEpoch_sorts
      [⟨0, 9, 1, 0, 21000000, 0, 5⟩, ⟨0, 7, 1, 3, 31, 0, 0⟩, ⟨0, 7, 1, 0, 20000000, 0, 5⟩]).1
    (by decide!)).2.2.2.2
    [⟨0, 7, 1, 3, 31, 0, 0⟩, ⟨0, 7, 1, 0, 20000000, 0, 5⟩, ⟨0, 9, 1, 0, 21000000, 0, 5⟩]
    (by decide!) |>.1

/-! ## Helper lemmas on the printing of an epoch -/

theorem strFindFrom_zero_iff (pat s : List Char) (i : Nat) :
    strFindFrom pat s i = some i ↔ pat.isPrefixOf s = true := by
  cases s with
  | nil =>
    unfold strFindFrom
    by_cases h : pat.isPrefixOf [] = true
    · simp only [h, if_true]
    · simp only [h, if_false, Bool.false_eq_true, reduceCtorEq]
  | cons c t =>
    unfold strFindFrom
    by_cases h : pat.isPrefixOf (c :: t) = true
    · simp only [h, if_true]
    · simp only [h, if_false, Bool.false_eq_true, iff_false]
      have hge : ∀ (l : List Char) (j k : Nat), strFindFrom pat l j = some k → j ≤ k := by
        intro l
        induction l with
        | nil =>
          intro j k hk
          unfold strFindFrom at hk
          split_ifs at hk
          simp only [Option.some.injEq] at hk
          omega
        | cons a l ih =>
          intro j k hk
          unfold strFindFrom at hk
          split_ifs at hk
          · simp only [Option.some.injEq] at hk
            omega
          · have := ih (j + 1) k hk
            omega
      intro hk
      have := hge t (i + 1) i hk
      omega

theorem strFind_zero_iff (pat s : String) :
    strFind pat s = some 0 ↔ pat.toList <+: s.toList := by
  unfold strFind
  rw [strFindFrom_zero_iff]
  exact List.isPrefixOf_iff_prefix

theorem applyClockBias_ok (rinex : RinexObsData) (l : List SatObsData)
    (f : SatObsData → Double)
    (h : ∀ o ∈ l, ∃ s, rinex.systems[o.sysIndex]? = some s ∧
      s.biasFactor[o.obsTypeIndex]? = some (f o)) :
    applyClockBias rinex l
      = Except.ok (l.map (fun o => { o with obsValue := o.obsValue - rinex.clkBias * f o })) := by
  induction l with
  | nil => rfl
  | cons o rest ih =>
    obtain ⟨s, hs, hf⟩ := h o (List.mem_cons_self _ _)
    have hrest := ih (fun x hx => h x (List.mem_cons_of_mem _ hx))
    unfold applyClockBias biasedObservation
    simp only [hs, hf, hrest, List.map_cons]

/-! ## Claims on the printing of an epoch -/

/-- C21: the constructor `GNSSsystem` gives `biasFactor` the length of the observable
list, with 299792458 for a code that starts with C, 1575420000 for L1, the L2, L5, L6,
L7, L8 carrier frequency for those prefixes, and 0 for any other code.  With
`applyBias` set, the observations that `printObsEpoch` prints are the sorted ones with
every value `v` replaced by `v - clkBias * biasFactor[system][obsType]`; with the
observables C1C, L1C, D1C, S1C the factors are c, the L1 frequency, 0 and 0, so that D1C
and S1C values are unchanged.  Values are rational numbers. -/
theorem clock_bias_applied (rinex : RinexObsData) (sys : Char) (obsT : List String) :
    (GNSSsystem.construct sys obsT).biasFactor.length = obsT.length ∧
    (∀ (i : Nat) (t : String), obsT[i]? = some t →
      (GNSSsystem.construct sys obsT).biasFactor[i]? = some
        (if "C".toList <+: t.toList then 299792458
         else if "L1".toList <+: t.toList then 1575420000
         else if "L2".toList <+: t.toList then 1227600000
         else if "L5".toList <+: t.toList then 1176450000
         else if "L6".toList <+: t.toList then 1278750000
         else if "L7".toList <+: t.toList then 1207140000
         else if "L8".toList <+: t.toList then 1191795000
         else 0)) ∧
    (GNSSsystem.construct sys ["C1C", "L1C", "D1C", "S1C"]).biasFactor
      = [299792458, 1575420000, 0, 0] ∧
    (rinex.applyBias = true →
      ∀ f : SatObsData → Double,
        (∀ o ∈ rinex.observations, ∃ s, rinex.systems[o.sysIndex]? = some s ∧
          s.biasFactor[o.obsTypeIndex]? = some (f o)) →
        preparedObservations rinex
          = Except.ok ((stdSort obsCompare rinex.observations).map
              (fun o => { o with obsValue := o.obsValue - rinex.clkBias * f o })) ∧
        (∀ o ∈ rinex.observations, f o = 0 →
          ({ o with obsValue := o.obsValue - rinex.clkBias * f o } : SatObsData) = o)) := by
  refine ⟨?_, ?_, ?_, ?_⟩
  · simp only [GNSSsystem.construct, List.length_map]
  · intro i t ht
    simp only [GNSSsystem.construct, List.getElem?_map, ht, Option.map_some']
    unfold biasFactorFor
    simp only [strFind_zero_iff, LSPEED, L1CFREQ, L2CFREQ, L5CFREQ, L6CFREQ, L7CFREQ, L8CFREQ]
  · simp only [GNSSsystem.construct]
    decide!
  · intro hb f hf
    refine ⟨?_, ?_⟩
    · unfold preparedObservations
      rw [if_pos hb]
      apply applyClockBias_ok
      intro o ho
      exact hf o ((stdSort_perm rinex.observations).mem_iff.mp ho)
    · intro o _ h0
      rw [h0]
      simp only [mul_zero, sub_zero]

theorem satIdCall_systems (r1 r2 : RinexObsData) (h : r1.systems = r2.systems)
    (o : SatObsData) : satIdCall r1 o = satIdCall r2 o := by
  unfold satIdCall
  rw [h]

theorem newSatelliteIds_systems (r1 r2 : RinexObsData) (h : r1.systems = r2.systems)
    (l : List SatObsData) : newSatelliteIds r1 l = newSatelliteIds r2 l := by
  induction l with
  | nil => rfl
  | cons a rest ih =>
    cases rest with
    | nil => rfl
    | cons b rest2 =>
      unfold newSatelliteIds
      rw [satIdCall_systems r1 r2 h, ih]

theorem withoutBiasField_append (a b : List PrintCall) :
    withoutBiasField (a ++ b) = withoutBiasField a ++ withoutBiasField b := by
  unfold withoutBiasField
  exact List.filter_append a b

theorem epochLineV210_clkBias (rinex : RinexObsData) (c : Double) (l : List SatObsData)
    (hb : rinex.applyBias = false) :
    (epochLineV210 { rinex with clkBias := c } l).map withoutBiasField
      = (epochLineV210 rinex l).map withoutBiasField := by
  cases l with
  | nil => rfl
  | cons o rest =>
    simp only [epochLineV210]
    rw [satIdCall_systems { rinex with clkBias := c } rinex rfl,
      newSatelliteIds_systems { rinex with clkBias := c } rinex rfl]
    cases h1 : satIdCall rinex o with
    | error e => rfl
    | ok firstId =>
      cases h2 : newSatelliteIds rinex (o :: rest) with
      | error e => rfl
      | ok ids =>
        simp only [Except.map, hb, Bool.false_eq_true, if_false, withoutBiasField_append,
          Except.ok.injEq]
        congr 1

/-- C22, with the failing input evaluated.  With `applyBias` off, the observations that
`printObsEpoch` prints are the sorted stored ones, unshifted, in both formats, and a
V210 epoch is printed by the same calls for every clock bias, the call that prints the
clock bias apart.  A V300 epoch is not: the epoch `exampleEpochV300` (receiver time 100)
is printed with the time of second 100 and 40.0 seconds when the clock bias is 0, and
with the time of second 99 and 39.5 seconds when the clock bias is 1/2 s: the V300
branch subtracts the clock bias from the time whatever `applyBias` is. -/
theorem unbiased_epoch_time (rinex : RinexObsData) (c : Double) (fuel : Nat) :
    (rinex.applyBias = false →
      preparedObservations rinex = Except.ok (stdSort obsCompare rinex.observations)) ∧
    (rinex.applyBias = false → rinex.version = RINEXversion.V210 →
      (({ rinex with clkBias := c } : RinexObsData).printObsEpoch fuel).map
          (fun r => (r.1.observations, withoutBiasField r.2))
        = (rinex.printObsEpoch fuel).map (fun r => (r.1.observations, withoutBiasField r.2))) ∧
    ((exampleEpochV300 0).printObsEpoch 10).toOption.map (fun r => r.2.head?)
      = some (some ⟨"%s%11.7f",
          [PrintArg.gpsTime "> %Y %m %d %H %M" 1850 100, PrintArg.dbl 40]⟩) ∧
    ((exampleEpochV300 (1 / 2)).printObsEpoch 10).toOption.map (fun r => r.2.head?)
      = some (some ⟨"%s%11.7f",
          [PrintArg.gpsTime "> %Y %m %d %H %M" 1850 99, PrintArg.dbl (79 / 2)]⟩) ∧
    ((exampleEpochV300 (1 / 2)).printObsEpoch 10).toOption.map
        (fun r => (r.2.drop 2))
      = ((exampleEpochV300 0).printObsEpoch 10).toOption.map (fun r => (r.2.drop 2)) := by
  refine ⟨?_, ?_, by decide!, by decide!, by decide!⟩
  · intro hb
    unfold preparedObservations
    simp only [hb, Bool.false_eq_true, if_false]
  · intro hb hv
    obtain ⟨nav, ver, n1, n2, n3, x, y, z, w1, w2, fw, ft, oi, gw, gt, ett, cb, ab, ef, sy, obs,
      ae⟩ := rinex
    simp only at hb hv
    subst hb hv
    have hline := epochLineV210_clkBias
      ⟨nav, RINEXversion.V210, n1, n2, n3, x, y, z, w1, w2, fw, ft, oi, gw, gt, ett, cb, false,
        ef, sy, obs, ae⟩ c (stdSort obsCompare obs) rfl
    simp only at hline
    unfold RinexObsData.printObsEpoch preparedObservations
    by_cases hlen : obs.length = 0
    · simp only [hlen, if_true, Except.map, withoutBiasField, List.filter_nil]
    · simp only [hlen, if_false, Bool.false_eq_true]
      cases h1 : epochLineV210
          ⟨nav, RINEXversion.V210, n1, n2, n3, x, y, z, w1, w2, fw, ft, oi, gw, gt, ett, cb, false,
            ef, sy, obs, ae⟩ (stdSort obsCompare obs) with
      | error e =>
        rw [h1] at hline
        cases h2 : epochLineV210
            ⟨nav, RINEXversion.V210, n1, n2, n3, x, y, z, w1, w2, fw, ft, oi, gw, gt, ett, c, false,
              ef, sy, obs, ae⟩ (stdSort obsCompare obs) with
        | error e2 =>
          rw [h2] at hline
          simp only [Except.map, Except.error.injEq] at hline
          simp only [Except.map, hline]
        | ok line2 =>
          rw [h2] at hline
          simp only [Except.map, reduceCtorEq] at hline
      | ok line =>
        rw [h1] at hline
        cases h2 : epochLineV210
            ⟨nav, RINEXversion.V210, n1, n2, n3, x, y, z, w1, w2, fw, ft, oi, gw, gt, ett, c, false,
              ef, sy, obs, ae⟩ (stdSort obsCompare obs) with
        | error e2 =>
          rw [h2] at hline
          simp only [Except.map, reduceCtorEq] at hline
        | ok line2 =>
          rw [h2] at hline
          simp only [Except.map, Except.ok.injEq] at hline
          cases h3 : printAllSatLines fuel (stdSort obsCompare obs) with
          | error e => rfl
          | ok r =>
            simp only [Except.map, withoutBiasField_append, hline]

theorem slotEnd_ge (l : List SatObsData) (k : Nat) (h : typesIncreaseFrom k l) :
    k ≤ slotEnd k l := by
  induction l generalizing k with
  | nil => exact le_refl k
  | cons o rest ih =>
    have := ih (o.obsTypeIndex + 1) h.2
    have hk := h.1
    unfold slotEnd
    omega

theorem satValuesLoop_other (sysToPrint : Nat) (satToPrint : Int) (fuel k : Nat)
    (rest : List SatObsData) (hrest : startsOtherSatellite sysToPrint satToPrint rest) :
    satValuesLoop sysToPrint satToPrint (fuel + 1) k rest = Except.ok (rest, []) := by
  cases rest with
  | nil => rfl
  | cons r rs =>
    unfold satValuesLoop
    simp only
    rw [if_neg hrest]

theorem satValuesLoop_skip (sysToPrint : Nat) (satToPrint : Int) (o : SatObsData)
    (tail : List SatObsData) (ho : o.sysIndex = sysToPrint ∧ o.satellite = satToPrint)
    (d : Nat) : ∀ (fuel k : Nat), k + d = o.obsTypeIndex →
      satValuesLoop sysToPrint satToPrint (fuel + d) k (o :: tail)
        = match satValuesLoop sysToPrint satToPrint fuel o.obsTypeIndex (o :: tail) with
          | Except.error e => Except.error e
          | Except.ok (left, calls) => Except.ok (left, List.replicate d emptySlotCall ++ calls) := by
  induction d with
  | zero =>
    intro fuel k hk
    simp only [Nat.add_zero] at hk
    subst hk
    simp only [Nat.add_zero, List.replicate_zero, List.nil_append]
    generalize satValuesLoop sysToPrint satToPrint fuel o.obsTypeIndex (o :: tail) = x
    rcases x with e | ⟨left, calls⟩ <;> rfl
  | succ d ih =>
    intro fuel k hk
    have hne : ¬ o.obsTypeIndex = k := by omega
    have hstep : satValuesLoop sysToPrint satToPrint (fuel + (d + 1)) k (o :: tail)
        = match satValuesLoop sysToPrint satToPrint (fuel + d) (k + 1) (o :: tail) with
          | Except.error e => Except.error e
          | Except.ok (left, calls) => Except.ok (left, emptySlotCall :: calls) := by
      rw [show fuel + (d + 1) = (fuel + d) + 1 from rfl]
      rw [satValuesLoop]
      simp only [ho, and_self, if_true, hne, if_false]
    rw [hstep, ih fuel (k + 1) (by omega)]
    generalize satValuesLoop sysToPrint satToPrint fuel o.obsTypeIndex (o :: tail) = x
    rcases x with e | ⟨left, calls⟩
    · rfl
    · simp only [List.replicate_succ, List.cons_append]

theorem satValuesLoop_slots (sysToPrint : Nat) (satToPrint : Int) (rest : List SatObsData)
    (hrest : startsOtherSatellite sysToPrint satToPrint rest) (l : List SatObsData) :
    ∀ (k fuel : Nat), (∀ x ∈ l, x.sysIndex = sysToPrint ∧ x.satellite = satToPrint) →
      typesIncreaseFrom k l → slotEnd k l - k < fuel →
      satValuesLoop sysToPrint satToPrint fuel k (l ++ rest) = Except.ok (rest, slotCalls k l) := by
  induction l with
  | nil =>
    intro k fuel _ _ hfuel
    cases fuel with
    | zero => omega
    | succ n => exact satValuesLoop_other sysToPrint satToPrint n k rest hrest
  | cons o tail ih =>
    intro k fuel hsame hinc hfuel
    have ho := hsame o (List.mem_cons_self _ _)
    have hk : k ≤ o.obsTypeIndex := hinc.1
    have hge := slotEnd_ge tail (o.obsTypeIndex + 1) hinc.2
    have hend : slotEnd k (o :: tail) = slotEnd (o.obsTypeIndex + 1) tail := rfl
    rw [hend] at hfuel
    obtain ⟨f1, hf1⟩ : ∃ f1, fuel = (f1 + 1) + (o.obsTypeIndex - k) := ⟨fuel - 1 - (o.obsTypeIndex - k), by omega⟩
    rw [hf1, List.cons_append,
      satValuesLoop_skip sysToPrint satToPrint o (tail ++ rest) ho (o.obsTypeIndex - k) (f1 + 1) k
        (by omega)]
    have hstep : satValuesLoop sysToPrint satToPrint (f1 + 1) o.obsTypeIndex (o :: (tail ++ rest))
        = match satValuesLoop sysToPrint satToPrint f1 (o.obsTypeIndex + 1) (tail ++ rest) with
          | Except.error e => Except.error e
          | Except.ok (left, calls) => Except.ok (left, valueCalls o ++ calls) := by
      rw [satValuesLoop]
      simp only [ho, and_self, if_true]
    rw [hstep, ih (o.obsTypeIndex + 1) f1 (fun x hx => hsame x (List.mem_cons_of_mem _ hx)) hinc.2
      (by omega)]
    simp only [slotCalls, List.append_assoc]

theorem find_none_below (l : List SatObsData) (k i : Nat) (h : typesIncreaseFrom k l)
    (hi : i < k) : l.find? (fun o => decide (o.obsTypeIndex = i)) = none := by
  induction l generalizing k with
  | nil => rfl
  | cons o rest ih =>
    have hk := h.1
    have hne : ¬ o.obsTypeIndex = i := by omega
    simp only [List.find?_cons, hne, decide_False]
    exact ih (o.obsTypeIndex + 1) h.2 (by omega)

theorem flatMap_range_const (f : Nat → List PrintCall) (c : PrintCall) (d : Nat) :
    ∀ k : Nat, (∀ i ∈ List.range' k d, f i = [c]) →
      (List.range' k d).flatMap f = List.replicate d c := by
  induction d with
  | zero =>
    intro k _
    rfl
  | succ d ih =>
    intro k hall
    rw [List.range'_succ, List.flatMap_cons, List.replicate_succ,
      hall k (by simp [List.mem_range'_1])]
    rw [ih (k + 1) (fun i hi => hall i (by
      rw [List.mem_range'_1] at hi ⊢
      omega))]
    rfl

theorem slotCalls_eq_slots (l : List SatObsData) (k : Nat) (h : typesIncreaseFrom k l) :
    slotCalls k l = (List.range' k (slotEnd k l - k)).flatMap (slotOfType l) := by
  induction l generalizing k with
  | nil => simp [slotCalls, slotEnd]
  | cons o rest ih =>
    have hk : k ≤ o.obsTypeIndex := h.1
    have hge := slotEnd_ge rest (o.obsTypeIndex + 1) h.2
    have hend : slotEnd k (o :: rest) = slotEnd (o.obsTypeIndex + 1) rest := rfl
    have hsplit : List.range' k (slotEnd (o.obsTypeIndex + 1) rest - k)
        = List.range' k (o.obsTypeIndex - k) ++ (o.obsTypeIndex ::
            List.range' (o.obsTypeIndex + 1)
              (slotEnd (o.obsTypeIndex + 1) rest - (o.obsTypeIndex + 1))) := by
      have e1 : slotEnd (o.obsTypeIndex + 1) rest - k
          = ((slotEnd (o.obsTypeIndex + 1) rest - (o.obsTypeIndex + 1)) + 1)
            + (o.obsTypeIndex - k) := by omega
      have e2 : k + (o.obsTypeIndex - k) = o.obsTypeIndex := by omega
      rw [e1, ← List.range'_append_1, e2, List.range'_succ]
    rw [hend, hsplit, List.flatMap_append, List.flatMap_cons]
    unfold slotCalls
    rw [ih (o.obsTypeIndex + 1) h.2]
    have hfirst : (List.range' k (o.obsTypeIndex - k)).flatMap (slotOfType (o :: rest))
        = List.replicate (o.obsTypeIndex - k) emptySlotCall := by
      have hall : ∀ i ∈ List.range' k (o.obsTypeIndex - k),
          slotOfType (o :: rest) i = [emptySlotCall] := by
        intro i hi
        rw [List.mem_range'_1] at hi
        unfold slotOfType
        rw [find_none_below (o :: rest) o.obsTypeIndex i ⟨le_refl _, h.2⟩ (by omega)]
      exact flatMap_range_const _ _ _ _ hall
    have hmid : slotOfType (o :: rest) o.obsTypeIndex = valueCalls o := by
      unfold slotOfType
      simp only [List.find?_cons, decide_True]
    have hlast : (List.range' (o.obsTypeIndex + 1)
          (slotEnd (o.obsTypeIndex + 1) rest - (o.obsTypeIndex + 1))).flatMap
            (slotOfType (o :: rest))
        = (List.range' (o.obsTypeIndex + 1)
          (slotEnd (o.obsTypeIndex + 1) rest - (o.obsTypeIndex + 1))).flatMap (slotOfType rest) := by
      apply List.flatMap_congr
      intro i hi
      rw [List.mem_range'_1] at hi
      have hne : ¬ o.obsTypeIndex = i := by omega
      unfold slotOfType
      simp only [List.find?_cons, hne, decide_False]
    rw [hfirst, hmid, hlast, List.append_assoc]

theorem fieldCount_append (a b : List PrintCall) :
    fieldCount (a ++ b) = fieldCount a + fieldCount b := by
  unfold fieldCount
  exact List.countP_append _ a b

theorem fieldCount_valueCalls (o : SatObsData) : fieldCount (valueCalls o) = 1 := by
  unfold valueCalls fieldCount
  by_cases h1 : o.lossOfLock = 0 <;> by_cases h2 : o.strength = 0 <;>
    simp only [h1, h2, if_true, if_false] <;> rfl

theorem fieldCount_slotOfType (l : List SatObsData) (i : Nat) :
    fieldCount (slotOfType l i) = 1 := by
  unfold slotOfType
  cases l.find? (fun o => decide (o.obsTypeIndex = i)) with
  | none => decide
  | some o => exact fieldCount_valueCalls o

theorem fieldCount_slots (l : List SatObsData) (n : Nat) :
    fieldCount ((List.range n).flatMap (slotOfType l)) = n := by
  induction n with
  | zero => rfl
  | succ n ih =>
    rw [List.range_succ, List.flatMap_append, fieldCount_append, ih, List.flatMap_singleton,
      fieldCount_slotOfType]

theorem slotEnd_getLast (l : List SatObsData) (k : Nat) (o : SatObsData) :
    ((o :: l).getLast?).map (fun x => x.obsTypeIndex + 1) = some (slotEnd k (o :: l)) := by
  induction l generalizing k o with
  | nil => rfl
  | cons a rest ih =>
    rw [List.getLast?_cons_cons]
    exact ih (o.obsTypeIndex + 1) a

theorem typesIncreaseFrom_of_pairwise (l : List SatObsData) (k : Nat)
    (hk : ∀ x ∈ l, k ≤ x.obsTypeIndex)
    (hp : l.Pairwise (fun a b => a.obsTypeIndex < b.obsTypeIndex)) : typesIncreaseFrom k l := by
  induction l generalizing k with
  | nil => trivial
  | cons o rest ih =>
    rw [List.pairwise_cons] at hp
    exact ⟨hk o (List.mem_cons_self _ _), ih (o.obsTypeIndex + 1) (fun x hx => hp.1 x hx) hp.2⟩

theorem typesIncreaseFrom_of_sorted (l : List SatObsData) (sys : Nat) (sat : Int)
    (hsame : ∀ x ∈ l, x.sysIndex = sys ∧ x.satellite = sat)
    (hs : l.Sorted obsKeyLe) (hnd : (l.map obsKey).Nodup) : typesIncreaseFrom 0 l := by
  apply typesIncreaseFrom_of_pairwise l 0 (fun x _ => Nat.zero_le _)
  have hn2 : List.Pairwise (fun a b => obsKey a ≠ obsKey b) l := List.pairwise_map.mp hnd
  have hboth := List.Pairwise.and hs hn2
  refine List.Pairwise.imp_of_mem ?_ hboth
  intro a b ha hb hab
  obtain ⟨hle, hne⟩ := hab
  have h1 := hsame a ha
  have h2 := hsame b hb
  unfold obsKeyLe at hle
  unfold obsKey at hne
  simp only [ne_eq, Prod.mk.injEq, not_and] at hne
  have hne2 : a.obsTypeIndex ≠ b.obsTypeIndex := hne (by omega) (by omega)
  omega

/-- C23 as the code has it.  For a satellite whose stored observations `o :: same` have
strictly increasing type indexes (as the sort leaves them when no satellite has a type
twice), followed by observations of another satellite or by nothing,
`printSatObsValues` ends, removes those observations and writes one field for every
type index from 0 up to the type index of the last stored observation of the satellite,
in order: the stored value (0.0 when out of the range of the format), loss of lock and
strength where the satellite has that type, `%14.3f` of 0.0 and two blanks where it
lacks it; then the end of line.  No field is written for the types after the last
stored one. -/
theorem printSatObsValues_slots (o : SatObsData) (same rest : List SatObsData) (fuel : Nat)
    (hsame : ∀ x ∈ same, x.sysIndex = o.sysIndex ∧ x.satellite = o.satellite)
    (hrest : startsOtherSatellite o.sysIndex o.satellite rest)
    (hinc : typesIncreaseFrom 0 (o :: same))
    (hfuel : slotEnd 0 (o :: same) < fuel) :
    printSatObsValues fuel (o :: same ++ rest)
      = Except.ok (decide (rest.length > 0), rest,
          (List.range (slotEnd 0 (o :: same))).flatMap (slotOfType (o :: same))
            ++ [⟨"\n", []⟩]) ∧
    fieldCount ((List.range (slotEnd 0 (o :: same))).flatMap (slotOfType (o :: same)))
      = slotEnd 0 (o :: same) ∧
    ((o :: same).getLast?).map (fun x => x.obsTypeIndex + 1) = some (slotEnd 0 (o :: same)) ∧
    (∀ i : Nat, slotOfType (o :: same) i =
      match (o :: same).find? (fun x => decide (x.obsTypeIndex = i)) with
      | some x =>
        [⟨"%14.3f", [PrintArg.dbl
            (if x.obsValue > MAXOBSVAL ∨ x.obsValue < MINOBSVAL then 0 else x.obsValue)]⟩,
          (if x.lossOfLock = 0 then ⟨" ", []⟩ else ⟨"%1d", [PrintArg.int x.lossOfLock]⟩),
          (if x.strength = 0 then ⟨" ", []⟩ else ⟨"%1d", [PrintArg.int x.strength]⟩)]
      | none => [⟨"%14.3f  ", [PrintArg.dbl 0]⟩]) := by
  refine ⟨?_, fieldCount_slots _ _, slotEnd_getLast same 0 o, fun i => rfl⟩
  have hall : ∀ x ∈ o :: same, x.sysIndex = o.sysIndex ∧ x.satellite = o.satellite := by
    intro x hx
    rcases List.mem_cons.mp hx with h | h
    · rw [h]
      exact ⟨rfl, rfl⟩
    · exact hsame x h
  have hloop := satValuesLoop_slots o.sysIndex o.satellite rest hrest (o :: same) 0 fuel hall hinc
    (by omega)
  rw [List.cons_append] at hloop
  unfold printSatObsValues
  simp only [List.cons_append, hloop]
  rw [slotCalls_eq_slots (o :: same) 0 hinc, Nat.sub_zero, List.range_eq_range']

/-- C23 on the observations of satellite 7 (C1C and S1C, types 0 and 3) followed by one of
satellite 9: four fields, the two in the middle empty. -/
theorem printSatObsValues_slots_witness :
    printSatObsValues 10
        ((⟨0, 7, 100, 0, 20000000, 0, 5⟩ : SatObsData) :: [⟨0, 7, 100, 3, 31, 0, 0⟩]
          ++ [⟨0, 9, 100, 0, 21000000, 0, 5⟩])
      = Except.ok (decide (([⟨0, 9, 100, 0, 21000000, 0, 5⟩] : List SatObsData).length > 0),
          [⟨0, 9, 100, 0, 21000000, 0, 5⟩],
          (List.range (slotEnd 0 [⟨0, 7, 100, 0, 20000000, 0, 5⟩, ⟨0, 7, 100, 3, 31, 0, 0⟩])).flatMap
              (slotOfType [⟨0, 7, 100, 0, 20000000, 0, 5⟩, ⟨0, 7, 100, 3, 31, 0, 0⟩])
            ++ [⟨"\n", []⟩]) :=
  (printSatObsValues_slots ⟨0, 7, 100, 0, 20000000, 0, 5⟩ [⟨0, 7, 100, 3, 31, 0, 0⟩]
    [⟨0, 9, 100, 0, 21000000, 0, 5⟩] 10 (by decide) (by simp [startsOtherSatellite])
    (by simp [typesIncreaseFrom]) (by decide)).1

/-- C23 fails as stated: with the four observables C1C, L1C, D1C, S1C configured, the line
of a satellite that has only C1C holds one field, not four. -/
theorem printSatObsValues_skips_trailing_types :
    (printSatObsValues 10 [⟨0, 9, 100, 0, 21000000, 0, 5⟩]).toOption.map
        (fun r => (r.2.2, fieldCount r.2.2))
      = some ([⟨"%14.3f", [PrintArg.dbl 21000000]⟩, ⟨" ", []⟩, ⟨"%1d", [PrintArg.int 5]⟩,
          ⟨"\n", []⟩], 1) ∧
    (exampleSystems[0]?).map (fun s => s.obsType.length) = some 4 ∧
    (exampleEpoch.printObsEpoch 10).toOption.map (fun r => fieldCount r.2) = some 5 := by
  refine ⟨by decide!, by decide!, by decide!⟩

theorem idCount_append (a b : List PrintCall) : idCount (a ++ b) = idCount a + idCount b := by
  unfold idCount
  exact List.countP_append _ a b

theorem lineEndCount_append (a b : List PrintCall) :
    lineEndCount (a ++ b) = lineEndCount a + lineEndCount b := by
  unfold lineEndCount
  exact List.countP_append _ a b

theorem satIdCall_ok (rinex : RinexObsData) (o : SatObsData) (s : GNSSsystem)
    (h : rinex.systems[o.sysIndex]? = some s) :
    satIdCall rinex o = Except.ok ⟨"%1c%02d", [PrintArg.chr s.system, PrintArg.int o.satellite]⟩ := by
  unfold satIdCall
  rw [h]

theorem newSatelliteIds_ok (rinex : RinexObsData) (l : List SatObsData)
    (h : ∀ o ∈ l, ∃ s, rinex.systems[o.sysIndex]? = some s) :
    ∃ ids, newSatelliteIds rinex l = Except.ok ids ∧ ids.length = countNewSatellites l ∧
      ∀ c ∈ ids, c.format = "%1c%02d" := by
  induction l with
  | nil => exact ⟨[], rfl, rfl, fun c hc => absurd hc (List.not_mem_nil c)⟩
  | cons a rest ih =>
    cases rest with
    | nil => exact ⟨[], rfl, rfl, fun c hc => absurd hc (List.not_mem_nil c)⟩
    | cons b rest2 =>
      obtain ⟨ids, hids, hlen, hfmt⟩ := ih (fun o ho => h o (List.mem_cons_of_mem _ ho))
      obtain ⟨s, hs⟩ := h b (List.mem_cons_of_mem _ (List.mem_cons_self _ _))
      by_cases hd : otherSatellite a b = true
      · refine ⟨⟨"%1c%02d", [PrintArg.chr s.system, PrintArg.int b.satellite]⟩ :: ids, ?_, ?_, ?_⟩
        · rw [newSatelliteIds]
          simp only [hd, if_true, satIdCall_ok rinex b s hs, hids]
        · rw [countNewSatellites]
          simp only [hd, if_true, List.length_cons, hlen]
          omega
        · intro c hc
          rcases List.mem_cons.mp hc with hc | hc
          · rw [hc]
          · exact hfmt c hc
      · refine ⟨ids, ?_, ?_, hfmt⟩
        · rw [newSatelliteIds]
          simp only [hd, if_false, hids, Bool.false_eq_true]
        · rw [countNewSatellites]
          simp only [hd, if_false, hlen, Bool.false_eq_true]
          omega

theorem idCount_of_ids (ids : List PrintCall) (h : ∀ c ∈ ids, c.format = "%1c%02d") :
    idCount ids = ids.length := by
  unfold idCount
  rw [List.countP_eq_length]
  intro c hc
  simp only [h c hc, decide_True]

theorem idCount_pads (n : Nat) :
    idCount ((List.range n).map (fun _ => (⟨"%3c", [PrintArg.chr ' ']⟩ : PrintCall))) = 0 := by
  unfold idCount
  rw [List.countP_eq_zero]
  intro c hc
  rw [List.mem_map] at hc
  obtain ⟨_, _, hc⟩ := hc
  rw [← hc]
  decide

theorem lineEndCount_pads (n : Nat) :
    lineEndCount ((List.range n).map (fun _ => (⟨"%3c", [PrintArg.chr ' ']⟩ : PrintCall))) = 0 := by
  unfold lineEndCount
  rw [List.countP_eq_zero]
  intro c hc
  rw [List.mem_map] at hc
  obtain ⟨_, _, hc⟩ := hc
  rw [← hc]
  decide

theorem lineEndCount_of_ids (ids : List PrintCall) (h : ∀ c ∈ ids, c.format = "%1c%02d") :
    lineEndCount ids = 0 := by
  unfold lineEndCount
  rw [List.countP_eq_zero]
  intro c hc
  rw [h c hc]
  decide

theorem idCount_valueCalls (o : SatObsData) : idCount (valueCalls o) = 0 := by
  unfold valueCalls idCount
  by_cases h1 : o.lossOfLock = 0 <;> by_cases h2 : o.strength = 0 <;>
    simp only [h1, h2, if_true, if_false] <;> rfl

theorem idCount_satValuesLoop (sysToPrint : Nat) (satToPrint : Int) (fuel : Nat) :
    ∀ (k : Nat) (l left : List SatObsData) (calls : List PrintCall),
      satValuesLoop sysToPrint satToPrint fuel k l = Except.ok (left, calls) → idCount calls = 0 := by
  induction fuel with
  | zero =>
    intro k l left calls h
    rw [satValuesLoop] at h
    cases h
  | succ n ih =>
    intro k l left calls h
    cases l with
    | nil =>
      rw [satValuesLoop] at h
      simp only [Except.ok.injEq, Prod.mk.injEq] at h
      rw [← h.2]
      rfl
    | cons o rest =>
      rw [satValuesLoop] at h
      by_cases hs : o.sysIndex = sysToPrint ∧ o.satellite = satToPrint
      · rw [if_pos hs] at h
        by_cases hk : o.obsTypeIndex = k
        · rw [if_pos hk] at h
          cases hr : satValuesLoop sysToPrint satToPrint n (k + 1) rest with
          | error e =>
            rw [hr] at h
            cases h
          | ok r =>
            obtain ⟨left1, calls1⟩ := r
            rw [hr] at h
            simp only [Except.ok.injEq, Prod.mk.injEq] at h
            rw [← h.2, idCount_append, idCount_valueCalls, ih (k + 1) rest left1 calls1 hr]
        · rw [if_neg hk] at h
          cases hr : satValuesLoop sysToPrint satToPrint n (k + 1) (o :: rest) with
          | error e =>
            rw [hr] at h
            cases h
          | ok r =>
            obtain ⟨left1, calls1⟩ := r
            rw [hr] at h
            simp only [Except.ok.injEq, Prod.mk.injEq] at h
            rw [← h.2]
            have := ih (k + 1) (o :: rest) left1 calls1 hr
            unfold idCount at this ⊢
            rw [List.countP_cons, this]
            rfl
      · rw [if_neg hs] at h
        simp only [Except.ok.injEq, Prod.mk.injEq] at h
        rw [← h.2]
        rfl

theorem idCount_printSatObsValues (fuel : Nat) (l left : List SatObsData) (more : Bool)
    (calls : List PrintCall) (h : printSatObsValues fuel l = Except.ok (more, left, calls)) :
    idCount calls = 0 := by
  unfold printSatObsValues at h
  cases l with
  | nil =>
    simp only [Except.ok.injEq, Prod.mk.injEq] at h
    rw [← h.2.2]
    rfl
  | cons o rest =>
    simp only at h
    cases hr : satValuesLoop o.sysIndex o.satellite fuel 0 (o :: rest) with
    | error e =>
      rw [hr] at h
      cases h
    | ok r =>
      obtain ⟨left1, calls1⟩ := r
      rw [hr] at h
      simp only [Except.ok.injEq, Prod.mk.injEq] at h
      rw [← h.2.2, idCount_append, idCount_satValuesLoop _ _ fuel 0 _ left1 calls1 hr]
      rfl

theorem idCount_printAllSatLines (fuel : Nat) :
    ∀ (l left : List SatObsData) (calls : List PrintCall),
      printAllSatLines fuel l = Except.ok (left, calls) → idCount calls = 0 := by
  induction fuel with
  | zero =>
    intro l left calls h
    rw [printAllSatLines] at h
    cases h
  | succ n ih =>
    intro l left calls h
    rw [printAllSatLines] at h
    cases hr : printSatObsValues (n + 1) l with
    | error e =>
      rw [hr] at h
      cases h
    | ok r =>
      obtain ⟨more, left1, calls1⟩ := r
      rw [hr] at h
      simp only at h
      have h1 := idCount_printSatObsValues (n + 1) l left1 more calls1 hr
      by_cases hm : more = true
      · rw [if_pos hm] at h
        cases hr2 : printAllSatLines n left1 with
        | error e =>
          rw [hr2] at h
          cases h
        | ok r2 =>
          obtain ⟨left2, calls2⟩ := r2
          rw [hr2] at h
          simp only [Except.ok.injEq, Prod.mk.injEq] at h
          rw [← h.2, idCount_append, h1, ih left1 left2 calls2 hr2]
      · rw [if_neg hm] at h
        simp only [Except.ok.injEq, Prod.mk.injEq] at h
        rw [← h.2, h1]

theorem newSatelliteIds_starts (rinex : RinexObsData) (l : List SatObsData) :
    ∀ a : SatObsData, (∀ o ∈ a :: l, ∃ s, rinex.systems[o.sysIndex]? = some s) →
    ∃ ids, newSatelliteIds rinex (a :: l) = Except.ok ids ∧
      ids.map Except.ok = (satelliteStartsAfter a l).map (satIdCall rinex) ∧
      ids.length = countNewSatellites (a :: l) ∧ ∀ c ∈ ids, c.format = "%1c%02d" := by
  induction l with
  | nil =>
    intro a _
    exact ⟨[], rfl, rfl, rfl, fun c hc => absurd hc (List.not_mem_nil c)⟩
  | cons b rest ih =>
    intro a h
    obtain ⟨ids, hids, hmap, hlen, hfmt⟩ := ih b (fun o ho => h o (List.mem_cons_of_mem _ ho))
    obtain ⟨s, hs⟩ := h b (List.mem_cons_of_mem _ (List.mem_cons_self _ _))
    by_cases hd : otherSatellite a b = true
    · refine ⟨⟨"%1c%02d", [PrintArg.chr s.system, PrintArg.int b.satellite]⟩ :: ids, ?_, ?_, ?_, ?_⟩
      · rw [newSatelliteIds]
        simp only [hd, if_true, satIdCall_ok rinex b s hs, hids]
      · rw [satelliteStartsAfter]
        simp only [hd, if_true, List.map_cons, satIdCall_ok rinex b s hs, hmap]
      · rw [countNewSatellites]
        simp only [hd, if_true, List.length_cons, hlen]
        omega
      · intro c hc
        rcases List.mem_cons.mp hc with hc | hc
        · rw [hc]
        · exact hfmt c hc
    · refine ⟨ids, ?_, ?_, ?_, hfmt⟩
      · rw [newSatelliteIds]
        simp only [hd, if_false, hids, Bool.false_eq_true]
      · rw [satelliteStartsAfter]
        simp only [hd, if_false, hmap, Bool.false_eq_true]
      · rw [countNewSatellites]
        simp only [hd, if_false, hlen, Bool.false_eq_true]
        omega

theorem satelliteStartsAfter_length (l : List SatObsData) :
    ∀ a : SatObsData, (satelliteStartsAfter a l).length = countNewSatellites (a :: l) := by
  induction l with
  | nil =>
    intro a
    rfl
  | cons b rest ih =>
    intro a
    rw [satelliteStartsAfter, countNewSatellites]
    by_cases hd : otherSatellite a b = true
    · simp only [hd, if_true, List.length_cons, ih b]
      omega
    · simp only [hd, if_false, ih b, Bool.false_eq_true]
      omega

theorem satelliteStartsAfter_mem (l : List SatObsData) :
    ∀ (a x : SatObsData), x ∈ satelliteStartsAfter a l → x ∈ l := by
  induction l with
  | nil =>
    intro a x hx
    exact hx
  | cons b rest ih =>
    intro a x hx
    rw [satelliteStartsAfter] at hx
    by_cases hd : otherSatellite a b = true
    · simp only [hd, if_true] at hx
      rcases List.mem_cons.mp hx with h | h
      · rw [h]
        exact List.mem_cons_self _ _
      · exact List.mem_cons_of_mem _ (ih b x h)
    · simp only [hd, if_false, Bool.false_eq_true] at hx
      exact List.mem_cons_of_mem _ (ih b x hx)

theorem otherSatellite_iff (a b : SatObsData) : otherSatellite a b = true ↔ satPair a ≠ satPair b := by
  unfold otherSatellite satPair
  simp only [Bool.or_eq_true, decide_eq_true_eq, ne_eq, Prod.mk.injEq, not_and]
  constructor
  · intro h hs
    rcases h with h | h
    · exact absurd hs h
    · exact h
  · intro h
    by_cases hs : a.sysIndex = b.sysIndex
    · exact Or.inr (h hs)
    · exact Or.inl hs

theorem satPair_mem_starts (l : List SatObsData) :
    ∀ (a x : SatObsData), x ∈ a :: l →
      satPair x ∈ (a :: satelliteStartsAfter a l).map satPair := by
  induction l with
  | nil =>
    intro a x hx
    rcases List.mem_cons.mp hx with h | h
    · rw [h]
      exact List.mem_map_of_mem _ (List.mem_cons_self _ _)
    · exact absurd h (List.not_mem_nil x)
  | cons b rest ih =>
    intro a x hx
    rcases List.mem_cons.mp hx with h | h
    · rw [h]
      exact List.mem_map_of_mem _ (List.mem_cons_self _ _)
    · have hb := ih b x h
      rw [satelliteStartsAfter]
      by_cases hd : otherSatellite a b = true
      · simp only [hd, if_true]
        rw [List.map_cons]
        exact List.mem_cons_of_mem _ hb
      · have he : satPair a = satPair b := by
          by_contra hne
          exact hd ((otherSatellite_iff a b).mpr hne)
        simp only [hd, if_false, Bool.false_eq_true]
        rw [List.map_cons] at hb ⊢
        rw [he]
        exact hb

theorem satPairLt_of_keys (a b : SatObsData) (h : obsKeyLe a b) (hne : satPair a ≠ satPair b) :
    satPairLt (satPair a) (satPair b) := by
  unfold obsKeyLe at h
  unfold satPairLt satPair at *
  simp only [ne_eq, Prod.mk.injEq, not_and] at hne ⊢
  rcases h with h | ⟨h1, h | ⟨h2, _⟩⟩
  · exact Or.inl h
  · exact Or.inr ⟨h1, h⟩
  · exact absurd h2 (hne h1)

theorem satPairLt_trans (p q r : Nat × Int) (h1 : satPairLt p q) (h2 : satPairLt q r) :
    satPairLt p r := by
  unfold satPairLt at *
  omega

theorem satelliteStarts_increasing (l : List SatObsData) :
    ∀ a : SatObsData, List.Sorted obsKeyLe (a :: l) →
      List.Pairwise satPairLt ((a :: satelliteStartsAfter a l).map satPair) := by
  induction l with
  | nil =>
    intro a _
    simp [satelliteStartsAfter]
  | cons b rest ih =>
    intro a hs
    have hs2 : List.Sorted obsKeyLe (b :: rest) := (List.pairwise_cons.mp hs).2
    have hab : obsKeyLe a b := (List.pairwise_cons.mp hs).1 b (List.mem_cons_self _ _)
    have hb := ih b hs2
    rw [satelliteStartsAfter]
    by_cases hd : otherSatellite a b = true
    · simp only [hd, if_true]
      have hlt := satPairLt_of_keys a b hab ((otherSatellite_iff a b).mp hd)
      rw [List.map_cons] at hb ⊢
      refine List.pairwise_cons.mpr ⟨?_, hb⟩
      intro q hq
      rw [List.map_cons] at hq
      rcases List.mem_cons.mp hq with h | h
      · rw [h]
        exact hlt
      · exact satPairLt_trans _ _ _ hlt ((List.pairwise_cons.mp hb).1 q h)
    · have he : satPair a = satPair b := by
        by_contra hne
        exact hd ((otherSatellite_iff a b).mpr hne)
      simp only [hd, if_false, Bool.false_eq_true]
      rw [List.map_cons] at hb ⊢
      rw [he]
      exact hb

theorem preparedObservations_keys (rinex : RinexObsData) (l : List SatObsData)
    (h : preparedObservations rinex = Except.ok l) :
    l.map obsKey = (stdSort obsCompare rinex.observations).map obsKey := by
  have hb : ∀ (xs ys : List SatObsData), applyClockBias rinex xs = Except.ok ys →
      ys.map obsKey = xs.map obsKey := by
    intro xs
    induction xs with
    | nil =>
      intro ys hy
      rw [applyClockBias] at hy
      cases hy
      rfl
    | cons x rest ih =>
      intro ys hy
      rw [applyClockBias] at hy
      cases hx : biasedObservation rinex x with
      | error e =>
        rw [hx] at hy
        cases hy
      | ok x1 =>
        rw [hx] at hy
        cases hr : applyClockBias rinex rest with
        | error e =>
          rw [hr] at hy
          cases hy
        | ok rest1 =>
          rw [hr] at hy
          simp only [Except.ok.injEq] at hy
          subst hy
          have hk : obsKey x1 = obsKey x := by
            unfold biasedObservation at hx
            split at hx
            · cases hx
            · split at hx
              · cases hx
              · simp only [Except.ok.injEq] at hx
                subst hx
                rfl
          rw [List.map_cons, List.map_cons, hk, ih rest1 hr]
  unfold preparedObservations at h
  by_cases ha : rinex.applyBias = true
  · rw [if_pos ha] at h
    exact hb _ _ h
  · rw [if_neg ha] at h
    simp only [Except.ok.injEq] at h
    rw [← h]

theorem sorted_of_keys (l1 l2 : List SatObsData) (h : l1.map obsKey = l2.map obsKey)
    (hs : List.Sorted obsKeyLe l2) : List.Sorted obsKeyLe l1 := by
  have e : ∀ l : List SatObsData, List.Sorted obsKeyLe l ↔
      List.Pairwise (fun p q : Nat × Int × Nat =>
        p.1 < q.1 ∨ (p.1 = q.1 ∧ (p.2.1 < q.2.1 ∨ (p.2.1 = q.2.1 ∧ p.2.2 ≤ q.2.2))))
        (l.map obsKey) := by
    intro l
    rw [List.pairwise_map]
    rfl
  rw [e, h, ← e]
  exact hs

/-- C24 as the code has it.  For a V210 epoch with observations `o :: rest` whose system
indexes are in range, the epoch line is: the time, the flag and `nSatsEpoch`, then the
identifiers `ids`, then `12 - nSatsEpoch` blank fillers (none when there are 12
satellites or more), then the clock bias, which ends the line.  The identifiers are
those of the observations that start a satellite (the first observation and every one
whose system or satellite differs from those of the observation before it), in the order
of the list, each printed as `%1c%02d` of the character of its system and its satellite
number; there are `nSatsEpoch` of them.  When the list is sorted by key, as
`printObsEpoch` hands it over, these observations are of pairwise different satellites
and every satellite of the list is among them, so `nSatsEpoch` is the number of distinct
(system, satellite) pairs.  All the identifiers are on this one line, also when there
are more than 12, and the satellite lines that follow hold no identifier. -/
theorem epochLineV210_identifiers (rinex : RinexObsData) (o : SatObsData)
    (rest : List SatObsData)
    (hidx : ∀ x ∈ o :: rest, x.sysIndex < rinex.systems.length) :
    (∃ ids : List PrintCall,
      epochLineV210 rinex (o :: rest) = Except.ok
        ([⟨"%s%11.7f",
            [formatGPStime " %y %m %d %H %M" rinex.gpsWeek
              (rinex.epochTimeTag - (if rinex.applyBias then rinex.clkBias else 0)),
             PrintArg.dbl (getGPSseconds
              (rinex.epochTimeTag - (if rinex.applyBias then rinex.clkBias else 0)))]⟩,
          ⟨"  %1d%3d", [PrintArg.int rinex.epochFlag, PrintArg.int (nSatsEpoch (o :: rest))]⟩]
        ++ ids
        ++ List.replicate (12 - nSatsEpoch (o :: rest)) ⟨"%3c", [PrintArg.chr ' ']⟩
        ++ [⟨"%12.9f\n", [PrintArg.dbl rinex.clkBias]⟩]) ∧
      ids.map Except.ok = (satelliteStarts (o :: rest)).map (satIdCall rinex) ∧
      ids = (satelliteStarts (o :: rest)).map (fun x =>
        ⟨"%1c%02d", [PrintArg.chr ((rinex.systems.map (fun s => s.system)).getD x.sysIndex ' '),
          PrintArg.int x.satellite]⟩) ∧
      ids.length = nSatsEpoch (o :: rest) ∧ (∀ c ∈ ids, c.format = "%1c%02d")) ∧
    ((satelliteStarts (o :: rest)).length = nSatsEpoch (o :: rest) ∧
      (∀ x ∈ satelliteStarts (o :: rest), x ∈ o :: rest) ∧
      (∀ x ∈ o :: rest, satPair x ∈ (satelliteStarts (o :: rest)).map satPair)) ∧
    (List.Sorted obsKeyLe (o :: rest) →
      ((satelliteStarts (o :: rest)).map satPair).Nodup ∧
      ((o :: rest).map satPair).toFinset.card = nSatsEpoch (o :: rest)) ∧
    (∀ l, preparedObservations rinex = Except.ok l → List.Sorted obsKeyLe l) ∧
    (∀ line, epochLineV210 rinex (o :: rest) = Except.ok line →
      idCount line = nSatsEpoch (o :: rest) ∧ lineEndCount line = 1 ∧
      (line.getLast?).map (fun c => c.format) = some "%12.9f\n") ∧
    (∀ (fuel : Nat) (left : List SatObsData) (calls : List PrintCall),
      printAllSatLines fuel (o :: rest) = Except.ok (left, calls) → idCount calls = 0) := by
  have hsys : ∀ x ∈ o :: rest, ∃ s, rinex.systems[x.sysIndex]? = some s :=
    fun x hx => ⟨_, List.getElem?_eq_getElem (hidx x hx)⟩
  obtain ⟨s, hs⟩ := hsys o (List.mem_cons_self _ _)
  obtain ⟨ids, hids, hmap, hlen, hfmt⟩ := newSatelliteIds_starts rinex rest o hsys
  have hline : epochLineV210 rinex (o :: rest) = Except.ok
      ([⟨"%s%11.7f",
          [formatGPStime " %y %m %d %H %M" rinex.gpsWeek
            (rinex.epochTimeTag - (if rinex.applyBias then rinex.clkBias else 0)),
           PrintArg.dbl (getGPSseconds
            (rinex.epochTimeTag - (if rinex.applyBias then rinex.clkBias else 0)))]⟩,
        ⟨"  %1d%3d", [PrintArg.int rinex.epochFlag, PrintArg.int (nSatsEpoch (o :: rest))]⟩]
      ++ (⟨"%1c%02d", [PrintArg.chr s.system, PrintArg.int o.satellite]⟩ :: ids)
      ++ List.replicate (12 - nSatsEpoch (o :: rest)) ⟨"%3c", [PrintArg.chr ' ']⟩
      ++ [⟨"%12.9f\n", [PrintArg.dbl rinex.clkBias]⟩]) := by
    simp only [epochLineV210, satIdCall_ok rinex o s hs, hids, List.map_const', List.length_range,
      List.cons_append, List.nil_append, List.append_assoc]
  have hfmt2 : ∀ c ∈ (⟨"%1c%02d", [PrintArg.chr s.system, PrintArg.int o.satellite]⟩ :: ids : List PrintCall),
      c.format = "%1c%02d" := by
    intro c hc
    rcases List.mem_cons.mp hc with hc | hc
    · rw [hc]
    · exact hfmt c hc
  have hlen2 : (⟨"%1c%02d", [PrintArg.chr s.system, PrintArg.int o.satellite]⟩ :: ids : List PrintCall).length
      = nSatsEpoch (o :: rest) := by
    rw [List.length_cons, hlen]
    unfold nSatsEpoch
    omega
  have hmap2 : (⟨"%1c%02d", [PrintArg.chr s.system, PrintArg.int o.satellite]⟩ :: ids
        : List PrintCall).map Except.ok
      = (satelliteStarts (o :: rest)).map (satIdCall rinex) := by
    rw [satelliteStarts, List.map_cons, List.map_cons, satIdCall_ok rinex o s hs, hmap]
  have hstarts : ∀ x ∈ satelliteStarts (o :: rest), x ∈ o :: rest := by
    intro x hx
    rw [satelliteStarts] at hx
    rcases List.mem_cons.mp hx with h | h
    · rw [h]
      exact List.mem_cons_self _ _
    · exact List.mem_cons_of_mem _ (satelliteStartsAfter_mem rest o x h)
  have hexp : (⟨"%1c%02d", [PrintArg.chr s.system, PrintArg.int o.satellite]⟩ :: ids
        : List PrintCall)
      = (satelliteStarts (o :: rest)).map (fun x =>
        ⟨"%1c%02d", [PrintArg.chr ((rinex.systems.map (fun s => s.system)).getD x.sysIndex ' '),
          PrintArg.int x.satellite]⟩) := by
    have hinj : ∀ a b : List PrintCall,
        a.map (Except.ok : PrintCall → Except PrintError PrintCall) = b.map Except.ok → a = b := by
      intro a b hab
      exact List.map_injective_iff.mpr (fun x y hxy => Except.ok.inj hxy) hab
    apply hinj
    rw [hmap2, List.map_map]
    apply List.map_congr_left
    intro x hx
    obtain ⟨sx, hsx⟩ := hsys x (hstarts x hx)
    rw [Function.comp, satIdCall_ok rinex x sx hsx, List.getD_eq_getElem?_getD,
      List.getElem?_map, hsx]
    rfl
  have hlenS : (satelliteStarts (o :: rest)).length = nSatsEpoch (o :: rest) := by
    rw [satelliteStarts, List.length_cons, satelliteStartsAfter_length]
    unfold nSatsEpoch
    omega
  refine ⟨⟨_, hline, hmap2, hexp, hlen2, hfmt2⟩,
    ⟨hlenS, hstarts, fun x hx => satPair_mem_starts rest o x hx⟩, ?_, ?_, ?_,
    fun fuel left calls h => idCount_printAllSatLines fuel _ left calls h⟩
  · intro hsorted
    have hpw := satelliteStarts_increasing rest o hsorted
    have hnd : ((satelliteStarts (o :: rest)).map satPair).Nodup := by
      rw [satelliteStarts]
      refine List.Pairwise.imp ?_ hpw
      intro p q hpq heq
      unfold satPairLt at hpq
      rw [heq] at hpq
      omega
    refine ⟨hnd, ?_⟩
    rw [← hlenS, ← List.length_map (satelliteStarts (o :: rest)) satPair,
      ← List.toFinset_card_of_nodup hnd]
    congr 1
    ext p
    simp only [List.mem_toFinset, List.mem_map]
    constructor
    · rintro ⟨x, hx, rfl⟩
      exact List.mem_map.mp (satPair_mem_starts rest o x hx)
    · rintro ⟨x, hx, rfl⟩
      exact ⟨x, hstarts x hx, rfl⟩
  · intro l hl
    exact sorted_of_keys l _ (preparedObservations_keys rinex l hl) (stdSort_sorted _)
  · intro line hl
    rw [hline] at hl
    simp only [Except.ok.injEq] at hl
    subst hl
    have hpads : List.replicate (12 - nSatsEpoch (o :: rest)) (⟨"%3c", [PrintArg.chr ' ']⟩ : PrintCall)
        = (List.range (12 - nSatsEpoch (o :: rest))).map (fun _ => ⟨"%3c", [PrintArg.chr ' ']⟩) := by
      simp only [List.map_const', List.length_range]
    have e1 : ∀ a b : List PrintArg, idCount [⟨"%s%11.7f", a⟩, ⟨"  %1d%3d", b⟩] = 0 :=
      fun _ _ => rfl
    have e2 : ∀ a : List PrintArg, idCount [⟨"%12.9f\n", a⟩] = 0 := fun _ => rfl
    have e3 : ∀ a b : List PrintArg, lineEndCount [⟨"%s%11.7f", a⟩, ⟨"  %1d%3d", b⟩] = 0 :=
      fun _ _ => rfl
    have e4 : ∀ a : List PrintArg, lineEndCount [⟨"%12.9f\n", a⟩] = 1 := fun _ => rfl
    refine ⟨?_, ?_, ?_⟩
    · rw [idCount_append, idCount_append, idCount_append, idCount_of_ids _ hfmt2, hlen2, hpads,
        idCount_pads, e1, e2]
      omega
    · rw [lineEndCount_append, lineEndCount_append, lineEndCount_append,
        lineEndCount_of_ids _ hfmt2, hpads, lineEndCount_pads, e3, e4]
    · rw [List.getLast?_append]
      rfl

/-- C24 on the epoch `exampleEpoch`, sorted (satellite 7 with two observations, then
satellite 9): the identifiers are G07 and G09, two of them, all on the epoch line. -/
theorem epochLineV210_identifiers_witness :
    ∃ ids : List PrintCall,
      ids = [⟨"%1c%02d", [PrintArg.chr 'G', PrintArg.int 7]⟩,
        ⟨"%1c%02d", [PrintArg.chr 'G', PrintArg.int 9]⟩] ∧
      ids.length = nSatsEpoch
        [⟨0, 7, 100, 0, 20000000, 0, 5⟩, ⟨0, 7, 100, 3, 31, 0, 0⟩, ⟨0, 9, 100, 0, 21000000, 0, 5⟩] :=
  match (epochLineV210_identifiers exampleEpoch ⟨0, 7, 100, 0, 20000000, 0, 5⟩
    [⟨0, 7, 100, 3, 31, 0, 0⟩, ⟨0, 9, 100, 0, 21000000, 0, 5⟩] (by decide)).1 with
  | ⟨ids, _, _, h2, h3, _⟩ => ⟨ids, h2.trans (by decide!), h3⟩

/-- C24 fails as stated: for the V210 epoch `thirteenSatellites` the epoch line carries
13 identifiers, the epoch is printed with one epoch line (14 lines in all, 13 of them
satellite lines), and no identifier is written after the epoch line. -/
theorem epochLineV210_thirteen_identifiers :
    (epochLineV210 thirteenSatellites
        (stdSort obsCompare thirteenSatellites.observations)).toOption.map
        (fun line => (idCount line, lineEndCount line, nSatsEpoch thirteenSatellites.observations))
      = some (13, 1, 13) ∧
    (thirteenSatellites.printObsEpoch 20).toOption.map
        (fun r => (idCount r.2, lineEndCount r.2, idCount (r.2.take 16), lineEndCount (r.2.take 15)))
      = some (13, 14, 13, 0) := by
  refine ⟨by decide!, by decide!⟩

/-! ## Claim on the strength index -/

/-- C25: the ten C/N0 bytes of a MID 28 are the payload bytes 38..47 and `strength` is
their minimum `m`; the strength index is `min (max (m / 6) 1) 9` with the integer
division, hence in 1..9; of the observations that an accepted MID 28 stores (its
software time is then not a NaN), C1C and L1C carry the strength index and S1C and D1C
carry strength 0. -/
theorem strength_index_clamped (rinex : RinexObsData) (p : List Nat) :
    (mid28Fields p).cn0 = (List.range 10).map (fun k => p.getD (38 + k) 0 % 256) ∧
    worstCN0 (mid28Fields p).cn0 ∈ (mid28Fields p).cn0 ∧
    (∀ x ∈ (mid28Fields p).cn0, worstCN0 (mid28Fields p).cn0 ≤ x) ∧
    (mid28Fields p).strengthIndex
      = ((min (max (worstCN0 (mid28Fields p).cn0 / 6) 1) 9 : Nat) : Int) ∧
    1 ≤ (mid28Fields p).strengthIndex ∧ (mid28Fields p).strengthIndex ≤ 9 ∧
    (∀ iS jS iC jC iL jL iD jD : Nat,
      (mid28Fields p).syncFlags &&& 0x01 ≠ 0 →
      (mid28Fields p).gpsSWtime ≠ IEEE64.nan →
      (rinex.observations = [] ∨ rinex.epochTimeTag = (mid28Fields p).gpsSWtime) →
      findObsType (mid28Fields p).sys "S1C" rinex.systems 0 = some (iS, jS) →
      findObsType (mid28Fields p).sys "C1C" rinex.systems 0 = some (iC, jC) →
      findObsType (mid28Fields p).sys "L1C" rinex.systems 0 = some (iL, jL) →
      findObsType (mid28Fields p).sys "D1C" rinex.systems 0 = some (iD, jD) →
      ((processMID28 rinex (mid28Fields p)).2.2.observations.drop rinex.observations.length).map
          (fun o => (o.sysIndex, o.obsTypeIndex, o.strength))
        = [(iS, jS, 0), (iC, jC, (mid28Fields p).strengthIndex)]
          ++ (if (mid28Fields p).syncFlags &&& 0x02 ≠ 0 then
                [(iL, jL, (mid28Fields p).strengthIndex)] else [])
          ++ [(iD, jD, 0)]) := by
  have hmin := worstCN0_min (mid28Fields p).cn0 (by simp [mid28Fields, List.range_succ])
  have hidx : (mid28Fields p).strengthIndex
      = ((min (max (worstCN0 (mid28Fields p).cn0 / 6) 1) 9 : Nat) : Int) := by
    unfold MID28Fields.strengthIndex
    simp only
    split_ifs <;> omega
  refine ⟨rfl, hmin.1, hmin.2, hidx, ?_, ?_, ?_⟩
  · rw [hidx]
    omega
  · rw [hidx]
    omega
  · intro iS jS iC jC iL jL iD jD hs hnan htag hS hC hL hD
    rw [processMID28_stored rinex (mid28Fields p) iS jS iC jC iL jL iD jD hs hnan htag hS hC hL
      hD]
    simp only [List.drop_left]
    by_cases hb : (mid28Fields p).syncFlags &&& 0x02 ≠ 0
    · simp only [if_pos hb, List.map_append, List.map_cons, List.map_nil]
    · simp only [if_neg hb, List.map_append, List.map_cons, List.map_nil]

/-- C25 on the payload `mid28Payload 0x3F 0xF0 0x03` (least C/N0 byte 31, index 5) and the
example model. -/
theorem strength_index_clamped_witness :
    ((processMID28 exampleModel (mid28Fields (mid28Payload 0x3F 0xF0 0x03))).2.2.observations.drop
        exampleModel.observations.length).map (fun o => (o.sysIndex, o.obsTypeIndex, o.strength))
      = [(0, 3, 0), (0, 0, (mid28Fields (mid28Payload 0x3F 0xF0 0x03)).strengthIndex)]
        ++ (if (mid28Fields (mid28Payload 0x3F 0xF0 0x03)).syncFlags &&& 0x02 ≠ 0 then
              [(0, 1, (mid28Fields (mid28Payload 0x3F 0xF0 0x03)).strengthIndex)] else [])
        ++ [(0, 2, 0)] :=
  (strength_index_clamped exampleModel (mid28Payload 0x3F 0xF0 0x03)).2.2.2.2.2.2
    0 3 0 0 0 1 0 2 (by decide) (by decide) (Or.inl rfl) (by decide) (by decide) (by decide)
    (by decide)

/-! ## Helper lemmas on the receiver identification -/

theorem getChars_mk (n : Nat) (payload : List Nat) (c : Nat) (h : c + n ≤ payload.length) :
    (OSPMessage.mk payload c).getChars n
      = some ((List.range n).map (fun k => Char.ofNat ((payload.getD (c + k) 0 % 256) &&& 0xFF)),
          ⟨payload, c + n⟩) := by
  induction n generalizing c with
  | zero => simp [OSPMessage.getChars]
  | succ n ih =>
    unfold OSPMessage.getChars
    rw [get_mk payload c (by omega)]
    simp only
    rw [ih (c + 1) (by omega), List.range_succ_eq_map]
    simp only [List.map_cons, List.map_map, Nat.add_zero, Option.some.injEq, Prod.mk.injEq,
      List.cons.injEq, true_and, OSPMessage.mk.injEq]
    refine ⟨?_, by omega⟩
    apply List.map_congr_left
    intro k _
    simp only [Function.comp]
    congr 4
    omega

theorem strFindFrom_some (pat : List Char) (s : List Char) (i k : Nat)
    (h : strFindFrom pat s i = some k) :
    ∃ d, k = i + d ∧ d ≤ s.length ∧ pat <+: s.drop d ∧ ∀ j < d, ¬ pat <+: s.drop j := by
  induction s generalizing i with
  | nil =>
    unfold strFindFrom at h
    split_ifs at h with hp
    simp only [Option.some.injEq] at h
    exact ⟨0, by omega, by simp, List.isPrefixOf_iff_prefix.mp hp, fun j hj => by omega⟩
  | cons c t ih =>
    unfold strFindFrom at h
    split_ifs at h with hp
    · simp only [Option.some.injEq] at h
      exact ⟨0, by omega, by simp, List.isPrefixOf_iff_prefix.mp hp, fun j hj => by omega⟩
    · obtain ⟨d, hk, hd, hpre, hmin⟩ := ih (i + 1) h
      refine ⟨d + 1, by omega, by simp only [List.length_cons]; omega, ?_, ?_⟩
      · simpa only [List.drop_succ_cons] using hpre
      · intro j hj
        cases j with
        | zero =>
          intro hpz
          exact hp (List.isPrefixOf_iff_prefix.mpr hpz)
        | succ j =>
          simp only [List.drop_succ_cons]
          exact hmin j (by omega)

theorem strFindFrom_none (pat : List Char) (s : List Char) (i : Nat)
    (h : strFindFrom pat s i = none) : ∀ j, ¬ pat <+: s.drop j := by
  induction s generalizing i with
  | nil =>
    unfold strFindFrom at h
    split_ifs at h with hp
    intro j hj
    simp only [List.drop_nil] at hj
    exact hp (List.isPrefixOf_iff_prefix.mpr hj)
  | cons c t ih =>
    unfold strFindFrom at h
    split_ifs at h with hp
    intro j
    cases j with
    | zero =>
      intro hpz
      exact hp (List.isPrefixOf_iff_prefix.mpr hpz)
    | succ j =>
      simp only [List.drop_succ_cons]
      exact ih (i + 1) h j

theorem getMID6RxData_read (self : Acquisition) (rinex : RinexObsData)
    (hcur : self.core.message.cursor = 1) (h3 : 3 ≤ self.core.message.payload.length) :
    self.getMID6RxData rinex =
      if ¬ mid6LengthsMatch self.core.message.payload then
        Except.ok (false, ⟨self.core.message.payload, 3⟩, rinex)
      else
        match strSubstr (mid6Version self.core.message.payload)
            (strFind "GSD4" (mid6Version self.core.message.payload)) with
        | none => Except.error HandlerError.outOfRange
        | some fromGSD4 =>
          Except.ok (true, ⟨self.core.message.payload, self.core.message.payload.length⟩,
            rinex.setReceiver (mid6Version self.core.message.payload) self.receiver fromGSD4 1 0) := by
  obtain ⟨receiver, minSVSfix, ospFile, ⟨⟨p, c⟩, mem⟩⟩ := self
  simp only at hcur h3
  subst hcur
  unfold Acquisition.getMID6RxData
  simp only
  rw [get_mk p 1 (by omega)]
  simp only
  rw [get_mk p 2 (by omega)]
  simp only [OSPMessage.payloadLen, mid6LengthsMatch]
  by_cases hl : p.length = 1 + 2 + p.getD 1 0 % 256 + p.getD 2 0 % 256
  · simp only [hl, ne_eq, not_true_eq_false, if_false]
    rw [← hl, getChars_mk _ p 3 (by omega)]
    simp only
    rw [getChars_mk _ p _ (by omega)]
    simp only [mid6Version]
    have e : 3 + p.getD 1 0 % 256 + p.getD 2 0 % 256 = p.length := by omega
    rw [e]
  · simp only [hl, ne_eq, not_false_eq_true, if_true]

theorem infix_iff_drop (pat s : List Char) : pat <:+: s ↔ ∃ j, pat <+: s.drop j := by
  constructor
  · rintro ⟨a, b, rfl⟩
    refine ⟨a.length, ?_⟩
    rw [List.append_assoc, List.drop_left]
    exact List.prefix_append _ _
  · rintro ⟨j, hj⟩
    exact List.IsInfix.trans hj.isInfix (List.drop_suffix j s).isInfix

theorem strFind_none_iff (pat s : String) :
    strFind pat s = none ↔ ¬ pat.toList <:+: s.toList := by
  rw [infix_iff_drop]
  constructor
  · intro h
    rintro ⟨j, hj⟩
    exact strFindFrom_none _ _ 0 h j hj
  · intro h
    rcases hf : strFind pat s with _ | k
    · rfl
    · obtain ⟨d, _, _, hpre, _⟩ := strFindFrom_some _ _ 0 k hf
      exact absurd ⟨d, hpre⟩ h

/-! ## Claims on the receiver identification -/

/-- C28 fails as stated: for the MID 6 payload with the version `xxGSD4e` the handler
returns true with the receiver number set to the whole version string `xxGSD4e` (not to
its suffix `GSD4e`) and the receiver version set to the suffix `GSD4e` (not to the
version string). -/
theorem getMID6RxData_number_is_whole_version :
    mid6LengthsMatch mid6PayloadGSD4 ∧
    mid6Version mid6PayloadGSD4 = "xxGSD4e" ∧
    strFind "GSD4" (mid6Version mid6PayloadGSD4) = some 2 ∧
    ∃ m r, (exampleAcq mid6PayloadGSD4).getMID6RxData exampleModel = Except.ok (true, m, r) ∧
      r.rxNumber = "xxGSD4e" ∧ r.rxNumber ≠ "GSD4e" ∧
      r.rxVersion = "GSD4e" ∧ r.rxVersion ≠ "xxGSD4e" ∧
      r.rxType = "SiRFIV" := by
  have h := getMID6RxData_read (exampleAcq mid6PayloadGSD4) exampleModel rfl (by decide)
  have hm : mid6LengthsMatch (exampleAcq mid6PayloadGSD4).core.message.payload := by decide
  have hs : strSubstr (mid6Version (exampleAcq mid6PayloadGSD4).core.message.payload)
      (strFind "GSD4" (mid6Version (exampleAcq mid6PayloadGSD4).core.message.payload))
      = some "GSD4e" := by decide
  rw [hs, if_neg (not_not_intro hm)] at h
  refine ⟨by decide, by decide, by decide, _, _, h, ?_, ?_, ?_, ?_, ?_⟩
  · decide
  · decide
  · rfl
  · decide
  · rfl

/-- C28, amended: on a MID 6 payload that holds its two length bytes, when
`payload_len = 1 + 2 + ver_len + cust_len` and the version string contains `GSD4`, with
`k` the position of the first occurrence, `getMID6RxData` returns true having read the
whole payload, and sets the receiver number to the whole version string, the receiver
type to the receiver name of the object, the receiver version to the suffix of the
version string from position `k` on, and the wave length factors to 1 and 0; when the
length equation fails it returns false and leaves the model as it is. -/
theorem getMID6RxData_sets_receiver (self : Acquisition) (rinex : RinexObsData)
    (hcur : self.core.message.cursor = 1) (h3 : 3 ≤ self.core.message.payload.length) :
    (mid6LengthsMatch self.core.message.payload →
      "GSD4".toList <:+: (mid6Version self.core.message.payload).toList →
      ∃ k, "GSD4".toList <+: (mid6Version self.core.message.payload).toList.drop k ∧
        (∀ j < k, ¬ "GSD4".toList <+: (mid6Version self.core.message.payload).toList.drop j) ∧
        self.getMID6RxData rinex
          = Except.ok (true, ⟨self.core.message.payload, self.core.message.payload.length⟩,
              { rinex with
                rxNumber := mid6Version self.core.message.payload
                rxType := self.receiver
                rxVersion := String.mk ((mid6Version self.core.message.payload).toList.drop k)
                wvlenFactorL1 := 1
                wvlenFactorL2 := 0 })) ∧
    (¬ mid6LengthsMatch self.core.message.payload →
      self.getMID6RxData rinex = Except.ok (false, ⟨self.core.message.payload, 3⟩, rinex)) := by
  have h := getMID6RxData_read self rinex hcur h3
  constructor
  · intro hm hin
    rcases hf : strFind "GSD4" (mid6Version self.core.message.payload) with _ | k
    · exact absurd hin ((strFind_none_iff _ _).mp hf)
    · obtain ⟨d, hk, hd, hpre, hmin⟩ := strFindFrom_some _ _ 0 k hf
      have hkd : k = d := by omega
      subst hkd
      refine ⟨k, hpre, hmin, ?_⟩
      rw [h, hf]
      have hle : ¬ k > (mid6Version self.core.message.payload).length := Nat.not_lt.mpr hd
      rw [if_neg (not_not_intro hm)]
      simp only [strSubstr, hle, if_false, RinexObsData.setReceiver]
  · intro hm
    rw [h, if_pos hm]

/-- C28 (amended) on the MID 6 payload with the version `xxGSD4e`. -/
theorem getMID6RxData_sets_receiver_witness :
    ∃ k, "GSD4".toList <+: (mid6Version mid6PayloadGSD4).toList.drop k ∧
      (∀ j < k, ¬ "GSD4".toList <+: (mid6Version mid6PayloadGSD4).toList.drop j) ∧
      (exampleAcq mid6PayloadGSD4).getMID6RxData exampleModel
        = Except.ok (true, ⟨mid6PayloadGSD4, 10⟩,
            { exampleModel with
              rxNumber := mid6Version mid6PayloadGSD4
              rxType := "SiRFIV"
              rxVersion := String.mk ((mid6Version mid6PayloadGSD4).toList.drop k)
              wvlenFactorL1 := 1
              wvlenFactorL2 := 0 }) :=
  (getMID6RxData_sets_receiver (exampleAcq mid6PayloadGSD4) exampleModel rfl (by decide)).1
    (by decide) (by decide)

/-- C29: the claim does not hold of the code.  On every MID 6 payload, consistent in
its lengths, whose version string does not contain `GSD4`, `find` gives `npos`,
`substr(npos)` throws `std::out_of_range`, and `getMID6RxData` neither returns true nor
sets a receiver field. -/
theorem getMID6RxData_without_GSD4 (self : Acquisition) (rinex : RinexObsData)
    (hcur : self.core.message.cursor = 1) (h3 : 3 ≤ self.core.message.payload.length)
    (hlen : mid6LengthsMatch self.core.message.payload)
    (hno : ¬ "GSD4".toList <:+: (mid6Version self.core.message.payload).toList) :
    self.getMID6RxData rinex = Except.error HandlerError.outOfRange := by
  rw [getMID6RxData_read self rinex hcur h3, (strFind_none_iff _ _).mpr hno,
    if_neg (not_not_intro hlen)]
  rfl

/-- C29 on the MID 6 payload with the version `ABC`. -/
theorem getMID6RxData_without_GSD4_witness :
    mid6Version mid6PayloadOther = "ABC" ∧
    (exampleAcq mid6PayloadOther).getMID6RxData exampleModel
      = Except.error HandlerError.outOfRange :=
  ⟨by decide, getMID6RxData_without_GSD4 (exampleAcq mid6PayloadOther) exampleModel rfl
    (by decide) (by decide) (by decide)⟩

/-! ## Claim on the file name -/

theorem leftPadded_four (l : List Char) (h : l.length = 4) :
    leftPadded 4 (String.mk l) = String.mk l := by
  unfold leftPadded
  apply String.ext
  simp only [String.length, h, Nat.sub_self, List.replicate_zero, String.data_append,
    List.nil_append]

theorem getRINEXfileName_week2000 (designator : String) (ftype : Char) :
    getRINEXfileName designator 2000 0 ftype
      = String.mk ((designator.toList ++ "----".toList).take 4 ++ "126a00.18".toList ++ [ftype]) := by
  have htm : mktimeGPS 2000 0 = ⟨118, 125, 0, 0⟩ := by decide
  have hlen : ((designator ++ "----").toList.take 4).length = 4 := by
    simp only [String.toList, String.data_append, List.length_take, List.length_append,
      List.length_cons, List.length_nil]
    omega
  unfold getRINEXfileName
  simp only [htm]
  rw [leftPadded_four _ hlen]
  have h1 : zeroPadded 3 (125 + 1) = "126" := by decide
  have h2 : String.singleton (Char.ofNat ((97 + (0 : Int)) % 256).toNat) = "a" := by decide
  have h3 : zeroPadded 2 0 = "00" := by decide
  have h4 : zeroPadded 2 (Int.tmod 118 100) = "18" := by decide
  rw [h1, h2, h3, h4]
  apply String.ext
  simp only [String.data_append, String.toList, List.append_assoc, String.singleton]
  rfl

/-- C30 fails as stated: for the example model at week 2000, time of week 0, and the
prefix `PRFX`, `getObsFileName` gives `PRFX126a00.18O`; the day-of-year field is `126`
(the sixth of May 2018), and `000a00.` occurs nowhere in the name. -/
theorem getObsFileName_week2000_is_day_126 :
    exampleWeek2000.gpsWeek = 2000 ∧ exampleWeek2000.gpsTOW = 0 ∧
    exampleWeek2000.getObsFileName "PRFX" = "PRFX126a00.18O" ∧
    ¬ "000a00.".toList <:+: (exampleWeek2000.getObsFileName "PRFX").toList ∧
    ¬ "000a00.".toList <:+: (exampleWeek2000.getObsFileName "PRFX").toList.drop 4 := by
  have h : exampleWeek2000.getObsFileName "PRFX" = "PRFX126a00.18O" := by decide
  rw [h]
  exact ⟨rfl, rfl, rfl, by decide, by decide⟩

/-- C30, amended: for a model whose GPS time is week 2000, time of week 0, in a time zone
without daylight saving time, `getObsFileName(prefix)` returns the first four characters
of the prefix followed by `----`, and after them `126a00.18O`: day of the year 126, hour
letter `a`, minute 00, year 18 and the file type.  The name after the four characters
starts with `126a00.` and does not contain `000a00.`. -/
theorem getObsFileName_week2000 (rinex : RinexObsData) (designator : String)
    (hweek : rinex.gpsWeek = 2000) (htow : rinex.gpsTOW = 0) :
    rinex.getObsFileName designator
      = String.mk ((designator.toList ++ "----".toList).take 4 ++ "126a00.18O".toList) ∧
    (rinex.getObsFileName designator).toList.take 4 = (designator.toList ++ "----".toList).take 4 ∧
    (rinex.getObsFileName designator).toList.drop 4 = "126a00.18O".toList ∧
    "126a00.".toList <+: (rinex.getObsFileName designator).toList.drop 4 ∧
    ¬ "000a00.".toList <:+: (rinex.getObsFileName designator).toList.drop 4 := by
  have hlen : ((designator.toList ++ "----".toList).take 4).length = 4 := by
    simp only [String.toList, List.length_take, List.length_append, List.length_cons,
      List.length_nil]
    omega
  have h : rinex.getObsFileName designator
      = String.mk ((designator.toList ++ "----".toList).take 4 ++ "126a00.18O".toList) := by
    unfold RinexObsData.getObsFileName
    rw [hweek, htow]
    have ht : truncToInt 0 = 0 := by decide
    rw [ht, getRINEXfileName_week2000]
    apply congrArg String.mk
    rw [List.append_assoc]
    rfl
  have hsplit : ∀ (x rest : List Char), x.length = 4 →
      (x ++ rest).take 4 = x ∧ (x ++ rest).drop 4 = rest := by
    intro x rest hx
    rw [← hx]
    exact ⟨List.take_left _ _, List.drop_left _ _⟩
  have hd : (rinex.getObsFileName designator).toList.drop 4 = "126a00.18O".toList := by
    rw [h]
    exact (hsplit _ _ hlen).2
  refine ⟨h, ?_, hd, ?_, ?_⟩
  · rw [h]
    exact (hsplit _ _ hlen).1
  · rw [hd]
    decide
  · rw [hd]
    decide

/-- C30 (amended) on the example model at week 2000 and the short prefix `AB`: the name
is `AB--126a00.18O`. -/
theorem getObsFileName_week2000_witness :
    exampleWeek2000.getObsFileName "AB"
      = String.mk (("AB".toList ++ "----".toList).take 4 ++ "126a00.18O".toList) :=
  (getObsFileName_week2000 exampleWeek2000 "AB" rfl rfl).1

/-! ## Helper lemmas on the header acquisition -/

theorem firstPair_append_some {α : Type} (ms l : List (Option α)) (p : α × α)
    (h : firstPair ms = some p) : firstPair (ms ++ l) = some p := by
  induction ms with
  | nil => cases h
  | cons x rest ih =>
    cases x with
    | none => exact ih h
    | some a =>
      cases rest with
      | nil => cases h
      | cons y rest1 =>
        cases y with
        | none => exact ih h
        | some b => exact h

theorem firstPair_snoc_pair {α : Type} (ms : List (Option α)) (a b : α)
    (h : firstPair ms = none) (hlast : ms.getLast? = some (some a)) :
    firstPair (ms ++ [some b]) = some (a, b) := by
  induction ms with
  | nil => cases hlast
  | cons x rest ih =>
    cases rest with
    | nil =>
      simp only [List.getLast?_singleton, Option.some.injEq] at hlast
      subst hlast
      rfl
    | cons y rest1 =>
      have hl : (y :: rest1).getLast? = some (some a) := by
        rw [List.getLast?_cons_cons] at hlast
        exact hlast
      cases x with
      | none => exact ih h hl
      | some c =>
        cases y with
        | none => exact ih h hl
        | some d => cases h

theorem firstPair_snoc_none {α : Type} (ms : List (Option α)) (x : Option α)
    (h : firstPair ms = none) (hx : x = none ∨ ∀ a, ms.getLast? ≠ some (some a)) :
    firstPair (ms ++ [x]) = none := by
  induction ms with
  | nil => cases x <;> rfl
  | cons y rest ih =>
    cases rest with
    | nil =>
      cases y with
      | none => cases x <;> rfl
      | some c =>
        cases x with
        | none => rfl
        | some d =>
          rcases hx with hx | hx
          · cases hx
          · exact absurd rfl (hx c)
    | cons z rest1 =>
      have hx1 : x = none ∨ ∀ a, (z :: rest1).getLast? ≠ some (some a) := by
        rcases hx with hx | hx
        · exact Or.inl hx
        · right
          intro a
          have := hx a
          rw [List.getLast?_cons_cons] at this
          exact this
      cases y with
      | none => exact ih h hx1
      | some c =>
        cases z with
        | none => exact ih h hx1
        | some d => cases h

theorem firstPair_some_index {α : Type} (ms : List (Option α)) (a b : α)
    (h : firstPair ms = some (a, b)) :
    ∃ i, ms[i]? = some (some a) ∧ ms[i + 1]? = some (some b) ∧
      ∀ j < i, ¬ ∃ c d, ms[j]? = some (some c) ∧ ms[j + 1]? = some (some d) := by
  induction ms with
  | nil => cases h
  | cons x rest ih =>
    have step : firstPair rest = some (a, b) →
        (¬ ∃ c d, (x :: rest)[0]? = some (some c) ∧ (x :: rest)[0 + 1]? = some (some d)) →
        ∃ i, (x :: rest)[i]? = some (some a) ∧ (x :: rest)[i + 1]? = some (some b) ∧
          ∀ j < i, ¬ ∃ c d, (x :: rest)[j]? = some (some c) ∧
            (x :: rest)[j + 1]? = some (some d) := by
      intro hr h0
      obtain ⟨i, h1, h2, h3⟩ := ih hr
      refine ⟨i + 1, ?_, ?_, ?_⟩
      · simpa only [List.getElem?_cons_succ] using h1
      · simpa only [List.getElem?_cons_succ] using h2
      · intro j hj
        cases j with
        | zero => exact h0
        | succ j => simpa only [List.getElem?_cons_succ] using h3 j (by omega)
    cases x with
    | none =>
      refine step h ?_
      rintro ⟨c, d, hc, _⟩
      simp only [List.getElem?_cons_zero, Option.some.injEq, reduceCtorEq] at hc
    | some c =>
      cases rest with
      | nil => cases h
      | cons y rest1 =>
        cases y with
        | none =>
          refine step h ?_
          rintro ⟨c1, d, _, hd⟩
          simp only [List.getElem?_cons_succ, List.getElem?_cons_zero, Option.some.injEq,
            reduceCtorEq] at hd
        | some d =>
          have he : (c, d) = (a, b) := Option.some.inj h
          simp only [Prod.mk.injEq] at he
          obtain ⟨rfl, rfl⟩ := he
          refine ⟨0, ?_, ?_, fun j hj => by omega⟩
          · simp only [List.getElem?_cons_zero]
          · simp only [List.getElem?_cons_succ, List.getElem?_cons_zero]

theorem firstPair_none_index {α : Type} (ms : List (Option α)) (h : firstPair ms = none) :
    ∀ i, ¬ ∃ c d, ms[i]? = some (some c) ∧ ms[i + 1]? = some (some d) := by
  induction ms with
  | nil =>
    rintro i ⟨c, d, hc, _⟩
    simp only [List.getElem?_nil, reduceCtorEq] at hc
  | cons x rest ih =>
    have step : firstPair rest = none →
        (¬ ∃ c d, (x :: rest)[0]? = some (some c) ∧ (x :: rest)[0 + 1]? = some (some d)) →
        ∀ i, ¬ ∃ c d, (x :: rest)[i]? = some (some c) ∧ (x :: rest)[i + 1]? = some (some d) := by
      intro hr h0 i
      cases i with
      | zero => exact h0
      | succ i => simpa only [List.getElem?_cons_succ] using ih hr i
    cases x with
    | none =>
      refine step h ?_
      rintro ⟨c, d, hc, _⟩
      simp only [List.getElem?_cons_zero, Option.some.injEq, reduceCtorEq] at hc
    | some c =>
      cases rest with
      | nil =>
        refine step rfl ?_
        rintro ⟨c1, d, _, hd⟩
        simp only [List.getElem?_cons_succ, List.getElem?_nil, reduceCtorEq] at hd
      | cons y rest1 =>
        cases y with
        | none =>
          refine step h ?_
          rintro ⟨c1, d, _, hd⟩
          simp only [List.getElem?_cons_succ, List.getElem?_cons_zero, Option.some.injEq,
            reduceCtorEq] at hd
        | some d => cases h

theorem mid7Records_append (minSVSfix : Int) (l1 l2 : List (List Nat)) :
    mid7Records minSVSfix (l1 ++ l2) = mid7Records minSVSfix l1 ++ mid7Records minSVSfix l2 := by
  unfold mid7Records
  rw [List.filter_append, List.map_append]

theorem mid7Records_single (minSVSfix : Int) (p : List Nat) :
    mid7Records minSVSfix [p]
      = if p.getD 0 0 % 256 = 7 then [mid7Record minSVSfix p] else [] := by
  unfold mid7Records
  by_cases h : p.getD 0 0 % 256 = 7
  · simp only [h, List.filter_cons, decide_True, if_true, List.filter_nil, List.map_cons,
      List.map_nil]
  · simp only [h, List.filter_cons, decide_False, if_false, List.filter_nil, List.map_nil,
      Bool.false_eq_true]

theorem getMID2PosData_decoded (self : Acquisition) (rinex : RinexObsData)
    (hcur : self.core.message.cursor = 1) :
    (mid2Position self.minSVSfix self.core.message.payload = none →
      ∃ left, self.getMID2PosData rinex = some (false, left, rinex)) ∧
    (∀ q, mid2Position self.minSVSfix self.core.message.payload = some q →
      ∃ left, self.getMID2PosData rinex = some (true, left, rinex.setPosition q.1 q.2.1 q.2.2)) := by
  by_cases hlen : self.core.message.payload.length = 41
  · rw [getMID2PosData_read self rinex hlen hcur]
    unfold mid2Position
    by_cases hs : ((self.core.message.payload.getD 28 0 % 256 : Nat) : Int) < self.minSVSfix
    · have hn : ¬ (self.core.message.payload.length = 41 ∧
          self.minSVSfix ≤ ((self.core.message.payload.getD 28 0 % 256 : Nat) : Int)) := by
        intro hc
        omega
      rw [if_pos hs, if_neg hn]
      exact ⟨fun _ => ⟨_, rfl⟩, fun q hq => by cases hq⟩
    · have hp : self.core.message.payload.length = 41 ∧
          self.minSVSfix ≤ ((self.core.message.payload.getD 28 0 % 256 : Nat) : Int) :=
        ⟨hlen, by omega⟩
      rw [if_neg hs, if_pos hp]
      refine ⟨fun hc => (by cases hc), fun q hq => ?_⟩
      simp only [Option.some.injEq] at hq
      subst hq
      exact ⟨_, rfl⟩
  · have hn : ¬ (self.core.message.payload.length = 41 ∧
        self.minSVSfix ≤ ((self.core.message.payload.getD 28 0 % 256 : Nat) : Int)) :=
      fun hc => hlen hc.1
    unfold mid2Position
    rw [if_neg hn]
    refine ⟨fun _ => ⟨self.core.message, ?_⟩, fun q hq => by cases hq⟩
    unfold Acquisition.getMID2PosData
    have hl : self.core.message.payloadLen ≠ 41 := hlen
    rw [if_pos hl]

theorem getMID7TimeData_decoded (self : Acquisition) (rinex : RinexObsData)
    (hcur : self.core.message.cursor = 1) :
    (mid7Record self.minSVSfix self.core.message.payload = none →
      ∃ left, self.getMID7TimeData rinex = some (false, left, rinex)) ∧
    (∀ a, mid7Record self.minSVSfix self.core.message.payload = some a →
      ∃ left bias, self.getMID7TimeData rinex
        = some (true, left, rinex.setGPSTime a.1 a.2 bias)) := by
  rw [getMID7TimeData_eq self rinex hcur]
  unfold mid7Record
  by_cases hlen : self.core.message.payload.length = 20
  · by_cases hs : ((self.core.message.payload.getD 7 0 % 256 : Nat) : Int) < self.minSVSfix
    · have hn : ¬ (self.core.message.payload.length = 20 ∧
          self.minSVSfix ≤ ((self.core.message.payload.getD 7 0 % 256 : Nat) : Int)) := by
        intro hc
        omega
      rw [if_pos hlen, if_pos hs, if_neg hn]
      exact ⟨fun _ => ⟨_, rfl⟩, fun q hq => by cases hq⟩
    · have hp : self.core.message.payload.length = 20 ∧
          self.minSVSfix ≤ ((self.core.message.payload.getD 7 0 % 256 : Nat) : Int) :=
        ⟨hlen, by omega⟩
      rw [if_pos hlen, if_neg hs, if_pos hp]
      refine ⟨fun hc => (by cases hc), fun q hq => ?_⟩
      simp only [Option.some.injEq] at hq
      subst hq
      exact ⟨_, _, rfl⟩
  · have hn : ¬ (self.core.message.payload.length = 20 ∧
        self.minSVSfix ≤ ((self.core.message.payload.getD 7 0 % 256 : Nat) : Int)) :=
      fun hc => hlen hc.1
    rw [if_neg hlen, if_neg hn]
    exact ⟨fun _ => ⟨_, rfl⟩, fun q hq => by cases hq⟩

theorem getMID7Interval_decoded (self : Acquisition) (rinex : RinexObsData)
    (hcur : self.core.message.cursor = 1) :
    (mid7Record self.minSVSfix self.core.message.payload = none →
      ∃ left, self.getMID7Interval rinex = some (false, left, rinex)) ∧
    (∀ a, mid7Record self.minSVSfix self.core.message.payload = some a →
      ∃ left, self.getMID7Interval rinex = some (true, left, rinex.setIntervalTime a.1 a.2)) := by
  unfold mid7Record
  by_cases hlen : self.core.message.payload.length = 20
  · rw [getMID7Interval_read self rinex hlen hcur]
    by_cases hs : ((self.core.message.payload.getD 7 0 % 256 : Nat) : Int) < self.minSVSfix
    · have hn : ¬ (self.core.message.payload.length = 20 ∧
          self.minSVSfix ≤ ((self.core.message.payload.getD 7 0 % 256 : Nat) : Int)) := by
        intro hc
        omega
      rw [if_pos hs, if_neg hn]
      exact ⟨fun _ => ⟨_, rfl⟩, fun q hq => by cases hq⟩
    · have hp : self.core.message.payload.length = 20 ∧
          self.minSVSfix ≤ ((self.core.message.payload.getD 7 0 % 256 : Nat) : Int) :=
        ⟨hlen, by omega⟩
      rw [if_neg hs, if_pos hp]
      refine ⟨fun hc => (by cases hc), fun q hq => ?_⟩
      simp only [Option.some.injEq] at hq
      subst hq
      exact ⟨_, rfl⟩
  · have hn : ¬ (self.core.message.payload.length = 20 ∧
        self.minSVSfix ≤ ((self.core.message.payload.getD 7 0 % 256 : Nat) : Int)) :=
      fun hc => hlen hc.1
    rw [if_neg hn]
    refine ⟨fun _ => ⟨self.core.message, ?_⟩, fun q hq => by cases hq⟩
    unfold Acquisition.getMID7Interval
    have hl : self.core.message.payloadLen ≠ 20 := hlen
    rw [if_pos hl]

theorem getMID6RxData_decoded (self : Acquisition) (rinex : RinexObsData)
    (hcur : self.core.message.cursor = 1) (ok : Bool) (left : OSPMessage) (r : RinexObsData)
    (h : self.getMID6RxData rinex = Except.ok (ok, left, r)) :
    (ok = false ∧ r = rinex ∧ ¬ mid6LengthsMatch self.core.message.payload) ∨
    (ok = true ∧ mid6LengthsMatch self.core.message.payload ∧
      ∃ k, strFind "GSD4" (mid6Version self.core.message.payload) = some k ∧
        r = rinex.setReceiver (mid6Version self.core.message.payload) self.receiver
          (String.mk ((mid6Version self.core.message.payload).toList.drop k)) 1 0) := by
  by_cases h3 : 3 ≤ self.core.message.payload.length
  · rw [getMID6RxData_read self rinex hcur h3] at h
    by_cases hm : mid6LengthsMatch self.core.message.payload
    · rw [if_neg (not_not_intro hm)] at h
      rcases hf : strFind "GSD4" (mid6Version self.core.message.payload) with _ | k
      · rw [hf] at h
        cases h
      · rw [hf] at h
        obtain ⟨d, hk, hd, _, _⟩ := strFindFrom_some _ _ 0 k hf
        have hkd : k = d := by omega
        subst hkd
        have hle : ¬ k > (mid6Version self.core.message.payload).length := Nat.not_lt.mpr hd
        simp only [strSubstr, hle, if_false, Except.ok.injEq, Prod.mk.injEq] at h
        exact Or.inr ⟨h.1.symm, hm, k, rfl, h.2.2.symm⟩
    · rw [if_pos hm] at h
      simp only [Except.ok.injEq, Prod.mk.injEq] at h
      exact Or.inl ⟨h.1.symm, h.2.2.symm, hm⟩
  · exfalso
    obtain ⟨receiver, minSVSfix, ospFile, ⟨⟨p, c⟩, mem⟩⟩ := self
    simp only at hcur h3
    subst hcur
    unfold Acquisition.getMID6RxData at h
    simp only at h
    by_cases h1 : 1 < p.length
    · rw [get_mk p 1 h1] at h
      simp only at h
      have h2 : (OSPMessage.mk p (1 + 1)).get = none := by
        unfold OSPMessage.get
        rw [if_neg (by simp only; omega)]
      rw [h2] at h
      cases h
    · have h2 : (OSPMessage.mk p 1).get = none := by
        unfold OSPMessage.get
        rw [if_neg (by simp only; omega)]
      rw [h2] at h
      cases h

theorem acqHeaderBody_effect (self : Acquisition) (v : HeaderVars) (p : List Nat)
    (left : OSPMessage) (v1 : HeaderVars) (hmsg : self.core.message = ⟨p, 0⟩)
    (h : self.acqHeaderBody v = Except.ok (left, v1)) :
    0 < p.length ∧ HeaderEffect self.receiver self.minSVSfix v p v1 := by
  obtain ⟨receiver, minSVSfix, ospFile, ⟨msg, mem⟩⟩ := self
  obtain ⟨rinex, rx, apx, frs, ib, is⟩ := v
  simp only at hmsg
  subst hmsg
  unfold Acquisition.acqHeaderBody at h
  simp only at h
  by_cases hp : 0 < p.length
  · refine ⟨hp, ?_⟩
    rw [get_mk p 0 hp] at h
    simp only at h
    generalize hS : Acquisition.setMessage ⟨receiver, minSVSfix, ospFile, ⟨⟨p, 0⟩, mem⟩⟩
      ⟨p, 0 + 1⟩ = S at h
    have hcur : S.core.message.cursor = 1 := by rw [← hS]; rfl
    have hpay : S.core.message.payload = p := by rw [← hS]; rfl
    have hmin : S.minSVSfix = minSVSfix := by rw [← hS]; rfl
    have hrec : S.receiver = receiver := by rw [← hS]; rfl
    show HeaderEffect receiver minSVSfix _ p v1
    by_cases h2 : p.getD 0 0 % 256 = 2
    · rw [if_pos h2] at h
      by_cases ha : apx = false
      · rw [if_pos ha] at h
        subst ha
        have hd := getMID2PosData_decoded S rinex hcur
        rw [hpay, hmin] at hd
        rcases hq : mid2Position minSVSfix p with _ | q
        · obtain ⟨l, hl⟩ := hd.1 hq
          rw [hl] at h
          simp only [Except.ok.injEq, Prod.mk.injEq] at h
          rw [← h.2]
          exact HeaderEffect.mid2Skip h2 (Or.inr hq)
        · obtain ⟨l, hl⟩ := hd.2 q hq
          rw [hl] at h
          simp only [Except.ok.injEq, Prod.mk.injEq] at h
          rw [← h.2]
          exact HeaderEffect.mid2Set q h2 rfl hq
      · rw [if_neg ha] at h
        simp only [Except.ok.injEq, Prod.mk.injEq] at h
        rw [← h.2]
        exact HeaderEffect.mid2Skip h2 (Or.inl (by simpa using ha))
    · rw [if_neg h2] at h
      by_cases h6 : p.getD 0 0 % 256 = 6
      · rw [if_pos h6] at h
        by_cases ha : rx = false
        · rw [if_pos ha] at h
          subst ha
          rcases hr : S.getMID6RxData rinex with e | ⟨ok, l, r⟩
          · rw [hr] at h
            cases e <;> cases h
          · rw [hr] at h
            simp only [Except.ok.injEq, Prod.mk.injEq] at h
            rw [← h.2]
            have hd := getMID6RxData_decoded S rinex hcur ok l r hr
            rw [hpay, hrec] at hd
            rcases hd with ⟨hok, hrr, hm⟩ | ⟨hok, hm, k, hk, hrr⟩
            · subst hok hrr
              exact HeaderEffect.mid6Skip h6 (Or.inr hm)
            · subst hok hrr
              exact HeaderEffect.mid6Set k h6 rfl hm hk
        · rw [if_neg ha] at h
          simp only [Except.ok.injEq, Prod.mk.injEq] at h
          rw [← h.2]
          exact HeaderEffect.mid6Skip h6 (Or.inl (by simpa using ha))
      · rw [if_neg h6] at h
        by_cases h7 : p.getD 0 0 % 256 = 7
        · rw [if_pos h7] at h
          have hd := getMID7TimeData_decoded S rinex hcur
          rw [hpay, hmin] at hd
          have hi := getMID7Interval_decoded S rinex hcur
          rw [hpay, hmin] at hi
          by_cases ha : frs = false
          · rw [if_pos ha] at h
            subst ha
            rcases hq : mid7Record minSVSfix p with _ | a
            · obtain ⟨l, hl⟩ := hd.1 hq
              rw [hl] at h
              simp only [Except.ok.injEq, Prod.mk.injEq] at h
              rw [← h.2]
              exact HeaderEffect.mid7FirstNot h7 rfl hq
            · obtain ⟨l, bias, hl⟩ := hd.2 a hq
              rw [hl] at h
              simp only [Except.ok.injEq, Prod.mk.injEq] at h
              rw [← h.2]
              exact HeaderEffect.mid7First a bias h7 rfl hq
          · rw [if_neg ha] at h
            have ha1 : frs = true := by simpa using ha
            subst ha1
            by_cases hb : ib = false
            · rw [if_pos hb] at h
              subst hb
              rcases hq : mid7Record minSVSfix p with _ | a
              · obtain ⟨l, hl⟩ := hd.1 hq
                rw [hl] at h
                simp only [Except.ok.injEq, Prod.mk.injEq] at h
                rw [← h.2]
                exact HeaderEffect.mid7BeginNot h7 rfl rfl hq
              · obtain ⟨l, bias, hl⟩ := hd.2 a hq
                rw [hl] at h
                simp only [Except.ok.injEq, Prod.mk.injEq] at h
                rw [← h.2]
                exact HeaderEffect.mid7Begin a bias h7 rfl rfl hq
            · rw [if_neg hb] at h
              have hb1 : ib = true := by simpa using hb
              subst hb1
              by_cases hs : is = false
              · rw [if_pos hs] at h
                subst hs
                rcases hq : mid7Record minSVSfix p with _ | a
                · obtain ⟨l, hl⟩ := hi.1 hq
                  rw [hl] at h
                  simp only [Except.ok.injEq, Prod.mk.injEq] at h
                  rw [← h.2]
                  exact HeaderEffect.mid7IntervalNot h7 rfl rfl rfl hq
                · obtain ⟨l, hl⟩ := hi.2 a hq
                  rw [hl] at h
                  simp only [Except.ok.injEq, Prod.mk.injEq] at h
                  rw [← h.2]
                  exact HeaderEffect.mid7Interval a h7 rfl rfl rfl hq
              · rw [if_neg hs] at h
                have hs1 : is = true := by simpa using hs
                subst hs1
                simp only [Except.ok.injEq, Prod.mk.injEq] at h
                rw [← h.2]
                exact HeaderEffect.mid7Done h7 rfl rfl rfl
        · rw [if_neg h7] at h
          simp only [Except.ok.injEq, Prod.mk.injEq] at h
          rw [← h.2]
          exact HeaderEffect.other h2 h6 h7
  · exfalso
    have hg : (OSPMessage.mk p 0).get = none := by
      unfold OSPMessage.get
      rw [if_neg hp]
    rw [hg] at h
    cases h

theorem mid2Positions_append (minSVSfix : Int) (l1 l2 : List (List Nat)) :
    mid2Positions minSVSfix (l1 ++ l2)
      = mid2Positions minSVSfix l1 ++ mid2Positions minSVSfix l2 := by
  unfold mid2Positions
  rw [List.filterMap_append]

theorem mid6Accepted_append (l1 l2 : List (List Nat)) :
    mid6Accepted (l1 ++ l2) = mid6Accepted l1 ++ mid6Accepted l2 := by
  unfold mid6Accepted
  rw [List.filter_append]

theorem mid7Usable_append (minSVSfix : Int) (l1 l2 : List (List Nat)) :
    mid7Usable minSVSfix (l1 ++ l2) = mid7Usable minSVSfix l1 ++ mid7Usable minSVSfix l2 := by
  unfold mid7Usable
  rw [mid7Records_append, List.filterMap_append]

theorem mid2Positions_single (minSVSfix : Int) (p : List Nat) :
    mid2Positions minSVSfix [p] = (mid2Of minSVSfix p).toList := by
  unfold mid2Positions
  rcases h : mid2Of minSVSfix p with _ | q
  · simp only [List.filterMap_cons, h, List.filterMap_nil, Option.toList]
  · simp only [List.filterMap_cons, h, List.filterMap_nil, Option.toList]

theorem mid6Accepted_single (p : List Nat) :
    mid6Accepted [p] = if p.getD 0 0 % 256 = 6 ∧ mid6LengthsMatch p then [p] else [] := by
  unfold mid6Accepted
  by_cases h : p.getD 0 0 % 256 = 6 ∧ mid6LengthsMatch p
  · have hb : (decide (p.getD 0 0 % 256 = 6) && decide (mid6LengthsMatch p)) = true := by
      rw [Bool.and_eq_true, decide_eq_true_eq, decide_eq_true_eq]
      exact h
    rw [if_pos h, List.filter_cons, if_pos hb, List.filter_nil]
  · have hb : ¬ (decide (p.getD 0 0 % 256 = 6) && decide (mid6LengthsMatch p)) = true := by
      rw [Bool.and_eq_true, decide_eq_true_eq, decide_eq_true_eq]
      exact h
    rw [if_neg h, List.filter_cons, if_neg hb, List.filter_nil]

theorem mid7Usable_single (minSVSfix : Int) (p : List Nat) :
    mid7Usable minSVSfix [p]
      = if p.getD 0 0 % 256 = 7 then (mid7Record minSVSfix p).toList else [] := by
  unfold mid7Usable
  rw [mid7Records_single]
  by_cases h : p.getD 0 0 % 256 = 7
  · rw [if_pos h, if_pos h]
    rcases hr : mid7Record minSVSfix p with _ | a
    · simp only [List.filterMap_cons, id, List.filterMap_nil, Option.toList]
    · simp only [List.filterMap_cons, id, List.filterMap_nil, Option.toList]
  · rw [if_neg h, if_neg h]
    rfl

theorem head?_append_of_head? {α : Type} (l1 l2 : List α) (a : α) (h : l1.head? = some a) :
    (l1 ++ l2).head? = some a := by
  cases l1 with
  | nil => cases h
  | cons x rest => exact h

theorem effect_apx (receiver : String) (minSVSfix : Int) (v v1 : HeaderVars) (p : List Nat)
    (h : HeaderEffect receiver minSVSfix v p v1) :
    (v1.apxSet = v.apxSet ∧ v1.rinex.aproxX = v.rinex.aproxX ∧
        v1.rinex.aproxY = v.rinex.aproxY ∧ v1.rinex.aproxZ = v.rinex.aproxZ ∧
        (v.apxSet = true ∨ mid2Of minSVSfix p = none)) ∨
      (v.apxSet = false ∧ v1.apxSet = true ∧ ∃ q, mid2Of minSVSfix p = some q ∧
        v1.rinex.aproxX = q.1 ∧ v1.rinex.aproxY = q.2.1 ∧ v1.rinex.aproxZ = q.2.2) := by
  have hne : p.getD 0 0 % 256 ≠ 2 → mid2Of minSVSfix p = none := by
    intro hn
    unfold mid2Of
    rw [if_neg hn]
  cases h with
  | other h2 h6 h7 => exact Or.inl ⟨rfl, rfl, rfl, rfl, Or.inr (hne h2)⟩
  | mid2Skip h2 h =>
    refine Or.inl ⟨rfl, rfl, rfl, rfl, h.imp id (fun hq => ?_)⟩
    unfold mid2Of
    rw [if_pos h2]
    exact hq
  | mid2Set q h2 h hq =>
    refine Or.inr ⟨h, rfl, q, ?_, rfl, rfl, rfl⟩
    unfold mid2Of
    rw [if_pos h2]
    exact hq
  | mid6Skip h6 h => exact Or.inl ⟨rfl, rfl, rfl, rfl, Or.inr (hne (by omega))⟩
  | mid6Set k h6 h hl hk => exact Or.inl ⟨rfl, rfl, rfl, rfl, Or.inr (hne (by omega))⟩
  | mid7FirstNot h7 h hr => exact Or.inl ⟨rfl, rfl, rfl, rfl, Or.inr (hne (by omega))⟩
  | mid7First a bias h7 h hr => exact Or.inl ⟨rfl, rfl, rfl, rfl, Or.inr (hne (by omega))⟩
  | mid7BeginNot h7 h hb hr => exact Or.inl ⟨rfl, rfl, rfl, rfl, Or.inr (hne (by omega))⟩
  | mid7Begin a bias h7 h hb hr => exact Or.inl ⟨rfl, rfl, rfl, rfl, Or.inr (hne (by omega))⟩
  | mid7IntervalNot h7 h hb hs hr =>
    exact Or.inl ⟨rfl, rfl, rfl, rfl, Or.inr (hne (by omega))⟩
  | mid7Interval a h7 h hb hs hr => exact Or.inl ⟨rfl, rfl, rfl, rfl, Or.inr (hne (by omega))⟩
  | mid7Done h7 h hb hs => exact Or.inl ⟨rfl, rfl, rfl, rfl, Or.inr (hne (by omega))⟩

theorem effect_rx (receiver : String) (minSVSfix : Int) (v v1 : HeaderVars) (p : List Nat)
    (h : HeaderEffect receiver minSVSfix v p v1) :
    (v1.rxIdSet = v.rxIdSet ∧ v1.rinex.rxNumber = v.rinex.rxNumber ∧
        v1.rinex.rxType = v.rinex.rxType ∧ v1.rinex.rxVersion = v.rinex.rxVersion ∧
        (v.rxIdSet = true ∨ ¬ (p.getD 0 0 % 256 = 6 ∧ mid6LengthsMatch p))) ∨
      (v.rxIdSet = false ∧ v1.rxIdSet = true ∧ p.getD 0 0 % 256 = 6 ∧ mid6LengthsMatch p ∧
        ∃ k, strFind "GSD4" (mid6Version p) = some k ∧ v1.rinex.rxNumber = mid6Version p ∧
          v1.rinex.rxType = receiver ∧
          v1.rinex.rxVersion = String.mk ((mid6Version p).toList.drop k)) := by
  cases h with
  | other h2 h6 h7 => exact Or.inl ⟨rfl, rfl, rfl, rfl, Or.inr (fun hc => h6 hc.1)⟩
  | mid2Skip h2 h => exact Or.inl ⟨rfl, rfl, rfl, rfl, Or.inr (fun hc => by omega)⟩
  | mid2Set q h2 h hq => exact Or.inl ⟨rfl, rfl, rfl, rfl, Or.inr (fun hc => by omega)⟩
  | mid6Skip h6 h =>
    exact Or.inl ⟨rfl, rfl, rfl, rfl, h.imp id (fun hq hc => hq hc.2)⟩
  | mid6Set k h6 h hl hk => exact Or.inr ⟨h, rfl, h6, hl, k, hk, rfl, rfl, rfl⟩
  | mid7FirstNot h7 h hr => exact Or.inl ⟨rfl, rfl, rfl, rfl, Or.inr (fun hc => by omega)⟩
  | mid7First a bias h7 h hr => exact Or.inl ⟨rfl, rfl, rfl, rfl, Or.inr (fun hc => by omega)⟩
  | mid7BeginNot h7 h hb hr => exact Or.inl ⟨rfl, rfl, rfl, rfl, Or.inr (fun hc => by omega)⟩
  | mid7Begin a bias h7 h hb hr => exact Or.inl ⟨rfl, rfl, rfl, rfl, Or.inr (fun hc => by omega)⟩
  | mid7IntervalNot h7 h hb hs hr =>
    exact Or.inl ⟨rfl, rfl, rfl, rfl, Or.inr (fun hc => by omega)⟩
  | mid7Interval a h7 h hb hs hr =>
    exact Or.inl ⟨rfl, rfl, rfl, rfl, Or.inr (fun hc => by omega)⟩
  | mid7Done h7 h hb hs => exact Or.inl ⟨rfl, rfl, rfl, rfl, Or.inr (fun hc => by omega)⟩

theorem effect_frs (receiver : String) (minSVSfix : Int) (v v1 : HeaderVars) (p : List Nat)
    (h : HeaderEffect receiver minSVSfix v p v1) :
    (v1.frsEphSet = v.frsEphSet ∧
        (v.frsEphSet = true → v1.rinex.firstObsWeek = v.rinex.firstObsWeek ∧
          v1.rinex.firstObsTOW = v.rinex.firstObsTOW) ∧
        (v.frsEphSet = true ∨ p.getD 0 0 % 256 ≠ 7 ∨ mid7Record minSVSfix p = none)) ∨
      (v.frsEphSet = false ∧ v1.frsEphSet = true ∧ p.getD 0 0 % 256 = 7 ∧
        ∃ a, mid7Record minSVSfix p = some a ∧ v1.rinex.firstObsWeek = a.1 ∧
          v1.rinex.firstObsTOW = a.2) := by
  cases h with
  | other h2 h6 h7 => exact Or.inl ⟨rfl, fun _ => ⟨rfl, rfl⟩, Or.inr (Or.inl h7)⟩
  | mid2Skip h2 h => exact Or.inl ⟨rfl, fun _ => ⟨rfl, rfl⟩, Or.inr (Or.inl (by omega))⟩
  | mid2Set q h2 h hq => exact Or.inl ⟨rfl, fun _ => ⟨rfl, rfl⟩, Or.inr (Or.inl (by omega))⟩
  | mid6Skip h6 h => exact Or.inl ⟨rfl, fun _ => ⟨rfl, rfl⟩, Or.inr (Or.inl (by omega))⟩
  | mid6Set k h6 h hl hk =>
    exact Or.inl ⟨rfl, fun _ => ⟨rfl, rfl⟩, Or.inr (Or.inl (by omega))⟩
  | mid7FirstNot h7 h hr =>
    refine Or.inl ⟨rfl, fun hc => ?_, Or.inr (Or.inr hr)⟩
    rw [h] at hc
    cases hc
  | mid7First a bias h7 h hr => exact Or.inr ⟨h, rfl, h7, a, hr, rfl, rfl⟩
  | mid7BeginNot h7 h hb hr => exact Or.inl ⟨rfl, fun _ => ⟨rfl, rfl⟩, Or.inl h⟩
  | mid7Begin a bias h7 h hb hr => exact Or.inl ⟨rfl, fun _ => ⟨rfl, rfl⟩, Or.inl h⟩
  | mid7IntervalNot h7 h hb hs hr => exact Or.inl ⟨rfl, fun _ => ⟨rfl, rfl⟩, Or.inl h⟩
  | mid7Interval a h7 h hb hs hr => exact Or.inl ⟨rfl, fun _ => ⟨rfl, rfl⟩, Or.inl h⟩
  | mid7Done h7 h hb hs => exact Or.inl ⟨rfl, fun _ => ⟨rfl, rfl⟩, Or.inl h⟩

theorem getLast?_of_filterMap_nil {α : Type} (l : List (Option α))
    (h : l.filterMap id = []) (a : α) : l.getLast? ≠ some (some a) := by
  intro hc
  have hm : some a ∈ l := List.mem_of_getLast?_eq_some hc
  rw [List.filterMap_eq_nil_iff] at h
  have := h (some a) hm
  cases this

theorem headerInv_interval (receiver : String) (minSVSfix : Int) (v v1 : HeaderVars)
    (handled : List (List Nat)) (p : List Nat)
    (hinv : HeaderInv receiver minSVSfix v handled)
    (h : HeaderEffect receiver minSVSfix v p v1) :
    (v1.intrvSet = true → v1.frsEphSet = true ∧ v1.intrvBegin = true ∧
      ∃ a b, firstPair (mid7Records minSVSfix (handled ++ [p])) = some (a, b) ∧
        v1.rinex.obsInterval = intervalBetween a b) ∧
    (v1.intrvSet = false → firstPair (mid7Records minSVSfix (handled ++ [p])) = none ∧
      (v1.intrvBegin = true →
        (mid7Records minSVSfix (handled ++ [p])).getLast?
          = some (some (v1.rinex.gpsWeek, v1.rinex.gpsTOW))) ∧
      (v1.intrvBegin = false →
        ∀ a, (mid7Records minSVSfix (handled ++ [p])).getLast? ≠ some (some a))) := by
  have hother : p.getD 0 0 % 256 ≠ 7 →
      mid7Records minSVSfix (handled ++ [p]) = mid7Records minSVSfix handled := by
    intro hn
    rw [mid7Records_append, mid7Records_single, if_neg hn, List.append_nil]
  have hseven : p.getD 0 0 % 256 = 7 →
      mid7Records minSVSfix (handled ++ [p])
        = mid7Records minSVSfix handled ++ [mid7Record minSVSfix p] := by
    intro hn
    rw [mid7Records_append, mid7Records_single, if_pos hn]
  have hset := hinv.int_set
  have hnot := hinv.int_not
  have hfrs := hinv.frs_not
  cases h with
  | other h2 h6 h7 =>
    rw [hother h7]
    exact ⟨hset, hnot⟩
  | mid2Skip h2 h =>
    rw [hother (by omega)]
    exact ⟨hset, hnot⟩
  | mid2Set q h2 h hq =>
    rw [hother (by omega)]
    exact ⟨hset, hnot⟩
  | mid6Skip h6 h =>
    rw [hother (by omega)]
    exact ⟨hset, hnot⟩
  | mid6Set k h6 h hl hk =>
    rw [hother (by omega)]
    exact ⟨hset, hnot⟩
  | mid7FirstNot h7 h hr =>
    rw [hseven h7, hr]
    refine ⟨fun hs => ?_, fun hs => ⟨?_, fun hc => (by cases hc), fun _ a => ?_⟩⟩
    · have := (hset hs).1
      rw [h] at this
      cases this
    · exact firstPair_snoc_none _ _ (hnot hs).1 (Or.inl rfl)
    · rw [List.getLast?_concat]
      intro hc
      cases hc
  | mid7First a bias h7 h hr =>
    rw [hseven h7, hr]
    refine ⟨fun hs => ?_, fun hs => ⟨?_, fun _ => ?_, fun hc => (by cases hc)⟩⟩
    · have := (hset hs).1
      rw [h] at this
      cases this
    · exact firstPair_snoc_none _ _ (hnot hs).1
        (Or.inr (getLast?_of_filterMap_nil _ (hfrs h)))
    · rw [List.getLast?_concat]
      rfl
  | mid7BeginNot h7 h hb hr =>
    rw [hseven h7, hr]
    refine ⟨fun hs => ?_, fun hs => ⟨?_, fun hc => ?_, fun _ a => ?_⟩⟩
    · have := (hset hs).2.1
      rw [hb] at this
      cases this
    · exact firstPair_snoc_none _ _ (hnot hs).1 (Or.inl rfl)
    · rw [hb] at hc
      cases hc
    · rw [List.getLast?_concat]
      intro hc
      cases hc
  | mid7Begin a bias h7 h hb hr =>
    rw [hseven h7, hr]
    refine ⟨fun hs => ?_, fun hs => ⟨?_, fun _ => ?_, fun hc => (by cases hc)⟩⟩
    · have := (hset hs).2.1
      rw [hb] at this
      cases this
    · exact firstPair_snoc_none _ _ (hnot hs).1 (Or.inr ((hnot hs).2.2 hb))
    · rw [List.getLast?_concat]
      rfl
  | mid7IntervalNot h7 h hb hs hr =>
    rw [hseven h7, hr]
    refine ⟨fun hc => ?_, fun _ => ⟨?_, fun hc => (by cases hc), fun _ a => ?_⟩⟩
    · have hc1 : v.intrvSet = true := hc
      rw [hs] at hc1
      cases hc1
    · exact firstPair_snoc_none _ _ (hnot hs).1 (Or.inl rfl)
    · rw [List.getLast?_concat]
      intro hc
      cases hc
  | mid7Interval a h7 h hb hs hr =>
    rw [hseven h7, hr]
    refine ⟨fun _ => ⟨h, hb, (v.rinex.gpsWeek, v.rinex.gpsTOW), a, ?_, rfl⟩,
      fun hc => (by cases hc)⟩
    exact firstPair_snoc_pair _ _ _ (hnot hs).1 ((hnot hs).2.1 hb)
  | mid7Done h7 h hb hs =>
    rw [hseven h7]
    refine ⟨fun _ => ⟨h, hb, ?_⟩, fun hc => ?_⟩
    · obtain ⟨_, _, a, b, hab, hint⟩ := hset hs
      exact ⟨a, b, firstPair_append_some _ _ _ hab, hint⟩
    · rw [hs] at hc
      cases hc

theorem headerInv_step (receiver : String) (minSVSfix : Int) (v v1 : HeaderVars)
    (handled : List (List Nat)) (p : List Nat)
    (hinv : HeaderInv receiver minSVSfix v handled)
    (h : HeaderEffect receiver minSVSfix v p v1) :
    HeaderInv receiver minSVSfix v1 (handled ++ [p]) := by
  have hint := headerInv_interval receiver minSVSfix v v1 handled p hinv h
  refine ⟨?_, ?_, ?_, ?_, ?_, ?_, hint.1, hint.2⟩
  · intro hs
    rw [mid2Positions_append, mid2Positions_single]
    rcases effect_apx receiver minSVSfix v v1 p h with ⟨e, ex, ey, ez, _⟩ | ⟨hv, _, q, hq, ex, ey, ez⟩
    · rw [e] at hs
      obtain ⟨q, hq, hx, hy, hz⟩ := hinv.apx_set hs
      exact ⟨q, head?_append_of_head? _ _ _ hq, ex.trans hx, ey.trans hy, ez.trans hz⟩
    · rw [hinv.apx_not hv, hq]
      exact ⟨q, rfl, ex, ey, ez⟩
  · intro hs
    rw [mid2Positions_append, mid2Positions_single]
    rcases effect_apx receiver minSVSfix v v1 p h with ⟨e, _, _, _, hc⟩ | ⟨_, hv1, _⟩
    · rw [e] at hs
      rcases hc with hc | hc
      · rw [hs] at hc
        cases hc
      · rw [hinv.apx_not hs, hc]
        rfl
    · rw [hs] at hv1
      cases hv1
  · intro hs
    rw [mid6Accepted_append, mid6Accepted_single]
    rcases effect_rx receiver minSVSfix v v1 p h with
      ⟨e, en, et, ev, _⟩ | ⟨hv, _, h6, hl, k, hk, en, et, ev⟩
    · rw [e] at hs
      obtain ⟨q, k, hq, hk, hn, ht, hver⟩ := hinv.rx_set hs
      exact ⟨q, k, head?_append_of_head? _ _ _ hq, hk, en.trans hn, et.trans ht, ev.trans hver⟩
    · rw [hinv.rx_not hv, if_pos ⟨h6, hl⟩]
      exact ⟨p, k, rfl, hk, en, et, ev⟩
  · intro hs
    rw [mid6Accepted_append, mid6Accepted_single]
    rcases effect_rx receiver minSVSfix v v1 p h with ⟨e, _, _, _, hc⟩ | ⟨_, hv1, _⟩
    · rw [e] at hs
      rcases hc with hc | hc
      · rw [hs] at hc
        cases hc
      · rw [hinv.rx_not hs, if_neg hc]
        rfl
    · rw [hs] at hv1
      cases hv1
  · intro hs
    rw [mid7Usable_append, mid7Usable_single]
    rcases effect_frs receiver minSVSfix v v1 p h with ⟨e, ef, _⟩ | ⟨hv, _, h7, a, ha, ew, et⟩
    · rw [e] at hs
      obtain ⟨a, ha, hw, ht⟩ := hinv.frs_set hs
      exact ⟨a, head?_append_of_head? _ _ _ ha, (ef hs).1.trans hw, (ef hs).2.trans ht⟩
    · rw [hinv.frs_not hv, if_pos h7, ha]
      exact ⟨a, rfl, ew, et⟩
  · intro hs
    rw [mid7Usable_append, mid7Usable_single]
    rcases effect_frs receiver minSVSfix v v1 p h with ⟨e, _, hc⟩ | ⟨_, hv1, _⟩
    · rw [e] at hs
      rw [hinv.frs_not hs]
      rcases hc with hc | hc | hc
      · rw [hs] at hc
        cases hc
      · rw [if_neg hc]
        rfl
      · rw [hc]
        by_cases h7 : p.getD 0 0 % 256 = 7
        · rw [if_pos h7]
          rfl
        · rw [if_neg h7]
          rfl
    · rw [hs] at hv1
      cases hv1

theorem streamPayloads_eof (bytes : List Nat) (n pos : Nat)
    (h : OSPMessage.fill ⟨bytes, pos⟩ = FillResult.endOfStream) :
    streamPayloads bytes n pos = [] := by
  cases n with
  | zero => rfl
  | succ n =>
    rw [streamPayloads]
    simp only [h]

theorem acqHeaderLoop_inv (bytes : List Nat) (receiver : String) (minSVSfix : Int) :
    ∀ (fuel : Nat) (self : Acquisition) (v : HeaderVars) (handled : List (List Nat))
      (r : HeaderResult),
      self.ospFile.bytes = bytes → self.receiver = receiver → self.minSVSfix = minSVSfix →
      self.ospFile.pos ≤ bytes.length → handled.length ≤ self.ospFile.pos →
      (∀ n, streamPayloads bytes (handled.length + n) 0
        = handled ++ streamPayloads bytes n self.ospFile.pos) →
      HeaderInv receiver minSVSfix v handled →
      acqHeaderLoop fuel self v handled = Except.ok r →
      HeaderInv receiver minSVSfix r.vars r.handled ∧
      r.ret = (r.vars.apxSet && r.vars.frsEphSet && r.vars.rxIdSet && r.vars.intrvSet) ∧
      ∃ rest, streamPayloads bytes (bytes.length + 1) 0 = r.handled ++ rest ∧
        (r.ret = false → rest = []) := by
  intro fuel
  induction fuel with
  | zero =>
    intro self v handled r _ _ _ _ _ _ _ h
    cases h
  | succ fuel ih =>
    intro self v handled r hbytes hrec hmin hpos hlen hstream hinv h
    have hfile : self.ospFile = ⟨bytes, self.ospFile.pos⟩ := by
      rw [← hbytes]
    have hsplit : streamPayloads bytes (bytes.length + 1) 0
        = handled ++ streamPayloads bytes (bytes.length + 1 - handled.length) self.ospFile.pos := by
      rw [← hstream]
      congr 1
      omega
    unfold acqHeaderLoop at h
    rcases hfill : OSPMessage.fill self.ospFile with ⟨message, file⟩ | _ | _
    · simp only [hfill] at h
      obtain ⟨hcur, hfb, hfp, hfle, _⟩ := fill_filled _ _ _ hfill
      by_cases hall : (v.apxSet && v.rxIdSet && v.frsEphSet && v.intrvSet) = true
      · rw [if_pos hall] at h
        simp only [Except.ok.injEq] at h
        subst h
        refine ⟨hinv, rfl, _, hsplit, ?_⟩
        intro hc
        simp only [Bool.and_eq_true] at hall
        simp only [hall.1.1.1, hall.1.1.2, hall.1.2, hall.2, Bool.and_self] at hc
        cases hc
      · rw [if_neg hall] at h
        rcases hbody : Acquisition.acqHeaderBody
            { self with ospFile := file, core := { self.core with message := message } } v
          with e | ⟨left, v1⟩
        · rw [hbody] at h
          cases h
        · rw [hbody] at h
          simp only at h
          have hmsg : (Acquisition.mk self.receiver self.minSVSfix file
              ⟨message, self.core.subfrmCh⟩).core.message = ⟨message.payload, 0⟩ := by
            obtain ⟨mp, mc⟩ := message
            simp only at hcur
            subst hcur
            rfl
          obtain ⟨_, heff⟩ := acqHeaderBody_effect _ v message.payload left v1 hmsg hbody
          have hinv1 := headerInv_step receiver minSVSfix v v1 handled message.payload hinv
            (by rw [← hrec, ← hmin]; exact heff)
          refine ih (Acquisition.setMessage ⟨self.receiver, self.minSVSfix, file,
            ⟨message, self.core.subfrmCh⟩⟩ left) v1 (handled ++ [message.payload]) r
            ?_ hrec hmin ?_ ?_ ?_ hinv1 h
          · exact hfb.trans hbytes
          · rw [← hbytes]
            exact hfle
          · simp only [List.length_append, List.length_singleton]
            show handled.length + 1 ≤ file.pos
            omega
          · intro n
            have hs := hstream (n + 1)
            rw [hfile] at hfill
            rw [streamPayloads_succ bytes n _ _ _ hfill] at hs
            simp only [List.length_append, List.length_singleton, List.append_assoc,
              List.singleton_append]
            show streamPayloads bytes (handled.length + 1 + n) 0
              = handled ++ message.payload :: streamPayloads bytes n file.pos
            rw [← hs]
            congr 1
            omega
    · simp only [hfill] at h
      simp only [Except.ok.injEq] at h
      subst h
      refine ⟨hinv, rfl, [], ?_, fun _ => rfl⟩
      rw [hsplit, List.append_nil]
      rw [hfile] at hfill
      rw [streamPayloads_eof bytes _ _ hfill, List.append_nil]
    · simp only [hfill] at h
      cases h

theorem acqHeaderBody_not_outOfFuel (self : Acquisition) (v : HeaderVars) :
    self.acqHeaderBody v ≠ Except.error HeaderError.outOfFuel := by
  intro h
  unfold Acquisition.acqHeaderBody at h
  split at h
  · cases h
  · simp only at h
    split_ifs at h
    all_goals first
      | cases h
      | (split at h <;> cases h)

theorem acqHeaderLoop_has_fuel :
    ∀ (fuel : Nat) (self : Acquisition) (v : HeaderVars) (handled : List (List Nat)),
      self.ospFile.bytes.length - self.ospFile.pos < fuel →
      acqHeaderLoop fuel self v handled ≠ Except.error HeaderError.outOfFuel := by
  intro fuel
  induction fuel with
  | zero =>
    intro self v handled hf
    omega
  | succ fuel ih =>
    intro self v handled hf
    unfold acqHeaderLoop
    rcases hfill : OSPMessage.fill self.ospFile with ⟨message, file⟩ | _ | _
    · simp only
      obtain ⟨hcur, hfb, hfp, hfle, hlt⟩ := fill_filled _ _ _ hfill
      by_cases hall : (v.apxSet && v.rxIdSet && v.frsEphSet && v.intrvSet) = true
      · rw [if_pos hall]
        intro hc
        cases hc
      · rw [if_neg hall]
        rcases hbody : Acquisition.acqHeaderBody
            { self with ospFile := file, core := { self.core with message := message } } v
          with e | ⟨left, v1⟩
        · simp only
          intro hc
          simp only [Except.error.injEq] at hc
          subst hc
          exact acqHeaderBody_not_outOfFuel _ v hbody
        · simp only
          apply ih
          show file.bytes.length - file.pos < fuel
          rw [hfb]
          omega
    · simp only
      intro hc
      cases hc
    · simp only
      intro hc
      cases hc

theorem acqHeaderData_result (self : Acquisition) (rinex : RinexObsData) (r : HeaderResult)
    (hpos : self.ospFile.pos = 0) (h : self.acqHeaderData rinex = Except.ok r) :
    HeaderInv self.receiver self.minSVSfix r.vars r.handled ∧
    r.ret = (r.vars.apxSet && r.vars.frsEphSet && r.vars.rxIdSet && r.vars.intrvSet) ∧
    ∃ rest, streamPayloads self.ospFile.bytes (self.ospFile.bytes.length + 1) 0
        = r.handled ++ rest ∧ (r.ret = false → rest = []) := by
  unfold Acquisition.acqHeaderData at h
  refine acqHeaderLoop_inv self.ospFile.bytes self.receiver self.minSVSfix _ self _ [] r
    rfl rfl rfl (by omega) (by simp) ?_ ?_ h
  · intro n
    rw [hpos]
    simp
  · refine ⟨fun hc => (by cases hc), fun _ => rfl, fun hc => (by cases hc), fun _ => rfl,
      fun hc => (by cases hc), fun _ => rfl, fun hc => (by cases hc), fun _ => ⟨rfl, ?_, ?_⟩⟩
    · intro hc
      cases hc
    · intro _ a hc
      cases hc

theorem ok_of_toOption_map {ε α β : Type} (x : Except ε α) (f : α → β) (b : β)
    (h : x.toOption.map f = some b) : ∃ r, x = Except.ok r ∧ f r = b := by
  cases x with
  | error e => cases h
  | ok r =>
    refine ⟨r, rfl, ?_⟩
    simpa [Except.toOption] using h

/-! ## Claims on the header acquisition -/

/-- C26: the claim does not hold of the code.  On the file `fileHeaderOtherMID6` (a
MID 6 record, consistent in its lengths, with the version `ABC`, then an accepted MID 2,
a MID 6 with the version `GSD4xxx` and two usable MID 7 records five seconds apart) the
first MID 6 makes `substr` throw and the acquisition is aborted; without that first
record (`fileHeader`) the call returns true with the position of the MID 2, the version
`GSD4xxx`, the first observation time of the first MID 7 and the interval 5.  In
general, whenever `acqHeaderData` returns, it returns the conjunction of the four flags;
when that is true the model holds the position of the first accepted MID 2, the
receiver data of the first MID 6 with consistent lengths, the week and time of week of
the first usable MID 7 and the interval between the first two usable MID 7 records that
follow one another; when it is false the stream lacks one of the four. -/
theorem header_acquisition_aborts_without_GSD4 :
    (exampleFileAcq fileHeaderOtherMID6).acqHeaderData exampleModel
      = Except.error HeaderError.outOfRange ∧
    (((exampleFileAcq fileHeader).acqHeaderData exampleModel).toOption.map
        (fun r => (r.ret, r.vars.rinex.aproxX, r.vars.rinex.aproxY, r.vars.rinex.aproxZ))
      = some (true, 4856672, -447472, 4000000) ∧
     ((exampleFileAcq fileHeader).acqHeaderData exampleModel).toOption.map
        (fun r => (r.vars.rinex.rxVersion, r.vars.rinex.firstObsWeek,
          r.vars.rinex.firstObsTOW, r.vars.rinex.obsInterval))
      = some ("GSD4xxx", 1850, 10, 5)) ∧
    (∀ (self : Acquisition) (rinex : RinexObsData) (r : HeaderResult),
      self.ospFile.pos = 0 → self.acqHeaderData rinex = Except.ok r →
      (r.ret = true →
        ∃ q m k a b c,
          (mid2Positions self.minSVSfix
            (streamPayloads self.ospFile.bytes (self.ospFile.bytes.length + 1) 0)).head? = some q ∧
          r.vars.rinex.aproxX = q.1 ∧ r.vars.rinex.aproxY = q.2.1 ∧
          r.vars.rinex.aproxZ = q.2.2 ∧
          (mid6Accepted
            (streamPayloads self.ospFile.bytes (self.ospFile.bytes.length + 1) 0)).head? = some m ∧
          strFind "GSD4" (mid6Version m) = some k ∧
          r.vars.rinex.rxVersion = String.mk ((mid6Version m).toList.drop k) ∧
          (mid7Usable self.minSVSfix
            (streamPayloads self.ospFile.bytes (self.ospFile.bytes.length + 1) 0)).head? = some a ∧
          r.vars.rinex.firstObsWeek = a.1 ∧ r.vars.rinex.firstObsTOW = a.2 ∧
          firstPair (mid7Records self.minSVSfix
            (streamPayloads self.ospFile.bytes (self.ospFile.bytes.length + 1) 0)) = some (b, c) ∧
          r.vars.rinex.obsInterval = (c.2 - b.2) + ((c.1 - b.1 : Int) : ℚ) * 604800) ∧
      (r.ret = false →
        mid2Positions self.minSVSfix
            (streamPayloads self.ospFile.bytes (self.ospFile.bytes.length + 1) 0) = [] ∨
        mid6Accepted
            (streamPayloads self.ospFile.bytes (self.ospFile.bytes.length + 1) 0) = [] ∨
        mid7Usable self.minSVSfix
            (streamPayloads self.ospFile.bytes (self.ospFile.bytes.length + 1) 0) = [] ∨
        firstPair (mid7Records self.minSVSfix
            (streamPayloads self.ospFile.bytes (self.ospFile.bytes.length + 1) 0)) = none)) := by
  refine ⟨by rfl, ⟨by decide!, by decide!⟩, ?_⟩
  intro self rinex r hpos h
  obtain ⟨hinv, hret, rest, hw, hrest⟩ := acqHeaderData_result self rinex r hpos h
  constructor
  · intro ht
    rw [ht] at hret
    have hflags := hret.symm
    simp only [Bool.and_eq_true] at hflags
    obtain ⟨⟨⟨hapx, hfrs⟩, hrx⟩, hint⟩ := hflags
    obtain ⟨q, hq, hx, hy, hz⟩ := hinv.apx_set hapx
    obtain ⟨m, k, hm, hk, _, _, hver⟩ := hinv.rx_set hrx
    obtain ⟨a, ha, hfw, hft⟩ := hinv.frs_set hfrs
    obtain ⟨_, _, b, c, hbc, hi⟩ := hinv.int_set hint
    refine ⟨q, m, k, a, b, c, ?_, hx, hy, hz, ?_, hk, hver, ?_, hfw, hft, ?_, hi⟩
    · rw [hw, mid2Positions_append]
      exact head?_append_of_head? _ _ _ hq
    · rw [hw, mid6Accepted_append]
      exact head?_append_of_head? _ _ _ hm
    · rw [hw, mid7Usable_append]
      exact head?_append_of_head? _ _ _ ha
    · rw [hw, mid7Records_append]
      exact firstPair_append_some _ _ _ hbc
  · intro hf
    rw [hw, hrest hf, List.append_nil]
    rw [hf] at hret
    have hflags := hret.symm
    simp only [Bool.and_eq_false_iff] at hflags
    rcases hflags with ((hapx | hfrs) | hrx) | hint
    · exact Or.inl (hinv.apx_not hapx)
    · exact Or.inr (Or.inr (Or.inl (hinv.frs_not hfrs)))
    · exact Or.inr (Or.inl (hinv.rx_not hrx))
    · exact Or.inr (Or.inr (Or.inr (hinv.int_not hint).1))

/-- C27 fails as stated: on the file `fileThreeMID7`, whose three MID 7 records are
all usable (times of week 10 s, 15 s and 25 s), the interval stored is 5, the
difference between the first and the second record; the difference between the second
and the third is 10. -/
theorem header_interval_of_first_two_records :
    mid7Usable 4 (streamPayloads fileThreeMID7 (fileThreeMID7.length + 1) 0)
      = [(1850, 10), (1850, 15), (1850, 25)] ∧
    ((exampleFileAcq fileThreeMID7).acqHeaderData exampleModel).toOption.map
        (fun r => (r.vars.intrvSet, r.vars.rinex.obsInterval)) = some (true, 5) ∧
    intervalBetween (1850, 10) (1850, 15) = 5 ∧
    intervalBetween (1850, 15) (1850, 25) = 10 := by
  refine ⟨by decide!, by decide!, by decide!, by decide!⟩

/-- C27, amended: `acqHeaderData`, called at the start of the file, always terminates;
when it returns with the interval set, the observation interval stored in the model is
that between the first two usable MID 7 records of the stream that follow one another in
the sequence of the MID 7 records (no MID 7 that is not usable between them; usable =
length 20 and sats >= minSVSfix), computed as `(tow_b - tow_a) + (wk_b - wk_a) * 604800`;
when it returns with the interval not set, the stream has no two such records. -/
theorem header_interval_first_consecutive_pair (self : Acquisition) (rinex : RinexObsData)
    (hpos : self.ospFile.pos = 0) :
    self.acqHeaderData rinex ≠ Except.error HeaderError.outOfFuel ∧
    ∀ r, self.acqHeaderData rinex = Except.ok r →
      (r.vars.intrvSet = true →
        ∃ i a b,
          (mid7Records self.minSVSfix (streamPayloads self.ospFile.bytes
            (self.ospFile.bytes.length + 1) 0))[i]? = some (some a) ∧
          (mid7Records self.minSVSfix (streamPayloads self.ospFile.bytes
            (self.ospFile.bytes.length + 1) 0))[i + 1]? = some (some b) ∧
          (∀ j < i, ¬ ∃ c d,
            (mid7Records self.minSVSfix (streamPayloads self.ospFile.bytes
              (self.ospFile.bytes.length + 1) 0))[j]? = some (some c) ∧
            (mid7Records self.minSVSfix (streamPayloads self.ospFile.bytes
              (self.ospFile.bytes.length + 1) 0))[j + 1]? = some (some d)) ∧
          r.vars.rinex.obsInterval = (b.2 - a.2) + ((b.1 - a.1 : Int) : ℚ) * 604800) ∧
      (r.vars.intrvSet = false →
        ∀ i, ¬ ∃ c d,
          (mid7Records self.minSVSfix (streamPayloads self.ospFile.bytes
            (self.ospFile.bytes.length + 1) 0))[i]? = some (some c) ∧
          (mid7Records self.minSVSfix (streamPayloads self.ospFile.bytes
            (self.ospFile.bytes.length + 1) 0))[i + 1]? = some (some d)) := by
  constructor
  · unfold Acquisition.acqHeaderData
    exact acqHeaderLoop_has_fuel _ _ _ _ (by omega)
  · intro r h
    obtain ⟨hinv, hret, rest, hw, hrest⟩ := acqHeaderData_result self rinex r hpos h
    constructor
    · intro hs
      obtain ⟨_, _, a, b, hab, hi⟩ := hinv.int_set hs
      have hwhole : firstPair (mid7Records self.minSVSfix (streamPayloads self.ospFile.bytes
          (self.ospFile.bytes.length + 1) 0)) = some (a, b) := by
        rw [hw, mid7Records_append]
        exact firstPair_append_some _ _ _ hab
      obtain ⟨i, h1, h2, h3⟩ := firstPair_some_index _ a b hwhole
      exact ⟨i, a, b, h1, h2, h3, hi⟩
    · intro hs
      have hf : r.ret = false := by
        rw [hret, hs, Bool.and_false]
      have hwhole : firstPair (mid7Records self.minSVSfix (streamPayloads self.ospFile.bytes
          (self.ospFile.bytes.length + 1) 0)) = none := by
        rw [hw, hrest hf, List.append_nil]
        exact (hinv.int_not hs).1
      exact firstPair_none_index _ hwhole

/-- C27 (amended) on the file `fileInterruptedMID7` (MID 7 records at 10 s, 12 s with
too few satellites, 20 s and 27 s): the interval stored is that between the third and
the fourth record. -/
theorem header_interval_first_consecutive_pair_witness :
    ∃ r, (exampleFileAcq fileInterruptedMID7).acqHeaderData exampleModel = Except.ok r ∧
      r.vars.rinex.obsInterval = 7 ∧
      ∃ i a b,
        (mid7Records 4 (streamPayloads fileInterruptedMID7
          (fileInterruptedMID7.length + 1) 0))[i]? = some (some a) ∧
        (mid7Records 4 (streamPayloads fileInterruptedMID7
          (fileInterruptedMID7.length + 1) 0))[i + 1]? = some (some b) ∧
        (∀ j < i, ¬ ∃ c d,
          (mid7Records 4 (streamPayloads fileInterruptedMID7
            (fileInterruptedMID7.length + 1) 0))[j]? = some (some c) ∧
          (mid7Records 4 (streamPayloads fileInterruptedMID7
            (fileInterruptedMID7.length + 1) 0))[j + 1]? = some (some d)) ∧
        r.vars.rinex.obsInterval = (b.2 - a.2) + ((b.1 - a.1 : Int) : ℚ) * 604800 :=
  match ok_of_toOption_map ((exampleFileAcq fileInterruptedMID7).acqHeaderData exampleModel)
      (fun r => (r.vars.intrvSet, r.vars.rinex.obsInterval)) (true, 7) (by decide!) with
  | ⟨r, hr, hs⟩ =>
    ⟨r, hr, congrArg Prod.snd hs,
      ((header_interval_first_consecutive_pair (exampleFileAcq fileInterruptedMID7)
        exampleModel rfl).2 r hr).1 (congrArg Prod.fst hs)⟩

/-! ## Claim on the removal of the parity -/

theorem testBit_ffffff (k : Nat) : (0xFFFFFF : Nat).testBit k = decide (k < 24) := by
  have e : (0xFFFFFF : Nat) = 2 ^ 24 - 1 := by norm_num
  rw [e, Nat.testBit_two_pow_sub_one]

theorem not32_testBit (x k : Nat) : (not32 x).testBit k = (decide (k < 32) && !x.testBit k) := by
  unfold not32
  have e : (0xFFFFFFFF : Nat) = 2 ^ 32 - 1 := by norm_num
  rw [Nat.testBit_xor, e, Nat.testBit_two_pow_sub_one, Nat.testBit_mod_two_pow]
  by_cases h : k < 32 <;> simp [h]

theorem stripParity_testBit (w k : Nat) :
    (stripParity w).testBit k = (decide (k < 24) && xor (w.testBit (k + 6)) (w.testBit 30)) := by
  have h30 : (w &&& 0x40000000 = 0) ↔ w.testBit 30 = false := by
    have hc := candidate_eq w
    unfold specCandidate at hc
    by_cases hb : w.testBit 30 = true
    · constructor
      · intro hz
        exfalso
        have e : (0x40000000 : Nat) = 2 ^ 30 := by norm_num
        have := congrArg (fun x => Nat.testBit x 30) hz
        simp only [Nat.testBit_and, e, Nat.testBit_two_pow_self, hb] at this
        simp at this
      · intro hf
        rw [hb] at hf
        cases hf
    · have hf : w.testBit 30 = false := by simpa using hb
      refine ⟨fun _ => hf, fun _ => ?_⟩
      apply Nat.eq_of_testBit_eq
      intro i
      have e : (0x40000000 : Nat) = 2 ^ 30 := by norm_num
      rw [Nat.testBit_and, e, Nat.testBit_two_pow]
      by_cases hi : 30 = i
      · subst hi
        simp [hf]
      · simp [hi]
  unfold stripParity
  by_cases hb : w.testBit 30 = false
  · rw [if_pos (h30.mpr hb), Nat.testBit_and, Nat.testBit_shiftRight, testBit_ffffff, hb]
    by_cases hk : k < 24 <;> simp [hk, Nat.add_comm]
  · have ht : w.testBit 30 = true := by simpa using hb
    rw [if_neg (fun hz => hb (h30.mp hz)), Nat.testBit_and, not32_testBit,
      Nat.testBit_shiftRight, testBit_ffffff, ht]
    by_cases hk : k < 24
    · have hk2 : k < 32 := by omega
      simp [hk, hk2, Nat.add_comm]
    · simp [hk]

theorem specCandidate_testBit (w k : Nat) (hw : w < 2 ^ 32) :
    (specCandidate w).testBit k
      = if k < 30 then xor (w.testBit k) (w.testBit 30) else w.testBit k := by
  unfold specCandidate
  have e1 : (0xC0000000 : Nat) = 2 ^ 32 - 2 ^ 30 := by norm_num
  have e2 : (0x3FFFFFFF : Nat) = 2 ^ 30 - 1 := by norm_num
  have hc : (0xC0000000 : Nat).testBit k = (decide (30 ≤ k) && decide (k < 32)) := by
    have e : (0xC0000000 : Nat) = 2 ^ 30 * (2 ^ 2 - 1) := by norm_num
    rw [e]
    by_cases h : 30 ≤ k
    · obtain ⟨j, rfl⟩ : ∃ j, k = 30 + j := ⟨k - 30, by omega⟩
      rw [Nat.testBit_mul_pow_two]
      simp only [Nat.le_add_right, decide_True, Bool.true_and, Nat.add_sub_cancel_left,
        Nat.testBit_two_pow_sub_one]
      by_cases hj : j < 2
      · have : 30 + j < 32 := by omega
        simp [hj, this]
      · have : ¬ 30 + j < 32 := by omega
        simp [hj, this]
    · rw [Nat.testBit_mul_pow_two]
      simp [h]
  have hhigh : 32 ≤ k → w.testBit k = false := by
    intro h
    apply Nat.testBit_lt_two_pow
    exact lt_of_lt_of_le hw (Nat.pow_le_pow_right (by decide) h)
  by_cases hb : w.testBit 30 = true
  · rw [if_pos hb, Nat.testBit_or, Nat.testBit_and, Nat.testBit_and, hc, not32_testBit, e2,
      Nat.testBit_two_pow_sub_one, hb]
    by_cases hk : k < 30
    · have h1 : ¬ 30 ≤ k := by omega
      have h2 : k < 32 := by omega
      simp [hk, h1, h2]
    · have h1 : 30 ≤ k := by omega
      by_cases h2 : k < 32
      · simp [hk, h1, h2]
      · simp [hk, h1, h2, hhigh (by omega)]
  · have hf : w.testBit 30 = false := by simpa using hb
    rw [if_neg hb, hf]
    by_cases hk : k < 30 <;> simp [hk]

/-- C31: for every 32-bit word `w`, the value that `getMID8NavData` keeps after the
removal of the parity is below 2^24; it is bits 29..6 of `w` when bit 30 of `w` is
clear, and the complement of bits 29..6 within 24 bits when bit 30 is set; in both
cases it is bits 29..6 of the candidate that `checkParity` computes for `w`. -/
theorem stripParity_bits (w : Nat) :
    stripParity w < 2 ^ 24 ∧
    (w.testBit 30 = false → stripParity w = (w >>> 6) % 2 ^ 24) ∧
    (w.testBit 30 = true → stripParity w = 2 ^ 24 - 1 - (w >>> 6) % 2 ^ 24) ∧
    (∀ k, k < 24 → (stripParity w).testBit k = xor (w.testBit (k + 6)) (w.testBit 30)) ∧
    (w < 2 ^ 32 →
      stripParity w
        = ((if w &&& 0x40000000 ≠ 0 then (w &&& 0xC0000000) ||| (not32 w &&& 0x3FFFFFFF)
            else w) >>> 6) % 2 ^ 24) := by
  have hlt : stripParity w < 2 ^ 24 := by
    apply Nat.lt_pow_two_of_testBit
    intro i hi
    rw [stripParity_testBit]
    have : ¬ i < 24 := by omega
    simp [this]
  refine ⟨hlt, ?_, ?_, ?_, ?_⟩
  · intro hb
    apply Nat.eq_of_testBit_eq
    intro k
    rw [stripParity_testBit, Nat.testBit_mod_two_pow, Nat.testBit_shiftRight, hb]
    simp [Nat.add_comm]
  · intro hb
    have hm : (w >>> 6) % 2 ^ 24 < 2 ^ 24 := Nat.mod_lt _ (by decide)
    apply Nat.eq_of_testBit_eq
    intro k
    rw [stripParity_testBit, hb, Nat.sub_sub, Nat.add_comm 1, Nat.testBit_two_pow_sub_succ hm,
      Nat.testBit_mod_two_pow, Nat.testBit_shiftRight]
    by_cases hk : k < 24 <;> simp [hk, Nat.add_comm]
  · intro k hk
    rw [stripParity_testBit]
    simp [hk]
  · intro hw
    rw [candidate_eq]
    apply Nat.eq_of_testBit_eq
    intro k
    rw [stripParity_testBit, Nat.testBit_mod_two_pow, Nat.testBit_shiftRight,
      specCandidate_testBit w _ hw]
    by_cases hk : k < 24
    · have : k + 6 < 30 := by omega
      simp [hk, this, Nat.add_comm]
    · simp [hk]

/-! ## Claims on the storage of a subframe -/

/-- C32 fails as stated: in the MID 8 payload `sf1Payload` the stripped word 2 is 4, so
its bits 16..18 are 0 and its bits 2..4 are 1; the ten words are stored in slot 0 of
channel 0 of a fresh buffer (satellite 9, where the slot held satellite 0). -/
theorem mid8_subframe_id_is_bits_2_to_4 :
    stripParity (mid8Word sf1Payload 1) = 4 ∧
    (stripParity (mid8Word sf1Payload 1) >>> 16) &&& 0x07 = 0 ∧
    (stripParity (mid8Word sf1Payload 1) >>> 2) &&& 0x07 = 1 ∧
    (freshState.1.subfrmCh 0 0).sv = 0 ∧
    (deliverMID8 freshState sf1Payload).map
        (fun st => ((st.1.subfrmCh 0 0).sv, (List.range 10).map (st.1.subfrmCh 0 0).words))
      = some (9, [0, 4, 1638400, 0, 0, 0, 0, 5898240, 0, 0]) ∧
    (List.range 10).map (fun i => stripParity (mid8Word sf1Payload i))
      = [0, 4, 1638400, 0, 0, 0, 0, 5898240, 0, 0] :=
  ⟨by decide!, by decide!, by decide!, by decide!, by decide!, by decide!⟩

/-- C32, amended: when the ten words `wd` of a MID 8 have passed parity, the subframe id
is the 3-bit field at bits 2..4 of the stripped value of word 2 (`wd 1`), and the page id
the 6-bit field at bits 16..21 of the stripped value of word 3 (`wd 2`).  For the ids 1,
2, 3, and for the id 4 with the page id 56, the satellite and the ten stripped words are
stored in the slot id - 1 of the channel (and when the row is then complete, `sv` is set
to 0 in its slots 0, 1, 2); the words of every other slot stay.  For every other id the
assembly buffer is unchanged.  The call returns true in all these cases. -/
theorem processMID8Words_stores (acq : GNSSDataAcq) (rinex : RinexData) (ch sv : Nat)
    (wd : Nat → Nat) (hp : parityOfWords wd = true) :
    (stripParity (wd 1) >>> 2) &&& 0x07 = stripParity (wd 1) / 2 ^ 2 % 2 ^ 3 ∧
    (stripParity (wd 2) >>> 16) &&& 0x3F = stripParity (wd 2) / 2 ^ 16 % 2 ^ 6 ∧
    (acq.processMID8Words rinex ch sv wd).ret = true ∧
    ((stripParity (wd 1) / 2 ^ 2 % 2 ^ 3 ∈ [1, 2, 3] ∨
        (stripParity (wd 1) / 2 ^ 2 % 2 ^ 3 = 4 ∧ stripParity (wd 2) / 2 ^ 16 % 2 ^ 6 = 56)) →
      ((acq.processMID8Words rinex ch sv wd).acq.subfrmCh ch
          (stripParity (wd 1) / 2 ^ 2 % 2 ^ 3 - 1)).words = (fun i => stripParity (wd i)) ∧
      (((acq.processMID8Words rinex ch sv wd).acq.subfrmCh ch
          (stripParity (wd 1) / 2 ^ 2 % 2 ^ 3 - 1)).sv = sv ∨
        ((acq.processMID8Words rinex ch sv wd).extracted.isSome = true ∧
          ((acq.processMID8Words rinex ch sv wd).acq.subfrmCh ch
            (stripParity (wd 1) / 2 ^ 2 % 2 ^ 3 - 1)).sv = 0)) ∧
      (∀ c j, ¬ (c = ch ∧ j = stripParity (wd 1) / 2 ^ 2 % 2 ^ 3 - 1) →
        ((acq.processMID8Words rinex ch sv wd).acq.subfrmCh c j).words
          = (acq.subfrmCh c j).words ∧
        (((acq.processMID8Words rinex ch sv wd).acq.subfrmCh c j).sv = (acq.subfrmCh c j).sv ∨
          ((acq.processMID8Words rinex ch sv wd).extracted.isSome = true ∧ c = ch ∧ j < 3 ∧
            ((acq.processMID8Words rinex ch sv wd).acq.subfrmCh c j).sv = 0)))) ∧
    (¬ (stripParity (wd 1) / 2 ^ 2 % 2 ^ 3 ∈ [1, 2, 3] ∨
        (stripParity (wd 1) / 2 ^ 2 % 2 ^ 3 = 4 ∧ stripParity (wd 2) / 2 ^ 16 % 2 ^ 6 = 56)) →
      (acq.processMID8Words rinex ch sv wd).acq = acq ∧
      (acq.processMID8Words rinex ch sv wd).rinex = rinex ∧
      (acq.processMID8Words rinex ch sv wd).extracted = none) := by
  have e1 : (stripParity (wd 1) >>> 2) &&& 0x07 = stripParity (wd 1) / 2 ^ 2 % 2 ^ 3 := by
    rw [Nat.shiftRight_eq_div_pow]
    exact Nat.and_pow_two_sub_one_eq_mod _ 3
  have e2 : (stripParity (wd 2) >>> 16) &&& 0x3F = stripParity (wd 2) / 2 ^ 16 % 2 ^ 6 := by
    rw [Nat.shiftRight_eq_div_pow]
    exact Nat.and_pow_two_sub_one_eq_mod _ 6
  generalize hid : stripParity (wd 1) / 2 ^ 2 % 2 ^ 3 = id at e1 ⊢
  generalize hpg : stripParity (wd 2) / 2 ^ 16 % 2 ^ 6 = pg at e2 ⊢
  have hcond : ((id > 0 ∧ id < 4) ∨ (id = 4 ∧ pg = 56)) ↔
      (id ∈ [1, 2, 3] ∨ (id = 4 ∧ pg = 56)) := by
    simp only [List.mem_cons, List.mem_singleton, List.not_mem_nil, or_false]
    omega
  unfold GNSSDataAcq.processMID8Words
  simp only [hp, not_true_eq_false, if_false, e1, e2]
  refine ⟨trivial, trivial, ?_, ?_, ?_⟩
  · split_ifs <;> rfl
  · intro hc
    rw [if_pos (hcond.mpr hc)]
    split_ifs with hall
    · refine ⟨?_, ?_, ?_⟩
      · simp only [true_and]
        split_ifs <;> rfl
      · by_cases hlt : id - 1 < 3
        · right
          refine ⟨rfl, ?_⟩
          simp only [true_and, hlt, if_true]
        · left
          simp only [true_and, hlt, if_false, and_self, if_true]
      · intro c j hcj
        by_cases hlt : c = ch ∧ j < 3
        · obtain ⟨hcc, hj⟩ := hlt
          subst hcc
          have hne : ¬ j = id - 1 := fun h => hcj ⟨rfl, h⟩
          simp only [hj, hne, and_self, if_true, if_false, true_and, and_false,
            Option.isSome_some, or_true]
        · simp only [hlt, hcj, if_false, true_and, true_or]
    · refine ⟨?_, ?_, ?_⟩
      · simp only [and_self, if_true]
      · left
        simp only [and_self, if_true]
      · intro c j hcj
        simp only [hcj, if_false, true_or, and_self]
  · intro hc
    rw [if_neg (fun h => hc (hcond.mp h))]
    exact ⟨rfl, rfl, rfl⟩

/-- C32 (amended) on the ten words of `sf1Payload`: subframe id 1, stored in slot 0. -/
theorem processMID8Words_stores_witness :
    ((freshState.1.processMID8Words freshState.2.1 0 9 (mid8Word sf1Payload)).acq.subfrmCh 0
        (stripParity (mid8Word sf1Payload 1) / 2 ^ 2 % 2 ^ 3 - 1)).words
      = (fun i => stripParity (mid8Word sf1Payload i)) :=
  ((processMID8Words_stores freshState.1 freshState.2.1 0 9 (mid8Word sf1Payload)
    (by decide!)).2.2.2.1 (Or.inl (by decide!))).1

/-! ## Claim on the bounds of the assembly buffer -/

theorem processMID8Words_changes (acq : GNSSDataAcq) (rinex : RinexData) (ch sv : Nat)
    (wd : Nat → Nat) (c j : Nat)
    (h : (acq.processMID8Words rinex ch sv wd).acq.subfrmCh c j ≠ acq.subfrmCh c j) :
    c = ch ∧ (j < 3 ∨ (j = ((stripParity (wd 1) >>> 2) &&& 0x07) - 1 ∧
      1 ≤ (stripParity (wd 1) >>> 2) &&& 0x07 ∧ (stripParity (wd 1) >>> 2) &&& 0x07 ≤ 4)) := by
  unfold GNSSDataAcq.processMID8Words at h
  simp only at h
  generalize (stripParity (wd 1) >>> 2) &&& 0x07 = id at h ⊢
  generalize (stripParity (wd 2) >>> 16) &&& 0x3F = pg at h
  by_cases hp : parityOfWords wd = true
  · simp only [hp, not_true_eq_false, if_false] at h
    by_cases hc : (id > 0 ∧ id < 4) ∨ (id = 4 ∧ pg = 56)
    · simp only [hc, if_true] at h
      have hid : 1 ≤ id ∧ id ≤ 4 := by omega
      by_cases hs : c = ch ∧ j = id - 1
      · exact ⟨hs.1, Or.inr ⟨hs.2, hid⟩⟩
      · by_cases hlt : c = ch ∧ j < 3
        · exact ⟨hlt.1, Or.inl hlt.2⟩
        · exfalso
          apply h
          split_ifs
          · simp only [hlt, hs, if_false]
          · simp only [hs, if_false]
    · simp only [hc, if_false] at h
      exact absurd rfl h
  · have hf : parityOfWords wd = false := by simpa using hp
    simp only [hf, Bool.false_eq_true, not_false_eq_true, if_true] at h
    exact absurd rfl h

theorem packWords_congr (row1 row2 : Nat → SubframeData) (i : Nat) (dt : Nat → Nat)
    (h : row1 i = row2 i) : packWords row1 i dt = packWords row2 i dt := by
  unfold packWords
  simp only [h]

theorem packEphemeris_congr (row1 row2 : Nat → SubframeData) (sv : Nat)
    (h : ∀ j, j < 3 → row1 j = row2 j) : packEphemeris row1 sv = packEphemeris row2 sv := by
  have e : List.range 3 = [0, 1, 2] := by decide
  unfold packEphemeris packSubframe
  rw [e]
  simp only [List.foldl_cons, List.foldl_nil]
  rw [packWords_congr row1 row2 0 _ (h 0 (by decide)),
    packWords_congr row1 row2 1 _ (h 1 (by decide)),
    packWords_congr row1 row2 2 _ (h 2 (by decide))]

theorem processMID8Words_congr (acq acq2 : GNSSDataAcq) (rinex : RinexData) (ch sv : Nat)
    (wd : Nat → Nat) (hch : ch < 12)
    (hsame : ∀ c j, c < 12 → j < 4 → acq2.subfrmCh c j = acq.subfrmCh c j) :
    (acq2.processMID8Words rinex ch sv wd).ret = (acq.processMID8Words rinex ch sv wd).ret ∧
    (acq2.processMID8Words rinex ch sv wd).rinex = (acq.processMID8Words rinex ch sv wd).rinex ∧
    (acq2.processMID8Words rinex ch sv wd).extracted
      = (acq.processMID8Words rinex ch sv wd).extracted ∧
    ∀ c j, c < 12 → j < 4 →
      (acq2.processMID8Words rinex ch sv wd).acq.subfrmCh c j
        = (acq.processMID8Words rinex ch sv wd).acq.subfrmCh c j := by
  unfold GNSSDataAcq.processMID8Words
  simp only
  generalize (stripParity (wd 1) >>> 2) &&& 0x07 = id
  generalize (stripParity (wd 2) >>> 16) &&& 0x3F = pg
  by_cases hp : parityOfWords wd = true
  · simp only [hp, not_true_eq_false, if_false]
    by_cases hc : (id > 0 ∧ id < 4) ∨ (id = 4 ∧ pg = 56)
    · simp only [hc, if_true]
      have hrow : ∀ j, j < 4 →
          (if j = id - 1 then
              ({ sv := sv, words := fun i => stripParity (wd i) } : SubframeData)
            else acq2.subfrmCh ch j)
          = (if j = id - 1 then
              ({ sv := sv, words := fun i => stripParity (wd i) } : SubframeData)
            else acq.subfrmCh ch j) := by
        intro j hj
        by_cases hs : j = id - 1
        · rw [if_pos hs, if_pos hs]
        · rw [if_neg hs, if_neg hs, hsame ch j hch hj]
      have hall : GNSSDataAcq.allEphemReceived
          { acq2 with subfrmCh := fun c j =>
              if c = ch ∧ j = id - 1 then { sv := sv, words := fun i => stripParity (wd i) }
              else acq2.subfrmCh c j } ch
          = GNSSDataAcq.allEphemReceived
          { acq with subfrmCh := fun c j =>
              if c = ch ∧ j = id - 1 then { sv := sv, words := fun i => stripParity (wd i) }
              else acq.subfrmCh c j } ch := by
        unfold GNSSDataAcq.allEphemReceived
        simp only [true_and]
        rw [hrow 0 (by decide), hrow 1 (by decide), hrow 2 (by decide)]
      have hpack : packEphemeris (fun j =>
            if j = id - 1 then
              ({ sv := sv, words := fun i => stripParity (wd i) } : SubframeData)
            else acq2.subfrmCh ch j) sv
          = packEphemeris (fun j =>
            if j = id - 1 then
              ({ sv := sv, words := fun i => stripParity (wd i) } : SubframeData)
            else acq.subfrmCh ch j) sv :=
        packEphemeris_congr _ _ sv (fun j hj => hrow j (by omega))
      rw [hall]
      have hbuf : ∀ c j, c < 12 → j < 4 →
          (if c = ch ∧ j = id - 1 then
              ({ sv := sv, words := fun i => stripParity (wd i) } : SubframeData)
            else acq2.subfrmCh c j)
          = (if c = ch ∧ j = id - 1 then
              ({ sv := sv, words := fun i => stripParity (wd i) } : SubframeData)
            else acq.subfrmCh c j) := by
        intro c j hc1 hj
        by_cases hs : c = ch ∧ j = id - 1
        · rw [if_pos hs, if_pos hs]
        · rw [if_neg hs, if_neg hs, hsame c j hc1 hj]
      by_cases ha : GNSSDataAcq.allEphemReceived
          { acq with subfrmCh := fun c j =>
              if c = ch ∧ j = id - 1 then { sv := sv, words := fun i => stripParity (wd i) }
              else acq.subfrmCh c j } ch = true
      · simp only [ha, if_true, true_and, hpack]
        intro c j hc1 hj
        rw [hbuf c j hc1 hj]
      · simp only [ha, Bool.false_eq_true, if_false, true_and]
        exact hbuf
    · simp only [hc, if_false, true_and]
      exact hsame
  · have hf : parityOfWords wd = false := by simpa using hp
    simp only [hf, Bool.false_eq_true, not_false_eq_true, if_true, true_and]
    exact hsame

/-- C33: on a 43-byte MID 8 (cursor after the MID byte), with `ch` the channel byte:
when `ch` is 12 or more the call returns false with the cursor after the two bytes read
(no word has been read) and the buffer as it was; whatever `ch`, an entry of the buffer
that the call changes is in the row `ch < 12` and either in one of the columns 0, 1, 2 or
in the column `id - 1` of a subframe id in 1..4, so no entry outside the 12 x 4 buffer
is written; and none is read: two objects with the same message whose buffers agree
on the 12 x 4 entries give the same return value, the same model, the same extracted
array, and buffers that agree on the 12 x 4 entries. -/
theorem mid8_buffer_in_range (acq : GNSSDataAcq) (rinex : RinexData)
    (hlen : acq.message.payload.length = 43) (hcur : acq.message.cursor = 1) :
    (12 ≤ acq.message.payload.getD 1 0 % 256 →
      acq.getMID8NavData rinex
        = some ⟨false, { acq with message := { acq.message with cursor := 3 } }, rinex, none⟩) ∧
    (∃ r, acq.getMID8NavData rinex = some r ∧
      (∀ c j, r.acq.subfrmCh c j ≠ acq.subfrmCh c j →
        c = acq.message.payload.getD 1 0 % 256 ∧ c < MAXCHANNELS ∧ j < MAXSUBFR ∧
        (j < 3 ∨ (j = ((stripParity (mid8Word acq.message.payload 1) >>> 2) &&& 0x07) - 1 ∧
          1 ≤ (stripParity (mid8Word acq.message.payload 1) >>> 2) &&& 0x07 ∧
          (stripParity (mid8Word acq.message.payload 1) >>> 2) &&& 0x07 ≤ 4))) ∧
      (∀ c j, ¬ (c < MAXCHANNELS ∧ j < MAXSUBFR) → r.acq.subfrmCh c j = acq.subfrmCh c j)) ∧
    (∀ acq2 : GNSSDataAcq, acq2.message = acq.message →
      (∀ c j, c < MAXCHANNELS → j < MAXSUBFR → acq2.subfrmCh c j = acq.subfrmCh c j) →
      ∃ r r2, acq.getMID8NavData rinex = some r ∧ acq2.getMID8NavData rinex = some r2 ∧
        r2.ret = r.ret ∧ r2.rinex = r.rinex ∧ r2.extracted = r.extracted ∧
        ∀ c j, c < MAXCHANNELS → j < MAXSUBFR → r2.acq.subfrmCh c j = r.acq.subfrmCh c j) := by
  have hread := getMID8NavData_read acq rinex hlen hcur
  have hloc : ∃ r, acq.getMID8NavData rinex = some r ∧
      (∀ c j, r.acq.subfrmCh c j ≠ acq.subfrmCh c j →
        c = acq.message.payload.getD 1 0 % 256 ∧ c < MAXCHANNELS ∧ j < MAXSUBFR ∧
        (j < 3 ∨ (j = ((stripParity (mid8Word acq.message.payload 1) >>> 2) &&& 0x07) - 1 ∧
          1 ≤ (stripParity (mid8Word acq.message.payload 1) >>> 2) &&& 0x07 ∧
          (stripParity (mid8Word acq.message.payload 1) >>> 2) &&& 0x07 ≤ 4))) := by
    by_cases hch : acq.message.payload.getD 1 0 % 256 < MAXCHANNELS
    · rw [if_pos hch] at hread
      refine ⟨_, hread, ?_⟩
      intro c j hne
      have h := processMID8Words_changes _ rinex _ _ _ c j hne
      have hw : ((List.range 10).map
          (fun k => bigEndian32 acq.message.payload (3 + 4 * k))).getD 1 0
          = mid8Word acq.message.payload 1 := mid8_words_getD _ 1 (by decide)
      simp only [hw] at h
      obtain ⟨hc, hj⟩ := h
      refine ⟨hc, by rw [hc]; exact hch, ?_, hj⟩
      unfold MAXSUBFR
      omega
    · rw [if_neg hch] at hread
      refine ⟨_, hread, ?_⟩
      intro c j hne
      exact absurd rfl hne
  refine ⟨?_, ?_, ?_⟩
  · intro hch
    rw [hread, if_neg (by unfold MAXCHANNELS; omega)]
  · obtain ⟨r, hr, hl⟩ := hloc
    refine ⟨r, hr, hl, ?_⟩
    intro c j hout
    by_contra hne
    obtain ⟨_, hc, hj, _⟩ := hl c j hne
    exact hout ⟨hc, hj⟩
  · intro acq2 hmsg hsame
    have hread2 := getMID8NavData_read acq2 rinex (by rw [hmsg]; exact hlen)
      (by rw [hmsg]; exact hcur)
    rw [hmsg] at hread2
    by_cases hch : acq.message.payload.getD 1 0 % 256 < MAXCHANNELS
    · rw [if_pos hch] at hread hread2
      refine ⟨_, _, hread, hread2, ?_⟩
      exact processMID8Words_congr _ _ rinex _ _ _ hch hsame
    · rw [if_neg hch] at hread hread2
      exact ⟨_, _, hread, hread2, rfl, rfl, rfl, hsame⟩

/-- C33 on the payload `sf1Payload` with its channel byte set to 12: rejected with the
cursor at byte 3. -/
theorem mid8_buffer_in_range_witness :
    (GNSSDataAcq.construct zeroedMemory ⟨sf1Payload.set 1 12, 1⟩).getMID8NavData ⟨0, []⟩
      = some ⟨false,
          { GNSSDataAcq.construct zeroedMemory ⟨sf1Payload.set 1 12, 1⟩ with
            message :=
              { (GNSSDataAcq.construct zeroedMemory ⟨sf1Payload.set 1 12, 1⟩).message with
                cursor := 3 } }, ⟨0, []⟩, none⟩ :=
  (mid8_buffer_in_range (GNSSDataAcq.construct zeroedMemory ⟨sf1Payload.set 1 12, 1⟩)
    ⟨0, []⟩ (by decide) (by decide)).1 (by decide)

/-! ## Claim on the accuracy index -/

theorem bo_6_0 (rinex : RinexData) (dt : Nat → Nat) :
    extractBroadcastOrbit rinex dt 6 0 = dt 3 &&& 0x000F := rfl

/-- C34: the record that `extractEphemeris` hands to the model has the accuracy index
`bo[6][0] = dt[3] & 0xF`, which is below 16; every record that the call adds to the model
has that index, so its lookup in `URA` is inside the table; when the records the model
held were within the table, all those it holds afterwards are; and the table has 16
entries, index `k` giving the `k`-th of 2.0, 2.8, 4.0, 5.7, 8.0, 11.3, 16, 32, 64, 128,
256, 512, 1024, 2048, 4096, 6144. -/
theorem ura_lookup_in_table (rinex : RinexData) (dt : Nat → Nat) :
    (extractBroadcastOrbit rinex dt 6 0 = dt 3 &&& 0xF ∧ extractBroadcastOrbit rinex dt 6 0 < 16) ∧
    (∀ e ∈ (extractEphemeris rinex dt).2.gpsEphmNav, e ∈ rinex.gpsEphmNav ∨
      (e.broadcastOrbit 6 0 = dt 3 &&& 0xF ∧ e.broadcastOrbit 6 0 < 16 ∧
        uraValue e = some (URA.getD (dt 3 &&& 0xF) 0))) ∧
    ((∀ e ∈ rinex.gpsEphmNav, e.broadcastOrbit 6 0 < 16) →
      ∀ e ∈ (extractEphemeris rinex dt).2.gpsEphmNav,
        e.broadcastOrbit 6 0 < 16 ∧ ∃ u, uraValue e = some u ∧ u ∈ URA) ∧
    URA.length = 16 ∧
    (∀ k, k < 16 → URA[k]? = some
      (([2, 28 / 10, 4, 57 / 10, 8, 113 / 10, 16, 32, 64, 128, 256, 512, 1024, 2048, 4096,
        6144] : List ℚ).getD k 0)) := by
  have hlt : dt 3 &&& 0xF < 16 := Nat.and_lt_two_pow _ (by decide : (0xF : Nat) < 2 ^ 4)
  have hin : ∀ e : GPSsatNav, e.broadcastOrbit 6 0 < 16 →
      uraValue e = some (URA.getD (e.broadcastOrbit 6 0) 0) ∧
        URA.getD (e.broadcastOrbit 6 0) 0 ∈ URA := by
    intro e he
    unfold uraValue
    have hl : e.broadcastOrbit 6 0 < URA.length := he
    rw [List.getElem?_eq_getElem hl, List.getD_eq_getElem _ _ hl]
    exact ⟨rfl, List.getElem_mem _⟩
  refine ⟨⟨bo_6_0 rinex dt, by rw [bo_6_0]; exact hlt⟩, ?_, ?_, rfl, ?_⟩
  · intro e he
    rcases extractEphemeris_new_record rinex dt e he with h | h
    · exact Or.inl h
    · right
      have h60 : e.broadcastOrbit 6 0 = dt 3 &&& 0xF := by rw [h, bo_6_0]
      refine ⟨h60, by rw [h60]; exact hlt, ?_⟩
      rw [← h60]
      exact (hin e (by rw [h60]; exact hlt)).1
  · intro hold e he
    have hidx : e.broadcastOrbit 6 0 < 16 := by
      rcases extractEphemeris_new_record rinex dt e he with h | h
      · exact hold e h
      · rw [h, bo_6_0]
        exact hlt
    exact ⟨hidx, _, hin e hidx⟩
  · intro k hk
    interval_cases k <;> decide!

/-! ## Claim on the detection of single-bit errors -/

theorem checkParity_spec (w : Nat) :
    checkParity w = true ↔ specParityValue (specCandidate w) = w &&& 0x3F := by
  unfold checkParity
  simp only [candidate_eq, parity_fold_eq, beq_iff_eq]

theorem xor_fold_linear (f g : Nat → Bool) (l : List Nat) (a b : Bool) :
    l.foldl (fun acc k => xor acc (xor (f k) (g k))) (xor a b)
      = xor (l.foldl (fun acc k => xor acc (f k)) a) (l.foldl (fun acc k => xor acc (g k)) b) := by
  induction l generalizing a b with
  | nil => rfl
  | cons x l ih =>
    simp only [List.foldl_cons]
    rw [← ih]
    congr 1
    cases a <;> cases b <;> cases f x <;> cases g x <;> rfl

theorem specXorSelected_xor (mask t e : Nat) :
    specXorSelected mask (t ^^^ e)
      = xor (specXorSelected mask t) (specXorSelected mask e) := by
  unfold specXorSelected
  have h := xor_fold_linear (fun k => mask.testBit k && t.testBit k)
    (fun k => mask.testBit k && e.testBit k) (List.range 32) false false
  simp only [Bool.xor_false] at h
  rw [← h]
  apply List.foldl_ext
  intro acc k _
  rw [Nat.testBit_xor]
  cases mask.testBit k <;> cases t.testBit k <;> cases e.testBit k <;> rfl

theorem specCandidate_flip (w k : Nat) (hw : w < 2 ^ 32) (hk : k < 32) :
    specCandidate (w ^^^ 2 ^ k)
      = specCandidate w ^^^ (if k = 30 then 0x7FFFFFFF else 2 ^ k) := by
  have hw2 : w ^^^ 2 ^ k < 2 ^ 32 :=
    Nat.xor_lt_two_pow hw (Nat.pow_lt_pow_right (by decide) hk)
  have e31 : (0x7FFFFFFF : Nat) = 2 ^ 31 - 1 := by norm_num
  apply Nat.eq_of_testBit_eq
  intro i
  have hr : (specCandidate w ^^^ (if k = 30 then 0x7FFFFFFF else 2 ^ k)).testBit i
      = xor (if i < 30 then xor (w.testBit i) (w.testBit 30) else w.testBit i)
          ((if k = 30 then 0x7FFFFFFF else 2 ^ k : Nat).testBit i) := by
    rw [Nat.testBit_xor, specCandidate_testBit w i hw]
  rw [specCandidate_testBit _ i hw2, hr]
  simp only [Nat.testBit_xor, Nat.testBit_two_pow]
  by_cases hk30 : k = 30
  · subst hk30
    rw [if_pos rfl, e31, Nat.testBit_two_pow_sub_one]
    by_cases hi : i < 30
    · have h1 : ¬ 30 = i := by omega
      have h2 : i < 31 := by omega
      simp only [hi, if_true, h1, decide_False, Bool.xor_false, decide_True, h2]
      cases w.testBit i <;> cases w.testBit 30 <;> rfl
    · simp only [hi, if_false]
      by_cases h30 : 30 = i
      · subst h30
        simp
      · have h2 : ¬ i < 31 := by omega
        simp [h30, h2]
  · rw [if_neg hk30, Nat.testBit_two_pow]
    have h1 : ¬ k = 30 := hk30
    by_cases hi : i < 30
    · simp only [hi, if_true, h1, decide_False, Bool.xor_false]
      cases w.testBit i <;> cases w.testBit 30 <;> cases decide (k = i) <;> rfl
    · simp only [hi, if_false]

theorem low_six_flip (w k : Nat) :
    (w ^^^ 2 ^ k) &&& 0x3F = (w &&& 0x3F) ^^^ (if k < 6 then 2 ^ k else 0) := by
  have e : (0x3F : Nat) = 2 ^ 6 - 1 := by norm_num
  apply Nat.eq_of_testBit_eq
  intro i
  rw [Nat.testBit_and, Nat.testBit_xor, Nat.testBit_xor, Nat.testBit_and, e,
    Nat.testBit_two_pow_sub_one, Nat.testBit_two_pow]
  by_cases hk : k < 6
  · rw [if_pos hk, Nat.testBit_two_pow]
    by_cases hki : k = i
    · subst hki
      simp [hk]
    · simp [hki]
  · rw [if_neg hk, Nat.zero_testBit]
    by_cases hki : k = i
    · subst hki
      simp [hk]
    · simp [hki]

theorem flip_changes_parity :
    ∀ k, k < 32 → ∃ i : Fin 6,
      specXorSelected (parityBitMask.getD i.val 0) (if k = 30 then 0x7FFFFFFF else 2 ^ k)
        ≠ (if k < 6 then 2 ^ k else 0 : Nat).testBit (5 - i.val) := by
  decide!

/-- C35: a word of 32 bits that `checkParity` accepts is rejected by it after any one of
its 32 bits has been inverted: a parity bit, a data bit, or one of the two bits carried
over from the word before (D29, and D30 with the complementing of the data it
triggers). -/
theorem checkParity_detects_single_bit (w k : Nat) (hw : w < 2 ^ 32) (hk : k < 32)
    (h : checkParity w = true) : checkParity (w ^^^ 2 ^ k) = false := by
  by_contra hc
  have h2 : checkParity (w ^^^ 2 ^ k) = true := by simpa using hc
  rw [checkParity_spec] at h h2
  rw [specCandidate_flip w k hw hk, low_six_flip] at h2
  obtain ⟨i, hi⟩ := flip_changes_parity k hk
  apply hi
  have hb := congrArg (fun x => Nat.testBit x (5 - i.val)) h2
  simp only at hb
  rw [(specParityValue_bits _).2 i, specXorSelected_xor, Nat.testBit_xor, ← h,
    (specParityValue_bits _).2 i] at hb
  generalize specXorSelected (parityBitMask.getD i.val 0) (specCandidate w) = a at hb
  generalize specXorSelected (parityBitMask.getD i.val 0)
    (if k = 30 then 0x7FFFFFFF else 2 ^ k) = b at hb ⊢
  generalize (if k < 6 then 2 ^ k else 0 : Nat).testBit (5 - i.val) = c at hb ⊢
  cases a <;> cases b <;> cases c <;> simp_all

/-- C35 on the second word of `sf1Payload` (267, accepted) with bit 30 inverted. -/
theorem checkParity_detects_single_bit_witness :
    checkParity 267 = true ∧ checkParity (267 ^^^ 2 ^ 30) = false :=
  ⟨by decide, checkParity_detects_single_bit 267 30 (by decide) (by decide) (by decide)⟩

/-! ## Claims on the array packed from a complete row -/

theorem low_byte_of_pair (x y : Nat) :
    (((x &&& 0xFF) <<< 8) ||| ((y >>> 16) &&& 0xFF)) &&& 0xFF = (y >>> 16) &&& 0xFF := by
  have e : (0xFF : Nat) = 2 ^ 8 - 1 := by norm_num
  apply Nat.eq_of_testBit_eq
  intro i
  simp only [Nat.testBit_and, Nat.testBit_or, Nat.testBit_shiftLeft, e,
    Nat.testBit_two_pow_sub_one]
  by_cases hi : i < 8
  · have : ¬ i ≥ 8 := by omega
    simp [hi, this]
  · simp [hi]

theorem high_byte_of_item (x : Nat) :
    (((x >>> 8) &&& 0xFFFF) >>> 8) &&& 0xFF = (x >>> 16) &&& 0xFF := by
  have e : (0xFF : Nat) = 2 ^ 8 - 1 := by norm_num
  have e2 : (0xFFFF : Nat) = 2 ^ 16 - 1 := by norm_num
  apply Nat.eq_of_testBit_eq
  intro i
  simp only [Nat.testBit_and, Nat.testBit_shiftRight, e, e2, Nat.testBit_two_pow_sub_one]
  by_cases hi : i < 8
  · have h1 : 8 + i < 16 := by omega
    have h2 : 8 + (8 + i) = 16 + i := by omega
    simp [hi, h1, h2]
  · simp [hi]

theorem packEphemeris_checked_items (row : Nat → SubframeData) (sv : Nat) :
    packEphemeris row sv 0 = sv ∧ packEphemeris row sv 15 = sv ∧ packEphemeris row sv 30 = sv ∧
    packEphemeris row sv 10
      = (((row 0).words 6 &&& 0xFF) <<< 8) ||| (((row 0).words 7 >>> 16) &&& 0xFF) ∧
    packEphemeris row sv 18 = ((row 1).words 2 >>> 8) &&& 0xFFFF ∧
    packEphemeris row sv 43
      = (((row 2).words 8 &&& 0xFF) <<< 8) ||| (((row 2).words 9 >>> 16) &&& 0xFF) :=
  ⟨rfl, rfl, rfl, rfl, rfl, rfl⟩

/-- C36: when `allEphemReceived(ch)` holds, the array packed from the row of the channel
passes both checks of `extractEphemeris`: the items 0, 15 and 30 are the satellite of the
message, and the three IOD bytes `dt[10] & 0xFF`, `(dt[18] >> 8) & 0xFF`, `dt[43] & 0xFF`
are the bytes that `allEphemReceived` has compared; so the extractor returns true.
Hence every array that `getMID8NavData` hands to the extractor is accepted by it. -/
theorem allEphemReceived_implies_checks (acq : GNSSDataAcq) (rinex : RinexData)
    (ch sv : Nat) (h : acq.allEphemReceived ch = true) :
    (packEphemeris (acq.subfrmCh ch) sv 0 &&& 0xFF
        = packEphemeris (acq.subfrmCh ch) sv 15 &&& 0xFF ∧
      packEphemeris (acq.subfrmCh ch) sv 0 &&& 0xFF
        = packEphemeris (acq.subfrmCh ch) sv 30 &&& 0xFF) ∧
    (packEphemeris (acq.subfrmCh ch) sv 10 &&& 0xFF
        = ((acq.subfrmCh ch 0).words 7 >>> 16) &&& 0xFF ∧
      (packEphemeris (acq.subfrmCh ch) sv 18 >>> 8) &&& 0xFF
        = ((acq.subfrmCh ch 1).words 2 >>> 16) &&& 0xFF ∧
      packEphemeris (acq.subfrmCh ch) sv 43 &&& 0xFF
        = ((acq.subfrmCh ch 2).words 9 >>> 16) &&& 0xFF) ∧
    ((packEphemeris (acq.subfrmCh ch) sv 18 >>> 8) &&& 0xFF
        = packEphemeris (acq.subfrmCh ch) sv 43 &&& 0xFF ∧
      (packEphemeris (acq.subfrmCh ch) sv 18 >>> 8) &&& 0xFF
        = packEphemeris (acq.subfrmCh ch) sv 10 &&& 0xFF) ∧
    (extractEphemeris rinex (packEphemeris (acq.subfrmCh ch) sv)).1 = true ∧
    (∀ (acq0 : GNSSDataAcq) (wd dt : Nat → Nat),
      (acq0.processMID8Words rinex ch sv wd).extracted = some dt →
        (extractEphemeris rinex dt).1 = true) := by
  have key : ∀ (a : GNSSDataAcq), a.allEphemReceived ch = true →
      ((packEphemeris (a.subfrmCh ch) sv 0 &&& 0xFF
          = packEphemeris (a.subfrmCh ch) sv 15 &&& 0xFF ∧
        packEphemeris (a.subfrmCh ch) sv 0 &&& 0xFF
          = packEphemeris (a.subfrmCh ch) sv 30 &&& 0xFF) ∧
      (packEphemeris (a.subfrmCh ch) sv 10 &&& 0xFF
          = ((a.subfrmCh ch 0).words 7 >>> 16) &&& 0xFF ∧
        (packEphemeris (a.subfrmCh ch) sv 18 >>> 8) &&& 0xFF
          = ((a.subfrmCh ch 1).words 2 >>> 16) &&& 0xFF ∧
        packEphemeris (a.subfrmCh ch) sv 43 &&& 0xFF
          = ((a.subfrmCh ch 2).words 9 >>> 16) &&& 0xFF) ∧
      ((packEphemeris (a.subfrmCh ch) sv 18 >>> 8) &&& 0xFF
          = packEphemeris (a.subfrmCh ch) sv 43 &&& 0xFF ∧
        (packEphemeris (a.subfrmCh ch) sv 18 >>> 8) &&& 0xFF
          = packEphemeris (a.subfrmCh ch) sv 10 &&& 0xFF) ∧
      (extractEphemeris rinex (packEphemeris (a.subfrmCh ch) sv)).1 = true) := by
    intro a ha
    unfold GNSSDataAcq.allEphemReceived at ha
    simp only [Bool.and_eq_true, decide_eq_true_eq] at ha
    obtain ⟨⟨⟨_, _⟩, i1⟩, i2⟩ := ha
    obtain ⟨p0, p15, p30, p10, p18, p43⟩ := packEphemeris_checked_items (a.subfrmCh ch) sv
    have h10 : packEphemeris (a.subfrmCh ch) sv 10 &&& 0xFF
        = ((a.subfrmCh ch 0).words 7 >>> 16) &&& 0xFF := by
      rw [p10, low_byte_of_pair]
    have h18 : (packEphemeris (a.subfrmCh ch) sv 18 >>> 8) &&& 0xFF
        = ((a.subfrmCh ch 1).words 2 >>> 16) &&& 0xFF := by
      rw [p18, high_byte_of_item]
    have h43 : packEphemeris (a.subfrmCh ch) sv 43 &&& 0xFF
        = ((a.subfrmCh ch 2).words 9 >>> 16) &&& 0xFF := by
      rw [p43, low_byte_of_pair]
    have hsv : packEphemeris (a.subfrmCh ch) sv 0 &&& 0xFF
          = packEphemeris (a.subfrmCh ch) sv 15 &&& 0xFF ∧
        packEphemeris (a.subfrmCh ch) sv 0 &&& 0xFF
          = packEphemeris (a.subfrmCh ch) sv 30 &&& 0xFF := by
      rw [p0, p15, p30]
      exact ⟨rfl, rfl⟩
    have hiod : (packEphemeris (a.subfrmCh ch) sv 18 >>> 8) &&& 0xFF
          = packEphemeris (a.subfrmCh ch) sv 43 &&& 0xFF ∧
        (packEphemeris (a.subfrmCh ch) sv 18 >>> 8) &&& 0xFF
          = packEphemeris (a.subfrmCh ch) sv 10 &&& 0xFF := by
      rw [h10, h18, h43, ← i1, ← i2]
      exact ⟨rfl, rfl⟩
    refine ⟨hsv, ⟨h10, h18, h43⟩, hiod, ?_⟩
    rw [extractEphemeris_unfold, if_neg (not_not_intro hsv), if_neg (not_not_intro hiod)]
  obtain ⟨k1, k2, k3, k4⟩ := key acq h
  refine ⟨k1, k2, k3, k4, ?_⟩
  intro acq0 wd dt hdt
  unfold GNSSDataAcq.processMID8Words at hdt
  dsimp only at hdt
  split_ifs at hdt with h1 h2 h3
  have hdt2 := Option.some.inj hdt
  rw [← hdt2]
  exact (key _ h3).2.2.2

/-- C36 on the row that the payloads of subframes 1 and 2 and the words of subframe 3
of `sf3Payload` complete (channel 0, satellite 9). -/
theorem allEphemReceived_implies_checks_witness :
    (extractEphemeris ⟨0, []⟩
      (packEphemeris (({ message := ⟨[], 0⟩, subfrmCh := fun _ j =>
        ⟨9, fun i => stripParity (mid8Word ([sf1Payload, sf2Payload, sf3Payload].getD j []) i)⟩ } :
          GNSSDataAcq).subfrmCh 0) 9)).1 = true :=
  (allEphemReceived_implies_checks
    { message := ⟨[], 0⟩, subfrmCh := fun _ j =>
        ⟨9, fun i => stripParity (mid8Word ([sf1Payload, sf2Payload, sf3Payload].getD j []) i)⟩ }
    ⟨0, []⟩ 0 9 (by decide!)).2.2.2.1

/-! ## Claims on the fields taken from subframe 1 and on the transmission time -/

theorem week_bits (w : Nat) (hw : w < 2 ^ 24) :
    ((((w >>> 8) &&& 0xFFFF) >>> 6) &&& 0x03FF) = w >>> 14 := by
  have e : (0x03FF : Nat) = 2 ^ 10 - 1 := by norm_num
  rw [and_ffff, e, Nat.and_pow_two_sub_one_eq_mod]
  simp only [Nat.shiftRight_eq_div_pow, Nat.reducePow] at hw ⊢
  omega

theorem iodc_high_bits (a b : Nat) :
    ((((a &&& 0xFF) <<< 8) ||| ((b >>> 16) &&& 0xFF)) &&& 0x0300) = (a &&& 3) <<< 8 := by
  have e : (0xFF : Nat) = 2 ^ 8 - 1 := by norm_num
  have e3 : (3 : Nat) = 2 ^ 2 - 1 := by norm_num
  have e300 : (0x0300 : Nat) = (2 ^ 2 - 1) <<< 8 := by decide
  apply Nat.eq_of_testBit_eq
  intro i
  rw [e300, e, e3]
  simp only [Nat.testBit_and, Nat.testBit_or, Nat.testBit_shiftLeft,
    Nat.testBit_two_pow_sub_one, Nat.testBit_shiftRight]
  by_cases h8 : i < 8
  · have : ¬ i ≥ 8 := by omega
    simp [this]
  · have h8b : i ≥ 8 := by omega
    by_cases h10 : i - 8 < 2
    · have : i - 8 < 8 := by omega
      simp [h8, h8b, h10, this]
    · simp [h10]

theorem high_byte_bounded (w : Nat) (hw : w < 2 ^ 24) : (w >>> 16) &&& 0xFF = w >>> 16 := by
  rw [and_ff]
  simp only [Nat.shiftRight_eq_div_pow, Nat.reducePow] at hw ⊢
  omega

theorem how_count_bits (x w : Nat) (hw : w < 2 ^ 24) :
    ((((((x &&& 0xFF) <<< 8) ||| ((w >>> 16) &&& 0xFF)) &&& 0xFF) &&& 0x00FF) <<< 9)
      ||| (((w &&& 0xFFFF) >>> 7) &&& 0x01FF) = w >>> 7 := by
  have e : (0x01FF : Nat) = 2 ^ 9 - 1 := by norm_num
  have hlt : ((w &&& 0xFFFF) >>> 7) &&& 0x01FF < 2 ^ 9 := by
    rw [e, Nat.and_pow_two_sub_one_eq_mod]
    exact Nat.mod_lt _ (by decide)
  rw [low_byte_of_pair, Nat.shiftLeft_eq, Nat.mul_comm, ← Nat.mul_add_lt_is_or hlt, e,
    Nat.and_pow_two_sub_one_eq_mod, and_ff, and_ff, and_ffff]
  simp only [Nat.shiftRight_eq_div_pow, Nat.reducePow] at hw ⊢
  omega

theorem masked_how_count (x y : Nat) :
    ((((x &&& 0xFF00) &&& 0x00FF) <<< 9) ||| (((y &&& 0x0003) >>> 7) &&& 0x01FF)) * 600 = 0 := by
  have h1 : (x &&& 0xFF00) &&& 0x00FF = 0 := by
    rw [Nat.and_assoc]
    have : (0xFF00 : Nat) &&& 0x00FF = 0 := by decide
    rw [this, Nat.and_zero]
  have h2 : (y &&& 0x0003) >>> 7 = 0 := by
    have e3 : (0x0003 : Nat) = 2 ^ 2 - 1 := by norm_num
    rw [e3, Nat.and_pow_two_sub_one_eq_mod]
    simp only [Nat.shiftRight_eq_div_pow, Nat.reducePow]
    omega
  rw [h1, h2]
  rfl

theorem bo_0_0 (rinex : RinexData) (dt : Nat → Nat) :
    extractBroadcastOrbit rinex dt 0 0 = dt 11 := rfl

theorem bo_7_0 (rinex : RinexData) (dt : Nat → Nat) :
    extractBroadcastOrbit rinex dt 7 0 =
      if (((dt 1 &&& 0x00FF) <<< 9) ||| ((dt 2 >>> 7) &&& 0x01FF)) * 600 = 0
      then rinex.gpsTimeX100
      else (((dt 1 &&& 0x00FF) <<< 9) ||| ((dt 2 >>> 7) &&& 0x01FF)) * 600 := rfl

theorem packEphemeris_subframe1_items (row : Nat → SubframeData) (sv : Nat) :
    packEphemeris row sv 1
      = ((((row 0).words 0 &&& 0xFF) <<< 8) ||| (((row 0).words 1 >>> 16) &&& 0xFF)) &&& 0xFF ∧
    packEphemeris row sv 2 = (row 0).words 1 &&& 0xFFFF ∧
    packEphemeris row sv 3 = ((row 0).words 2 >>> 8) &&& 0xFFFF ∧
    packEphemeris row sv 4
      = (((row 0).words 2 &&& 0xFF) <<< 8) ||| (((row 0).words 3 >>> 16) &&& 0xFF) ∧
    packEphemeris row sv 10
      = (((row 0).words 6 &&& 0xFF) <<< 8) ||| (((row 0).words 7 >>> 16) &&& 0xFF) ∧
    packEphemeris row sv 11 = (row 0).words 7 &&& 0xFFFF :=
  ⟨rfl, rfl, rfl, rfl, rfl, rfl⟩

theorem getUShorts_some (n : Nat) (m : OSPMessage) (h : m.cursor + 2 * n ≤ m.payload.length) :
    m.getUShorts n = some ((List.range n).map (fun k =>
        ((m.payload.getD (m.cursor + 2 * k) 0 % 256) <<< 8)
          ||| (m.payload.getD (m.cursor + 2 * k + 1) 0 % 256)),
      { m with cursor := m.cursor + 2 * n }) := by
  induction n generalizing m with
  | zero => simp [OSPMessage.getUShorts]
  | succ n ih =>
    have h1 : m.cursor + 2 ≤ m.payload.length := by omega
    have h2 : ({ m with cursor := m.cursor + 2 } : OSPMessage).cursor + 2 * n
        ≤ ({ m with cursor := m.cursor + 2 } : OSPMessage).payload.length := by
      show m.cursor + 2 + 2 * n ≤ m.payload.length
      omega
    unfold OSPMessage.getUShorts
    simp only [OSPMessage.getUShort, if_pos h1, ih _ h2]
    rw [List.range_succ_eq_map]
    simp only [List.map_cons, List.map_map, Nat.mul_zero, Nat.add_zero, Option.some.injEq,
      Prod.mk.injEq, List.cons.injEq, true_and]
    refine ⟨?_, ?_⟩
    · apply List.map_congr_left
      intro k _
      have e : m.cursor + 2 * (k + 1) = m.cursor + 2 + 2 * k := by omega
      simp only [Function.comp, Nat.succ_eq_add_one, e]
    · congr 1
      omega

theorem mid15_words_getD (payload : List Nat) (i : Nat) :
    ((List.range 45).map (fun k =>
        ((payload.getD (2 + 2 * k) 0 % 256) <<< 8) ||| (payload.getD (2 + 2 * k + 1) 0 % 256))).getD
      i 0 = if i < 45 then mid15Word payload i else 0 := by
  by_cases hi : i < 45
  · rw [if_pos hi, List.getD_eq_getElem?_getD, List.getElem?_map,
      List.getElem?_range hi]
    rfl
  · rw [if_neg hi, List.getD_eq_getElem?_getD, List.getElem?_eq_none]
    · rfl
    · rw [List.length_map, List.length_range]
      omega

theorem mid15_dt_eq (payload : List Nat) :
    setDt (setDt (fun i => ((List.range 45).map (fun k =>
          ((payload.getD (2 + 2 * k) 0 % 256) <<< 8)
            ||| (payload.getD (2 + 2 * k + 1) 0 % 256))).getD i 0) 1
        (((List.range 45).map (fun k =>
          ((payload.getD (2 + 2 * k) 0 % 256) <<< 8)
            ||| (payload.getD (2 + 2 * k + 1) 0 % 256))).getD 1 0 &&& 0xFF00)) 2
      (setDt (fun i => ((List.range 45).map (fun k =>
          ((payload.getD (2 + 2 * k) 0 % 256) <<< 8)
            ||| (payload.getD (2 + 2 * k + 1) 0 % 256))).getD i 0) 1
        (((List.range 45).map (fun k =>
          ((payload.getD (2 + 2 * k) 0 % 256) <<< 8)
            ||| (payload.getD (2 + 2 * k + 1) 0 % 256))).getD 1 0 &&& 0xFF00) 2 &&& 0x0003)
      = mid15Items payload := by
  funext i
  unfold setDt mid15Items
  simp only [mid15_words_getD]
  by_cases h2 : i = 2
  · subst h2
    simp
  · by_cases h1 : i = 1
    · subst h1
      simp
    · simp only [h2, h1, if_false]

theorem getMID15NavData_read (self : Acquisition) (obs : RinexObsData)
    (hlen : self.core.message.payload.length = 92) (hcur : self.core.message.cursor = 1) :
    self.getMID15NavData obs
      = some ((extractEphemeris obs.nav (mid15Items self.core.message.payload)).1,
          { self.core.message with cursor := 92 },
          { obs with nav := (extractEphemeris obs.nav (mid15Items self.core.message.payload)).2 }) := by
  have hg : self.core.message.get = some (self.core.message.payload.getD 1 0 % 256,
      { self.core.message with cursor := 2 }) := by
    rw [get_some _ (by omega), hcur]
  have hws := getUShorts_some 45 ({ self.core.message with cursor := 2 } : OSPMessage)
    (by show 2 + 2 * 45 ≤ self.core.message.payload.length; omega)
  unfold Acquisition.getMID15NavData
  rw [if_neg (by unfold OSPMessage.payloadLen; omega), hg]
  simp only
  rw [hws]
  simp only [mid15_dt_eq]

theorem mid15_count_zero (payload : List Nat) :
    (((mid15Items payload 1 &&& 0x00FF) <<< 9) ||| ((mid15Items payload 2 >>> 7) &&& 0x01FF)) * 600
      = 0 :=
  masked_how_count (mid15Word payload 1) (mid15Word payload 2)

/-- C37: for the array packed by the MID 8 path from a row whose subframe-1 words `W` are
below `2^24`, the extractor fills T0c with `W[7] & 0xFFFF`, the week with
`(W[2] >> 14) + 1024`, the IODC with `((W[2] & 3) << 8) | (W[7] >> 16)` and the
transmission time with `(W[1] >> 7) * 600` when the count `W[1] >> 7` is not zero (with
the converted GPS time of the model when it is zero); an accepted array adds at most the
record with this grid.  On a 92-byte MID 15 (cursor behind the message identifier) the
handler hands to the extractor the 45 items of the payload with `dt[1] & 0xFF00` and
`dt[2] & 0x0003`, returns what the extractor returns and keeps its model; in that array
the count is zero, so the transmission time of the grid, and of every record the call
adds, is `gpsTimeX100`: the `unsigned int` that `setGPSTime` has derived from the time of
week as the truncated `double` product (28 for the time of week 0.29 s, 100000 for
1000 s). -/
theorem subframe1_fields_and_transmission_time (rinex : RinexData)
    (row : Nat → SubframeData) (sv : Nat)
    (hW : ∀ k, k < 10 → (row 0).words k < 2 ^ 24) :
    extractBroadcastOrbit rinex (packEphemeris row sv) 0 0 = (row 0).words 7 &&& 0xFFFF ∧
    extractBroadcastOrbit rinex (packEphemeris row sv) 5 2 = ((row 0).words 2 >>> 14) + 1024 ∧
    extractBroadcastOrbit rinex (packEphemeris row sv) 6 3
      = (((row 0).words 2 &&& 3) <<< 8) ||| ((row 0).words 7 >>> 16) ∧
    ((row 0).words 1 >>> 7 ≠ 0 →
      extractBroadcastOrbit rinex (packEphemeris row sv) 7 0 = ((row 0).words 1 >>> 7) * 600) ∧
    ((row 0).words 1 >>> 7 = 0 →
      extractBroadcastOrbit rinex (packEphemeris row sv) 7 0 = rinex.gpsTimeX100) ∧
    ((extractEphemeris rinex (packEphemeris row sv)).2.gpsEphmNav = rinex.gpsEphmNav ∨
      (extractEphemeris rinex (packEphemeris row sv)).2.gpsEphmNav = rinex.gpsEphmNav ++
        [GPSsatNav.mk ((packEphemeris row sv 0 &&& 0xFF : Nat) : Int)
          (extractBroadcastOrbit rinex (packEphemeris row sv))]) ∧
    (∀ (self : Acquisition) (obs : RinexObsData),
      self.core.message.payload.length = 92 → self.core.message.cursor = 1 →
      self.getMID15NavData obs
        = some ((extractEphemeris obs.nav (mid15Items self.core.message.payload)).1,
            { self.core.message with cursor := 92 },
            { obs with
              nav := (extractEphemeris obs.nav (mid15Items self.core.message.payload)).2 }) ∧
      (∀ i, i < 45 → i ≠ 1 → i ≠ 2 →
        mid15Items self.core.message.payload i
          = ((self.core.message.payload.getD (2 + 2 * i) 0 % 256) <<< 8)
            ||| (self.core.message.payload.getD (2 + 2 * i + 1) 0 % 256)) ∧
      mid15Items self.core.message.payload 1 &&& 0x00FF = 0 ∧
      mid15Items self.core.message.payload 2 >>> 7 = 0 ∧
      (((mid15Items self.core.message.payload 1 &&& 0x00FF) <<< 9)
        ||| ((mid15Items self.core.message.payload 2 >>> 7) &&& 0x01FF)) = 0 ∧
      extractBroadcastOrbit obs.nav (mid15Items self.core.message.payload) 7 0
        = obs.nav.gpsTimeX100 ∧
      (∀ e ∈ (extractEphemeris obs.nav (mid15Items self.core.message.payload)).2.gpsEphmNav,
        e ∈ obs.nav.gpsEphmNav ∨ e.broadcastOrbit 7 0 = obs.nav.gpsTimeX100)) ∧
    (∀ (obs : RinexObsData) (weeks : Int) (secs bias : Double),
      (obs.setGPSTime weeks secs bias).nav.gpsTimeX100
        = (Int.toNat ⌊nearestDouble (nearestDouble secs * 100)⌋) % 2 ^ 32) ∧
    (exampleModel.setGPSTime 1850 (29 / 100) 0).nav.gpsTimeX100 = 28 ∧
    (exampleModel.setGPSTime 1850 1000 0).nav.gpsTimeX100 = 100000 ∧
    ((exampleAcq mid15Zeros).getMID15NavData (exampleModel.setGPSTime 1850 (29 / 100) 0)).map
        (fun r => (r.1, r.2.2.nav.gpsEphmNav.map (fun e => e.broadcastOrbit 7 0)))
      = some (true, [28]) := by
  obtain ⟨p1, p2, p3, p4, p10, p11⟩ := packEphemeris_subframe1_items row sv
  have hcount : (((packEphemeris row sv 1 &&& 0x00FF) <<< 9)
      ||| ((packEphemeris row sv 2 >>> 7) &&& 0x01FF)) = (row 0).words 1 >>> 7 := by
    rw [p1, p2]
    exact how_count_bits _ _ (hW 1 (by decide))
  refine ⟨?_, ?_, ?_, ?_, ?_, ?_, ?_, fun _ _ _ _ => rfl, by decide!, by decide!, by decide!⟩
  · rw [bo_0_0, p11]
  · rw [bo_5_2, p3, week_bits _ (hW 2 (by decide))]
  · rw [bo_6_3, p10, p4, low_byte_of_pair, iodc_high_bits, high_byte_bounded _ (hW 7 (by decide)),
      Nat.lor_comm]
  · intro hne
    rw [bo_7_0, hcount, if_neg]
    intro h0
    rcases Nat.mul_eq_zero.mp h0 with h0 | h0
    · exact hne h0
    · exact absurd h0 (by decide)
  · intro h0
    rw [bo_7_0, hcount, h0, if_pos (by rfl)]
  · rw [extractEphemeris_unfold]
    split
    · exact Or.inl rfl
    · split
      · exact Or.inl rfl
      · rw [addGPSNavData_snd]
        split
        · exact Or.inr rfl
        · exact Or.inl rfl
  · intro self obs hlen hcur
    have hc := mid15_count_zero self.core.message.payload
    have hc0 : (((mid15Items self.core.message.payload 1 &&& 0x00FF) <<< 9)
        ||| ((mid15Items self.core.message.payload 2 >>> 7) &&& 0x01FF)) = 0 := by
      rcases Nat.mul_eq_zero.mp hc with h | h
      · exact h
      · exact absurd h (by decide)
    have h70 : extractBroadcastOrbit obs.nav (mid15Items self.core.message.payload) 7 0
        = obs.nav.gpsTimeX100 := by
      rw [bo_7_0, if_pos hc]
    have hm1 : mid15Items self.core.message.payload 1 &&& 0x00FF = 0 := by
      have e : mid15Items self.core.message.payload 1
          = mid15Word self.core.message.payload 1 &&& 0xFF00 := rfl
      rw [e, Nat.and_assoc]
      have : (0xFF00 : Nat) &&& 0x00FF = 0 := by decide
      rw [this, Nat.and_zero]
    have hm2 : mid15Items self.core.message.payload 2 >>> 7 = 0 := by
      have e : mid15Items self.core.message.payload 2
          = mid15Word self.core.message.payload 2 &&& 0x0003 := rfl
      have e3 : (0x0003 : Nat) = 2 ^ 2 - 1 := by norm_num
      rw [e, e3, Nat.and_pow_two_sub_one_eq_mod]
      simp only [Nat.shiftRight_eq_div_pow, Nat.reducePow]
      omega
    refine ⟨getMID15NavData_read self obs hlen hcur, ?_, hm1, hm2, hc0, h70, ?_⟩
    · intro i hi h1 h2
      unfold mid15Items mid15Word
      simp only [h1, h2, hi, if_false, if_true]
    · intro e he
      rcases extractEphemeris_new_record obs.nav _ e he with h | h
      · exact Or.inl h
      · exact Or.inr (by rw [h, h70])

/-- C37 on a row whose subframe-1 word `k` is `128 * k`: the count of word 1 is 1, so
the transmission time is 600. -/
theorem subframe1_fields_and_transmission_time_witness :
    extractBroadcastOrbit ⟨0, []⟩ (packEphemeris (fun _ => ⟨9, fun k => 128 * k⟩) 9) 7 0
      = (128 * 1) >>> 7 * 600 :=
  (subframe1_fields_and_transmission_time ⟨0, []⟩ (fun _ => ⟨9, fun k => 128 * k⟩) 9
    (fun k hk => by show 128 * k < 2 ^ 24; omega)).2.2.2.1 (by decide)

/-! ## Claims on the end of the printing loops -/

theorem satValuesLoop_stuck (sysToPrint : Nat) (satToPrint : Int) (fuel : Nat) :
    ∀ (k : Nat) (o : SatObsData) (rest : List SatObsData),
      o.sysIndex = sysToPrint → o.satellite = satToPrint → o.obsTypeIndex < k →
      satValuesLoop sysToPrint satToPrint fuel k (o :: rest)
        = Except.error PrintError.outOfFuel := by
  induction fuel with
  | zero =>
    intro k o rest _ _ _
    rfl
  | succ n ih =>
    intro k o rest hs ht hk
    have hne : ¬ o.obsTypeIndex = k := by omega
    rw [satValuesLoop]
    simp only [hs, ht, and_self, if_true, hne, if_false]
    rw [ih (k + 1) o rest hs ht (by omega)]

theorem satValuesLoop_repeated (sysToPrint : Nat) (satToPrint : Int) (fuel : Nat) :
    ∀ (k : Nat) (o o2 : SatObsData) (rest : List SatObsData),
      o.sysIndex = sysToPrint → o.satellite = satToPrint →
      o2.sysIndex = sysToPrint → o2.satellite = satToPrint →
      o2.obsTypeIndex ≤ o.obsTypeIndex →
      satValuesLoop sysToPrint satToPrint fuel k (o :: o2 :: rest)
        = Except.error PrintError.outOfFuel := by
  induction fuel with
  | zero =>
    intro k o o2 rest _ _ _ _ _
    rfl
  | succ n ih =>
    intro k o o2 rest hs ht hs2 ht2 hle
    rw [satValuesLoop]
    simp only [hs, ht, and_self, if_true]
    by_cases hk : o.obsTypeIndex = k
    · rw [if_pos hk, satValuesLoop_stuck sysToPrint satToPrint n (k + 1) o2 rest hs2 ht2
        (by omega)]
    · rw [if_neg hk, ih (k + 1) o o2 rest hs ht hs2 ht2 hle]

theorem printSatObsValues_repeated (fuel : Nat) (o o2 : SatObsData) (rest : List SatObsData)
    (hs : o2.sysIndex = o.sysIndex) (ht : o2.satellite = o.satellite)
    (hle : o2.obsTypeIndex ≤ o.obsTypeIndex) :
    printSatObsValues fuel (o :: o2 :: rest) = Except.error PrintError.outOfFuel := by
  unfold printSatObsValues
  simp only
  rw [satValuesLoop_repeated o.sysIndex o.satellite fuel 0 o o2 rest rfl rfl hs ht hle]

theorem printAllSatLines_repeated (fuel : Nat) (o o2 : SatObsData) (rest : List SatObsData)
    (hs : o2.sysIndex = o.sysIndex) (ht : o2.satellite = o.satellite)
    (hle : o2.obsTypeIndex ≤ o.obsTypeIndex) :
    printAllSatLines fuel (o :: o2 :: rest) = Except.error PrintError.outOfFuel := by
  cases fuel with
  | zero => rfl
  | succ n =>
    rw [printAllSatLines, printSatObsValues_repeated (n + 1) o o2 rest hs ht hle]

theorem printObsEpoch_repeated (rinex : RinexObsData) (o o2 : SatObsData)
    (rest : List SatObsData) (line : List PrintCall)
    (hlen : rinex.observations.length ≠ 0) (hv : rinex.version = RINEXversion.V210)
    (hprep : preparedObservations rinex = Except.ok (o :: o2 :: rest))
    (hline : epochLineV210 rinex (o :: o2 :: rest) = Except.ok line)
    (hs : o2.sysIndex = o.sysIndex) (ht : o2.satellite = o.satellite)
    (hle : o2.obsTypeIndex ≤ o.obsTypeIndex) (fuel : Nat) :
    rinex.printObsEpoch fuel = Except.error PrintError.outOfFuel := by
  unfold RinexObsData.printObsEpoch
  rw [if_neg hlen, hprep]
  simp only [hv, hline]
  rw [printAllSatLines_repeated fuel o o2 rest hs ht hle]

theorem first_two_keys (l : List SatObsData) (k1 k2 : Nat × Int × Nat)
    (h : (l.take 2).map obsKey = [k1, k2]) :
    ∃ o o2 rest, l = o :: o2 :: rest ∧ obsKey o = k1 ∧ obsKey o2 = k2 := by
  rcases l with _ | ⟨o, _ | ⟨o2, rest⟩⟩
  · simp at h
  · simp at h
  · simp only [List.take_succ_cons, List.take_zero, List.map_cons, List.map_nil,
      List.cons.injEq, and_true] at h
    exact ⟨o, o2, rest, rfl, h.1, h.2⟩

/-- C38: the claim does not hold of the code when an observable of a satellite is stored
twice.  When the list starts with two observations of one satellite of which the second
has no greater type index than the first (as in every sorted list that holds a key
twice at its start), the loop of `printSatObsValues` does not end: after the first of
them is removed the counter `obsToPrint` is above the type index of the second one, so
no iteration removes it and every iteration goes on; whatever the number of iterations
allowed, the call has not returned, and so neither has `while (printSatObsValues(out))`.
The file `fileRepeatedMID28` (two accepted MID 28 of satellite 7 with the same software
time) makes `acqEpochData` return true with such a list (sorted, it starts with two
observations of type 0), and `printObsEpoch` on the model it leaves never returns.
When the type indexes of the satellite increase strictly, the call returns and removes
the observations of the satellite, leaving the others as they are. -/
theorem printSatObsValues_repeated_observable :
    (∀ (fuel : Nat) (o o2 : SatObsData) (rest : List SatObsData),
      o2.sysIndex = o.sysIndex → o2.satellite = o.satellite →
      o2.obsTypeIndex ≤ o.obsTypeIndex →
      printSatObsValues fuel (o :: o2 :: rest) = Except.error PrintError.outOfFuel ∧
      printAllSatLines fuel (o :: o2 :: rest) = Except.error PrintError.outOfFuel) ∧
    ((exampleFileAcq fileRepeatedMID28).acqEpochData exampleModel false false).toOption.map
        (fun r => (r.ret, (stdSort obsCompare r.rinex.observations).map obsKey))
      = some (true, [(0, 7, 0), (0, 7, 0), (0, 7, 1), (0, 7, 1), (0, 7, 2), (0, 7, 2),
          (0, 7, 3), (0, 7, 3)]) ∧
    (∀ fuel : Nat,
      ((exampleFileAcq fileRepeatedMID28).acqEpochData exampleModel false false).toOption.map
          (fun r => r.rinex.printObsEpoch fuel)
        = some (Except.error PrintError.outOfFuel)) ∧
    (∀ (o : SatObsData) (same rest : List SatObsData) (fuel : Nat),
      (∀ x ∈ same, x.sysIndex = o.sysIndex ∧ x.satellite = o.satellite) →
      startsOtherSatellite o.sysIndex o.satellite rest →
      typesIncreaseFrom 0 (o :: same) → slotEnd 0 (o :: same) < fuel →
      (printSatObsValues fuel (o :: same ++ rest)).toOption.map (fun r => (r.1, r.2.1))
        = some (decide (rest.length > 0), rest)) := by
  refine ⟨fun fuel o o2 rest hs ht hle =>
    ⟨printSatObsValues_repeated fuel o o2 rest hs ht hle,
      printAllSatLines_repeated fuel o o2 rest hs ht hle⟩, by decide!, ?_, ?_⟩
  · intro fuel
    have h1 : ((exampleFileAcq fileRepeatedMID28).acqEpochData exampleModel false
          false).toOption.map
        (fun r => (r.rinex.version, decide (r.rinex.observations.length = 0)))
        = some (RINEXversion.V210, false) := by
      decide!
    have h2 : ((exampleFileAcq fileRepeatedMID28).acqEpochData exampleModel false
          false).toOption.map
        (fun r => (preparedObservations r.rinex).toOption.map
          (fun l => (l.take 2).map obsKey))
        = some (some [(0, 7, 0), (0, 7, 0)]) := by
      decide!
    have h3 : ((exampleFileAcq fileRepeatedMID28).acqEpochData exampleModel false
          false).toOption.map
        (fun r => (preparedObservations r.rinex).toOption.map
          (fun l => (epochLineV210 r.rinex l).toOption.isSome))
        = some (some true) := by
      decide!
    obtain ⟨r, hr, hf⟩ := ok_of_toOption_map _ _ _ h1
    obtain ⟨r2, hr2, hkeys⟩ := ok_of_toOption_map _ _ _ h2
    obtain ⟨r3, hr3, hline⟩ := ok_of_toOption_map _ _ _ h3
    have e2 : r2 = r := Except.ok.inj (hr2.symm.trans hr)
    have e3 : r3 = r := Except.ok.inj (hr3.symm.trans hr)
    rw [e2] at hkeys
    rw [e3] at hline
    simp only [Prod.mk.injEq, decide_eq_false_iff_not] at hf
    obtain ⟨hv, hlen⟩ := hf
    obtain ⟨l, hl, hk⟩ := ok_of_toOption_map _ _ _ hkeys
    obtain ⟨o, o2, rest, hlist, hk1, hk2⟩ := first_two_keys l _ _ hk
    subst hlist
    rw [hl] at hline
    simp only [Except.toOption, Option.map_some', Option.some.injEq] at hline
    cases hln : epochLineV210 r.rinex (o :: o2 :: rest) with
    | error e =>
      rw [hln] at hline
      simp at hline
    | ok line =>
      unfold obsKey at hk1 hk2
      simp only [Prod.mk.injEq] at hk1 hk2
      rw [hr]
      simp only [Except.toOption, Option.map_some', Option.some.injEq]
      exact printObsEpoch_repeated r.rinex o o2 rest line hlen hv hl hln
        (by rw [hk1.1, hk2.1]) (by rw [hk1.2.1, hk2.2.1]) (by rw [hk1.2.2, hk2.2.2]) fuel
  · intro o same rest fuel hsame hrest hinc hfuel
    have hall : ∀ x ∈ o :: same, x.sysIndex = o.sysIndex ∧ x.satellite = o.satellite := by
      intro x hx
      rcases List.mem_cons.mp hx with h | h
      · rw [h]
        exact ⟨rfl, rfl⟩
      · exact hsame x h
    have hloop := satValuesLoop_slots o.sysIndex o.satellite rest hrest (o :: same) 0 fuel hall
      hinc (by omega)
    rw [List.cons_append] at hloop
    unfold printSatObsValues
    simp only [List.cons_append, hloop]
    rfl

/-! ## Claims on the comparators of the sort -/

theorem obsCompare_self (a : SatObsData) : obsCompare a a = true := by
  unfold obsCompare
  simp only [gt_iff_lt, lt_self_iff_false, if_false]

theorem navCompare_self (e : GPSsatNav) : navCompare e e = true := by
  unfold navCompare
  simp only [gt_iff_lt, lt_self_iff_false, if_false]

theorem navCompare_iff (e f : GPSsatNav) :
    navCompare e f = true ↔
      e.broadcastOrbit 5 2 < f.broadcastOrbit 5 2 ∨ (e.broadcastOrbit 5 2 = f.broadcastOrbit 5 2 ∧
        (e.broadcastOrbit 0 0 < f.broadcastOrbit 0 0 ∨
          (e.broadcastOrbit 0 0 = f.broadcastOrbit 0 0 ∧ e.satellite ≤ f.satellite))) := by
  unfold navCompare
  split_ifs <;> simp only [Bool.false_eq_true, false_iff, true_iff] <;> omega

/-- C39: the claim does not hold of the code.  `obsCompare` and `navCompare` return true
when both arguments have the same key, so `comp(a, a)` is true for every `a` (not false,
as a strict weak ordering needs), and `comp(a, b)` and `comp(b, a)` are both true exactly
when the keys of `a` and `b` are equal: the comparators are the "not after" relations of
their keys, total and reflexive. -/
theorem comparators_true_on_equal_keys :
    (∀ a : SatObsData, obsCompare a a = true) ∧
    (∀ e : GPSsatNav, navCompare e e = true) ∧
    (∀ a b : SatObsData,
      (obsCompare a b = true ∧ obsCompare b a = true) ↔ obsKey a = obsKey b) ∧
    (∀ e f : GPSsatNav,
      (navCompare e f = true ∧ navCompare f e = true) ↔ navKey e = navKey f) ∧
    (∀ a b : SatObsData, obsCompare a b = true ∨ obsCompare b a = true) ∧
    (∀ e f : GPSsatNav, navCompare e f = true ∨ navCompare f e = true) ∧
    obsCompare ⟨0, 7, 1, 0, 20000000, 0, 5⟩ ⟨0, 7, 1, 0, 20000000, 0, 5⟩ = true ∧
    navCompare ⟨9, fun _ _ => 0⟩ ⟨9, fun _ _ => 0⟩ = true := by
  refine ⟨obsCompare_self, navCompare_self, ?_, ?_, ?_, ?_, obsCompare_self _,
    navCompare_self _⟩
  · intro a b
    rw [obsCompare_iff, obsCompare_iff]
    unfold obsKeyLe obsKey
    simp only [Prod.mk.injEq]
    constructor
    · intro h
      refine ⟨by omega, by omega, by omega⟩
    · intro h
      refine ⟨by omega, by omega⟩
  · intro e f
    rw [navCompare_iff, navCompare_iff]
    unfold navKey
    simp only [Prod.mk.injEq]
    constructor
    · intro h
      refine ⟨by omega, by omega, by omega⟩
    · intro h
      refine ⟨by omega, by omega⟩
  · intro a b
    rw [obsCompare_iff, obsCompare_iff]
    unfold obsKeyLe
    omega
  · intro e f
    rw [navCompare_iff, navCompare_iff]
    omega

/-! ## Claims on the progress of the main pass -/

theorem streamPayloads_fuel (bytes : List Nat) (n : Nat) :
    ∀ (m pos : Nat), bytes.length < pos + n → bytes.length < pos + m →
      streamPayloads bytes n pos = streamPayloads bytes m pos := by
  induction n with
  | zero =>
    intro m pos hn _
    cases m with
    | zero => rfl
    | succ k =>
      have he : OSPMessage.fill ⟨bytes, pos⟩ = FillResult.endOfStream := by
        unfold OSPMessage.fill
        rw [if_pos (by show bytes.length ≤ pos; omega)]
      rw [streamPayloads, streamPayloads]
      simp only [he]
  | succ k ih =>
    intro m pos hn hm
    cases m with
    | zero =>
      have he : OSPMessage.fill ⟨bytes, pos⟩ = FillResult.endOfStream := by
        unfold OSPMessage.fill
        rw [if_pos (by show bytes.length ≤ pos; omega)]
      rw [streamPayloads, streamPayloads]
      simp only [he]
    | succ j =>
      cases hf : OSPMessage.fill ⟨bytes, pos⟩ with
      | filled msg file =>
        obtain ⟨_, _, hp, _, _⟩ := fill_filled _ _ _ hf
        have hp2 : file.pos = pos + 2 + msg.payload.length := hp
        rw [streamPayloads_succ bytes k pos msg file hf, streamPayloads_succ bytes j pos msg file hf,
          ih j file.pos (by omega) (by omega)]
      | endOfStream =>
        rw [streamPayloads, streamPayloads]
        simp only [hf]
      | shortRead =>
        rw [streamPayloads, streamPayloads]
        simp only [hf]

theorem streamPayloads_length_le (bytes : List Nat) (n : Nat) :
    ∀ pos : Nat, (streamPayloads bytes n pos).length ≤ bytes.length - pos := by
  induction n with
  | zero =>
    intro pos
    rw [streamPayloads]
    exact Nat.zero_le _
  | succ k ih =>
    intro pos
    cases hf : OSPMessage.fill ⟨bytes, pos⟩ with
    | filled msg file =>
      obtain ⟨_, _, hp, hle, _⟩ := fill_filled _ _ _ hf
      have hp2 : file.pos = pos + 2 + msg.payload.length := hp
      have hle2 : file.pos ≤ bytes.length := hle
      have := ih file.pos
      rw [streamPayloads_succ bytes k pos msg file hf, List.length_cons]
      omega
    | endOfStream =>
      rw [streamPayloads]
      simp only [hf, List.length_nil]
      exact Nat.zero_le _
    | shortRead =>
      rw [streamPayloads]
      simp only [hf, List.length_nil]
      exact Nat.zero_le _

theorem messagesFrom_fill (bytes : List Nat) (pos : Nat) (m : OSPMessage) (file : OSPFile)
    (h : OSPMessage.fill ⟨bytes, pos⟩ = FillResult.filled m file) :
    messagesFrom bytes pos = messagesFrom bytes file.pos + 1 ∧ pos < file.pos ∧
      file.bytes = bytes := by
  obtain ⟨_, hb, hp, _, _⟩ := fill_filled _ _ _ h
  have hp2 : file.pos = pos + 2 + m.payload.length := hp
  refine ⟨?_, by omega, hb⟩
  unfold messagesFrom
  rw [streamPayloads_succ bytes bytes.length pos m file h, List.length_cons,
    streamPayloads_fuel bytes bytes.length (bytes.length + 1) file.pos (by omega) (by omega)]

theorem acqEpochStep_done_file (useMID15 useMID8 : Bool) (s : EpochLoopState) (r : EpochResult)
    (h : acqEpochStep useMID15 useMID8 s = EpochStep.done r) :
    (r.ret = s.dataAvailable ∧ r.self.ospFile = s.self.ospFile) ∨
    ∃ p file, OSPMessage.fill s.self.ospFile = FillResult.filled ⟨p, 0⟩ file ∧
      ((s.dataAvailable = true ∧ r.ret = true ∧ r.self.ospFile = file) ∨
        (r.ret = s.dataAvailable ∧ r.self.ospFile = ⟨file.bytes, s.self.ospFile.pos⟩)) := by
  rcases hfill : OSPMessage.fill s.self.ospFile with ⟨m, file⟩ | _ | _
  · have hf := fill_message _ _ _ hfill
    have hm : FillResult.filled m file = FillResult.filled ⟨m.payload, 0⟩ file :=
      hfill.symm.trans hf
    refine Or.inr ⟨m.payload, file, hm, ?_⟩
    by_cases h7 : m.payload.getD 0 0 % 256 = 7
    · rw [acqEpochStep_mid7 useMID15 useMID8 s m.payload file hf h7] at h
      by_cases ha : m.payload.length = 20 ∧
          s.self.minSVSfix ≤ ((m.payload.getD 7 0 % 256 : Nat) : Int)
      · rw [if_pos ha] at h
        by_cases hd : s.dataAvailable = true
        · rw [if_pos hd] at h
          simp only [EpochStep.done.injEq] at h
          subst h
          exact Or.inl ⟨hd, rfl, rfl⟩
        · rw [if_neg hd] at h
          cases h
      · rw [if_neg ha] at h
        cases h
    · by_cases h28 : m.payload.getD 0 0 % 256 = 28
      · rw [acqEpochStep_mid28 useMID15 useMID8 s m.payload file hf h28] at h
        by_cases ha : m.payload.length = 56 ∧ (m.payload.getD 37 0 % 256) &&& 0x01 ≠ 0
        · rw [if_pos ha] at h
          by_cases hd : (processMID28 s.rinex (mid28Fields m.payload)).2.1 = true
          · rw [if_pos hd] at h
            cases h
          · rw [if_neg hd] at h
            simp only [EpochStep.done.injEq] at h
            subst h
            exact Or.inr ⟨rfl, rfl⟩
        · rw [if_neg ha] at h
          cases h
      · exact absurd h ((acqEpochStep_other useMID15 useMID8 s m.payload file hf h7 h28).1 r)
  · unfold acqEpochStep at h
    simp only [hfill, EpochStep.done.injEq] at h
    subst h
    exact Or.inl ⟨rfl, rfl⟩
  · unfold acqEpochStep at h
    simp only [hfill] at h
    cases h

theorem reaches_progress (useMID15 useMID8 : Bool) (self : Acquisition) (rinex : RinexObsData)
    (t : EpochLoopState) (h : LoopReaches useMID15 useMID8 (epochStart self rinex) t) :
    t.self.ospFile.bytes = self.ospFile.bytes ∧
      ((t.self.ospFile.pos = self.ospFile.pos ∧ t.dataAvailable = false) ∨
        (self.ospFile.pos < t.self.ospFile.pos ∧
          messagesFrom self.ospFile.bytes t.self.ospFile.pos
            < messagesFrom self.ospFile.bytes self.ospFile.pos)) := by
  refine loopReaches_inv useMID15 useMID8
    (fun t => t.self.ospFile.bytes = self.ospFile.bytes ∧
      ((t.self.ospFile.pos = self.ospFile.pos ∧ t.dataAvailable = false) ∨
        (self.ospFile.pos < t.self.ospFile.pos ∧
          messagesFrom self.ospFile.bytes t.self.ospFile.pos
            < messagesFrom self.ospFile.bytes self.ospFile.pos))) ?_ _ t h ?_
  · intro a b ha hab
    obtain ⟨hbytes, hpa⟩ := ha
    obtain ⟨p, file, e, hfill, hfile, _⟩ := acqEpochStep_next_shape useMID15 useMID8 a b hab
    have hfill2 : OSPMessage.fill ⟨self.ospFile.bytes, a.self.ospFile.pos⟩
        = FillResult.filled ⟨p, 0⟩ file := by
      rw [← hbytes]
      exact hfill
    obtain ⟨hm, hlt, hb⟩ := messagesFrom_fill _ _ _ _ hfill2
    refine ⟨by rw [hfile]; exact hb, Or.inr ?_⟩
    rw [hfile]
    rcases hpa with ⟨hp, _⟩ | ⟨hp, hmm⟩
    · rw [hp] at hm hlt
      exact ⟨hlt, by omega⟩
    · exact ⟨by omega, by omega⟩
  · exact ⟨rfl, Or.inl ⟨rfl, rfl⟩⟩

theorem acqEpochData_moves (useMID15 useMID8 : Bool) (self : Acquisition)
    (rinex : RinexObsData) (r : EpochResult)
    (h : self.acqEpochData rinex useMID15 useMID8 = Except.ok r) :
    r.self.ospFile.bytes = self.ospFile.bytes ∧
      self.ospFile.pos ≤ r.self.ospFile.pos ∧
      (r.ret = true → self.ospFile.pos < r.self.ospFile.pos ∧
        messagesFrom self.ospFile.bytes r.self.ospFile.pos
          < messagesFrom self.ospFile.bytes self.ospFile.pos) := by
  unfold Acquisition.acqEpochData at h
  obtain ⟨t, hreach, hdone⟩ := loop_ok_reaches useMID15 useMID8 _ _ r h
  obtain ⟨hbytes, hpt⟩ := reaches_progress useMID15 useMID8 self rinex t hreach
  have hle : self.ospFile.pos ≤ t.self.ospFile.pos := by
    rcases hpt with ⟨hp, _⟩ | ⟨hp, _⟩ <;> omega
  have hstrict : t.dataAvailable = true → self.ospFile.pos < t.self.ospFile.pos ∧
      messagesFrom self.ospFile.bytes t.self.ospFile.pos
        < messagesFrom self.ospFile.bytes self.ospFile.pos := by
    intro hd
    rcases hpt with ⟨_, hf⟩ | hp
    · rw [hd] at hf
      cases hf
    · exact hp
  rcases acqEpochStep_done_file useMID15 useMID8 t r hdone with
    ⟨hret, hfile⟩ | ⟨p, file, hfill, ⟨hd, _, hfile⟩ | ⟨hret, hfile⟩⟩
  · rw [hfile, hret]
    exact ⟨hbytes, hle, hstrict⟩
  · have hfill2 : OSPMessage.fill ⟨self.ospFile.bytes, t.self.ospFile.pos⟩
        = FillResult.filled ⟨p, 0⟩ file := by
      rw [← hbytes]
      exact hfill
    obtain ⟨hm, hlt, hb⟩ := messagesFrom_fill _ _ _ _ hfill2
    obtain ⟨h1, h2⟩ := hstrict hd
    rw [hfile]
    exact ⟨hb, by omega, fun _ => ⟨by omega, by omega⟩⟩
  · have hfill2 : OSPMessage.fill ⟨self.ospFile.bytes, t.self.ospFile.pos⟩
        = FillResult.filled ⟨p, 0⟩ file := by
      rw [← hbytes]
      exact hfill
    obtain ⟨_, _, hb⟩ := messagesFrom_fill _ _ _ _ hfill2
    rw [hfile, hret]
    exact ⟨hb, hle, hstrict⟩

theorem epochLoop_bound (printObsEpoch : RinexObsData → RinexObsData)
    (useEphem useG50bps : Bool) (fuel : Nat) :
    ∀ (self : Acquisition) (rinex : RinexObsData) (epochCount : Nat),
      epochLoop printObsEpoch useEphem useG50bps fuel self rinex epochCount
        ≤ epochCount + messagesFrom self.ospFile.bytes self.ospFile.pos := by
  induction fuel with
  | zero =>
    intro self rinex epochCount
    unfold epochLoop
    omega
  | succ n ih =>
    intro self rinex epochCount
    unfold epochLoop
    cases hr : self.acqEpochData rinex useEphem useG50bps with
    | error e =>
      simp only
      omega
    | ok r =>
      simp only
      by_cases hret : r.ret = true
      · rw [if_pos hret]
        obtain ⟨hb, _, hs⟩ := acqEpochData_moves useEphem useG50bps self rinex r hr
        have := ih r.self (printObsEpoch r.rinex) (epochCount + 1)
        rw [hb] at this
        have := (hs hret).2
        omega
      · rw [if_neg hret]
        omega

/-- C40: a call of `acqEpochData` that returns leaves the bytes of the file as they are
and the read position at or after the position at which it started; when it returns true
the position is strictly after it (also when the call ends by the rewind to the start of a
MID 28 of another epoch), and fewer whole records are left from the new position than from
the old one.  Hence the loop of `generateRINEX` that alternates `acqEpochData` and
`printObsEpoch` counts, for every bound on its iterations and every effect of the
printing, at most as many epochs as the stream has whole records. -/
theorem epoch_acquisition_progress (useMID15 useMID8 : Bool) (self : Acquisition)
    (rinex : RinexObsData) :
    (∀ r, self.acqEpochData rinex useMID15 useMID8 = Except.ok r →
      r.self.ospFile.bytes = self.ospFile.bytes ∧
      self.ospFile.pos ≤ r.self.ospFile.pos ∧
      (r.ret = true → self.ospFile.pos < r.self.ospFile.pos ∧
        messagesFrom self.ospFile.bytes r.self.ospFile.pos
          < messagesFrom self.ospFile.bytes self.ospFile.pos)) ∧
    self.acqEpochData rinex useMID15 useMID8 ≠ Except.error AcqError.outOfFuel ∧
    (∀ (printObsEpoch : RinexObsData → RinexObsData) (fuel : Nat),
      generateRINEXEpochs printObsEpoch useMID15 useMID8 fuel self rinex
        ≤ (streamPayloads self.ospFile.bytes (self.ospFile.bytes.length + 1) 0).length ∧
      (self.ospFile.bytes.length < fuel →
        generateRINEXEpochs printObsEpoch useMID15 useMID8 fuel self rinex < fuel)) := by
  refine ⟨fun r hr => acqEpochData_moves useMID15 useMID8 self rinex r hr, ?_, ?_⟩
  · unfold Acquisition.acqEpochData
    apply loop_has_fuel
    simp only [epochStart]
    omega
  · intro printObsEpoch fuel
    have hb := epochLoop_bound printObsEpoch useMID15 useMID8 fuel
      { self with ospFile := { self.ospFile with pos := 0 } } rinex 0
    have hlen : (streamPayloads self.ospFile.bytes (self.ospFile.bytes.length + 1) 0).length
        ≤ self.ospFile.bytes.length :=
      (streamPayloads_length_le _ _ 0).trans (Nat.sub_le _ _)
    unfold generateRINEXEpochs
    unfold messagesFrom at hb
    simp only [Nat.zero_add] at hb
    exact ⟨hb, fun hf => lt_of_le_of_lt hb (by omega)⟩

/-- C40 on the file `fileTwoEpochs` (two accepted MID 28 with different software times):
the first call returns true with the read position at the start of the second record, and
the driver counts no more epochs than the two records of the stream. -/
theorem epoch_acquisition_progress_witness :
    ((exampleFileAcq fileTwoEpochs).acqEpochData exampleModel false false).toOption.map
        (fun r => (r.ret, r.self.ospFile.pos)) = some (true, 58) ∧
    generateRINEXEpochs RinexObsData.clearObs false false 5 (exampleFileAcq fileTwoEpochs)
        exampleModel
      ≤ (streamPayloads fileTwoEpochs (fileTwoEpochs.length + 1) 0).length ∧
    (streamPayloads fileTwoEpochs (fileTwoEpochs.length + 1) 0).length = 2 :=
  ⟨by decide!,
    ((epoch_acquisition_progress false false (exampleFileAcq fileTwoEpochs) exampleModel).2.2
      RinexObsData.clearObs 5).1,
    by decide!⟩

/-! ## Claim on the streams without an accepted MID 28 -/

theorem acqHeaderLoop_bytes (fuel : Nat) :
    ∀ (self : Acquisition) (v : HeaderVars) (handled : List (List Nat)) (r : HeaderResult),
      acqHeaderLoop fuel self v handled = Except.ok r →
      r.self.ospFile.bytes = self.ospFile.bytes := by
  induction fuel with
  | zero =>
    intro self v handled r h
    cases h
  | succ n ih =>
    intro self v handled r h
    unfold acqHeaderLoop at h
    rcases hfill : OSPMessage.fill self.ospFile with ⟨message, file⟩ | _ | _
    · simp only [hfill] at h
      obtain ⟨_, hb, _⟩ := fill_filled _ _ _ hfill
      by_cases hall : (v.apxSet && v.rxIdSet && v.frsEphSet && v.intrvSet) = true
      · rw [if_pos hall] at h
        simp only [Except.ok.injEq] at h
        rw [← h]
        exact hb
      · rw [if_neg hall] at h
        cases hbody : Acquisition.acqHeaderBody
            { self with ospFile := file, core := { self.core with message := message } } v with
        | error e =>
          rw [hbody] at h
          cases h
        | ok x =>
          obtain ⟨left, v1⟩ := x
          rw [hbody] at h
          simp only at h
          rw [ih _ _ _ _ h]
          exact hb
    · simp only [hfill, Except.ok.injEq] at h
      rw [← h]
    · simp only [hfill] at h
      cases h

theorem no_accepted_no_epoch (useMID15 useMID8 : Bool) (self : Acquisition)
    (rinex : RinexObsData)
    (hno : ∀ p ∈ streamPayloads self.ospFile.bytes (self.ospFile.bytes.length + 1) 0,
      isAcceptedMID28 p = false)
    (printObsEpoch : RinexObsData → RinexObsData) (fuel : Nat) :
    generateRINEXEpochs printObsEpoch useMID15 useMID8 fuel self rinex = 0 := by
  unfold generateRINEXEpochs
  cases fuel with
  | zero => rfl
  | succ n =>
    unfold epochLoop
    cases hr : Acquisition.acqEpochData
        { self with ospFile := { self.ospFile with pos := 0 } } rinex useMID15 useMID8 with
    | error e => rfl
    | ok r =>
      simp only
      have hret : r.ret = false := by
        unfold Acquisition.acqEpochData at hr
        obtain ⟨t, hreach, hdone⟩ := loop_ok_reaches useMID15 useMID8 _ _ r hr
        obtain ⟨hbytes, hda, k, hk, hq⟩ :=
          no_accepted_invariant useMID15 useMID8 self.ospFile.bytes hno _ t hreach
            ⟨rfl, rfl⟩
        rcases acqEpochStep_done_shape useMID15 useMID8 t r hdone with
          ⟨_, hr2⟩ | ⟨p, file, hfill, ⟨_, hd, _⟩ | ⟨hacc, _⟩⟩
        · subst hr2
          exact hda
        · rw [hda] at hd
          cases hd
        · have hfill2 : OSPMessage.fill ⟨self.ospFile.bytes, t.self.ospFile.pos⟩
              = FillResult.filled ⟨p, 0⟩ file := by
            rw [← hbytes]
            exact hfill
          cases k with
          | zero => omega
          | succ j =>
            rw [streamPayloads_succ _ j _ _ _ hfill2] at hq
            have := hq p (List.mem_cons_self _ _)
            rw [hacc] at this
            cases this
      simp only [hret, Bool.false_eq_true, if_false]

/-- C19: `acqEpochData` returns true only if a MID 28 was accepted during the call (and
it never stops for lack of iterations), so on a stream without an accepted MID 28 the
epoch loop counts zero epochs; and whenever the header pass of `generateRINEX` returns,
`generateRINEX` returns 0 and `main` exits with 3 (as for the file `fileHeader`).  But
the header pass does not return on every such stream: on `fileOtherMID6NoMID28` (a MID 6
with the version `ABC`, then a MID 7) `substr` throws in `getMID6RxData`, nothing catches
the exception, and the run ends without the exit status 3. -/
theorem epoch_needs_accepted_mid28 (useMID15 useMID8 : Bool) (self : Acquisition)
    (rinex : RinexObsData) :
    (∀ r, self.acqEpochData rinex useMID15 useMID8 = Except.ok r → r.ret = true →
      hasAccepted28 r.trace) ∧
    self.acqEpochData rinex useMID15 useMID8 ≠ Except.error AcqError.outOfFuel ∧
    ((∀ p ∈ streamPayloads self.ospFile.bytes (self.ospFile.bytes.length + 1) 0,
        isAcceptedMID28 p = false) →
      ∀ (printObsEpoch : RinexObsData → RinexObsData) (fuel : Nat),
        generateRINEXEpochs printObsEpoch useMID15 useMID8 fuel self rinex = 0 ∧
        ∀ (navi obsFileCreated navFileCreated : Bool),
          (∀ h, self.acqHeaderData rinex = Except.ok h →
            generateRINEX printObsEpoch useMID15 useMID8 navi obsFileCreated navFileCreated
              fuel self rinex = Except.ok 0 ∧
            mainStatus printObsEpoch useMID15 useMID8 navi obsFileCreated navFileCreated
              fuel self rinex = Except.ok 3) ∧
          (∀ e, self.acqHeaderData rinex = Except.error e →
            mainStatus printObsEpoch useMID15 useMID8 navi obsFileCreated navFileCreated
              fuel self rinex = Except.error e)) ∧
    ((∀ p ∈ streamPayloads fileOtherMID6NoMID28 (fileOtherMID6NoMID28.length + 1) 0,
        isAcceptedMID28 p = false) ∧
      (exampleFileAcq fileOtherMID6NoMID28).acqHeaderData exampleModel
        = Except.error HeaderError.outOfRange ∧
      ∀ (printObsEpoch : RinexObsData → RinexObsData)
        (navi obsFileCreated navFileCreated : Bool) (fuel : Nat),
        mainStatus printObsEpoch useMID15 useMID8 navi obsFileCreated navFileCreated fuel
          (exampleFileAcq fileOtherMID6NoMID28) exampleModel
            = Except.error HeaderError.outOfRange) ∧
    (∀ (printObsEpoch : RinexObsData → RinexObsData)
      (navi obsFileCreated navFileCreated : Bool) (fuel : Nat),
      mainStatus printObsEpoch useMID15 useMID8 navi obsFileCreated navFileCreated fuel
        (exampleFileAcq fileHeader) exampleModel = Except.ok 3) := by
  have hmain : ∀ (s : Acquisition) (x : RinexObsData),
      (∀ p ∈ streamPayloads s.ospFile.bytes (s.ospFile.bytes.length + 1) 0,
        isAcceptedMID28 p = false) →
      ∀ (printObsEpoch : RinexObsData → RinexObsData) (fuel : Nat)
        (navi obsFileCreated navFileCreated : Bool),
        (∀ h, s.acqHeaderData x = Except.ok h →
          generateRINEX printObsEpoch useMID15 useMID8 navi obsFileCreated navFileCreated
            fuel s x = Except.ok 0 ∧
          mainStatus printObsEpoch useMID15 useMID8 navi obsFileCreated navFileCreated
            fuel s x = Except.ok 3) ∧
        (∀ e, s.acqHeaderData x = Except.error e →
          mainStatus printObsEpoch useMID15 useMID8 navi obsFileCreated navFileCreated
            fuel s x = Except.error e) := by
    intro s x hno printObsEpoch fuel navi obsFileCreated navFileCreated
    refine ⟨?_, ?_⟩
    · intro h hh
      have hb : h.self.ospFile.bytes = s.ospFile.bytes := by
        unfold Acquisition.acqHeaderData at hh
        exact acqHeaderLoop_bytes _ _ _ _ _ hh
      have h0 : generateRINEXEpochs printObsEpoch useMID15 useMID8 fuel h.self h.vars.rinex
          = 0 :=
        no_accepted_no_epoch useMID15 useMID8 h.self h.vars.rinex (by rw [hb]; exact hno)
          printObsEpoch fuel
      have hg : generateRINEX printObsEpoch useMID15 useMID8 navi obsFileCreated navFileCreated
          fuel s x = Except.ok 0 := by
        unfold generateRINEX
        rw [hh]
        simp only [h0]
        split_ifs <;> rfl
      refine ⟨hg, ?_⟩
      unfold mainStatus
      rw [hg]
      rfl
    · intro e he
      unfold mainStatus generateRINEX
      rw [he]
  have hbad : (exampleFileAcq fileOtherMID6NoMID28).acqHeaderData exampleModel
      = Except.error HeaderError.outOfRange := by rfl
  have hnoBad : ∀ p ∈ streamPayloads fileOtherMID6NoMID28 (fileOtherMID6NoMID28.length + 1) 0,
      isAcceptedMID28 p = false := by decide!
  have hnoGood : ∀ p ∈ streamPayloads fileHeader (fileHeader.length + 1) 0,
      isAcceptedMID28 p = false := by decide!
  have hgood : (((exampleFileAcq fileHeader).acqHeaderData exampleModel).toOption.map
      (fun r => r.ret)) = some true := by decide!
  refine ⟨?_, ?_, ?_, ⟨hnoBad, hbad, ?_⟩, ?_⟩
  · intro r hr hret
    unfold Acquisition.acqEpochData at hr
    obtain ⟨t, hreach, hdone⟩ := loop_ok_reaches useMID15 useMID8 _ _ r hr
    have hda := reaches_dataAvailable useMID15 useMID8 self rinex t hreach
    rcases acqEpochStep_done_shape useMID15 useMID8 t r hdone with
      ⟨_, hr2⟩ | ⟨p, file, _, ⟨_, hd, _, _, htr⟩ | ⟨_, _, _, htr, _⟩⟩
    · subst hr2
      exact hda.mp hret
    · rw [htr, hasAccepted28_append]
      exact Or.inl (hda.mp hd)
    · rw [htr, hasAccepted28_append]
      exact Or.inr ⟨rfl, rfl⟩
  · unfold Acquisition.acqEpochData
    apply loop_has_fuel
    simp only [epochStart]
    omega
  · intro hno printObsEpoch fuel
    exact ⟨no_accepted_no_epoch useMID15 useMID8 self rinex hno printObsEpoch fuel,
      fun navi obsFileCreated navFileCreated =>
        hmain self rinex hno printObsEpoch fuel navi obsFileCreated navFileCreated⟩
  · intro printObsEpoch navi obsFileCreated navFileCreated fuel
    exact (hmain (exampleFileAcq fileOtherMID6NoMID28) exampleModel hnoBad printObsEpoch fuel
      navi obsFileCreated navFileCreated).2 _ hbad
  · intro printObsEpoch navi obsFileCreated navFileCreated fuel
    obtain ⟨h, hh, _⟩ := ok_of_toOption_map _ _ _ hgood
    exact ((hmain (exampleFileAcq fileHeader) exampleModel hnoGood printObsEpoch fuel
      navi obsFileCreated navFileCreated).1 h hh).2

/-- C19 on the file `fileNoMID28` (two MID 7 with 6 satellites, no MID 28): no epoch is
counted. -/
theorem epoch_needs_accepted_mid28_witness :
    generateRINEXEpochs RinexObsData.clearObs false false 10 (exampleFileAcq fileNoMID28)
        exampleModel = 0 :=
  ((epoch_needs_accepted_mid28 false false (exampleFileAcq fileNoMID28) exampleModel).2.2.1
    (by decide!) RinexObsData.clearObs 10).1

end RXtoRINEX
